import Mathlib

/-!
# QCamera2 HAL: state machine of the camera control core

Shallow embedding of `QCamera2/HAL/QCameraStateMachine.{h,cpp}`.

The hardware interface object (`m_parent`, class `QCamera2HardwareInterface`) is only
declared in `QCamera2HWI.h`; its member functions are therefore a parameter of the
embedding: an arbitrary state type `σ` together with an arbitrary transition function
for every member function the state machine invokes.  Every invocation made through
`m_parent->` is appended to a chronological log kept next to the machine state, so
that statements about which operations run, how often and in which order can be
expressed.
-/

namespace QCamera

/-! ## Status codes (`utils/Errors.h`) -/

/-- Success status. -/
def NO_ERROR : Int := 0
/-- Status `-ENOSYS`. -/
def INVALID_OPERATION : Int := -38
/-- Status `-EINVAL`. -/
def BAD_VALUE : Int := -22
/-- Status `-ENOMEM`. -/
def NO_MEMORY : Int := -12
/-- Status `0x80000000` read as a 32-bit signed integer. -/
def UNKNOWN_ERROR : Int := -2147483648
/-- Value of `errno` for an invalid argument. -/
def EINVAL : Int := 22

/-! ## Enumerations of `QCameraStateMachine.h` -/

/-- Event tags, `qcamera_sm_evt_enum_t`.  The enumerators are numbered from 1 in the
order of declaration.  `OUT_OF_ENUM k` stands for a variable of the enumeration type
holding an integer that is none of the enumerators (see `toCode`). -/
inductive qcamera_sm_evt_enum_t
  | QCAMERA_SM_EVT_SET_PREVIEW_WINDOW
  | QCAMERA_SM_EVT_SET_CALLBACKS
  | QCAMERA_SM_EVT_ENABLE_MSG_TYPE
  | QCAMERA_SM_EVT_DISABLE_MSG_TYPE
  | QCAMERA_SM_EVT_MSG_TYPE_ENABLED
  | QCAMERA_SM_EVT_SET_PARAMS
  | QCAMERA_SM_EVT_GET_PARAMS
  | QCAMERA_SM_EVT_PUT_PARAMS
  | QCAMERA_SM_EVT_START_PREVIEW
  | QCAMERA_SM_EVT_START_NODISPLAY_PREVIEW
  | QCAMERA_SM_EVT_STOP_PREVIEW
  | QCAMERA_SM_EVT_PREVIEW_ENABLED
  | QCAMERA_SM_EVT_STORE_METADATA_IN_BUFS
  | QCAMERA_SM_EVT_START_RECORDING
  | QCAMERA_SM_EVT_STOP_RECORDING
  | QCAMERA_SM_EVT_RECORDING_ENABLED
  | QCAMERA_SM_EVT_RELEASE_RECORIDNG_FRAME
  | QCAMERA_SM_EVT_TAKE_PICTURE
  | QCAMERA_SM_EVT_CANCEL_PICTURE
  | QCAMERA_SM_EVT_START_AUTO_FOCUS
  | QCAMERA_SM_EVT_STOP_AUTO_FOCUS
  | QCAMERA_SM_EVT_SEND_COMMAND
  | QCAMERA_SM_EVT_RELEASE
  | QCAMERA_SM_EVT_DUMP
  | QCAMERA_SM_EVT_EVT_INTERNAL
  | QCAMERA_SM_EVT_EVT_NOTIFY
  | QCAMERA_SM_EVT_JPEG_EVT_NOTIFY
  | QCAMERA_SM_EVT_SNAPSHOT_DONE
  | QCAMERA_SM_EVT_MAX
  | OUT_OF_ENUM (k : Int)
  deriving DecidableEq, Repr

namespace qcamera_sm_evt_enum_t

/-- Integer value of an event tag.  The values outside `1..29` are enumerated by
`OUT_OF_ENUM`: `k ≥ 0` is the value `30 + k`, `k < 0` is the value `k + 1`. -/
def toCode : qcamera_sm_evt_enum_t → Int
  | QCAMERA_SM_EVT_SET_PREVIEW_WINDOW => 1
  | QCAMERA_SM_EVT_SET_CALLBACKS => 2
  | QCAMERA_SM_EVT_ENABLE_MSG_TYPE => 3
  | QCAMERA_SM_EVT_DISABLE_MSG_TYPE => 4
  | QCAMERA_SM_EVT_MSG_TYPE_ENABLED => 5
  | QCAMERA_SM_EVT_SET_PARAMS => 6
  | QCAMERA_SM_EVT_GET_PARAMS => 7
  | QCAMERA_SM_EVT_PUT_PARAMS => 8
  | QCAMERA_SM_EVT_START_PREVIEW => 9
  | QCAMERA_SM_EVT_START_NODISPLAY_PREVIEW => 10
  | QCAMERA_SM_EVT_STOP_PREVIEW => 11
  | QCAMERA_SM_EVT_PREVIEW_ENABLED => 12
  | QCAMERA_SM_EVT_STORE_METADATA_IN_BUFS => 13
  | QCAMERA_SM_EVT_START_RECORDING => 14
  | QCAMERA_SM_EVT_STOP_RECORDING => 15
  | QCAMERA_SM_EVT_RECORDING_ENABLED => 16
  | QCAMERA_SM_EVT_RELEASE_RECORIDNG_FRAME => 17
  | QCAMERA_SM_EVT_TAKE_PICTURE => 18
  | QCAMERA_SM_EVT_CANCEL_PICTURE => 19
  | QCAMERA_SM_EVT_START_AUTO_FOCUS => 20
  | QCAMERA_SM_EVT_STOP_AUTO_FOCUS => 21
  | QCAMERA_SM_EVT_SEND_COMMAND => 22
  | QCAMERA_SM_EVT_RELEASE => 23
  | QCAMERA_SM_EVT_DUMP => 24
  | QCAMERA_SM_EVT_EVT_INTERNAL => 25
  | QCAMERA_SM_EVT_EVT_NOTIFY => 26
  | QCAMERA_SM_EVT_JPEG_EVT_NOTIFY => 27
  | QCAMERA_SM_EVT_SNAPSHOT_DONE => 28
  | QCAMERA_SM_EVT_MAX => 29
  | OUT_OF_ENUM k => if 0 ≤ k then 30 + k else k + 1

/-- The API events: the enumerators between the markers `BEGIN OF: API EVT` and
`END OF: API EVT`, that is `QCAMERA_SM_EVT_SET_PREVIEW_WINDOW .. QCAMERA_SM_EVT_DUMP`. -/
def isAPIEvt (evt : qcamera_sm_evt_enum_t) : Bool :=
  decide (QCAMERA_SM_EVT_SET_PREVIEW_WINDOW.toCode ≤ evt.toCode) &&
    decide (evt.toCode ≤ QCAMERA_SM_EVT_DUMP.toCode)

end qcamera_sm_evt_enum_t

/-- Result discriminator, `qcamera_api_result_type_t`. -/
inductive qcamera_api_result_type_t
  | QCAMERA_API_RESULT_TYPE_DEF
  | QCAMERA_API_RESULT_TYPE_ENABLE_FLAG
  | QCAMERA_API_RESULT_TYPE_PARAMS
  | QCAMERA_API_RESULT_TYPE_MAX
  deriving DecidableEq, Repr

/-- API result record, `qcamera_api_result_t`.  The handlers clear the record with
`memset` before filling it, hence the zero defaults; `enabled` and `params` are the
two members of the anonymous union, of which a handler writes at most one. -/
structure qcamera_api_result_t where
  status : Int := 0
  request_api : qcamera_sm_evt_enum_t
  result_type : qcamera_api_result_type_t :=
    qcamera_api_result_type_t.QCAMERA_API_RESULT_TYPE_DEF
  enabled : Int := 0
  params : Int := 0
  deriving DecidableEq, Repr

/-- Internal event kinds, `qcamera_internal_evt_type_t`. -/
inductive qcamera_internal_evt_type_t
  | QCAMERA_INTERNAL_EVT_FOCUS_UPDATE
  | QCAMERA_INTERNAL_EVT_MAX
  deriving DecidableEq, Repr

/-- Server event kinds, `cam_event_type_t` of `cam_types.h`. -/
inductive cam_event_type_t
  | CAM_EVENT_TYPE_MAP_UNMAP_DONE
  | CAM_EVENT_TYPE_AUTO_FOCUS_DONE
  | CAM_EVENT_TYPE_ZOOM_DONE
  | CAM_EVENT_TYPE_MAX
  deriving DecidableEq, Repr

/-- Channel kinds, `qcamera_ch_type_enum_t` of `QCamera2HWI.h`. -/
inductive qcamera_ch_type_enum_t
  | QCAMERA_CH_TYPE_ZSL
  | QCAMERA_CH_TYPE_CAPTURE
  | QCAMERA_CH_TYPE_PREVIEW
  | QCAMERA_CH_TYPE_VIDEO
  | QCAMERA_CH_TYPE_SNAPSHOT
  | QCAMERA_CH_TYPE_RAW
  | QCAMERA_CH_TYPE_METADATA
  | QCAMERA_CH_TYPE_REPROCESS
  | QCAMERA_CH_TYPE_MAX
  deriving DecidableEq, Repr

/-- States, `qcamera_state_enum_t`. -/
inductive qcamera_state_enum_t
  | QCAMERA_SM_STATE_PREVIEW_STOPPED
  | QCAMERA_SM_STATE_PREVIEW_READY
  | QCAMERA_SM_STATE_PREVIEWING
  | QCAMERA_SM_STATE_PIC_TAKING
  | QCAMERA_SM_STATE_RECORDING
  | QCAMERA_SM_STATE_VIDEO_PIC_TAKING
  | QCAMERA_SM_STATE_PREVIEW_PIC_TAKING
  deriving DecidableEq, Repr

/-- Command origin, `qcamera_sm_cmd_type_t`. -/
inductive qcamera_sm_cmd_type_t
  | QCAMERA_SM_CMD_TYPE_API
  | QCAMERA_SM_CMD_TYPE_EVT
  | QCAMERA_SM_CMD_TYPE_EXIT
  | QCAMERA_SM_CMD_TYPE_MAX
  deriving DecidableEq, Repr

/-- What a handler sees of its `void *payload` argument: the pointer value itself
(`ptr`, with 0 for `NULL`; several API events pass an integer cast to a pointer) and
the members the handlers read through it after casting it to
`qcamera_sm_internal_evt_payload_t` (`evt_type`, `focus_data`), to `mm_camera_event_t`
(`server_event_type`, `status`) or to `qcamera_sm_evt_command_payload_t`
(`cmd`, `arg1`, `arg2`). -/
structure Payload where
  ptr : Int := 0
  evt_type : qcamera_internal_evt_type_t :=
    qcamera_internal_evt_type_t.QCAMERA_INTERNAL_EVT_MAX
  focus_data : Int := 0
  server_event_type : cam_event_type_t := cam_event_type_t.CAM_EVENT_TYPE_MAX
  status : Int := 0
  cmd : Int := 0
  arg1 : Int := 0
  arg2 : Int := 0
  deriving DecidableEq, Repr

/-- Command record, `qcamera_sm_cmd_t`. -/
structure qcamera_sm_cmd_t where
  cmd : qcamera_sm_cmd_type_t
  evt : qcamera_sm_evt_enum_t
  evt_payload : Payload
  deriving DecidableEq, Repr

/-! ## The hardware interface as a parameter -/

/-- The member functions of `QCamera2HardwareInterface` that the state machine
invokes through `m_parent`, with their arguments. -/
inductive HwiCall
  | setPreviewWindow (window : Int)
  | setCallBacks (setcbs : Int)
  | enableMsgType (msg_type : Int)
  | disableMsgType (msg_type : Int)
  | msgTypeEnabled (msg_type : Int)
  | updateParameters (parms : Int)
  | commitParameterChanges
  | getParameters
  | putParameters (parms : Int)
  | preparePreview
  | unpreparePreview
  | startPreview
  | stopPreview
  | release
  | storeMetaDataInBuffers (enable : Int)
  | dump (fd : Int)
  | autoFocus
  | cancelAutoFocus
  | sendCommand (cmd arg1 arg2 : Int)
  | startRecording
  | stopRecording
  | releaseRecordingFrame (frame : Int)
  | takePicture
  | cancelPicture
  | takeLiveSnapshot
  | cancelLiveSnapshot
  | processAutoFocusEvent (focus_data : Int)
  | processZoomEvent (status : Int)
  | processJpegNotify (jpeg_job : Int)
  | stopChannel (ch_type : qcamera_ch_type_enum_t)
  | delChannel (ch_type : qcamera_ch_type_enum_t)
  | signalAPIResult (result : qcamera_api_result_t)
  deriving DecidableEq, Repr

/-- An implementation of the hardware interface over a state type `σ`.
`exec c s` runs member function `c` in state `s` and gives the value it returns (a
status, the flag of `msgTypeEnabled`, the string of `getParameters`; the value is not
used for a `void` function) and the state it leaves.  `updateParameters` also gives
the value left in its reference parameter `needRestart`, which the caller initialises
to `false`.  `mPreviewWindow` reads the member of that name. -/
structure QCamera2HardwareInterface (σ : Type) where
  mPreviewWindow : σ → Int
  exec : HwiCall → σ → Int × σ
  updateParameters : Int → σ → Int × Bool × σ

/-! ## Command queue -/

/-- Modelled from the spec: class `QCameraQueue` (`QCameraQueue.h` is not part of the
sources at hand).  The command queue is an unbounded FIFO of pending command records:
`enqueue` adds at the back and reports success. -/
def QCameraQueue.enqueue (q : List qcamera_sm_cmd_t) (node : qcamera_sm_cmd_t) :
    Bool × List qcamera_sm_cmd_t :=
  (true, q ++ [node])

/-- Modelled from the spec: class `QCameraQueue`.  `dequeue` removes and returns the
oldest record, and returns `NULL` (here `none`) on an empty queue. -/
def QCameraQueue.dequeue (q : List qcamera_sm_cmd_t) :
    Option qcamera_sm_cmd_t × List qcamera_sm_cmd_t :=
  match q with
  | [] => (none, [])
  | node :: rest => (some node, rest)

/-! ## The state machine object -/

/-- What the worker routine does with a dequeued command record, for the log. -/
inductive WorkerAct
  | dispatch (node : qcamera_sm_cmd_t)
  | freePayload (node : qcamera_sm_cmd_t)
  | freeNode (node : qcamera_sm_cmd_t)
  deriving DecidableEq, Repr

/-- The members of class `QCameraStateMachine` (`m_parent` is the state of the
hardware interface object), and two logs that are not part of the object: `calls`,
the invocations made through `m_parent` so far, oldest first, and `worker`, the
dispatches and `free` calls of the worker routine so far, oldest first. -/
structure QCameraStateMachine (σ : Type) where
  m_parent : σ
  m_state : qcamera_state_enum_t
  api_queue : List qcamera_sm_cmd_t
  evt_queue : List qcamera_sm_cmd_t
  calls : List HwiCall
  worker : List WorkerAct

section Handlers

variable {σ : Type}

/-- One invocation `m_parent->c(...)`: run it on the hardware interface state and
append it to the log; the first component is the value the member function returns. -/
def call (hwi : QCamera2HardwareInterface σ) (c : HwiCall) (m : QCameraStateMachine σ) :
    Int × QCameraStateMachine σ :=
  ((hwi.exec c m.m_parent).1,
    { m with m_parent := (hwi.exec c m.m_parent).2, calls := m.calls ++ [c] })

/-- The invocation `m_parent->updateParameters((char*)payload, needRestart)` with
`needRestart` initialised to `false`: the status, the value left in `needRestart`,
and the machine afterwards. -/
def callUpdateParameters (hwi : QCamera2HardwareInterface σ) (parms : Int)
    (m : QCameraStateMachine σ) : Int × Bool × QCameraStateMachine σ :=
  ((hwi.updateParameters parms m.m_parent).1,
    (hwi.updateParameters parms m.m_parent).2.1,
    { m with m_parent := (hwi.updateParameters parms m.m_parent).2.2,
             calls := m.calls ++ [HwiCall.updateParameters parms] })

/-- The invocation `m_parent->signalAPIResult(&result)`. -/
def signalAPIResult (hwi : QCamera2HardwareInterface σ) (result : qcamera_api_result_t)
    (m : QCameraStateMachine σ) : QCameraStateMachine σ :=
  (call hwi (HwiCall.signalAPIResult result) m).2

/-- The closing lines of most API cases: `result.status = rc; result.request_api = evt;
result.result_type = QCAMERA_API_RESULT_TYPE_DEF; m_parent->signalAPIResult(&result);`
and then, after the `break`, `return rc`. -/
def replyDef (hwi : QCamera2HardwareInterface σ) (evt : qcamera_sm_evt_enum_t) (rc : Int)
    (m : QCameraStateMachine σ) : Int × QCameraStateMachine σ :=
  (rc, signalAPIResult hwi { status := rc, request_api := evt } m)

/-- The closing lines of the query cases: as `replyDef`, with
`result.result_type = QCAMERA_API_RESULT_TYPE_ENABLE_FLAG; result.enabled = enabled`. -/
def replyEnableFlag (hwi : QCamera2HardwareInterface σ) (evt : qcamera_sm_evt_enum_t)
    (rc : Int) (enabled : Int) (m : QCameraStateMachine σ) : Int × QCameraStateMachine σ :=
  (rc, signalAPIResult hwi
    { status := rc, request_api := evt,
      result_type := qcamera_api_result_type_t.QCAMERA_API_RESULT_TYPE_ENABLE_FLAG,
      enabled := enabled } m)

/-- The closing lines of the `GET_PARAMS` case: as `replyDef`, with
`result.result_type = QCAMERA_API_RESULT_TYPE_PARAMS` and `result.params` set. -/
def replyParams (hwi : QCamera2HardwareInterface σ) (evt : qcamera_sm_evt_enum_t)
    (rc : Int) (params : Int) (m : QCameraStateMachine σ) : Int × QCameraStateMachine σ :=
  (rc, signalAPIResult hwi
    { status := rc, request_api := evt,
      result_type := qcamera_api_result_type_t.QCAMERA_API_RESULT_TYPE_PARAMS,
      params := params } m)

/-- The case body `rc = m_parent->c(...)` followed by the closing lines `replyDef`. -/
def callAndReply (hwi : QCamera2HardwareInterface σ) (evt : qcamera_sm_evt_enum_t)
    (c : HwiCall) (m : QCameraStateMachine σ) : Int × QCameraStateMachine σ :=
  replyDef hwi evt (call hwi c m).1 (call hwi c m).2

/-- The `SET_PARAMS` case of the states without a running preview:
`updateParameters`, then `commitParameterChanges` when the update succeeded. -/
def setParamsPlain (hwi : QCamera2HardwareInterface σ) (evt : qcamera_sm_evt_enum_t)
    (payload : Payload) (m : QCameraStateMachine σ) : Int × QCameraStateMachine σ :=
  let u := callUpdateParameters hwi payload.ptr m
  if u.1 = NO_ERROR then
    callAndReply hwi evt HwiCall.commitParameterChanges u.2.2
  else
    replyDef hwi evt u.1 u.2.2

/-- The `SET_PARAMS` case of `PREVIEWING` and `PREVIEW_PIC_TAKING`: when the update
succeeded and asks for a restart, `stopPreview(); rc = commitParameterChanges();
startPreview();` (the statuses of the stop and of the start are dropped). -/
def setParamsRestart (hwi : QCamera2HardwareInterface σ) (evt : qcamera_sm_evt_enum_t)
    (payload : Payload) (m : QCameraStateMachine σ) : Int × QCameraStateMachine σ :=
  let u := callUpdateParameters hwi payload.ptr m
  if u.1 = NO_ERROR then
    if u.2.1 then
      let m1 := (call hwi HwiCall.stopPreview u.2.2).2
      let c := call hwi HwiCall.commitParameterChanges m1
      let m3 := (call hwi HwiCall.startPreview c.2).2
      replyDef hwi evt c.1 m3
    else
      callAndReply hwi evt HwiCall.commitParameterChanges u.2.2
  else
    replyDef hwi evt u.1 u.2.2

/-- The `SET_PARAMS` case of `RECORDING` and `VIDEO_PIC_TAKING`: when the update
succeeded and asks for a restart, `rc = BAD_VALUE` and nothing else is invoked. -/
def setParamsNoRestart (hwi : QCamera2HardwareInterface σ) (evt : qcamera_sm_evt_enum_t)
    (payload : Payload) (m : QCameraStateMachine σ) : Int × QCameraStateMachine σ :=
  let u := callUpdateParameters hwi payload.ptr m
  if u.1 = NO_ERROR then
    if u.2.1 then
      replyDef hwi evt BAD_VALUE u.2.2
    else
      callAndReply hwi evt HwiCall.commitParameterChanges u.2.2
  else
    replyDef hwi evt u.1 u.2.2

/-- The body shared by `START_PREVIEW` with a window set and `START_NODISPLAY_PREVIEW`
in `PREVIEW_STOPPED`: `preparePreview`, then `startPreview`, `unpreparePreview` when
the start failed, the state `PREVIEWING` when it succeeded. -/
def prepareAndStart (hwi : QCamera2HardwareInterface σ) (evt : qcamera_sm_evt_enum_t)
    (m : QCameraStateMachine σ) : Int × QCameraStateMachine σ :=
  let p := call hwi HwiCall.preparePreview m
  if p.1 = NO_ERROR then
    let s := call hwi HwiCall.startPreview p.2
    if s.1 ≠ NO_ERROR then
      replyDef hwi evt s.1 (call hwi HwiCall.unpreparePreview s.2).2
    else
      replyDef hwi evt s.1
        { s.2 with m_state := qcamera_state_enum_t.QCAMERA_SM_STATE_PREVIEWING }
  else
    replyDef hwi evt p.1 p.2

/-- The `EVT_INTERNAL` case of the states from `PREVIEWING` on: a focus update goes to
`processAutoFocusEvent`, any other internal event is dropped. -/
def procInternalEvt (hwi : QCamera2HardwareInterface σ) (payload : Payload)
    (m : QCameraStateMachine σ) : Int × QCameraStateMachine σ :=
  match payload.evt_type with
  | .QCAMERA_INTERNAL_EVT_FOCUS_UPDATE =>
      call hwi (HwiCall.processAutoFocusEvent payload.focus_data) m
  | _ => (NO_ERROR, m)

/-- The `EVT_NOTIFY` case of the states from `PREVIEWING` on: a zoom-done server
event goes to `processZoomEvent`, any other server event is only logged. -/
def procNotifyEvt (hwi : QCamera2HardwareInterface σ) (payload : Payload)
    (m : QCameraStateMachine σ) : Int × QCameraStateMachine σ :=
  match payload.server_event_type with
  | .CAM_EVENT_TYPE_ZOOM_DONE => call hwi (HwiCall.processZoomEvent payload.status) m
  | _ => (NO_ERROR, m)

/-- Handler of state `QCAMERA_SM_STATE_PREVIEW_STOPPED`. -/
def procEvtPreviewStoppedState (hwi : QCamera2HardwareInterface σ)
    (evt : qcamera_sm_evt_enum_t) (payload : Payload) (m : QCameraStateMachine σ) :
    Int × QCameraStateMachine σ :=
  match evt with
  | .QCAMERA_SM_EVT_SET_PREVIEW_WINDOW =>
      callAndReply hwi evt (HwiCall.setPreviewWindow payload.ptr) m
  | .QCAMERA_SM_EVT_SET_CALLBACKS =>
      callAndReply hwi evt (HwiCall.setCallBacks payload.ptr) m
  | .QCAMERA_SM_EVT_ENABLE_MSG_TYPE =>
      callAndReply hwi evt (HwiCall.enableMsgType payload.ptr) m
  | .QCAMERA_SM_EVT_DISABLE_MSG_TYPE =>
      callAndReply hwi evt (HwiCall.disableMsgType payload.ptr) m
  | .QCAMERA_SM_EVT_MSG_TYPE_ENABLED =>
      let r := call hwi (HwiCall.msgTypeEnabled payload.ptr) m
      replyEnableFlag hwi evt NO_ERROR r.1 r.2
  | .QCAMERA_SM_EVT_SET_PARAMS => setParamsPlain hwi evt payload m
  | .QCAMERA_SM_EVT_GET_PARAMS =>
      let r := call hwi HwiCall.getParameters m
      replyParams hwi evt NO_ERROR r.1 r.2
  | .QCAMERA_SM_EVT_PUT_PARAMS =>
      callAndReply hwi evt (HwiCall.putParameters payload.ptr) m
  | .QCAMERA_SM_EVT_START_PREVIEW =>
      if hwi.mPreviewWindow m.m_parent = 0 then
        -- preview window is not set yet, move to previewReady state
        replyDef hwi evt NO_ERROR
          { m with m_state := qcamera_state_enum_t.QCAMERA_SM_STATE_PREVIEW_READY }
      else
        prepareAndStart hwi evt m
  | .QCAMERA_SM_EVT_START_NODISPLAY_PREVIEW => prepareAndStart hwi evt m
  | .QCAMERA_SM_EVT_STOP_PREVIEW => replyDef hwi evt NO_ERROR m
  | .QCAMERA_SM_EVT_PREVIEW_ENABLED
  | .QCAMERA_SM_EVT_RECORDING_ENABLED => replyEnableFlag hwi evt NO_ERROR 0 m
  | .QCAMERA_SM_EVT_RELEASE => callAndReply hwi evt HwiCall.release m
  | .QCAMERA_SM_EVT_STORE_METADATA_IN_BUFS =>
      callAndReply hwi evt (HwiCall.storeMetaDataInBuffers payload.ptr) m
  | .QCAMERA_SM_EVT_DUMP => callAndReply hwi evt (HwiCall.dump payload.ptr) m
  | .QCAMERA_SM_EVT_START_RECORDING
  | .QCAMERA_SM_EVT_STOP_RECORDING
  | .QCAMERA_SM_EVT_RELEASE_RECORIDNG_FRAME
  | .QCAMERA_SM_EVT_TAKE_PICTURE
  | .QCAMERA_SM_EVT_CANCEL_PICTURE
  | .QCAMERA_SM_EVT_START_AUTO_FOCUS
  | .QCAMERA_SM_EVT_STOP_AUTO_FOCUS
  | .QCAMERA_SM_EVT_SEND_COMMAND => replyDef hwi evt INVALID_OPERATION m
  -- EVT_INTERNAL, EVT_NOTIFY, JPEG_EVT_NOTIFY, SNAPSHOT_DONE and `default`: log only
  | _ => (NO_ERROR, m)

/-- Handler of state `QCAMERA_SM_STATE_PREVIEW_READY`. -/
def procEvtPreviewReadyState (hwi : QCamera2HardwareInterface σ)
    (evt : qcamera_sm_evt_enum_t) (payload : Payload) (m : QCameraStateMachine σ) :
    Int × QCameraStateMachine σ :=
  match evt with
  | .QCAMERA_SM_EVT_SET_PREVIEW_WINDOW =>
      let w := (call hwi (HwiCall.setPreviewWindow payload.ptr) m).2
      if hwi.mPreviewWindow w.m_parent ≠ 0 then
        let s := call hwi HwiCall.startPreview w
        if s.1 ≠ NO_ERROR then
          replyDef hwi evt s.1
            { (call hwi HwiCall.unpreparePreview s.2).2 with
              m_state := qcamera_state_enum_t.QCAMERA_SM_STATE_PREVIEW_STOPPED }
        else
          replyDef hwi evt s.1
            { s.2 with m_state := qcamera_state_enum_t.QCAMERA_SM_STATE_PREVIEWING }
      else
        replyDef hwi evt NO_ERROR w
  | .QCAMERA_SM_EVT_SET_CALLBACKS =>
      callAndReply hwi evt (HwiCall.setCallBacks payload.ptr) m
  | .QCAMERA_SM_EVT_ENABLE_MSG_TYPE =>
      callAndReply hwi evt (HwiCall.enableMsgType payload.ptr) m
  | .QCAMERA_SM_EVT_DISABLE_MSG_TYPE =>
      callAndReply hwi evt (HwiCall.disableMsgType payload.ptr) m
  | .QCAMERA_SM_EVT_MSG_TYPE_ENABLED =>
      let r := call hwi (HwiCall.msgTypeEnabled payload.ptr) m
      replyEnableFlag hwi evt NO_ERROR r.1 r.2
  | .QCAMERA_SM_EVT_SET_PARAMS => setParamsPlain hwi evt payload m
  | .QCAMERA_SM_EVT_GET_PARAMS =>
      let r := call hwi HwiCall.getParameters m
      replyParams hwi evt NO_ERROR r.1 r.2
  | .QCAMERA_SM_EVT_PUT_PARAMS =>
      callAndReply hwi evt (HwiCall.putParameters payload.ptr) m
  | .QCAMERA_SM_EVT_START_PREVIEW => replyDef hwi evt NO_ERROR m
  | .QCAMERA_SM_EVT_STOP_PREVIEW =>
      replyDef hwi evt 0
        { (call hwi HwiCall.unpreparePreview m).2 with
          m_state := qcamera_state_enum_t.QCAMERA_SM_STATE_PREVIEW_STOPPED }
  | .QCAMERA_SM_EVT_PREVIEW_ENABLED => replyEnableFlag hwi evt NO_ERROR 1 m
  | .QCAMERA_SM_EVT_RECORDING_ENABLED => replyEnableFlag hwi evt 0 0 m
  | .QCAMERA_SM_EVT_STORE_METADATA_IN_BUFS =>
      callAndReply hwi evt (HwiCall.storeMetaDataInBuffers payload.ptr) m
  | .QCAMERA_SM_EVT_DUMP => callAndReply hwi evt (HwiCall.dump payload.ptr) m
  | .QCAMERA_SM_EVT_START_AUTO_FOCUS => callAndReply hwi evt HwiCall.autoFocus m
  | .QCAMERA_SM_EVT_STOP_AUTO_FOCUS => callAndReply hwi evt HwiCall.cancelAutoFocus m
  | .QCAMERA_SM_EVT_SEND_COMMAND =>
      callAndReply hwi evt (HwiCall.sendCommand payload.cmd payload.arg1 payload.arg2) m
  | .QCAMERA_SM_EVT_START_NODISPLAY_PREVIEW
  | .QCAMERA_SM_EVT_START_RECORDING
  | .QCAMERA_SM_EVT_STOP_RECORDING
  | .QCAMERA_SM_EVT_TAKE_PICTURE
  | .QCAMERA_SM_EVT_CANCEL_PICTURE
  | .QCAMERA_SM_EVT_RELEASE_RECORIDNG_FRAME
  | .QCAMERA_SM_EVT_RELEASE => replyDef hwi evt INVALID_OPERATION m
  -- EVT_INTERNAL, EVT_NOTIFY, JPEG_EVT_NOTIFY, SNAPSHOT_DONE and `default`: log only
  | _ => (NO_ERROR, m)

/-- Handler of state `QCAMERA_SM_STATE_PREVIEWING`. -/
def procEvtPreviewingState (hwi : QCamera2HardwareInterface σ)
    (evt : qcamera_sm_evt_enum_t) (payload : Payload) (m : QCameraStateMachine σ) :
    Int × QCameraStateMachine σ :=
  match evt with
  | .QCAMERA_SM_EVT_SET_PREVIEW_WINDOW =>
      -- Cannot set preview window when preview is running
      replyDef hwi evt INVALID_OPERATION m
  | .QCAMERA_SM_EVT_SET_CALLBACKS =>
      callAndReply hwi evt (HwiCall.setCallBacks payload.ptr) m
  | .QCAMERA_SM_EVT_ENABLE_MSG_TYPE =>
      callAndReply hwi evt (HwiCall.enableMsgType payload.ptr) m
  | .QCAMERA_SM_EVT_DISABLE_MSG_TYPE =>
      callAndReply hwi evt (HwiCall.disableMsgType payload.ptr) m
  | .QCAMERA_SM_EVT_MSG_TYPE_ENABLED =>
      let r := call hwi (HwiCall.msgTypeEnabled payload.ptr) m
      replyEnableFlag hwi evt NO_ERROR r.1 r.2
  | .QCAMERA_SM_EVT_SET_PARAMS => setParamsRestart hwi evt payload m
  | .QCAMERA_SM_EVT_GET_PARAMS =>
      let r := call hwi HwiCall.getParameters m
      replyParams hwi evt NO_ERROR r.1 r.2
  | .QCAMERA_SM_EVT_PUT_PARAMS =>
      callAndReply hwi evt (HwiCall.putParameters payload.ptr) m
  | .QCAMERA_SM_EVT_START_PREVIEW
  | .QCAMERA_SM_EVT_START_NODISPLAY_PREVIEW => replyDef hwi evt NO_ERROR m
  | .QCAMERA_SM_EVT_STOP_PREVIEW =>
      let r := call hwi HwiCall.stopPreview m
      replyDef hwi evt r.1
        { r.2 with m_state := qcamera_state_enum_t.QCAMERA_SM_STATE_PREVIEW_STOPPED }
  | .QCAMERA_SM_EVT_PREVIEW_ENABLED => replyEnableFlag hwi evt NO_ERROR 1 m
  | .QCAMERA_SM_EVT_RECORDING_ENABLED => replyEnableFlag hwi evt NO_ERROR 0 m
  | .QCAMERA_SM_EVT_STORE_METADATA_IN_BUFS =>
      callAndReply hwi evt (HwiCall.storeMetaDataInBuffers payload.ptr) m
  | .QCAMERA_SM_EVT_DUMP => callAndReply hwi evt (HwiCall.dump payload.ptr) m
  | .QCAMERA_SM_EVT_START_AUTO_FOCUS => callAndReply hwi evt HwiCall.autoFocus m
  | .QCAMERA_SM_EVT_STOP_AUTO_FOCUS => callAndReply hwi evt HwiCall.cancelAutoFocus m
  | .QCAMERA_SM_EVT_START_RECORDING =>
      let r := call hwi HwiCall.startRecording m
      if r.1 = NO_ERROR then
        -- move state to recording state
        replyDef hwi evt r.1
          { r.2 with m_state := qcamera_state_enum_t.QCAMERA_SM_STATE_RECORDING }
      else
        replyDef hwi evt r.1 r.2
  | .QCAMERA_SM_EVT_TAKE_PICTURE =>
      let r := call hwi HwiCall.takePicture m
      if r.1 = NO_ERROR then
        -- move state to picture taking state
        replyDef hwi evt r.1
          { r.2 with m_state := qcamera_state_enum_t.QCAMERA_SM_STATE_PIC_TAKING }
      else
        -- move state to preview stopped state
        replyDef hwi evt r.1
          { r.2 with m_state := qcamera_state_enum_t.QCAMERA_SM_STATE_PREVIEW_STOPPED }
  | .QCAMERA_SM_EVT_SEND_COMMAND =>
      callAndReply hwi evt (HwiCall.sendCommand payload.cmd payload.arg1 payload.arg2) m
  | .QCAMERA_SM_EVT_CANCEL_PICTURE
  | .QCAMERA_SM_EVT_STOP_RECORDING
  | .QCAMERA_SM_EVT_RELEASE_RECORIDNG_FRAME
  | .QCAMERA_SM_EVT_RELEASE => replyDef hwi evt INVALID_OPERATION m
  | .QCAMERA_SM_EVT_EVT_INTERNAL => procInternalEvt hwi payload m
  | .QCAMERA_SM_EVT_EVT_NOTIFY => procNotifyEvt hwi payload m
  -- JPEG_EVT_NOTIFY, SNAPSHOT_DONE and `default`: log only
  | _ => (NO_ERROR, m)

/-- Handler of state `QCAMERA_SM_STATE_PIC_TAKING`. -/
def procEvtPicTakingState (hwi : QCamera2HardwareInterface σ)
    (evt : qcamera_sm_evt_enum_t) (payload : Payload) (m : QCameraStateMachine σ) :
    Int × QCameraStateMachine σ :=
  match evt with
  | .QCAMERA_SM_EVT_SET_PREVIEW_WINDOW =>
      -- Cannot set preview window when preview is running
      replyDef hwi evt INVALID_OPERATION m
  | .QCAMERA_SM_EVT_SET_CALLBACKS =>
      callAndReply hwi evt (HwiCall.setCallBacks payload.ptr) m
  | .QCAMERA_SM_EVT_ENABLE_MSG_TYPE =>
      callAndReply hwi evt (HwiCall.enableMsgType payload.ptr) m
  | .QCAMERA_SM_EVT_DISABLE_MSG_TYPE =>
      callAndReply hwi evt (HwiCall.disableMsgType payload.ptr) m
  | .QCAMERA_SM_EVT_MSG_TYPE_ENABLED =>
      let r := call hwi (HwiCall.msgTypeEnabled payload.ptr) m
      replyEnableFlag hwi evt NO_ERROR r.1 r.2
  | .QCAMERA_SM_EVT_SET_PARAMS => setParamsPlain hwi evt payload m
  | .QCAMERA_SM_EVT_GET_PARAMS =>
      let r := call hwi HwiCall.getParameters m
      replyParams hwi evt NO_ERROR r.1 r.2
  | .QCAMERA_SM_EVT_PUT_PARAMS =>
      callAndReply hwi evt (HwiCall.putParameters payload.ptr) m
  | .QCAMERA_SM_EVT_STOP_PREVIEW =>
      -- no ops, since preview is stopped (normal), or preview msg type is disabled (ZSL)
      replyDef hwi evt NO_ERROR m
  | .QCAMERA_SM_EVT_PREVIEW_ENABLED => replyEnableFlag hwi evt NO_ERROR 0 m
  | .QCAMERA_SM_EVT_RECORDING_ENABLED => replyEnableFlag hwi evt NO_ERROR 0 m
  | .QCAMERA_SM_EVT_STORE_METADATA_IN_BUFS =>
      callAndReply hwi evt (HwiCall.storeMetaDataInBuffers payload.ptr) m
  | .QCAMERA_SM_EVT_DUMP => callAndReply hwi evt (HwiCall.dump payload.ptr) m
  | .QCAMERA_SM_EVT_START_AUTO_FOCUS => callAndReply hwi evt HwiCall.autoFocus m
  | .QCAMERA_SM_EVT_STOP_AUTO_FOCUS => callAndReply hwi evt HwiCall.cancelAutoFocus m
  | .QCAMERA_SM_EVT_SEND_COMMAND =>
      callAndReply hwi evt (HwiCall.sendCommand payload.cmd payload.arg1 payload.arg2) m
  | .QCAMERA_SM_EVT_CANCEL_PICTURE =>
      let r := call hwi HwiCall.cancelPicture m
      replyDef hwi evt r.1
        { r.2 with m_state := qcamera_state_enum_t.QCAMERA_SM_STATE_PREVIEW_STOPPED }
  | .QCAMERA_SM_EVT_TAKE_PICTURE
  | .QCAMERA_SM_EVT_START_RECORDING
  | .QCAMERA_SM_EVT_STOP_RECORDING
  | .QCAMERA_SM_EVT_RELEASE_RECORIDNG_FRAME
  | .QCAMERA_SM_EVT_START_PREVIEW
  | .QCAMERA_SM_EVT_START_NODISPLAY_PREVIEW
  | .QCAMERA_SM_EVT_RELEASE => replyDef hwi evt INVALID_OPERATION m
  | .QCAMERA_SM_EVT_EVT_INTERNAL => procInternalEvt hwi payload m
  | .QCAMERA_SM_EVT_EVT_NOTIFY => procNotifyEvt hwi payload m
  | .QCAMERA_SM_EVT_JPEG_EVT_NOTIFY => call hwi (HwiCall.processJpegNotify payload.ptr) m
  | .QCAMERA_SM_EVT_SNAPSHOT_DONE =>
      let r := call hwi HwiCall.cancelPicture m
      (r.1, { r.2 with m_state := qcamera_state_enum_t.QCAMERA_SM_STATE_PREVIEW_STOPPED })
  -- `default`: log only
  | _ => (NO_ERROR, m)

/-- Handler of state `QCAMERA_SM_STATE_RECORDING`. -/
def procEvtRecordingState (hwi : QCamera2HardwareInterface σ)
    (evt : qcamera_sm_evt_enum_t) (payload : Payload) (m : QCameraStateMachine σ) :
    Int × QCameraStateMachine σ :=
  match evt with
  | .QCAMERA_SM_EVT_SET_PREVIEW_WINDOW =>
      -- Cannot set preview window when preview is running
      replyDef hwi evt INVALID_OPERATION m
  | .QCAMERA_SM_EVT_SET_CALLBACKS =>
      callAndReply hwi evt (HwiCall.setCallBacks payload.ptr) m
  | .QCAMERA_SM_EVT_ENABLE_MSG_TYPE =>
      callAndReply hwi evt (HwiCall.enableMsgType payload.ptr) m
  | .QCAMERA_SM_EVT_DISABLE_MSG_TYPE =>
      callAndReply hwi evt (HwiCall.disableMsgType payload.ptr) m
  | .QCAMERA_SM_EVT_MSG_TYPE_ENABLED =>
      let r := call hwi (HwiCall.msgTypeEnabled payload.ptr) m
      replyEnableFlag hwi evt NO_ERROR r.1 r.2
  | .QCAMERA_SM_EVT_SET_PARAMS => setParamsNoRestart hwi evt payload m
  | .QCAMERA_SM_EVT_GET_PARAMS =>
      let r := call hwi HwiCall.getParameters m
      replyParams hwi evt NO_ERROR r.1 r.2
  | .QCAMERA_SM_EVT_PUT_PARAMS =>
      callAndReply hwi evt (HwiCall.putParameters payload.ptr) m
  | .QCAMERA_SM_EVT_PREVIEW_ENABLED => replyEnableFlag hwi evt NO_ERROR 0 m
  | .QCAMERA_SM_EVT_RECORDING_ENABLED => replyEnableFlag hwi evt NO_ERROR 1 m
  | .QCAMERA_SM_EVT_STORE_METADATA_IN_BUFS =>
      callAndReply hwi evt (HwiCall.storeMetaDataInBuffers payload.ptr) m
  | .QCAMERA_SM_EVT_DUMP => callAndReply hwi evt (HwiCall.dump payload.ptr) m
  | .QCAMERA_SM_EVT_START_AUTO_FOCUS => callAndReply hwi evt HwiCall.autoFocus m
  | .QCAMERA_SM_EVT_STOP_AUTO_FOCUS => callAndReply hwi evt HwiCall.cancelAutoFocus m
  | .QCAMERA_SM_EVT_SEND_COMMAND =>
      callAndReply hwi evt (HwiCall.sendCommand payload.cmd payload.arg1 payload.arg2) m
  | .QCAMERA_SM_EVT_TAKE_PICTURE =>
      let r := call hwi HwiCall.takeLiveSnapshot m
      if r.1 = 0 then
        replyDef hwi evt r.1
          { r.2 with m_state := qcamera_state_enum_t.QCAMERA_SM_STATE_VIDEO_PIC_TAKING }
      else
        replyDef hwi evt r.1 r.2
  | .QCAMERA_SM_EVT_START_RECORDING =>
      -- already in recording state, no ops for start_recording
      replyDef hwi evt 0 m
  | .QCAMERA_SM_EVT_STOP_RECORDING =>
      let r := call hwi HwiCall.stopRecording m
      replyDef hwi evt r.1
        { r.2 with m_state := qcamera_state_enum_t.QCAMERA_SM_STATE_PREVIEWING }
  | .QCAMERA_SM_EVT_RELEASE_RECORIDNG_FRAME =>
      callAndReply hwi evt (HwiCall.releaseRecordingFrame payload.ptr) m
  | .QCAMERA_SM_EVT_CANCEL_PICTURE
  | .QCAMERA_SM_EVT_START_PREVIEW
  | .QCAMERA_SM_EVT_START_NODISPLAY_PREVIEW
  | .QCAMERA_SM_EVT_STOP_PREVIEW
  | .QCAMERA_SM_EVT_RELEASE => replyDef hwi evt INVALID_OPERATION m
  | .QCAMERA_SM_EVT_EVT_INTERNAL => procInternalEvt hwi payload m
  | .QCAMERA_SM_EVT_EVT_NOTIFY => procNotifyEvt hwi payload m
  -- JPEG_EVT_NOTIFY, SNAPSHOT_DONE and `default`: log only
  | _ => (NO_ERROR, m)

/-- Handler of state `QCAMERA_SM_STATE_VIDEO_PIC_TAKING`. -/
def procEvtVideoPicTakingState (hwi : QCamera2HardwareInterface σ)
    (evt : qcamera_sm_evt_enum_t) (payload : Payload) (m : QCameraStateMachine σ) :
    Int × QCameraStateMachine σ :=
  match evt with
  | .QCAMERA_SM_EVT_SET_PREVIEW_WINDOW =>
      -- Cannot set preview window when preview is running
      replyDef hwi evt INVALID_OPERATION m
  | .QCAMERA_SM_EVT_SET_CALLBACKS =>
      callAndReply hwi evt (HwiCall.setCallBacks payload.ptr) m
  | .QCAMERA_SM_EVT_ENABLE_MSG_TYPE =>
      callAndReply hwi evt (HwiCall.enableMsgType payload.ptr) m
  | .QCAMERA_SM_EVT_DISABLE_MSG_TYPE =>
      callAndReply hwi evt (HwiCall.disableMsgType payload.ptr) m
  | .QCAMERA_SM_EVT_MSG_TYPE_ENABLED =>
      let r := call hwi (HwiCall.msgTypeEnabled payload.ptr) m
      replyEnableFlag hwi evt NO_ERROR r.1 r.2
  | .QCAMERA_SM_EVT_SET_PARAMS => setParamsNoRestart hwi evt payload m
  | .QCAMERA_SM_EVT_GET_PARAMS =>
      let r := call hwi HwiCall.getParameters m
      replyParams hwi evt NO_ERROR r.1 r.2
  | .QCAMERA_SM_EVT_PUT_PARAMS =>
      callAndReply hwi evt (HwiCall.putParameters payload.ptr) m
  | .QCAMERA_SM_EVT_PREVIEW_ENABLED => replyEnableFlag hwi evt NO_ERROR 1 m
  | .QCAMERA_SM_EVT_RECORDING_ENABLED => replyEnableFlag hwi evt NO_ERROR 1 m
  | .QCAMERA_SM_EVT_STORE_METADATA_IN_BUFS =>
      callAndReply hwi evt (HwiCall.storeMetaDataInBuffers payload.ptr) m
  | .QCAMERA_SM_EVT_DUMP => callAndReply hwi evt (HwiCall.dump payload.ptr) m
  | .QCAMERA_SM_EVT_START_AUTO_FOCUS => callAndReply hwi evt HwiCall.autoFocus m
  | .QCAMERA_SM_EVT_STOP_AUTO_FOCUS => callAndReply hwi evt HwiCall.cancelAutoFocus m
  | .QCAMERA_SM_EVT_SEND_COMMAND =>
      callAndReply hwi evt (HwiCall.sendCommand payload.cmd payload.arg1 payload.arg2) m
  | .QCAMERA_SM_EVT_STOP_RECORDING =>
      let r := call hwi HwiCall.stopRecording m
      replyDef hwi evt r.1
        { r.2 with m_state := qcamera_state_enum_t.QCAMERA_SM_STATE_PREVIEW_PIC_TAKING }
  | .QCAMERA_SM_EVT_RELEASE_RECORIDNG_FRAME =>
      callAndReply hwi evt (HwiCall.releaseRecordingFrame payload.ptr) m
  | .QCAMERA_SM_EVT_CANCEL_PICTURE =>
      let r := call hwi HwiCall.cancelLiveSnapshot m
      replyDef hwi evt r.1
        { r.2 with m_state := qcamera_state_enum_t.QCAMERA_SM_STATE_RECORDING }
  | .QCAMERA_SM_EVT_START_RECORDING
  | .QCAMERA_SM_EVT_START_PREVIEW
  | .QCAMERA_SM_EVT_START_NODISPLAY_PREVIEW
  | .QCAMERA_SM_EVT_STOP_PREVIEW
  | .QCAMERA_SM_EVT_TAKE_PICTURE
  | .QCAMERA_SM_EVT_RELEASE => replyDef hwi evt INVALID_OPERATION m
  | .QCAMERA_SM_EVT_EVT_INTERNAL => procInternalEvt hwi payload m
  | .QCAMERA_SM_EVT_EVT_NOTIFY => procNotifyEvt hwi payload m
  | .QCAMERA_SM_EVT_JPEG_EVT_NOTIFY => call hwi (HwiCall.processJpegNotify payload.ptr) m
  | .QCAMERA_SM_EVT_SNAPSHOT_DONE =>
      let r := call hwi HwiCall.cancelLiveSnapshot m
      (r.1, { r.2 with m_state := qcamera_state_enum_t.QCAMERA_SM_STATE_RECORDING })
  -- `default`: log only
  | _ => (NO_ERROR, m)

/-- Handler of state `QCAMERA_SM_STATE_PREVIEW_PIC_TAKING`. -/
def procEvtPreviewPicTakingState (hwi : QCamera2HardwareInterface σ)
    (evt : qcamera_sm_evt_enum_t) (payload : Payload) (m : QCameraStateMachine σ) :
    Int × QCameraStateMachine σ :=
  match evt with
  | .QCAMERA_SM_EVT_SET_CALLBACKS =>
      callAndReply hwi evt (HwiCall.setCallBacks payload.ptr) m
  | .QCAMERA_SM_EVT_ENABLE_MSG_TYPE =>
      callAndReply hwi evt (HwiCall.enableMsgType payload.ptr) m
  | .QCAMERA_SM_EVT_DISABLE_MSG_TYPE =>
      callAndReply hwi evt (HwiCall.disableMsgType payload.ptr) m
  | .QCAMERA_SM_EVT_MSG_TYPE_ENABLED =>
      let r := call hwi (HwiCall.msgTypeEnabled payload.ptr) m
      replyEnableFlag hwi evt NO_ERROR r.1 r.2
  | .QCAMERA_SM_EVT_SET_PARAMS => setParamsRestart hwi evt payload m
  | .QCAMERA_SM_EVT_GET_PARAMS =>
      let r := call hwi HwiCall.getParameters m
      replyParams hwi evt NO_ERROR r.1 r.2
  | .QCAMERA_SM_EVT_PUT_PARAMS =>
      callAndReply hwi evt (HwiCall.putParameters payload.ptr) m
  | .QCAMERA_SM_EVT_PREVIEW_ENABLED => replyEnableFlag hwi evt NO_ERROR 1 m
  | .QCAMERA_SM_EVT_RECORDING_ENABLED => replyEnableFlag hwi evt NO_ERROR 0 m
  | .QCAMERA_SM_EVT_STORE_METADATA_IN_BUFS =>
      callAndReply hwi evt (HwiCall.storeMetaDataInBuffers payload.ptr) m
  | .QCAMERA_SM_EVT_DUMP => callAndReply hwi evt (HwiCall.dump payload.ptr) m
  | .QCAMERA_SM_EVT_START_AUTO_FOCUS => callAndReply hwi evt HwiCall.autoFocus m
  | .QCAMERA_SM_EVT_STOP_AUTO_FOCUS => callAndReply hwi evt HwiCall.cancelAutoFocus m
  | .QCAMERA_SM_EVT_SEND_COMMAND =>
      callAndReply hwi evt (HwiCall.sendCommand payload.cmd payload.arg1 payload.arg2) m
  | .QCAMERA_SM_EVT_RELEASE_RECORIDNG_FRAME =>
      callAndReply hwi evt (HwiCall.releaseRecordingFrame payload.ptr) m
  | .QCAMERA_SM_EVT_CANCEL_PICTURE =>
      let r := call hwi HwiCall.cancelLiveSnapshot m
      replyDef hwi evt r.1
        { r.2 with m_state := qcamera_state_enum_t.QCAMERA_SM_STATE_PREVIEWING }
  | .QCAMERA_SM_EVT_STOP_PREVIEW =>
      let m1 := (call hwi (HwiCall.stopChannel .QCAMERA_CH_TYPE_PREVIEW) m).2
      let m2 := (call hwi (HwiCall.delChannel .QCAMERA_CH_TYPE_PREVIEW) m1).2
      let m3 := (call hwi (HwiCall.delChannel .QCAMERA_CH_TYPE_VIDEO) m2).2
      replyDef hwi evt NO_ERROR
        { m3 with m_state := qcamera_state_enum_t.QCAMERA_SM_STATE_PIC_TAKING }
  | .QCAMERA_SM_EVT_START_RECORDING =>
      let r := call hwi HwiCall.stopRecording m
      if r.1 = NO_ERROR then
        replyDef hwi evt r.1
          { r.2 with m_state := qcamera_state_enum_t.QCAMERA_SM_STATE_VIDEO_PIC_TAKING }
      else
        replyDef hwi evt r.1 r.2
  | .QCAMERA_SM_EVT_STOP_RECORDING
  | .QCAMERA_SM_EVT_START_PREVIEW
  | .QCAMERA_SM_EVT_START_NODISPLAY_PREVIEW
  | .QCAMERA_SM_EVT_TAKE_PICTURE
  | .QCAMERA_SM_EVT_SET_PREVIEW_WINDOW
  | .QCAMERA_SM_EVT_RELEASE => replyDef hwi evt INVALID_OPERATION m
  | .QCAMERA_SM_EVT_EVT_INTERNAL => procInternalEvt hwi payload m
  | .QCAMERA_SM_EVT_EVT_NOTIFY => procNotifyEvt hwi payload m
  | .QCAMERA_SM_EVT_JPEG_EVT_NOTIFY => call hwi (HwiCall.processJpegNotify payload.ptr) m
  | .QCAMERA_SM_EVT_SNAPSHOT_DONE =>
      let r := call hwi HwiCall.cancelLiveSnapshot m
      (r.1, { r.2 with m_state := qcamera_state_enum_t.QCAMERA_SM_STATE_PREVIEWING })
  -- `default`: log only
  | _ => (NO_ERROR, m)

/-- The entry function `stateMachine`: the handler of the current state. -/
def stateMachine (hwi : QCamera2HardwareInterface σ)
    (evt : qcamera_sm_evt_enum_t) (payload : Payload) (m : QCameraStateMachine σ) :
    Int × QCameraStateMachine σ :=
  match m.m_state with
  | .QCAMERA_SM_STATE_PREVIEW_STOPPED => procEvtPreviewStoppedState hwi evt payload m
  | .QCAMERA_SM_STATE_PREVIEW_READY => procEvtPreviewReadyState hwi evt payload m
  | .QCAMERA_SM_STATE_PREVIEWING => procEvtPreviewingState hwi evt payload m
  | .QCAMERA_SM_STATE_PIC_TAKING => procEvtPicTakingState hwi evt payload m
  | .QCAMERA_SM_STATE_RECORDING => procEvtRecordingState hwi evt payload m
  | .QCAMERA_SM_STATE_VIDEO_PIC_TAKING => procEvtVideoPicTakingState hwi evt payload m
  | .QCAMERA_SM_STATE_PREVIEW_PIC_TAKING => procEvtPreviewPicTakingState hwi evt payload m

/-- The function `isPreviewRunning`. -/
def isPreviewRunning (m : QCameraStateMachine σ) : Bool :=
  match m.m_state with
  | .QCAMERA_SM_STATE_PREVIEWING
  | .QCAMERA_SM_STATE_RECORDING
  | .QCAMERA_SM_STATE_VIDEO_PIC_TAKING
  | .QCAMERA_SM_STATE_PREVIEW_PIC_TAKING => true
  | _ => false

/-! ## Producers and the worker routine -/

/-- The function `procAPI` (the allocation of the record is assumed to succeed):
enqueue an API command on `api_queue`; the `sem_post` is accounted for by the wait
outcomes given to the worker routine. -/
def procAPI (evt : qcamera_sm_evt_enum_t) (api_payload : Payload)
    (m : QCameraStateMachine σ) : Int × QCameraStateMachine σ :=
  let r := QCameraQueue.enqueue m.api_queue
    { cmd := qcamera_sm_cmd_type_t.QCAMERA_SM_CMD_TYPE_API, evt := evt,
      evt_payload := api_payload }
  if r.1 then (NO_ERROR, { m with api_queue := r.2 }) else (UNKNOWN_ERROR, m)

/-- The function `procEvt` (the allocation of the record is assumed to succeed):
enqueue an event command on `evt_queue`. -/
def procEvt (evt : qcamera_sm_evt_enum_t) (evt_payload : Payload)
    (m : QCameraStateMachine σ) : Int × QCameraStateMachine σ :=
  let r := QCameraQueue.enqueue m.evt_queue
    { cmd := qcamera_sm_cmd_type_t.QCAMERA_SM_CMD_TYPE_EVT, evt := evt,
      evt_payload := evt_payload }
  if r.1 then (NO_ERROR, { m with evt_queue := r.2 }) else (UNKNOWN_ERROR, m)

/-- The enqueue made by the destructor: a zeroed record (event value 0, `NULL`
payload) of type `QCAMERA_SM_CMD_TYPE_EXIT` on `api_queue`. -/
def enqueueExit (m : QCameraStateMachine σ) : QCameraStateMachine σ :=
  { m with api_queue := (QCameraQueue.enqueue m.api_queue
      { cmd := qcamera_sm_cmd_type_t.QCAMERA_SM_CMD_TYPE_EXIT,
        evt := qcamera_sm_evt_enum_t.OUT_OF_ENUM (-1), evt_payload := {} }).2 }

/-- The `switch (node->cmd)` of the worker routine followed by `free(node)`, for a
record `node` already taken off its queue.  The first component is `running`. -/
def dispatchNode (hwi : QCamera2HardwareInterface σ) (node : qcamera_sm_cmd_t)
    (m : QCameraStateMachine σ) : Bool × QCameraStateMachine σ :=
  match node.cmd with
  | .QCAMERA_SM_CMD_TYPE_API =>
      let r := (stateMachine hwi node.evt node.evt_payload
        { m with worker := m.worker ++ [WorkerAct.dispatch node] }).2
      -- API is in a way sync call, no need to free payload for API
      (true, { r with worker := r.worker ++ [WorkerAct.freeNode node] })
  | .QCAMERA_SM_CMD_TYPE_EVT =>
      let r := (stateMachine hwi node.evt node.evt_payload
        { m with worker := m.worker ++ [WorkerAct.dispatch node] }).2
      -- EVT is async call, so payload need to be free after use
      (true, { r with worker :=
        r.worker ++ [WorkerAct.freePayload node, WorkerAct.freeNode node] })
  | .QCAMERA_SM_CMD_TYPE_EXIT =>
      (false, { m with worker := m.worker ++ [WorkerAct.freeNode node] })
  | _ => (true, { m with worker := m.worker ++ [WorkerAct.freeNode node] })

/-- One iteration of the outer loop of `smEvtProcRoutine` after `sem_wait` returned 0:
first check the API queue, then, when it gave nothing, the event queue, and handle
the record found, if any.  The first component is `running`. -/
def procCmd (hwi : QCamera2HardwareInterface σ) (m : QCameraStateMachine σ) :
    Bool × QCameraStateMachine σ :=
  let a := QCameraQueue.dequeue m.api_queue
  match a.1 with
  | some node => dispatchNode hwi node { m with api_queue := a.2 }
  | none =>
      let e := QCameraQueue.dequeue m.evt_queue
      match e.1 with
      | some node => dispatchNode hwi node { m with api_queue := a.2, evt_queue := e.2 }
      | none => (true, { m with api_queue := a.2, evt_queue := e.2 })

/-- What another thread does to the queues. -/
inductive Producer
  | procAPI (evt : qcamera_sm_evt_enum_t) (api_payload : Payload)
  | procEvt (evt : qcamera_sm_evt_enum_t) (evt_payload : Payload)
  | destructor
  deriving DecidableEq, Repr

/-- Effect of a producer on the machine. -/
def Producer.run (p : Producer) (m : QCameraStateMachine σ) : QCameraStateMachine σ :=
  match p with
  | .procAPI evt api_payload => (QCamera.procAPI evt api_payload m).2
  | .procEvt evt evt_payload => (QCamera.procEvt evt evt_payload m).2
  | .destructor => enqueueExit m

/-- One return of `sem_wait` in the worker: what the producers did while the worker
was blocked, the value `sem_wait` returned and the `errno` it left. -/
structure SemWait where
  arrivals : List Producer := []
  ret : Int := 0
  errno : Int := 0
  deriving DecidableEq, Repr

/-- How a run of the worker routine over a finite list of `sem_wait` returns ends:
the routine has returned, or it is blocked in the next `sem_wait`. -/
inductive RoutineEnd (σ : Type)
  | returned (m : QCameraStateMachine σ)
  | blocked (m : QCameraStateMachine σ)

/-- The worker routine `smEvtProcRoutine`, run over the successive returns of
`sem_wait`. -/
def smEvtProcRoutine (hwi : QCamera2HardwareInterface σ) :
    List SemWait → QCameraStateMachine σ → RoutineEnd σ
  | [], m => RoutineEnd.blocked m
  | w :: ws, m =>
      let m0 := w.arrivals.foldl (fun acc p => p.run acc) m
      if w.ret ≠ 0 ∧ w.errno ≠ EINVAL then
        -- sem_wait error: return NULL
        RoutineEnd.returned m0
      else if w.ret ≠ 0 then
        smEvtProcRoutine hwi ws m0
      else
        let r := procCmd hwi m0
        if r.1 then smEvtProcRoutine hwi ws r.2 else RoutineEnd.returned r.2

/-! ## Reading the log -/

/-- Whether a logged invocation is `signalAPIResult`. -/
def HwiCall.isSignal : HwiCall → Bool
  | .signalAPIResult _ => true
  | _ => false

/-- Number of `signalAPIResult` invocations in a log. -/
def signalCount (calls : List HwiCall) : Nat :=
  calls.countP HwiCall.isSignal

/-- The API events for which the handler of a state only reports that it cannot handle
them: the case labels in front of the block `rc = INVALID_OPERATION; ...
signalAPIResult(&result)` of each handler, `SET_PREVIEW_WINDOW` while a preview or a
capture is running included. -/
def cannotHandle : qcamera_state_enum_t → qcamera_sm_evt_enum_t → Bool
  | .QCAMERA_SM_STATE_PREVIEW_STOPPED, .QCAMERA_SM_EVT_START_RECORDING
  | .QCAMERA_SM_STATE_PREVIEW_STOPPED, .QCAMERA_SM_EVT_STOP_RECORDING
  | .QCAMERA_SM_STATE_PREVIEW_STOPPED, .QCAMERA_SM_EVT_RELEASE_RECORIDNG_FRAME
  | .QCAMERA_SM_STATE_PREVIEW_STOPPED, .QCAMERA_SM_EVT_TAKE_PICTURE
  | .QCAMERA_SM_STATE_PREVIEW_STOPPED, .QCAMERA_SM_EVT_CANCEL_PICTURE
  | .QCAMERA_SM_STATE_PREVIEW_STOPPED, .QCAMERA_SM_EVT_START_AUTO_FOCUS
  | .QCAMERA_SM_STATE_PREVIEW_STOPPED, .QCAMERA_SM_EVT_STOP_AUTO_FOCUS
  | .QCAMERA_SM_STATE_PREVIEW_STOPPED, .QCAMERA_SM_EVT_SEND_COMMAND
  | .QCAMERA_SM_STATE_PREVIEW_READY, .QCAMERA_SM_EVT_START_NODISPLAY_PREVIEW
  | .QCAMERA_SM_STATE_PREVIEW_READY, .QCAMERA_SM_EVT_START_RECORDING
  | .QCAMERA_SM_STATE_PREVIEW_READY, .QCAMERA_SM_EVT_STOP_RECORDING
  | .QCAMERA_SM_STATE_PREVIEW_READY, .QCAMERA_SM_EVT_TAKE_PICTURE
  | .QCAMERA_SM_STATE_PREVIEW_READY, .QCAMERA_SM_EVT_CANCEL_PICTURE
  | .QCAMERA_SM_STATE_PREVIEW_READY, .QCAMERA_SM_EVT_RELEASE_RECORIDNG_FRAME
  | .QCAMERA_SM_STATE_PREVIEW_READY, .QCAMERA_SM_EVT_RELEASE
  | .QCAMERA_SM_STATE_PREVIEWING, .QCAMERA_SM_EVT_SET_PREVIEW_WINDOW
  | .QCAMERA_SM_STATE_PREVIEWING, .QCAMERA_SM_EVT_CANCEL_PICTURE
  | .QCAMERA_SM_STATE_PREVIEWING, .QCAMERA_SM_EVT_STOP_RECORDING
  | .QCAMERA_SM_STATE_PREVIEWING, .QCAMERA_SM_EVT_RELEASE_RECORIDNG_FRAME
  | .QCAMERA_SM_STATE_PREVIEWING, .QCAMERA_SM_EVT_RELEASE
  | .QCAMERA_SM_STATE_PIC_TAKING, .QCAMERA_SM_EVT_SET_PREVIEW_WINDOW
  | .QCAMERA_SM_STATE_PIC_TAKING, .QCAMERA_SM_EVT_TAKE_PICTURE
  | .QCAMERA_SM_STATE_PIC_TAKING, .QCAMERA_SM_EVT_START_RECORDING
  | .QCAMERA_SM_STATE_PIC_TAKING, .QCAMERA_SM_EVT_STOP_RECORDING
  | .QCAMERA_SM_STATE_PIC_TAKING, .QCAMERA_SM_EVT_RELEASE_RECORIDNG_FRAME
  | .QCAMERA_SM_STATE_PIC_TAKING, .QCAMERA_SM_EVT_START_PREVIEW
  | .QCAMERA_SM_STATE_PIC_TAKING, .QCAMERA_SM_EVT_START_NODISPLAY_PREVIEW
  | .QCAMERA_SM_STATE_PIC_TAKING, .QCAMERA_SM_EVT_RELEASE
  | .QCAMERA_SM_STATE_RECORDING, .QCAMERA_SM_EVT_SET_PREVIEW_WINDOW
  | .QCAMERA_SM_STATE_RECORDING, .QCAMERA_SM_EVT_CANCEL_PICTURE
  | .QCAMERA_SM_STATE_RECORDING, .QCAMERA_SM_EVT_START_PREVIEW
  | .QCAMERA_SM_STATE_RECORDING, .QCAMERA_SM_EVT_START_NODISPLAY_PREVIEW
  | .QCAMERA_SM_STATE_RECORDING, .QCAMERA_SM_EVT_STOP_PREVIEW
  | .QCAMERA_SM_STATE_RECORDING, .QCAMERA_SM_EVT_RELEASE
  | .QCAMERA_SM_STATE_VIDEO_PIC_TAKING, .QCAMERA_SM_EVT_SET_PREVIEW_WINDOW
  | .QCAMERA_SM_STATE_VIDEO_PIC_TAKING, .QCAMERA_SM_EVT_START_RECORDING
  | .QCAMERA_SM_STATE_VIDEO_PIC_TAKING, .QCAMERA_SM_EVT_START_PREVIEW
  | .QCAMERA_SM_STATE_VIDEO_PIC_TAKING, .QCAMERA_SM_EVT_START_NODISPLAY_PREVIEW
  | .QCAMERA_SM_STATE_VIDEO_PIC_TAKING, .QCAMERA_SM_EVT_STOP_PREVIEW
  | .QCAMERA_SM_STATE_VIDEO_PIC_TAKING, .QCAMERA_SM_EVT_TAKE_PICTURE
  | .QCAMERA_SM_STATE_VIDEO_PIC_TAKING, .QCAMERA_SM_EVT_RELEASE
  | .QCAMERA_SM_STATE_PREVIEW_PIC_TAKING, .QCAMERA_SM_EVT_STOP_RECORDING
  | .QCAMERA_SM_STATE_PREVIEW_PIC_TAKING, .QCAMERA_SM_EVT_START_PREVIEW
  | .QCAMERA_SM_STATE_PREVIEW_PIC_TAKING, .QCAMERA_SM_EVT_START_NODISPLAY_PREVIEW
  | .QCAMERA_SM_STATE_PREVIEW_PIC_TAKING, .QCAMERA_SM_EVT_TAKE_PICTURE
  | .QCAMERA_SM_STATE_PREVIEW_PIC_TAKING, .QCAMERA_SM_EVT_SET_PREVIEW_WINDOW
  | .QCAMERA_SM_STATE_PREVIEW_PIC_TAKING, .QCAMERA_SM_EVT_RELEASE => true
  | _, _ => false

/-- The events that are not API events and that the handler of a state sends to the
final label group of its `switch` (the listed non-API labels followed by `default`),
where the event is only logged. -/
def fallsToDefault : qcamera_state_enum_t → qcamera_sm_evt_enum_t → Bool
  | .QCAMERA_SM_STATE_PREVIEW_STOPPED, .QCAMERA_SM_EVT_EVT_INTERNAL
  | .QCAMERA_SM_STATE_PREVIEW_STOPPED, .QCAMERA_SM_EVT_EVT_NOTIFY
  | .QCAMERA_SM_STATE_PREVIEW_READY, .QCAMERA_SM_EVT_EVT_INTERNAL
  | .QCAMERA_SM_STATE_PREVIEW_READY, .QCAMERA_SM_EVT_EVT_NOTIFY
  | .QCAMERA_SM_STATE_PREVIEW_STOPPED, .QCAMERA_SM_EVT_JPEG_EVT_NOTIFY
  | .QCAMERA_SM_STATE_PREVIEW_STOPPED, .QCAMERA_SM_EVT_SNAPSHOT_DONE
  | .QCAMERA_SM_STATE_PREVIEW_READY, .QCAMERA_SM_EVT_JPEG_EVT_NOTIFY
  | .QCAMERA_SM_STATE_PREVIEW_READY, .QCAMERA_SM_EVT_SNAPSHOT_DONE
  | .QCAMERA_SM_STATE_PREVIEWING, .QCAMERA_SM_EVT_JPEG_EVT_NOTIFY
  | .QCAMERA_SM_STATE_PREVIEWING, .QCAMERA_SM_EVT_SNAPSHOT_DONE
  | .QCAMERA_SM_STATE_RECORDING, .QCAMERA_SM_EVT_JPEG_EVT_NOTIFY
  | .QCAMERA_SM_STATE_RECORDING, .QCAMERA_SM_EVT_SNAPSHOT_DONE
  | _, .QCAMERA_SM_EVT_MAX
  | _, .OUT_OF_ENUM _ => true
  | _, _ => false

/-- The events a state handler does not act on: the API events it cannot handle and
the other events it only logs. -/
def notActedOn (s : qcamera_state_enum_t) (evt : qcamera_sm_evt_enum_t) : Bool :=
  cannotHandle s evt || fallsToDefault s evt

/-! ## A scripted hardware interface for the examples -/

/-- A hardware interface whose state is the preview window pointer: every member
function returns the status `status` prescribes for it, `setPreviewWindow` stores the
window it is given, and `updateParameters` leaves `needRestart` in its reference
parameter. -/
def scriptedHwi (status : HwiCall → Int) (needRestart : Bool) :
    QCamera2HardwareInterface Int where
  mPreviewWindow := fun s => s
  exec := fun c s =>
    (status c, match c with
      | .setPreviewWindow window => window
      | _ => s)
  updateParameters := fun parms s => (status (HwiCall.updateParameters parms), needRestart, s)

/-- Every member function succeeds. -/
def allSucceed : HwiCall → Int := fun _ => NO_ERROR

/-- Member function `c` fails with status `-1`, every other one succeeds. -/
def failing (c : HwiCall) : HwiCall → Int := fun d => if d = c then -1 else NO_ERROR

/-- A machine in state `s` with preview window `window`, empty queues and empty logs. -/
def machineIn (s : qcamera_state_enum_t) (window : Int) : QCameraStateMachine Int :=
  { m_parent := window, m_state := s, api_queue := [], evt_queue := [], calls := [],
    worker := [] }

/-- A machine in `PREVIEWING` with one API command (`STOP_PREVIEW`) and one event
command (a zoom-done server event) pending. -/
def pendingBoth : QCameraStateMachine Int :=
  { m_parent := 7, m_state := qcamera_state_enum_t.QCAMERA_SM_STATE_PREVIEWING,
    api_queue := [{ cmd := qcamera_sm_cmd_type_t.QCAMERA_SM_CMD_TYPE_API,
                    evt := qcamera_sm_evt_enum_t.QCAMERA_SM_EVT_STOP_PREVIEW, evt_payload := {} }],
    evt_queue := [{ cmd := qcamera_sm_cmd_type_t.QCAMERA_SM_CMD_TYPE_EVT,
                    evt := qcamera_sm_evt_enum_t.QCAMERA_SM_EVT_EVT_NOTIFY,
                    evt_payload :=
                      { server_event_type := cam_event_type_t.CAM_EVENT_TYPE_ZOOM_DONE } }],
    calls := [], worker := [] }

/-- The requests `START_PREVIEW`, `STOP_PREVIEW`, `START_PREVIEW` dispatched one after
the other (none of the three handlers reads its payload): the result of the first,
of the second and of the third dispatch. -/
def startStopStart (hwi : QCamera2HardwareInterface σ) (m : QCameraStateMachine σ) :
    (Int × QCameraStateMachine σ) × (Int × QCameraStateMachine σ) ×
      (Int × QCameraStateMachine σ) :=
  let r1 := stateMachine hwi qcamera_sm_evt_enum_t.QCAMERA_SM_EVT_START_PREVIEW {} m
  let r2 := stateMachine hwi qcamera_sm_evt_enum_t.QCAMERA_SM_EVT_STOP_PREVIEW {} r1.2
  let r3 := stateMachine hwi qcamera_sm_evt_enum_t.QCAMERA_SM_EVT_START_PREVIEW {} r2.2
  (r1, r2, r3)

/-- Whether a run of the worker routine ended with the routine returning. -/
def RoutineEnd.isReturned : RoutineEnd σ → Bool
  | .returned _ => true
  | .blocked _ => false

/-- The machine a run of the worker routine ends with. -/
def RoutineEnd.machine : RoutineEnd σ → QCameraStateMachine σ
  | .returned m => m
  | .blocked m => m

/-- A machine in `PREVIEWING` whose API queue holds a shutdown record followed by a
`STOP_PREVIEW` command. -/
def pendingExit : QCameraStateMachine Int :=
  { m_parent := 7, m_state := qcamera_state_enum_t.QCAMERA_SM_STATE_PREVIEWING,
    api_queue := [{ cmd := qcamera_sm_cmd_type_t.QCAMERA_SM_CMD_TYPE_EXIT,
                    evt := qcamera_sm_evt_enum_t.OUT_OF_ENUM (-1), evt_payload := {} },
                  { cmd := qcamera_sm_cmd_type_t.QCAMERA_SM_CMD_TYPE_API,
                    evt := qcamera_sm_evt_enum_t.QCAMERA_SM_EVT_STOP_PREVIEW, evt_payload := {} }],
    evt_queue := [], calls := [], worker := [] }

/-- No shutdown record is pending in either queue. -/
def NoExitQueued (m : QCameraStateMachine σ) : Prop :=
  (∀ n ∈ m.api_queue, n.cmd ≠ qcamera_sm_cmd_type_t.QCAMERA_SM_CMD_TYPE_EXIT) ∧
  (∀ n ∈ m.evt_queue, n.cmd ≠ qcamera_sm_cmd_type_t.QCAMERA_SM_CMD_TYPE_EXIT)

end Handlers

/-! ## Buffer memory pool, base class (`QCameraMem.cpp`)

The kernel is a parameter of the embedding: what `open` and the three `ioctl` calls of
one `allocOneBuffer` return is given by an `IonReply`.  The system calls a function
makes are appended to a log, together with a marker for each call of
`allocOneBuffer` and `deallocOneBuffer` that names the descriptor it is applied to.
-/

/-- Status `OK` of `utils/Errors.h`. -/
def OK : Int := 0
/-- Status `-EOVERFLOW`. -/
def BAD_INDEX : Int := -75

/-- Buffer descriptor, `QCameraMemInfo` (the members `QCameraMem.cpp` uses; `handle`
is a pointer, 0 for `NULL`). -/
structure QCameraMemInfo where
  fd : Int := 0
  main_ion_fd : Int := 0
  handle : Int := 0
  size : Nat := 0
  deriving DecidableEq, Repr

/-- What the kernel answers during one `allocOneBuffer`: the value of
`open("/dev/ion", O_RDONLY)`, the value of `ioctl(ION_IOC_ALLOC)` and the handle it
stores in `alloc.handle`, the value of `ioctl(ION_IOC_SHARE)` and the descriptor it
stores in `ion_info_fd.fd` (the handle in `ion_info_fd` is an input of that call and
keeps the value `alloc.handle`). -/
structure IonReply where
  open_fd : Int
  alloc_rc : Int := 0
  alloc_handle : Int := 0
  share_rc : Int := 0
  share_fd : Int := 0
  deriving DecidableEq, Repr

/-- Whether the replies make `allocOneBuffer` take its success path. -/
def IonReply.succeeds (r : IonReply) : Bool :=
  decide (0 < r.open_fd) && decide (0 ≤ r.alloc_rc) && decide (0 ≤ r.share_rc)

/-- Log entries of the base pool. -/
inductive IonOp
  | openIon (ret : Int)
  | ionAlloc (main_ion_fd : Int) (len : Nat) (heap_mask : Int)
  | ionShare (main_ion_fd : Int) (handle : Int)
  | ionFree (main_ion_fd : Int) (handle : Int)
  | close (fd : Int)
  | allocOneBuffer (index : Nat)
  | deallocOneBuffer (index : Nat)
  deriving DecidableEq, Repr

/-- The length `allocOneBuffer` asks for: `alloc.len = size;
alloc.len = (alloc.len + 4095) & (~4095);` computed in `size_t`, taken to be 32 bits
wide (the ARM target of this HAL), so that `~4095` is `0xFFFFF000`. -/
def alignedLen (size : Int) : Nat :=
  ((((size % 4294967296).toNat + 4095) % 4294967296) &&& 4294963200)

/-- The function `QCameraMemory::allocOneBuffer`: the status, the descriptor
afterwards and the system calls made. -/
def allocOneBuffer (r : IonReply) (memInfo : QCameraMemInfo) (heap_id : Int) (size : Int) :
    Int × QCameraMemInfo × List IonOp :=
  if r.open_fd ≤ 0 then
    -- ION_OPEN_FAILED
    (NO_MEMORY, memInfo, [IonOp.openIon r.open_fd])
  else if r.alloc_rc < 0 then
    -- ION_ALLOC_FAILED
    (NO_MEMORY, memInfo,
      [IonOp.openIon r.open_fd, IonOp.ionAlloc r.open_fd (alignedLen size) heap_id,
       IonOp.close r.open_fd])
  else if r.share_rc < 0 then
    -- ION_MAP_FAILED
    (NO_MEMORY, memInfo,
      [IonOp.openIon r.open_fd, IonOp.ionAlloc r.open_fd (alignedLen size) heap_id,
       IonOp.ionShare r.open_fd r.alloc_handle, IonOp.ionFree r.open_fd r.alloc_handle,
       IonOp.close r.open_fd])
  else
    (OK,
      { main_ion_fd := r.open_fd, fd := r.share_fd, handle := r.alloc_handle,
        size := alignedLen size },
      [IonOp.openIon r.open_fd, IonOp.ionAlloc r.open_fd (alignedLen size) heap_id,
       IonOp.ionShare r.open_fd r.alloc_handle])

/-- The function `QCameraMemory::deallocOneBuffer`: the descriptor afterwards and the
system calls made. -/
def deallocOneBuffer (memInfo : QCameraMemInfo) : QCameraMemInfo × List IonOp :=
  let a : QCameraMemInfo × List IonOp :=
    if memInfo.fd > 0 then ({ memInfo with fd := 0 }, [IonOp.close memInfo.fd])
    else (memInfo, [])
  let b : QCameraMemInfo × List IonOp :=
    if a.1.main_ion_fd > 0 then
      ({ a.1 with main_ion_fd := 0 },
        [IonOp.ionFree a.1.main_ion_fd a.1.handle, IonOp.close a.1.main_ion_fd])
    else (a.1, [])
  ({ b.1 with handle := 0, size := 0 }, a.2 ++ b.2)

/-- The members of class `QCameraMemory` (of the array `mMemInfo` only the entries
below `MM_CAMERA_MAX_NUM_FRAMES` exist), and the log `ops`. -/
structure QCameraMemory where
  mBufferCount : Int := 0
  mMemInfo : Nat → QCameraMemInfo := fun _ => {}
  ops : List IonOp := []

/-- One statement `deallocOneBuffer(mMemInfo[j])`. -/
def QCameraMemory.deallocAt (p : QCameraMemory) (j : Nat) : QCameraMemory :=
  { p with
    mMemInfo := Function.update p.mMemInfo j (deallocOneBuffer (p.mMemInfo j)).1,
    ops := p.ops ++ [IonOp.deallocOneBuffer j] ++ (deallocOneBuffer (p.mMemInfo j)).2 }

/-- The loop `for (int j = i-1; j >= 0; j--) deallocOneBuffer(mMemInfo[j]);` of
`alloc`. -/
def QCameraMemory.deallocBelow : Nat → QCameraMemory → QCameraMemory
  | 0, p => p
  | j + 1, p => QCameraMemory.deallocBelow j (p.deallocAt j)

/-- The loop of `QCameraMemory::alloc` from index `i` on, with `remaining` iterations
to go and `rc` the status so far. -/
def QCameraMemory.allocLoop (ion : Nat → IonReply) (heap_id size : Int) :
    (remaining : Nat) → (i : Nat) → (rc : Int) → QCameraMemory → Int × QCameraMemory
  | 0, _, rc, p => (rc, p)
  | remaining + 1, i, _, p =>
      let r := allocOneBuffer (ion i) (p.mMemInfo i) heap_id size
      let p1 : QCameraMemory :=
        { p with
          mMemInfo := Function.update p.mMemInfo i r.2.1,
          ops := p.ops ++ [IonOp.allocOneBuffer i] ++ r.2.2 }
      if r.1 < 0 then
        (r.1, QCameraMemory.deallocBelow i p1)
      else
        QCameraMemory.allocLoop ion heap_id size remaining (i + 1) r.1 p1

/-- The function `QCameraMemory::alloc`.  `MM_CAMERA_MAX_NUM_FRAMES`, the capacity of
`mMemInfo`, is defined in a header that is not among the sources and is a parameter;
`ion i` is what the kernel answers while buffer `i` is allocated. -/
def QCameraMemory.alloc (MM_CAMERA_MAX_NUM_FRAMES : Int) (ion : Nat → IonReply)
    (count size heap_id : Int) (p : QCameraMemory) : Int × QCameraMemory :=
  if count > MM_CAMERA_MAX_NUM_FRAMES then
    (BAD_INDEX, p)
  else if p.mBufferCount ≠ 0 then
    (INVALID_OPERATION, p)
  else
    QCameraMemory.allocLoop ion heap_id size count.toNat 0 OK p

/-- The loop of `QCameraMemory::dealloc` from index `i` on, with `remaining` iterations
to go. -/
def QCameraMemory.deallocUpTo : Nat → Nat → QCameraMemory → QCameraMemory
  | 0, _, p => p
  | remaining + 1, i, p => QCameraMemory.deallocUpTo remaining (i + 1) (p.deallocAt i)

/-- The function `QCameraMemory::dealloc`. -/
def QCameraMemory.dealloc (p : QCameraMemory) : QCameraMemory :=
  QCameraMemory.deallocUpTo p.mBufferCount.toNat 0 p

/-- The descriptor a log entry says `deallocOneBuffer` was applied to, if any. -/
def IonOp.deallocIndex : IonOp → Option Nat
  | .deallocOneBuffer index => some index
  | _ => none

/-- The descriptors `deallocOneBuffer` was applied to, in the order of a log. -/
def deallocIndices (ops : List IonOp) : List Nat :=
  ops.filterMap IonOp.deallocIndex

/-- Kernel replies for the examples: every buffer below `k` is allocated (buffer `i`
gets the ion descriptor `100 + i`, the handle `200 + i` and the shared descriptor
`300 + i`), and for buffer `k` on `ioctl(ION_IOC_ALLOC)` fails. -/
def ionFailingAt (k : Nat) : Nat → IonReply := fun i =>
  if i < k then
    { open_fd := 100 + i, alloc_handle := 200 + i, share_fd := 300 + i }
  else
    { open_fd := 100 + i, alloc_rc := -1 }

/-! ## Index-addressed operations of the pool (`QCameraMem.cpp`)

The index of these member functions is an `int`.  The arrays of a pool start at index
0, so a negative index addresses memory in front of the array; the embedding has no
value for what is stored there.
-/

/-- The descriptor `mMemInfo[index]` for an `int` index, `none` for memory in front of
the array. -/
def QCameraMemory.memInfoAt (p : QCameraMemory) (index : Int) : Option QCameraMemInfo :=
  if 0 ≤ index then some (p.mMemInfo index.toNat) else none

/-- Argument block of `ioctl(main_ion_fd, ION_IOC_CUSTOM, &custom_data)` as
`cacheOpsInternal` fills it. -/
structure IonCustom where
  main_ion_fd : Int
  cmd : Int
  vaddr : Option Int
  fd : Int
  handle : Int
  length : Nat
  deriving DecidableEq, Repr

/-- Outcome of an index-addressed operation: the value returned (`none` when it is
computed from memory in front of the array), the indices at which `mMemInfo` was
read, and the `ION_IOC_CUSTOM` calls made. -/
structure IndexResult where
  ret : Option Int
  reads : List Int := []
  ioctls : List IonCustom := []
  deriving DecidableEq, Repr

/-- Conversion of a `size_t` value to `int`, both 32 bits wide. -/
def toInt32 (n : Nat) : Int :=
  if n % 4294967296 < 2147483648 then (n % 4294967296 : Nat) else (n % 4294967296 : Nat) - 4294967296

/-- The function `QCameraMemory::cacheOpsInternal`; `ioctl_ret` is what
`ioctl(ION_IOC_CUSTOM)` returns, `vaddr` is `none` when the caller took it from memory
in front of its array. -/
def QCameraMemory.cacheOpsInternal (ioctl_ret : Int) (p : QCameraMemory)
    (index : Int) (cmd : Int) (vaddr : Option Int) : IndexResult :=
  if index ≥ p.mBufferCount then
    { ret := some BAD_INDEX }
  else
    match p.memInfoAt index with
    | some d =>
        { ret := some ioctl_ret, reads := [index],
          ioctls := [{ main_ion_fd := d.main_ion_fd, cmd := cmd, vaddr := vaddr, fd := d.fd,
                       handle := d.handle, length := d.size }] }
    | none => { ret := none, reads := [index] }

/-- The function `QCameraMemory::getFd`. -/
def QCameraMemory.getFd (p : QCameraMemory) (index : Int) : IndexResult :=
  if index ≥ p.mBufferCount then
    { ret := some BAD_INDEX }
  else
    { ret := (p.memInfoAt index).map fun d => d.fd, reads := [index] }

/-- The function `QCameraMemory::getSize`. -/
def QCameraMemory.getSize (p : QCameraMemory) (index : Int) : IndexResult :=
  if index ≥ p.mBufferCount then
    { ret := some BAD_INDEX }
  else
    { ret := (p.memInfoAt index).map fun d => toInt32 d.size, reads := [index] }

/-! ## Object handles (`mm_camera_interface.c`) -/

/-- The function `mm_camera_util_generate_handler`: from the value of the static
`g_handler_history_count` (a `uint16_t`) before the call and the argument `index` (a
`uint8_t`), the handle returned (a `uint32_t`) and the value of the counter
afterwards.  The mutex `g_handler_lock` held around the body is left out. -/
def mm_camera_util_generate_handler (g_handler_history_count : Nat) (index : Nat) :
    Nat × Nat :=
  let c1 := (g_handler_history_count % 65536 + 1) % 65536
  let c2 := if c1 = 0 then (c1 + 1) % 65536 else c1
  ((((c2 <<< 8) % 4294967296) ||| (index % 256)), c2)

/-- The function `mm_camera_util_get_index_by_handler`: `handler & 0x000000ff`,
returned as a `uint8_t`. -/
def mm_camera_util_get_index_by_handler (handler : Nat) : Nat :=
  ((handler % 4294967296) &&& 255) % 256

/-! ## Heap pool (`QCameraHeapMemory`)

What `mmap` returns for buffer `i` is a parameter; the calls of `mmap` and `munmap`
are appended to the log `maps`.  The heap mask
`0x1 << ION_CP_MM_HEAP_ID | 0x1 << ION_CAMERA_HEAP_ID` is built from constants of a
kernel header and is a parameter.
-/

/-- The value `MAP_FAILED`, `(void *) -1`. -/
def MAP_FAILED : Int := -1

/-- Log entries of the heap pool. -/
inductive HeapOp
  | mmap (length : Nat) (fd : Int) (ret : Int)
  | munmap (addr : Int) (length : Nat)
  deriving DecidableEq, Repr

/-- The members of class `QCameraHeapMemory`: the base object, the array `mPtr`
(`NULL` is 0), and the log `maps`. -/
structure QCameraHeapMemory where
  base : QCameraMemory := {}
  mPtr : Nat → Int := fun _ => 0
  maps : List HeapOp := []

/-- The mapping loop of `QCameraHeapMemory::allocate` from index `i` on, with
`remaining` iterations to go and `rc` the status so far.  The inner loop
`for (int j = i-1; j >= 0; j--) { munmap(mPtr[i], mMemInfo[i].size); rc = NO_MEMORY; break; }`
runs its body once when `i ≥ 1` and not at all when `i = 0`. -/
def QCameraHeapMemory.mapLoop (mmapRet : Nat → Int) :
    (remaining : Nat) → (i : Nat) → (rc : Int) → QCameraHeapMemory → Int × QCameraHeapMemory
  | 0, _, rc, h => (rc, h)
  | remaining + 1, i, rc, h =>
      let vaddr := mmapRet i
      let h1 : QCameraHeapMemory :=
        { h with maps := h.maps ++ [HeapOp.mmap (h.base.mMemInfo i).size (h.base.mMemInfo i).fd vaddr] }
      if vaddr = MAP_FAILED then
        if 0 ≤ (i : Int) - 1 then
          QCameraHeapMemory.mapLoop mmapRet remaining (i + 1) NO_MEMORY
            { h1 with maps := h1.maps ++ [HeapOp.munmap (h1.mPtr i) (h1.base.mMemInfo i).size] }
        else
          QCameraHeapMemory.mapLoop mmapRet remaining (i + 1) rc h1
      else
        QCameraHeapMemory.mapLoop mmapRet remaining (i + 1) rc
          { h1 with mPtr := Function.update h1.mPtr i vaddr }

/-- The function `QCameraHeapMemory::allocate`. -/
def QCameraHeapMemory.allocate (MM_CAMERA_MAX_NUM_FRAMES : Int) (heap_mask : Int)
    (ion : Nat → IonReply) (mmapRet : Nat → Int) (count size : Int)
    (h : QCameraHeapMemory) : Int × QCameraHeapMemory :=
  let a := h.base.alloc MM_CAMERA_MAX_NUM_FRAMES ion count size heap_mask
  if a.1 < 0 then
    (a.1, { h with base := a.2 })
  else
    let m := QCameraHeapMemory.mapLoop mmapRet count.toNat 0 a.1 { h with base := a.2 }
    if m.1 = 0 then
      (OK, { m.2 with base := { m.2.base with mBufferCount := count } })
    else
      (OK, m.2)

/-- The loop of `QCameraHeapMemory::deallocate` from index `i` on. -/
def QCameraHeapMemory.unmapLoop : Nat → Nat → QCameraHeapMemory → QCameraHeapMemory
  | 0, _, h => h
  | remaining + 1, i, h =>
      QCameraHeapMemory.unmapLoop remaining (i + 1)
        { h with
          maps := h.maps ++ [HeapOp.munmap (h.mPtr i) (h.base.mMemInfo i).size],
          mPtr := Function.update h.mPtr i 0 }

/-- The function `QCameraHeapMemory::deallocate`. -/
def QCameraHeapMemory.deallocate (h : QCameraHeapMemory) : QCameraHeapMemory :=
  let h1 := QCameraHeapMemory.unmapLoop h.base.mBufferCount.toNat 0 h
  { h1 with base := { h1.base.dealloc with mBufferCount := 0 } }

/-- The function `QCameraHeapMemory::cacheOps`. -/
def QCameraHeapMemory.cacheOps (ioctl_ret : Int) (h : QCameraHeapMemory)
    (index : Int) (cmd : Int) : IndexResult :=
  if index ≥ h.base.mBufferCount then
    { ret := some BAD_INDEX }
  else
    h.base.cacheOpsInternal ioctl_ret index cmd
      (if 0 ≤ index then some (h.mPtr index.toNat) else none)

/-! ## Stream pool and video pool (`QCameraStreamMemory`, `QCameraVideoMemory`)

The framework callback `mGetMemory` is a parameter: `mGetMemory i` is the handle it
returns for buffer `i` of the stream, `metadataRet i` the handle it returns for the
metadata of buffer `i` (`NULL` is 0).  The calls of the callback and of `release` are
appended to the log `handles`.  A `release` through a `NULL` handle, which the
program does not survive, is logged as `release 0`.
-/

/-- Log entries of the framework memory handles. -/
inductive CameraMemoryOp
  | getMemory (fd : Int) (size : Nat) (ret : Int)
  | getMetadata (ret : Int)
  | release (handle : Int)
  deriving DecidableEq, Repr

/-- The members of class `QCameraStreamMemory`: the base object, the array
`mCameraMemory`, and the log `handles`. -/
structure QCameraStreamMemory where
  base : QCameraMemory := {}
  mCameraMemory : Nat → Int := fun _ => 0
  handles : List CameraMemoryOp := []

/-- The loop of `QCameraStreamMemory::allocate` from index `i` on. -/
def QCameraStreamMemory.getLoop (mGetMemory : Nat → Int) :
    Nat → Nat → QCameraStreamMemory → QCameraStreamMemory
  | 0, _, s => s
  | remaining + 1, i, s =>
      QCameraStreamMemory.getLoop mGetMemory remaining (i + 1)
        { s with
          mCameraMemory := Function.update s.mCameraMemory i (mGetMemory i),
          handles := s.handles ++
            [CameraMemoryOp.getMemory (s.base.mMemInfo i).fd (s.base.mMemInfo i).size
              (mGetMemory i)] }

/-- The function `QCameraStreamMemory::allocate`. -/
def QCameraStreamMemory.allocate (MM_CAMERA_MAX_NUM_FRAMES : Int) (heap_mask : Int)
    (ion : Nat → IonReply) (mGetMemory : Nat → Int) (count size : Int)
    (s : QCameraStreamMemory) : Int × QCameraStreamMemory :=
  let a := s.base.alloc MM_CAMERA_MAX_NUM_FRAMES ion count size heap_mask
  if a.1 < 0 then
    (a.1, { s with base := a.2 })
  else
    let s1 := QCameraStreamMemory.getLoop mGetMemory count.toNat 0 { s with base := a.2 }
    (NO_ERROR, { s1 with base := { s1.base with mBufferCount := count } })

/-- The loop of `QCameraStreamMemory::deallocate` from index `i` on. -/
def QCameraStreamMemory.releaseLoop : Nat → Nat → QCameraStreamMemory → QCameraStreamMemory
  | 0, _, s => s
  | remaining + 1, i, s =>
      QCameraStreamMemory.releaseLoop remaining (i + 1)
        { s with
          handles := s.handles ++ [CameraMemoryOp.release (s.mCameraMemory i)],
          mCameraMemory := Function.update s.mCameraMemory i 0 }

/-- The function `QCameraStreamMemory::deallocate`. -/
def QCameraStreamMemory.deallocate (s : QCameraStreamMemory) : QCameraStreamMemory :=
  let s1 := QCameraStreamMemory.releaseLoop s.base.mBufferCount.toNat 0 s
  { s1 with base := { s1.base.dealloc with mBufferCount := 0 } }

/-- The function `QCameraStreamMemory::cacheOps`; `data handle` is the member `data`
of the framework memory object behind a handle. -/
def QCameraStreamMemory.cacheOps (ioctl_ret : Int) (data : Int → Int)
    (s : QCameraStreamMemory) (index : Int) (cmd : Int) : IndexResult :=
  if index ≥ s.base.mBufferCount then
    { ret := some BAD_INDEX }
  else
    s.base.cacheOpsInternal ioctl_ret index cmd
      (if 0 ≤ index then some (data (s.mCameraMemory index.toNat)) else none)

/-- The members of class `QCameraVideoMemory`: the stream pool it derives from and the
array `mMetadata`. -/
structure QCameraVideoMemory where
  stream : QCameraStreamMemory := {}
  mMetadata : Nat → Int := fun _ => 0

/-- The loop `for (int j = 0; j < i-1; j ++) mMetadata[j]->release(mMetadata[j]);` of
`QCameraVideoMemory::allocate` from index `j` on. -/
def QCameraVideoMemory.releaseMetaLoop : Nat → Nat → QCameraVideoMemory → QCameraVideoMemory
  | 0, _, v => v
  | remaining + 1, j, v =>
      QCameraVideoMemory.releaseMetaLoop remaining (j + 1)
        { v with stream := { v.stream with
            handles := v.stream.handles ++ [CameraMemoryOp.release (v.mMetadata j)] } }

/-- The metadata loop of `QCameraVideoMemory::allocate` from index `i` on; the first
component is the status of the `return` inside the loop, `none` when the loop runs to
its end. -/
def QCameraVideoMemory.metaLoop (metadataRet : Nat → Int) :
    Nat → Nat → QCameraVideoMemory → Option Int × QCameraVideoMemory
  | 0, _, v => (none, v)
  | remaining + 1, i, v =>
      let v1 : QCameraVideoMemory :=
        { v with
          mMetadata := Function.update v.mMetadata i (metadataRet i),
          stream := { v.stream with
            handles := v.stream.handles ++ [CameraMemoryOp.getMetadata (metadataRet i)] } }
      if metadataRet i = 0 then
        let v2 := QCameraVideoMemory.releaseMetaLoop ((i : Int) - 1).toNat 0 v1
        (some NO_MEMORY, { v2 with stream := v2.stream.deallocate })
      else
        QCameraVideoMemory.metaLoop metadataRet remaining (i + 1) v1

/-- The function `QCameraVideoMemory::allocate`. -/
def QCameraVideoMemory.allocate (MM_CAMERA_MAX_NUM_FRAMES : Int) (heap_mask : Int)
    (ion : Nat → IonReply) (mGetMemory metadataRet : Nat → Int) (count size : Int)
    (v : QCameraVideoMemory) : Int × QCameraVideoMemory :=
  let a := v.stream.allocate MM_CAMERA_MAX_NUM_FRAMES heap_mask ion mGetMemory count size
  if a.1 < 0 then
    (a.1, { v with stream := a.2 })
  else
    match QCameraVideoMemory.metaLoop metadataRet count.toNat 0 { v with stream := a.2 } with
    | (some rc, v1) => (rc, v1)
    | (none, v1) =>
        (NO_ERROR,
          { v1 with stream := { v1.stream with base := { v1.stream.base with mBufferCount := count } } })

/-- The loop of `QCameraVideoMemory::deallocate` from index `i` on. -/
def QCameraVideoMemory.releaseLoop : Nat → Nat → QCameraVideoMemory → QCameraVideoMemory
  | 0, _, v => v
  | remaining + 1, i, v =>
      QCameraVideoMemory.releaseLoop remaining (i + 1)
        { v with
          stream := { v.stream with
            handles := v.stream.handles ++ [CameraMemoryOp.release (v.mMetadata i)] },
          mMetadata := Function.update v.mMetadata i 0 }

/-- The function `QCameraVideoMemory::deallocate`; `QCameraStreamMemory::dealloc()` is
the inherited `QCameraMemory::dealloc`. -/
def QCameraVideoMemory.deallocate (v : QCameraVideoMemory) : QCameraVideoMemory :=
  let v1 := QCameraVideoMemory.releaseLoop v.stream.base.mBufferCount.toNat 0 v
  { v1 with stream := { v1.stream with base := { v1.stream.base.dealloc with mBufferCount := 0 } } }

/-- Kernel replies for the examples: every buffer is allocated, buffer `i` gets the ion
descriptor `100 + i`, the handle `200 + i` and the shared descriptor `300 + i`. -/
def ionAllOk : Nat → IonReply := fun i =>
  { open_fd := 100 + i, alloc_handle := 200 + i, share_fd := 300 + i }

/-- Replies for the examples: the value `base + i` for every `i` other than `k`, and
the value `bad` for `k`. -/
def replyFailingAt (base : Int) (k : Nat) (bad : Int) : Nat → Int := fun i =>
  if i = k then bad else base + i

/-- The three system calls that give back what a successful `allocOneBuffer` acquired
under the kernel replies `r` all occur in a log: the shared descriptor is closed, the
handle is freed, the ion descriptor is closed. -/
def IonReleased (r : IonReply) (ops : List IonOp) : Prop :=
  IonOp.close r.share_fd ∈ ops ∧ IonOp.ionFree r.open_fd r.alloc_handle ∈ ops ∧
    IonOp.close r.open_fd ∈ ops

instance (r : IonReply) (ops : List IonOp) : Decidable (IonReleased r ops) := by
  unfold IonReleased
  infer_instance

/-- Replies for the examples: the value `base + i` for every `i`. -/
def handlesFrom (base : Int) : Nat → Int := fun i => base + i

/-- Round trip of the base class: `alloc` of `count` buffers on a newly constructed
object, followed immediately by `dealloc`. -/
def QCameraMemory.roundTrip (MM_CAMERA_MAX_NUM_FRAMES : Int) (ion : Nat → IonReply)
    (count size heap_id : Int) : QCameraMemory :=
  (QCameraMemory.alloc MM_CAMERA_MAX_NUM_FRAMES ion count size heap_id {}).2.dealloc

/-- Round trip of the heap pool: `allocate` on a newly constructed pool, followed
immediately by `deallocate`. -/
def QCameraHeapMemory.roundTrip (MM_CAMERA_MAX_NUM_FRAMES : Int) (heap_mask : Int)
    (ion : Nat → IonReply) (mmapRet : Nat → Int) (count size : Int) : QCameraHeapMemory :=
  (QCameraHeapMemory.allocate MM_CAMERA_MAX_NUM_FRAMES heap_mask ion mmapRet count size
    {}).2.deallocate

/-- Round trip of the stream pool: `allocate` on a newly constructed pool, followed
immediately by `deallocate`. -/
def QCameraStreamMemory.roundTrip (MM_CAMERA_MAX_NUM_FRAMES : Int) (heap_mask : Int)
    (ion : Nat → IonReply) (mGetMemory : Nat → Int) (count size : Int) :
    QCameraStreamMemory :=
  (QCameraStreamMemory.allocate MM_CAMERA_MAX_NUM_FRAMES heap_mask ion mGetMemory count size
    {}).2.deallocate

/-- Round trip of the video pool: `allocate` on a newly constructed pool, followed
immediately by `deallocate`. -/
def QCameraVideoMemory.roundTrip (MM_CAMERA_MAX_NUM_FRAMES : Int) (heap_mask : Int)
    (ion : Nat → IonReply) (mGetMemory metadataRet : Nat → Int) (count size : Int) :
    QCameraVideoMemory :=
  (QCameraVideoMemory.allocate MM_CAMERA_MAX_NUM_FRAMES heap_mask ion mGetMemory metadataRet
    count size {}).2.deallocate

/-! ## Display-backed pool (`QCameraGrallocMemory`)

The preview window, genlock, the kernel and the framework are parameters of the
embedding: what their calls return is given by reply records.  Every call is appended
to the log `calls`; a call that is passed `mBufferHandle[i]` or `mCameraMemory[i]` is
logged with the index `i` of the buffer.
-/

/-- Ownership flag of a buffer, the values of `mLocalFlag`. -/
inductive BufferFlag
  | BUFFER_NOT_OWNED
  | BUFFER_LOCKED
  | BUFFER_UNLOCKED
  deriving DecidableEq, Repr

/-- Status of a genlock call.  The program compares it with `GENLOCK_FAILURE` and with
`GENLOCK_NO_ERROR` only; `GENLOCK_TIMEDOUT` is the remaining value. -/
inductive genlock_status_t
  | GENLOCK_NO_ERROR
  | GENLOCK_TIMEDOUT
  | GENLOCK_FAILURE
  deriving DecidableEq, Repr

/-- Log entries of the display-backed pool.  `enqueue_buffer` also records the flag the
buffer has at the moment of the call. -/
inductive GrallocOp
  | get_min_undequeued_buffer_count (err : Int) (value : Int)
  | set_buffer_count (count : Int) (err : Int)
  | set_buffers_geometry (err : Int)
  | set_usage (err : Int)
  | dequeue_buffer (err : Int) (handle : Int)
  | lock_buffer (index : Nat) (err : Int)
  | genlock_lock_buffer (index : Nat) (ret : genlock_status_t)
  | genlock_unlock_buffer (index : Nat) (ret : genlock_status_t)
  | cleanInvalidateCache (index : Nat)
  | enqueue_buffer (index : Nat) (flag : BufferFlag) (err : Int)
  | cancel_buffer (index : Nat)
  | openIon (ret : Int)
  | ionImport (main_ion_fd : Int) (fd : Int) (ret : Int)
  | getMemory (fd : Int) (size : Nat) (ret : Int)
  | release (index : Nat)
  | ionFree (main_ion_fd : Int) (handle : Int)
  | close (fd : Int)
  deriving DecidableEq, Repr

/-- The members of class `QCameraGrallocMemory` that the functions below use: the base
object, `mWindow` (`NULL` is 0), `mMinUndequeuedBuffers`, the arrays `mBufferHandle`,
`mLocalFlag` and `mCameraMemory`, and the log `calls`.  The default values are those
the constructor sets. -/
structure QCameraGrallocMemory where
  base : QCameraMemory := {}
  mWindow : Int := 0
  mMinUndequeuedBuffers : Int := 0
  mBufferHandle : Nat → Int := fun _ => 0
  mLocalFlag : Nat → BufferFlag := fun _ => BufferFlag.BUFFER_NOT_OWNED
  mCameraMemory : Nat → Int := fun _ => 0
  calls : List GrallocOp := []

/-- What the environment answers during one `displayBuffer`: the status of
`genlock_unlock_buffer`, the status of `enqueue_buffer`, the status of
`dequeue_buffer` and the handle it stores in `buffer_handle` (`NULL` is 0), the status
of `lock_buffer`, and the status of `genlock_lock_buffer`. -/
structure DisplayReply where
  genlock_unlock : genlock_status_t := genlock_status_t.GENLOCK_NO_ERROR
  enqueue_err : Int := 0
  dequeue_err : Int := 0
  dequeue_handle : Int := 0
  lock_buffer_err : Int := 0
  genlock_lock : genlock_status_t := genlock_status_t.GENLOCK_NO_ERROR
  deriving DecidableEq, Repr

/-- The search loop of `displayBuffer`,
`for (i = 0; i < mBufferCount; i++) if (mBufferHandle[i] == buffer_handle) break;`,
from index `i` on: the index at which it stops, `none` when it runs to its end. -/
def QCameraGrallocMemory.findHandle (mBufferHandle : Nat → Int) (buffer_handle : Int) :
    Nat → Nat → Option Nat
  | 0, _ => none
  | remaining + 1, i =>
      if mBufferHandle i = buffer_handle then some i
      else QCameraGrallocMemory.findHandle mBufferHandle buffer_handle remaining (i + 1)

/-- The function `QCameraGrallocMemory::displayBuffer` for an index inside the arrays:
the value returned and the pool afterwards. -/
def QCameraGrallocMemory.displayBuffer (r : DisplayReply) (index : Nat)
    (g : QCameraGrallocMemory) : Int × QCameraGrallocMemory :=
  -- unlock the buffer to be enqueued
  let g1 : QCameraGrallocMemory :=
    if g.mLocalFlag index = BufferFlag.BUFFER_LOCKED then
      if r.genlock_unlock = genlock_status_t.GENLOCK_FAILURE then
        { g with calls := g.calls ++ [GrallocOp.genlock_unlock_buffer index r.genlock_unlock] }
      else
        { g with
          calls := g.calls ++ [GrallocOp.genlock_unlock_buffer index r.genlock_unlock],
          mLocalFlag := Function.update g.mLocalFlag index BufferFlag.BUFFER_UNLOCKED }
    else g
  -- cleanInvalidateCache(index); err = mWindow->enqueue_buffer(...)
  let g2 : QCameraGrallocMemory :=
    { g1 with
      calls := g1.calls ++ [GrallocOp.cleanInvalidateCache index,
        GrallocOp.enqueue_buffer index (g1.mLocalFlag index) r.enqueue_err] }
  let g3 : QCameraGrallocMemory :=
    if r.enqueue_err ≠ 0 then g2
    else { g2 with mLocalFlag := Function.update g2.mLocalFlag index BufferFlag.BUFFER_NOT_OWNED }
  -- err = mWindow->dequeue_buffer(...)
  let g4 : QCameraGrallocMemory :=
    { g3 with calls := g3.calls ++ [GrallocOp.dequeue_buffer r.dequeue_err r.dequeue_handle] }
  if r.dequeue_err = NO_ERROR ∧ r.dequeue_handle ≠ 0 then
    match QCameraGrallocMemory.findHandle g4.mBufferHandle r.dequeue_handle
        g4.base.mBufferCount.toNat 0 with
    | some i =>
        let g5 : QCameraGrallocMemory :=
          { g4 with
            mLocalFlag := Function.update g4.mLocalFlag i BufferFlag.BUFFER_UNLOCKED,
            calls := g4.calls ++ [GrallocOp.lock_buffer i r.lock_buffer_err,
              GrallocOp.genlock_lock_buffer i r.genlock_lock] }
        if r.genlock_lock = genlock_status_t.GENLOCK_FAILURE then
          (BAD_INDEX, g5)
        else
          ((i : Int),
            { g5 with mLocalFlag := Function.update g5.mLocalFlag i BufferFlag.BUFFER_LOCKED })
    | none => (BAD_INDEX, g4)
  else
    (BAD_INDEX, g4)

/-- What the window answers to the four calls at the head of `allocate`;
`min_undequeued` is what `get_min_undequeued_buffer_count` leaves in
`mMinUndequeuedBuffers`. -/
structure WindowReply where
  min_undequeued_err : Int := 0
  min_undequeued : Int := 0
  set_buffer_count_err : Int := 0
  set_buffers_geometry_err : Int := 0
  set_usage_err : Int := 0
  deriving DecidableEq, Repr

/-- What the environment answers while `allocate` acquires one buffer: the status of
`dequeue_buffer` and what it leaves in `mBufferHandle[cnt]`, the status of
`lock_buffer`, the status of `genlock_lock_buffer`, the members `fd` and `size` of the
private handle, the value of `open("/dev/ion")`, the value of `ioctl(ION_IOC_IMPORT)`,
the content of `ion_info_fd.handle` when it is copied into the descriptor, and the
handle the get-memory callback returns. -/
structure GrallocReply where
  dequeue_err : Int := 0
  handle : Int := 0
  lock_buffer_err : Int := 0
  genlock_lock : genlock_status_t := genlock_status_t.GENLOCK_NO_ERROR
  fd : Int := 0
  size : Nat := 0
  open_fd : Int := 0
  import_rc : Int := 0
  ion_info_handle : Int := 0
  memory : Int := 0
  deriving DecidableEq, Repr

/-- The statement that `allocate` repeats in both of its cancel loops:
`if (BUFFER_LOCKED == mLocalFlag[i]) { if (GENLOCK_FAILURE == genlock_unlock_buffer(..))
log; else mLocalFlag[i] = BUFFER_UNLOCKED; }`. -/
def QCameraGrallocMemory.unlockIfLocked (unlockRet : Nat → genlock_status_t) (i : Nat)
    (g : QCameraGrallocMemory) : QCameraGrallocMemory :=
  if g.mLocalFlag i = BufferFlag.BUFFER_LOCKED then
    if unlockRet i = genlock_status_t.GENLOCK_FAILURE then
      { g with calls := g.calls ++ [GrallocOp.genlock_unlock_buffer i (unlockRet i)] }
    else
      { g with
        calls := g.calls ++ [GrallocOp.genlock_unlock_buffer i (unlockRet i)],
        mLocalFlag := Function.update g.mLocalFlag i BufferFlag.BUFFER_UNLOCKED }
  else g

/-- The roll-back loop `for (int i = 0; i < cnt; i++)` of `allocate`, from index `i`
on. -/
def QCameraGrallocMemory.rollbackLoop (unlockRet : Nat → genlock_status_t) :
    Nat → Nat → QCameraGrallocMemory → QCameraGrallocMemory
  | 0, _, g => g
  | remaining + 1, i, g =>
      let g1 := g.unlockIfLocked unlockRet i
      let g2 : QCameraGrallocMemory :=
        if g1.mLocalFlag i ≠ BufferFlag.BUFFER_NOT_OWNED then
          { g1 with calls := g1.calls ++ [GrallocOp.cancel_buffer i] }
        else g1
      QCameraGrallocMemory.rollbackLoop unlockRet remaining (i + 1)
        { g2 with
          mLocalFlag := Function.update g2.mLocalFlag i BufferFlag.BUFFER_NOT_OWNED,
          mBufferHandle := Function.update g2.mBufferHandle i 0 }

/-- The acquisition loop `for (int cnt = 0; cnt < count; cnt++)` of `allocate`, from
index `cnt` on; the first component is the value of `ret` when the loop is left
through `goto end`, `none` when the loop runs to its end. -/
def QCameraGrallocMemory.allocLoop (reply : Nat → GrallocReply)
    (unlockRet : Nat → genlock_status_t) :
    Nat → Nat → QCameraGrallocMemory → Option Int × QCameraGrallocMemory
  | 0, _, g => (none, g)
  | remaining + 1, cnt, g =>
      let r := reply cnt
      let g1 : QCameraGrallocMemory :=
        { g with
          calls := g.calls ++ [GrallocOp.dequeue_buffer r.dequeue_err r.handle],
          mBufferHandle := Function.update g.mBufferHandle cnt r.handle }
      -- the value of `err` after the dequeue and the lock, and the pool then
      let e : Int × QCameraGrallocMemory :=
        if r.dequeue_err = 0 then
          (r.lock_buffer_err,
            { g1 with
              calls := g1.calls ++ [GrallocOp.lock_buffer cnt r.lock_buffer_err,
                GrallocOp.genlock_lock_buffer cnt r.genlock_lock],
              mLocalFlag := Function.update g1.mLocalFlag cnt
                (if r.genlock_lock ≠ genlock_status_t.GENLOCK_NO_ERROR then
                  BufferFlag.BUFFER_UNLOCKED
                else BufferFlag.BUFFER_LOCKED) })
        else
          (r.dequeue_err,
            { g1 with
              mLocalFlag := Function.update g1.mLocalFlag cnt BufferFlag.BUFFER_NOT_OWNED })
      if e.1 ≠ 0 then
        let g2 := QCameraGrallocMemory.rollbackLoop unlockRet cnt 0 e.2
        -- memset(&mMemInfo, 0, sizeof(mMemInfo)); goto end;
        (some UNKNOWN_ERROR, { g2 with base := { g2.base with mMemInfo := fun _ => {} } })
      else
        let g3 : QCameraGrallocMemory :=
          { e.2 with
            calls := e.2.calls ++ [GrallocOp.openIon r.open_fd] ++
              (if r.open_fd < 0 then []
               else [GrallocOp.ionImport r.open_fd r.fd r.import_rc]) ++
              [GrallocOp.getMemory r.fd r.size r.memory],
            mCameraMemory := Function.update e.2.mCameraMemory cnt r.memory,
            base := { e.2.base with
              mMemInfo := Function.update e.2.base.mMemInfo cnt
                { main_ion_fd := r.open_fd, fd := r.fd, size := r.size,
                  handle := r.ion_info_handle } } }
        QCameraGrallocMemory.allocLoop reply unlockRet remaining (cnt + 1) g3

/-- The loop `for (int i = 0; i < mMinUndequeuedBuffers; i ++)` of `allocate`, from
index `i` on. -/
def QCameraGrallocMemory.cancelMinLoop (unlockRet : Nat → genlock_status_t) :
    Nat → Nat → QCameraGrallocMemory → QCameraGrallocMemory
  | 0, _, g => g
  | remaining + 1, i, g =>
      let g1 := g.unlockIfLocked unlockRet i
      QCameraGrallocMemory.cancelMinLoop unlockRet remaining (i + 1)
        { g1 with
          calls := g1.calls ++ [GrallocOp.cancel_buffer i],
          mLocalFlag := Function.update g1.mLocalFlag i BufferFlag.BUFFER_NOT_OWNED }

/-- The function `QCameraGrallocMemory::allocate` (its parameter `size` is unused);
`unlockRet i` is the status of `genlock_unlock_buffer` for buffer `i`.  The sum
`count += mMinUndequeuedBuffers` is taken in the integers, without the wrap-around of
an `int`. -/
def QCameraGrallocMemory.allocate (w : WindowReply) (reply : Nat → GrallocReply)
    (unlockRet : Nat → genlock_status_t) (count : Int) (g : QCameraGrallocMemory) :
    Int × QCameraGrallocMemory :=
  if g.mWindow = 0 then
    (INVALID_OPERATION, g)
  else
    let g1 : QCameraGrallocMemory :=
      { g with
        mMinUndequeuedBuffers := w.min_undequeued,
        calls := g.calls ++
          [GrallocOp.get_min_undequeued_buffer_count w.min_undequeued_err w.min_undequeued] }
    if w.min_undequeued_err ≠ 0 then
      (UNKNOWN_ERROR, g1)
    else
      let count1 := count + g1.mMinUndequeuedBuffers
      let g2 : QCameraGrallocMemory :=
        { g1 with calls := g1.calls ++ [GrallocOp.set_buffer_count count1 w.set_buffer_count_err] }
      if w.set_buffer_count_err ≠ 0 then
        (UNKNOWN_ERROR, g2)
      else
        let g3 : QCameraGrallocMemory :=
          { g2 with calls := g2.calls ++ [GrallocOp.set_buffers_geometry w.set_buffers_geometry_err] }
        if w.set_buffers_geometry_err ≠ 0 then
          (UNKNOWN_ERROR, g3)
        else
          let g4 : QCameraGrallocMemory :=
            { g3 with calls := g3.calls ++ [GrallocOp.set_usage w.set_usage_err] }
          if w.set_usage_err ≠ 0 then
            (UNKNOWN_ERROR, g4)
          else
            match QCameraGrallocMemory.allocLoop reply unlockRet count1.toNat 0 g4 with
            | (some ret, g5) => (ret, g5)
            | (none, g5) =>
                let g6 : QCameraGrallocMemory :=
                  { g5 with base := { g5.base with mBufferCount := count1 } }
                (NO_ERROR,
                  QCameraGrallocMemory.cancelMinLoop unlockRet
                    g6.mMinUndequeuedBuffers.toNat 0 g6)

/-- The loop of `QCameraGrallocMemory::deallocate`, from index `cnt` on. -/
def QCameraGrallocMemory.deallocLoop (unlockRet : Nat → genlock_status_t) :
    Nat → Nat → QCameraGrallocMemory → QCameraGrallocMemory
  | 0, _, g => g
  | remaining + 1, cnt, g =>
      let g1 : QCameraGrallocMemory :=
        { g with
          calls := g.calls ++ [GrallocOp.release cnt,
            GrallocOp.ionFree (g.base.mMemInfo cnt).main_ion_fd (g.base.mMemInfo cnt).handle,
            GrallocOp.close (g.base.mMemInfo cnt).main_ion_fd] }
      if g1.mLocalFlag cnt = BufferFlag.BUFFER_LOCKED ∧
          unlockRet cnt = genlock_status_t.GENLOCK_FAILURE then
        -- continue
        QCameraGrallocMemory.deallocLoop unlockRet remaining (cnt + 1)
          { g1 with calls := g1.calls ++ [GrallocOp.genlock_unlock_buffer cnt (unlockRet cnt)] }
      else
        let g2 := g1.unlockIfLocked unlockRet cnt
        let g3 : QCameraGrallocMemory :=
          if g2.mLocalFlag cnt ≠ BufferFlag.BUFFER_NOT_OWNED ∧ g2.mWindow ≠ 0 then
            { g2 with calls := g2.calls ++ [GrallocOp.cancel_buffer cnt] }
          else g2
        QCameraGrallocMemory.deallocLoop unlockRet remaining (cnt + 1)
          { g3 with mLocalFlag := Function.update g3.mLocalFlag cnt BufferFlag.BUFFER_NOT_OWNED }

/-- The function `QCameraGrallocMemory::deallocate`. -/
def QCameraGrallocMemory.deallocate (unlockRet : Nat → genlock_status_t)
    (g : QCameraGrallocMemory) : QCameraGrallocMemory :=
  let g1 := QCameraGrallocMemory.deallocLoop unlockRet g.base.mBufferCount.toNat 0 g
  { g1 with base := { g1.base with mBufferCount := 0 } }

/-- The function `QCameraGrallocMemory::cacheOps`; `data handle` is the member `data`
of the framework memory object behind a handle. -/
def QCameraGrallocMemory.cacheOps (ioctl_ret : Int) (data : Int → Int)
    (g : QCameraGrallocMemory) (index : Int) (cmd : Int) : IndexResult :=
  if index ≥ g.base.mBufferCount then
    { ret := some BAD_INDEX }
  else
    g.base.cacheOpsInternal ioctl_ret index cmd
      (if 0 ≤ index then some (data (g.mCameraMemory index.toNat)) else none)

/-- The buffer and the flag recorded by a log entry of `enqueue_buffer`. -/
def GrallocOp.enqueued : GrallocOp → Option (Nat × BufferFlag)
  | .enqueue_buffer index flag _ => some (index, flag)
  | _ => none

/-- The buffers handed back to the display queue, in the order of a log, each with the
flag it had at that moment. -/
def enqueuedBuffers (calls : List GrallocOp) : List (Nat × BufferFlag) :=
  calls.filterMap GrallocOp.enqueued

/-- The buffer named by a log entry of `cancel_buffer`. -/
def GrallocOp.cancelled : GrallocOp → Option Nat
  | .cancel_buffer index => some index
  | _ => none

/-- The buffers cancelled back to the window, in the order of a log. -/
def cancelledBuffers (calls : List GrallocOp) : List Nat :=
  calls.filterMap GrallocOp.cancelled

/-- Replies for the examples: buffer `i` is dequeued with the handle `900 + i`, locked,
imported through the ion descriptor `100 + i` and given the framework handle
`500 + i`. -/
def grallocAllOk : Nat → GrallocReply := fun i =>
  { handle := 900 + i, fd := 300 + i, size := 8192, open_fd := 100 + i,
    ion_info_handle := 200 + i, memory := 500 + i }

/-- Statuses for the examples: `GENLOCK_FAILURE` for buffer `k`, `GENLOCK_NO_ERROR` for
every other buffer. -/
def genlockFailingAt (k : Nat) : Nat → genlock_status_t := fun i =>
  if i = k then genlock_status_t.GENLOCK_FAILURE else genlock_status_t.GENLOCK_NO_ERROR

/-- Statuses for the examples: `GENLOCK_NO_ERROR` for every buffer. -/
def genlockOk : Nat → genlock_status_t := fun _ => genlock_status_t.GENLOCK_NO_ERROR

/-- The pool of the examples: a newly constructed pool with the window 1 set, after an
`allocate` of two buffers in which every call succeeds and the window needs no
undequeued buffer; both buffers are then `BUFFER_LOCKED`. -/
def grallocTwoLocked : QCameraGrallocMemory :=
  (QCameraGrallocMemory.allocate {} grallocAllOk genlockOk 2 { mWindow := 1 }).2

/-- Replies for the examples: as `grallocAllOk`, but `genlock_lock_buffer` fails for
buffer `k`. -/
def grallocLockFailingAt (k : Nat) : Nat → GrallocReply := fun i =>
  { grallocAllOk i with genlock_lock := genlockFailingAt k i }

/-- The heap pool of the examples: a newly constructed pool after an `allocate` of two
buffers of 5000 bytes in which every call succeeds. -/
def heapTwoBuffers : QCameraHeapMemory :=
  (QCameraHeapMemory.allocate 8 3 ionAllOk (handlesFrom 4096) 2 5000 {}).2

/-! ## Post-processor (`QCameraPostProc.h`)

Only the declarations of the post-processor are among the sources; the member
functions are modelled from the specification.
-/

/-- Job of the encode stage, `qcamera_jpeg_data_t` (the members `jobId` and
`src_frame`; a frame is named by a number). -/
structure qcamera_jpeg_data_t where
  jobId : Nat
  src_frame : Nat
  deriving DecidableEq, Repr

/-- The members of class `QCameraPostProcessor` that hold frames: the input queue of
the reprocess stage, the input queue of the encode stage, the queue of the ongoing
encode jobs, and the log of the frames released to the driver with
`releaseSuperBuf`. -/
structure QCameraPostProcessor where
  m_inputPPQ : List Nat := []
  m_inputJpegQ : List Nat := []
  m_ongoingJpegQ : List qcamera_jpeg_data_t := []
  released : List Nat := []
  deriving DecidableEq, Repr

/-- Modelled from the spec: `QCameraPostProc.cpp` is not among the sources, the header
declares `processData` only.  The call takes over the frame: it is queued for the
reprocess stage when the policy of the caller asks for reprocessing, and for the
encode stage otherwise. -/
def QCameraPostProcessor.processData (needReprocess : Bool) (frame : Nat)
    (pp : QCameraPostProcessor) : QCameraPostProcessor :=
  if needReprocess then { pp with m_inputPPQ := pp.m_inputPPQ ++ [frame] }
  else { pp with m_inputJpegQ := pp.m_inputJpegQ ++ [frame] }

/-- Modelled from the spec: the reprocess stage of the data-processing routine, which
is not among the sources.  It takes the first frame of the input queue of the stage
and hands it to the reprocess channel, whose status is `reprocess_rc`: on failure the
original frame is released and the job is aborted, on success the frame goes on to
the encode stage. -/
def QCameraPostProcessor.reprocessStage (reprocess_rc : Int) (pp : QCameraPostProcessor) :
    QCameraPostProcessor :=
  match pp.m_inputPPQ with
  | [] => pp
  | frame :: rest =>
      if reprocess_rc ≠ 0 then
        { pp with m_inputPPQ := rest, released := pp.released ++ [frame] }
      else
        { pp with m_inputPPQ := rest, m_inputJpegQ := pp.m_inputJpegQ ++ [frame] }

/-- Modelled from the spec: the encode stage of the data-processing routine
(`encodeData`), which is not among the sources.  It takes the first frame of the input
queue of the stage and submits an encode job, with status `encode_rc` and job id
`jobId`: on failure the frame is released and the job is aborted, on success the job
owns the frame until the engine signals completion. -/
def QCameraPostProcessor.encodeStage (encode_rc : Int) (jobId : Nat)
    (pp : QCameraPostProcessor) : QCameraPostProcessor :=
  match pp.m_inputJpegQ with
  | [] => pp
  | frame :: rest =>
      if encode_rc ≠ 0 then
        { pp with m_inputJpegQ := rest, released := pp.released ++ [frame] }
      else
        { pp with
          m_inputJpegQ := rest,
          m_ongoingJpegQ := pp.m_ongoingJpegQ ++ [{ jobId := jobId, src_frame := frame }] }

/-- Modelled from the spec: `processJpegEvt`, which is not among the sources.  The
completion event is matched to its job by job id; the frame of the matched job is
released to the driver and the job leaves the queue, whatever the status of the
encoding; an event with an unmatched job id changes nothing. -/
def QCameraPostProcessor.processJpegEvt (jobId : Nat) (pp : QCameraPostProcessor) :
    QCameraPostProcessor :=
  match pp.m_ongoingJpegQ.find? (fun job => job.jobId = jobId) with
  | none => pp
  | some job =>
      { pp with
        m_ongoingJpegQ := pp.m_ongoingJpegQ.erase job,
        released := pp.released ++ [job.src_frame] }

/-- One frame taken through the post-processor, from `processData` on a newly
constructed post-processor to the completion event of the encode engine. -/
def QCameraPostProcessor.runFrame (needReprocess : Bool) (reprocess_rc encode_rc : Int)
    (jobId : Nat) (frame : Nat) : QCameraPostProcessor :=
  QCameraPostProcessor.processJpegEvt jobId
    (QCameraPostProcessor.encodeStage encode_rc jobId
      (QCameraPostProcessor.reprocessStage reprocess_rc
        (QCameraPostProcessor.processData needReprocess frame {})))

/-! ## Sequences of events -/

/-- The events of a list dispatched through `stateMachine` one after the other, each
with its payload: the machine afterwards. -/
def dispatchAll {σ : Type} (hwi : QCamera2HardwareInterface σ) :
    List (qcamera_sm_evt_enum_t × Payload) → QCameraStateMachine σ → QCameraStateMachine σ
  | [], m => m
  | (evt, payload) :: rest, m => dispatchAll hwi rest (stateMachine hwi evt payload m).2

/-- The machine the constructor leaves (`m_state = QCAMERA_SM_STATE_PREVIEW_STOPPED`)
on a hardware interface that has no preview window yet. -/
def initialMachine : QCameraStateMachine Int :=
  machineIn qcamera_state_enum_t.QCAMERA_SM_STATE_PREVIEW_STOPPED 0

/-! ## Sequences of handle requests -/

/-- The value of `g_handler_history_count` after the first `n` calls of
`mm_camera_util_generate_handler`, when it was `g` before the first call and call
number `k` (counted from 0) is made with the argument `index k`. -/
def handlerCounterAfter (g : Nat) (index : Nat → Nat) : Nat → Nat
  | 0 => g
  | n + 1 =>
      (mm_camera_util_generate_handler (handlerCounterAfter g index n) (index n)).2

/-- The handle returned by call number `n` (counted from 0) of such a sequence. -/
def nthHandler (g : Nat) (index : Nat → Nat) (n : Nat) : Nat :=
  (mm_camera_util_generate_handler (handlerCounterAfter g index n) (index n)).1

/-! ## Opening a camera (`camera_open`, `mm_camera_interface.c`)

A pointer is an address (`NULL` is 0).  The camera objects live in a heap that maps an
address to the object stored there.  The offset of the member `vtbl` inside
`mm_camera_obj_t`, what `malloc` returns and what `mm_camera_open` returns are
parameters.
-/

/-- Camera object, `mm_camera_obj_t` (the members `camera_open` writes; the reference
count is not wrapped around). -/
structure mm_camera_obj_t where
  ref_count : Nat := 0
  my_hdl : Nat := 0
  vtbl_camera_handle : Nat := 0
  deriving DecidableEq, Repr

/-- The global state `camera_open` works on: `g_cam_ctrl.num_cam`, the array
`g_cam_ctrl.cam_obj` of pointers, the heap, and `g_handler_history_count`. -/
structure CameraRegistry where
  num_cam : Nat := 0
  cam_obj : Nat → Int := fun _ => 0
  heap : Int → Option mm_camera_obj_t := fun _ => none
  g_handler_history_count : Nat := 0

/-- The function `camera_open`: the pointer returned and the global state afterwards.
In the branch for a camera that is opened already the function returns
`&cam_obj->vtbl` for its local variable `cam_obj`, which still holds `NULL` there. -/
def camera_open (vtbl_offset : Int) (malloc_ret : Int) (mm_camera_open_rc : Int)
    (camera_idx : Nat) (s : CameraRegistry) : Int × CameraRegistry :=
  let idx := camera_idx % 256
  if idx ≥ s.num_cam then
    (0, s)
  else if s.cam_obj idx ≠ 0 then
    ((0 : Int) + vtbl_offset,
      { s with
        heap := Function.update s.heap (s.cam_obj idx)
          ((s.heap (s.cam_obj idx)).map fun o => { o with ref_count := o.ref_count + 1 }) })
  else if malloc_ret = 0 then
    (0, s)
  else
    let h := mm_camera_util_generate_handler s.g_handler_history_count idx
    if mm_camera_open_rc ≠ 0 then
      (0, { s with
            g_handler_history_count := h.2,
            cam_obj := Function.update s.cam_obj idx 0 })
    else
      (malloc_ret + vtbl_offset,
        { s with
          g_handler_history_count := h.2,
          cam_obj := Function.update s.cam_obj idx malloc_ret,
          heap := Function.update s.heap malloc_ret
            (some { ref_count := 1, my_hdl := h.1, vtbl_camera_handle := h.1 }) })

/-- The camera handle carried by the virtual table a pointer addresses: the member
`vtbl.camera_handle` of the object that starts `vtbl_offset` in front of it, `none`
when no camera object is stored there. -/
def vtblCameraHandle (vtbl_offset : Int) (s : CameraRegistry) (vtbl : Int) : Option Nat :=
  (s.heap (vtbl - vtbl_offset)).map fun o => o.vtbl_camera_handle

/-- The registry of the examples: one camera, not opened yet. -/
def oneCamera : CameraRegistry := { num_cam := 1 }

/-! ## Buffer definition (`QCameraMemory::getBufDef`) -/

/-- Length and offset of one plane, `cam_mp_len_offset_t`. -/
structure cam_mp_len_offset_t where
  len : Nat := 0
  offset : Nat := 0
  deriving DecidableEq, Repr

/-- Plane layout of a frame, `cam_frame_len_offset_t` (the members `getBufDef` reads). -/
structure cam_frame_len_offset_t where
  num_planes : Int := 0
  mp : Nat → cam_mp_len_offset_t := fun _ => {}

/-- One entry of `bufDef.planes` (the members `getBufDef` writes: `length`,
`m.userptr`, `data_offset` and `reserved[0]`). -/
structure BufPlane where
  length : Nat := 0
  userptr : Int := 0
  data_offset : Nat := 0
  reserved0 : Nat := 0
  deriving DecidableEq, Repr

/-- Buffer definition, `mm_camera_buf_def_t` (the members `getBufDef` writes, but for
`mem_info`, which receives the address of the pool). -/
structure mm_camera_buf_def_t where
  fd : Int := 0
  frame_len : Nat := 0
  num_planes : Int := 0
  planes : Nat → BufPlane := fun _ => {}

/-- The loop `for (int i = 1; i < bufDef.num_planes; i++)` of `getBufDef`, from plane
`i` on; `reserved[0]` is a 32-bit unsigned value. -/
def QCameraMemory.planeLoop (p : QCameraMemory) (offset : cam_frame_len_offset_t) :
    Nat → Nat → mm_camera_buf_def_t → mm_camera_buf_def_t
  | 0, _, b => b
  | remaining + 1, i, b =>
      QCameraMemory.planeLoop p offset remaining (i + 1)
        { b with
          planes := Function.update b.planes i
            { length := (offset.mp i).len,
              userptr := (p.mMemInfo i).fd,
              data_offset := (offset.mp i).offset,
              reserved0 :=
                ((b.planes (i - 1)).reserved0 + (b.planes (i - 1)).length) % 4294967296 } }

/-- The function `QCameraMemory::getBufDef` for an index inside the array: the buffer
definition afterwards. -/
def QCameraMemory.getBufDef (p : QCameraMemory) (offset : cam_frame_len_offset_t)
    (bufDef : mm_camera_buf_def_t) (index : Nat) : mm_camera_buf_def_t :=
  if p.mBufferCount = 0 then
    bufDef
  else
    QCameraMemory.planeLoop p offset (offset.num_planes - 1).toNat 1
      { bufDef with
        fd := (p.mMemInfo index).fd,
        frame_len := (p.mMemInfo index).size,
        num_planes := offset.num_planes,
        planes := Function.update bufDef.planes 0
          { length := (offset.mp 0).len,
            userptr := (p.mMemInfo index).fd,
            data_offset := (offset.mp 0).offset,
            reserved0 := 0 } }

/-- Plane layout of the examples: two planes of 6144 and 2048 bytes. -/
def twoPlanes : cam_frame_len_offset_t :=
  { num_planes := 2,
    mp := fun i => if i = 0 then { len := 6144 } else { len := 2048, offset := 0 } }

/-- Replies for the examples: as `grallocAllOk`, but `lock_buffer` fails for buffer
`k`. -/
def grallocWindowLockFailingAt (k : Nat) : Nat → GrallocReply := fun i =>
  { grallocAllOk i with lock_buffer_err := if i = k then -1 else 0 }

/-- Replies for the examples: as `grallocAllOk`, but `dequeue_buffer` fails for buffer
`k` and leaves `NULL` in `mBufferHandle[k]`. -/
def grallocDequeueFailingAt (k : Nat) : Nat → GrallocReply := fun i =>
  if i = k then { dequeue_err := -1 } else grallocAllOk i

/-! ## Theorems -/

section Theorems

variable {σ : Type}

/-- No value outside the enumeration is an API event. -/
theorem isAPIEvt_out (k : Int) : (qcamera_sm_evt_enum_t.OUT_OF_ENUM k).isAPIEvt = false := by
  simp only [qcamera_sm_evt_enum_t.isAPIEvt, qcamera_sm_evt_enum_t.toCode]
  split_ifs <;> simp <;> omega

/-- The handlers touch neither the two queues nor the log of the worker routine. -/
theorem stateMachine_frame (hwi : QCamera2HardwareInterface σ)
    (evt : qcamera_sm_evt_enum_t) (payload : Payload) (m : QCameraStateMachine σ) :
    (stateMachine hwi evt payload m).2.api_queue = m.api_queue ∧
      (stateMachine hwi evt payload m).2.evt_queue = m.evt_queue ∧
      (stateMachine hwi evt payload m).2.worker = m.worker := by
  unfold stateMachine procEvtPreviewStoppedState procEvtPreviewReadyState
    procEvtPreviewingState procEvtPicTakingState procEvtRecordingState
    procEvtVideoPicTakingState procEvtPreviewPicTakingState
  cases m.m_state <;> cases evt <;> dsimp only <;>
    simp only [callAndReply, replyDef, replyEnableFlag, replyParams, setParamsPlain,
      setParamsRestart, setParamsNoRestart, prepareAndStart, procInternalEvt, procNotifyEvt,
      signalAPIResult, call, callUpdateParameters] <;>
    (try split) <;> (try split_ifs) <;> (first | exact ⟨rfl, rfl, rfl⟩ | simp)

/-- C1. Dispatching any of the 24 API events through `stateMachine`, in any of the
seven states and whatever the hardware interface operations return, appends to the
log of invocations a segment that contains `signalAPIResult` exactly once. -/
theorem stateMachine_api_signals_once (hwi : QCamera2HardwareInterface σ)
    (evt : qcamera_sm_evt_enum_t) (payload : Payload) (m : QCameraStateMachine σ)
    (h : evt.isAPIEvt = true) :
    ∃ added, (stateMachine hwi evt payload m).2.calls = m.calls ++ added ∧
      signalCount added = 1 := by
  cases evt
  case OUT_OF_ENUM k => simp [isAPIEvt_out] at h
  case QCAMERA_SM_EVT_EVT_INTERNAL => exact absurd h (by decide)
  case QCAMERA_SM_EVT_EVT_NOTIFY => exact absurd h (by decide)
  case QCAMERA_SM_EVT_JPEG_EVT_NOTIFY => exact absurd h (by decide)
  case QCAMERA_SM_EVT_SNAPSHOT_DONE => exact absurd h (by decide)
  case QCAMERA_SM_EVT_MAX => exact absurd h (by decide)
  all_goals
    clear h
    unfold stateMachine procEvtPreviewStoppedState procEvtPreviewReadyState
      procEvtPreviewingState procEvtPicTakingState procEvtRecordingState
      procEvtVideoPicTakingState procEvtPreviewPicTakingState
    cases m.m_state <;> dsimp only <;>
    simp only [callAndReply, replyDef, replyEnableFlag, replyParams,
        setParamsPlain, setParamsRestart, setParamsNoRestart, prepareAndStart,
        signalAPIResult, call, callUpdateParameters] <;>
    (try split_ifs) <;> (try simp only [List.append_assoc]) <;>
    exact ⟨_, rfl, by simp [signalCount, HwiCall.isSignal]⟩

/-- Witness of C1: `TAKE_PICTURE` is an API event, and dispatching it in `PREVIEWING`
with a failing `takePicture` signals exactly once. -/
theorem stateMachine_api_signals_once_witness :
    qcamera_sm_evt_enum_t.QCAMERA_SM_EVT_TAKE_PICTURE.isAPIEvt = true ∧
    ∃ added, (stateMachine (scriptedHwi (failing HwiCall.takePicture) false)
        qcamera_sm_evt_enum_t.QCAMERA_SM_EVT_TAKE_PICTURE {}
        (machineIn qcamera_state_enum_t.QCAMERA_SM_STATE_PREVIEWING 7)).2.calls =
          (machineIn qcamera_state_enum_t.QCAMERA_SM_STATE_PREVIEWING 7).calls ++ added ∧
      signalCount added = 1 :=
  ⟨by decide, stateMachine_api_signals_once _ _ _ _ (by decide)⟩

/-- C2. When the handler of the current state places an API event in its
cannot-handle group, dispatching the event returns `INVALID_OPERATION`, leaves the
state as it was, and invokes nothing but `signalAPIResult`, once, with a default-type
result that carries `INVALID_OPERATION` and names the event. -/
theorem stateMachine_cannot_handle (hwi : QCamera2HardwareInterface σ)
    (evt : qcamera_sm_evt_enum_t) (payload : Payload) (m : QCameraStateMachine σ)
    (h : cannotHandle m.m_state evt = true) :
    (stateMachine hwi evt payload m).1 = INVALID_OPERATION ∧
      (stateMachine hwi evt payload m).2.m_state = m.m_state ∧
      (stateMachine hwi evt payload m).2.calls = m.calls ++
        [HwiCall.signalAPIResult { status := INVALID_OPERATION, request_api := evt }] := by
  unfold stateMachine procEvtPreviewStoppedState procEvtPreviewReadyState
    procEvtPreviewingState procEvtPicTakingState procEvtRecordingState
    procEvtVideoPicTakingState procEvtPreviewPicTakingState
  generalize hs : m.m_state = s at h ⊢
  cases s <;> cases evt <;>
    first
    | exact Bool.noConfusion h
    | (dsimp only; simp only [replyDef, signalAPIResult, call, hs, and_self])

/-- Witness of C2: `RELEASE` in `RECORDING`. -/
theorem stateMachine_cannot_handle_witness :
    cannotHandle (machineIn qcamera_state_enum_t.QCAMERA_SM_STATE_RECORDING 7).m_state
        qcamera_sm_evt_enum_t.QCAMERA_SM_EVT_RELEASE = true ∧
    (stateMachine (scriptedHwi allSucceed false) qcamera_sm_evt_enum_t.QCAMERA_SM_EVT_RELEASE {}
        (machineIn qcamera_state_enum_t.QCAMERA_SM_STATE_RECORDING 7)).1 = INVALID_OPERATION :=
  ⟨by decide, (stateMachine_cannot_handle _ _ _ _ (by decide)).1⟩

/-- The table `cannotHandle` leaves no rejection out: an API event outside the table
is not rejected when every hardware interface operation succeeds. -/
theorem cannotHandle_complete (s : qcamera_state_enum_t) (evt : qcamera_sm_evt_enum_t)
    (hc : cannotHandle s evt = false) :
    (stateMachine (scriptedHwi allSucceed false) evt {} (machineIn s 7)).1 = NO_ERROR := by
  cases s <;> cases evt <;>
    first
    | rfl
    | exact Bool.noConfusion hc

/-- C3, as stated, fails: `SNAPSHOT_DONE` is an event the handler of `PREVIEW_STOPPED`
does not act on, and the handler returns `NO_ERROR` for it, not `INVALID_OPERATION`. -/
theorem stateMachine_not_acted_on_counterexample :
    notActedOn qcamera_state_enum_t.QCAMERA_SM_STATE_PREVIEW_STOPPED
        qcamera_sm_evt_enum_t.QCAMERA_SM_EVT_SNAPSHOT_DONE = true ∧
    (stateMachine (scriptedHwi allSucceed false)
        qcamera_sm_evt_enum_t.QCAMERA_SM_EVT_SNAPSHOT_DONE {}
        (machineIn qcamera_state_enum_t.QCAMERA_SM_STATE_PREVIEW_STOPPED 0)).1 = NO_ERROR ∧
    (stateMachine (scriptedHwi allSucceed false)
        qcamera_sm_evt_enum_t.QCAMERA_SM_EVT_SNAPSHOT_DONE {}
        (machineIn qcamera_state_enum_t.QCAMERA_SM_STATE_PREVIEW_STOPPED 0)).1 ≠
      INVALID_OPERATION :=
  ⟨rfl, rfl, by decide⟩

/-- C3, amended. For an event the handler of the current state does not act on, the
handler returns `INVALID_OPERATION` when the event is an API event and `NO_ERROR`
when it is not; the state is unchanged, and for an event that is not an API event
the whole machine is unchanged (nothing is invoked, no result is signalled). -/
theorem stateMachine_not_acted_on (hwi : QCamera2HardwareInterface σ)
    (evt : qcamera_sm_evt_enum_t) (payload : Payload) (m : QCameraStateMachine σ)
    (h : notActedOn m.m_state evt = true) :
    (stateMachine hwi evt payload m).1 =
        (if evt.isAPIEvt then INVALID_OPERATION else NO_ERROR) ∧
      (stateMachine hwi evt payload m).2.m_state = m.m_state ∧
      (evt.isAPIEvt = false → (stateMachine hwi evt payload m).2 = m) := by
  unfold stateMachine procEvtPreviewStoppedState procEvtPreviewReadyState
    procEvtPreviewingState procEvtPicTakingState procEvtRecordingState
    procEvtVideoPicTakingState procEvtPreviewPicTakingState
  generalize hs : m.m_state = s at h ⊢
  cases s <;> cases evt <;>
    first
    | exact Bool.noConfusion h
    | (dsimp only
       simp only [isAPIEvt_out]
       exact ⟨by simp, hs, fun _ => trivial⟩)
    | (dsimp only
       simp [replyDef, signalAPIResult, call, hs, qcamera_sm_evt_enum_t.isAPIEvt,
         qcamera_sm_evt_enum_t.toCode])

/-- Witness of C3, amended: `SNAPSHOT_DONE` in `RECORDING`. -/
theorem stateMachine_not_acted_on_witness :
    notActedOn (machineIn qcamera_state_enum_t.QCAMERA_SM_STATE_RECORDING 7).m_state
        qcamera_sm_evt_enum_t.QCAMERA_SM_EVT_SNAPSHOT_DONE = true ∧
    (stateMachine (scriptedHwi allSucceed false)
        qcamera_sm_evt_enum_t.QCAMERA_SM_EVT_SNAPSHOT_DONE {}
        (machineIn qcamera_state_enum_t.QCAMERA_SM_STATE_RECORDING 7)).1 =
      (if qcamera_sm_evt_enum_t.QCAMERA_SM_EVT_SNAPSHOT_DONE.isAPIEvt
        then INVALID_OPERATION else NO_ERROR) :=
  ⟨rfl, (stateMachine_not_acted_on (scriptedHwi allSucceed false)
    qcamera_sm_evt_enum_t.QCAMERA_SM_EVT_SNAPSHOT_DONE {}
    (machineIn qcamera_state_enum_t.QCAMERA_SM_STATE_RECORDING 7) rfl).1⟩

/-- C4. At a wake with a command at the head of the API queue and a non-empty event
queue, the iteration handles exactly that head: it is taken off the API queue, it is
the only record the iteration dispatches, an API record among them is dispatched to
the state handler once, and the event queue is left as it was. -/
theorem procCmd_api_first (hwi : QCamera2HardwareInterface σ) (m : QCameraStateMachine σ)
    (node : qcamera_sm_cmd_t) (rest : List qcamera_sm_cmd_t)
    (ha : m.api_queue = node :: rest) (_he : m.evt_queue ≠ []) :
    procCmd hwi m = dispatchNode hwi node { m with api_queue := rest } ∧
      (procCmd hwi m).2.evt_queue = m.evt_queue ∧
      (procCmd hwi m).2.api_queue = rest ∧
      (∃ added, (procCmd hwi m).2.worker = m.worker ++ added ∧
        (∀ other, WorkerAct.dispatch other ∈ added → other = node) ∧
        (node.cmd = qcamera_sm_cmd_type_t.QCAMERA_SM_CMD_TYPE_API →
          added = [WorkerAct.dispatch node, WorkerAct.freeNode node])) := by
  have hp : procCmd hwi m = dispatchNode hwi node { m with api_queue := rest } := by
    unfold procCmd
    rw [ha]
    rfl
  rw [hp]
  refine ⟨rfl, ?_, ?_, ?_⟩
  · unfold dispatchNode
    cases node.cmd <;> dsimp only <;>
      exact (stateMachine_frame hwi _ _ _).2.1
  · unfold dispatchNode
    cases node.cmd <;> dsimp only <;>
      exact (stateMachine_frame hwi _ _ _).1
  · unfold dispatchNode
    cases node.cmd <;> dsimp only
    · exact ⟨[WorkerAct.dispatch node, WorkerAct.freeNode node],
        by rw [(stateMachine_frame hwi _ _ _).2.2]; simp, by simp, by simp⟩
    · exact ⟨[WorkerAct.dispatch node, WorkerAct.freePayload node, WorkerAct.freeNode node],
        by rw [(stateMachine_frame hwi _ _ _).2.2]; simp, by simp, by simp⟩
    · exact ⟨[WorkerAct.freeNode node], rfl, by simp, by simp⟩
    · exact ⟨[WorkerAct.freeNode node], rfl, by simp, by simp⟩

/-- Witness of C4: with `STOP_PREVIEW` pending in the API queue and a zoom-done event
pending in the event queue, the iteration dispatches `STOP_PREVIEW` and leaves the
event where it is. -/
theorem procCmd_api_first_witness :
    pendingBoth.api_queue =
      [{ cmd := qcamera_sm_cmd_type_t.QCAMERA_SM_CMD_TYPE_API,
         evt := qcamera_sm_evt_enum_t.QCAMERA_SM_EVT_STOP_PREVIEW, evt_payload := {} }] ∧
    pendingBoth.evt_queue ≠ [] ∧
    (procCmd (scriptedHwi allSucceed false) pendingBoth).2.evt_queue = pendingBoth.evt_queue ∧
    (procCmd (scriptedHwi allSucceed false) pendingBoth).2.api_queue = [] :=
  ⟨rfl, by decide,
    (procCmd_api_first (scriptedHwi allSucceed false) pendingBoth _ [] rfl (by decide)).2.1,
    (procCmd_api_first (scriptedHwi allSucceed false) pendingBoth _ [] rfl (by decide)).2.2.1⟩

/-- C5. `START_PREVIEW` dispatched in `PREVIEW_STOPPED`.  Without a preview window the
state becomes `PREVIEW_READY`, the status is `NO_ERROR` and only the result is
signalled.  With a window the state becomes `PREVIEWING` exactly when `preparePreview`
and then `startPreview` both return `NO_ERROR`; when `preparePreview` fails the state
stays `PREVIEW_STOPPED`, the status is that of `preparePreview` and nothing else is
invoked before the signal; when `startPreview` fails the state stays
`PREVIEW_STOPPED`, the status is that of `startPreview`, and `unpreparePreview` is
invoked before the result is signalled. -/
theorem startPreview_in_previewStopped (hwi : QCamera2HardwareInterface σ)
    (payload : Payload) (m : QCameraStateMachine σ)
    (hs : m.m_state = qcamera_state_enum_t.QCAMERA_SM_STATE_PREVIEW_STOPPED) :
    (hwi.mPreviewWindow m.m_parent = 0 →
      (stateMachine hwi qcamera_sm_evt_enum_t.QCAMERA_SM_EVT_START_PREVIEW payload m).1 = NO_ERROR ∧
      (stateMachine hwi qcamera_sm_evt_enum_t.QCAMERA_SM_EVT_START_PREVIEW payload m).2.m_state = qcamera_state_enum_t.QCAMERA_SM_STATE_PREVIEW_READY ∧
      (stateMachine hwi qcamera_sm_evt_enum_t.QCAMERA_SM_EVT_START_PREVIEW payload m).2.calls = m.calls ++
        [HwiCall.signalAPIResult { status := NO_ERROR, request_api := qcamera_sm_evt_enum_t.QCAMERA_SM_EVT_START_PREVIEW }]) ∧
    (hwi.mPreviewWindow m.m_parent ≠ 0 →
      ((stateMachine hwi qcamera_sm_evt_enum_t.QCAMERA_SM_EVT_START_PREVIEW payload m).2.m_state = qcamera_state_enum_t.QCAMERA_SM_STATE_PREVIEWING ↔
        (hwi.exec HwiCall.preparePreview m.m_parent).1 = NO_ERROR ∧
        (hwi.exec HwiCall.startPreview
          (hwi.exec HwiCall.preparePreview m.m_parent).2).1 = NO_ERROR) ∧
      ((stateMachine hwi qcamera_sm_evt_enum_t.QCAMERA_SM_EVT_START_PREVIEW payload m).2.m_state ≠ qcamera_state_enum_t.QCAMERA_SM_STATE_PREVIEWING →
        (stateMachine hwi qcamera_sm_evt_enum_t.QCAMERA_SM_EVT_START_PREVIEW payload m).2.m_state = qcamera_state_enum_t.QCAMERA_SM_STATE_PREVIEW_STOPPED) ∧
      ((hwi.exec HwiCall.preparePreview m.m_parent).1 ≠ NO_ERROR →
        (stateMachine hwi qcamera_sm_evt_enum_t.QCAMERA_SM_EVT_START_PREVIEW payload m).1 =
          (hwi.exec HwiCall.preparePreview m.m_parent).1 ∧
        (stateMachine hwi qcamera_sm_evt_enum_t.QCAMERA_SM_EVT_START_PREVIEW payload m).2.calls = m.calls ++
          [HwiCall.preparePreview,
           HwiCall.signalAPIResult
            { status := (hwi.exec HwiCall.preparePreview m.m_parent).1,
              request_api := qcamera_sm_evt_enum_t.QCAMERA_SM_EVT_START_PREVIEW }]) ∧
      ((hwi.exec HwiCall.preparePreview m.m_parent).1 = NO_ERROR →
        (hwi.exec HwiCall.startPreview
          (hwi.exec HwiCall.preparePreview m.m_parent).2).1 ≠ NO_ERROR →
        (stateMachine hwi qcamera_sm_evt_enum_t.QCAMERA_SM_EVT_START_PREVIEW payload m).1 =
          (hwi.exec HwiCall.startPreview
            (hwi.exec HwiCall.preparePreview m.m_parent).2).1 ∧
        (stateMachine hwi qcamera_sm_evt_enum_t.QCAMERA_SM_EVT_START_PREVIEW payload m).2.calls = m.calls ++
          [HwiCall.preparePreview, HwiCall.startPreview, HwiCall.unpreparePreview,
           HwiCall.signalAPIResult
            { status := (hwi.exec HwiCall.startPreview
                (hwi.exec HwiCall.preparePreview m.m_parent).2).1,
              request_api := qcamera_sm_evt_enum_t.QCAMERA_SM_EVT_START_PREVIEW }]) ∧
      ((hwi.exec HwiCall.preparePreview m.m_parent).1 = NO_ERROR →
        (hwi.exec HwiCall.startPreview
          (hwi.exec HwiCall.preparePreview m.m_parent).2).1 = NO_ERROR →
        (stateMachine hwi qcamera_sm_evt_enum_t.QCAMERA_SM_EVT_START_PREVIEW payload m).1 = NO_ERROR ∧
        (stateMachine hwi qcamera_sm_evt_enum_t.QCAMERA_SM_EVT_START_PREVIEW payload m).2.calls = m.calls ++
          [HwiCall.preparePreview, HwiCall.startPreview,
           HwiCall.signalAPIResult
            { status := NO_ERROR, request_api := qcamera_sm_evt_enum_t.QCAMERA_SM_EVT_START_PREVIEW }])) := by
  unfold stateMachine
  rw [hs]
  dsimp only
  unfold procEvtPreviewStoppedState
  dsimp only
  simp only [prepareAndStart, replyDef, signalAPIResult, call]
  refine ⟨fun hw => ?_, fun hw => ?_⟩
  · simp [hw]
  · rw [if_neg hw]
    split_ifs with hp hst <;> simp_all

/-- Witness of C5: a window is set, `preparePreview` succeeds and `startPreview` fails
with status `-1`: the status is `-1` and `unpreparePreview` runs before the signal. -/
theorem startPreview_in_previewStopped_witness :
    (machineIn qcamera_state_enum_t.QCAMERA_SM_STATE_PREVIEW_STOPPED 7).m_state = qcamera_state_enum_t.QCAMERA_SM_STATE_PREVIEW_STOPPED ∧
    (scriptedHwi (failing HwiCall.startPreview) false).mPreviewWindow
      (machineIn qcamera_state_enum_t.QCAMERA_SM_STATE_PREVIEW_STOPPED 7).m_parent ≠ 0 ∧
    (stateMachine (scriptedHwi (failing HwiCall.startPreview) false) qcamera_sm_evt_enum_t.QCAMERA_SM_EVT_START_PREVIEW {}
      (machineIn qcamera_state_enum_t.QCAMERA_SM_STATE_PREVIEW_STOPPED 7)).1 = -1 ∧
    (stateMachine (scriptedHwi (failing HwiCall.startPreview) false) qcamera_sm_evt_enum_t.QCAMERA_SM_EVT_START_PREVIEW {}
      (machineIn qcamera_state_enum_t.QCAMERA_SM_STATE_PREVIEW_STOPPED 7)).2.calls =
        [HwiCall.preparePreview, HwiCall.startPreview, HwiCall.unpreparePreview,
         HwiCall.signalAPIResult { status := -1, request_api := qcamera_sm_evt_enum_t.QCAMERA_SM_EVT_START_PREVIEW }] :=
  ⟨rfl, by decide,
    ((startPreview_in_previewStopped (scriptedHwi (failing HwiCall.startPreview) false) {}
      (machineIn qcamera_state_enum_t.QCAMERA_SM_STATE_PREVIEW_STOPPED 7) rfl).2 (by decide)).2.2.2.1 (by decide) (by decide)⟩

/-- C6. `SET_PREVIEW_WINDOW` dispatched in `PREVIEW_READY` with a non-null window, on a
hardware interface whose `setPreviewWindow` records the window it is given in
`mPreviewWindow`: `startPreview` is invoked; when it returns `NO_ERROR` the state
becomes `PREVIEWING` and the status is `NO_ERROR`; when it fails the state becomes
`PREVIEW_STOPPED` and the status is the one it returned; the state is never
`PREVIEW_READY` afterwards. -/
theorem setPreviewWindow_in_previewReady (hwi : QCamera2HardwareInterface σ)
    (payload : Payload) (m : QCameraStateMachine σ)
    (hs : m.m_state = qcamera_state_enum_t.QCAMERA_SM_STATE_PREVIEW_READY)
    (hstore : hwi.mPreviewWindow
      (hwi.exec (HwiCall.setPreviewWindow payload.ptr) m.m_parent).2 = payload.ptr)
    (hvalid : payload.ptr ≠ 0) :
    ((hwi.exec HwiCall.startPreview
        (hwi.exec (HwiCall.setPreviewWindow payload.ptr) m.m_parent).2).1 = NO_ERROR →
      (stateMachine hwi qcamera_sm_evt_enum_t.QCAMERA_SM_EVT_SET_PREVIEW_WINDOW payload m).1 = NO_ERROR ∧
      (stateMachine hwi qcamera_sm_evt_enum_t.QCAMERA_SM_EVT_SET_PREVIEW_WINDOW payload m).2.m_state = qcamera_state_enum_t.QCAMERA_SM_STATE_PREVIEWING ∧
      (stateMachine hwi qcamera_sm_evt_enum_t.QCAMERA_SM_EVT_SET_PREVIEW_WINDOW payload m).2.calls = m.calls ++
        [HwiCall.setPreviewWindow payload.ptr, HwiCall.startPreview,
         HwiCall.signalAPIResult
          { status := NO_ERROR, request_api := qcamera_sm_evt_enum_t.QCAMERA_SM_EVT_SET_PREVIEW_WINDOW }]) ∧
    ((hwi.exec HwiCall.startPreview
        (hwi.exec (HwiCall.setPreviewWindow payload.ptr) m.m_parent).2).1 ≠ NO_ERROR →
      (stateMachine hwi qcamera_sm_evt_enum_t.QCAMERA_SM_EVT_SET_PREVIEW_WINDOW payload m).1 =
        (hwi.exec HwiCall.startPreview
          (hwi.exec (HwiCall.setPreviewWindow payload.ptr) m.m_parent).2).1 ∧
      (stateMachine hwi qcamera_sm_evt_enum_t.QCAMERA_SM_EVT_SET_PREVIEW_WINDOW payload m).2.m_state = qcamera_state_enum_t.QCAMERA_SM_STATE_PREVIEW_STOPPED ∧
      (stateMachine hwi qcamera_sm_evt_enum_t.QCAMERA_SM_EVT_SET_PREVIEW_WINDOW payload m).2.calls = m.calls ++
        [HwiCall.setPreviewWindow payload.ptr, HwiCall.startPreview,
         HwiCall.unpreparePreview,
         HwiCall.signalAPIResult
          { status := (hwi.exec HwiCall.startPreview
              (hwi.exec (HwiCall.setPreviewWindow payload.ptr) m.m_parent).2).1,
            request_api := qcamera_sm_evt_enum_t.QCAMERA_SM_EVT_SET_PREVIEW_WINDOW }]) ∧
    (stateMachine hwi qcamera_sm_evt_enum_t.QCAMERA_SM_EVT_SET_PREVIEW_WINDOW payload m).2.m_state ≠ qcamera_state_enum_t.QCAMERA_SM_STATE_PREVIEW_READY := by
  unfold stateMachine
  rw [hs]
  dsimp only
  unfold procEvtPreviewReadyState
  dsimp only
  simp only [replyDef, signalAPIResult, call]
  rw [hstore, if_pos hvalid]
  split_ifs with hst <;> simp_all

/-- Witness of C6: window `7` is supplied and `startPreview` fails with status `-1`. -/
theorem setPreviewWindow_in_previewReady_witness :
    (machineIn qcamera_state_enum_t.QCAMERA_SM_STATE_PREVIEW_READY 0).m_state = qcamera_state_enum_t.QCAMERA_SM_STATE_PREVIEW_READY ∧
    (stateMachine (scriptedHwi (failing HwiCall.startPreview) false) qcamera_sm_evt_enum_t.QCAMERA_SM_EVT_SET_PREVIEW_WINDOW
      { ptr := 7 } (machineIn qcamera_state_enum_t.QCAMERA_SM_STATE_PREVIEW_READY 0)).1 = -1 ∧
    (stateMachine (scriptedHwi (failing HwiCall.startPreview) false) qcamera_sm_evt_enum_t.QCAMERA_SM_EVT_SET_PREVIEW_WINDOW
      { ptr := 7 } (machineIn qcamera_state_enum_t.QCAMERA_SM_STATE_PREVIEW_READY 0)).2.m_state = qcamera_state_enum_t.QCAMERA_SM_STATE_PREVIEW_STOPPED ∧
    (stateMachine (scriptedHwi (failing HwiCall.startPreview) false) qcamera_sm_evt_enum_t.QCAMERA_SM_EVT_SET_PREVIEW_WINDOW
      { ptr := 7 } (machineIn qcamera_state_enum_t.QCAMERA_SM_STATE_PREVIEW_READY 0)).2.calls =
        [HwiCall.setPreviewWindow 7, HwiCall.startPreview, HwiCall.unpreparePreview,
         HwiCall.signalAPIResult { status := -1, request_api := qcamera_sm_evt_enum_t.QCAMERA_SM_EVT_SET_PREVIEW_WINDOW }] :=
  ⟨rfl, (setPreviewWindow_in_previewReady (scriptedHwi (failing HwiCall.startPreview) false)
    { ptr := 7 } (machineIn qcamera_state_enum_t.QCAMERA_SM_STATE_PREVIEW_READY 0) rfl rfl (by decide)).2.1 (by decide)⟩

/-- C7. `TAKE_PICTURE` dispatched in `PREVIEWING`: `takePicture` is invoked, its status
is the status returned and the status signalled; the state becomes `PIC_TAKING` when
that status is `NO_ERROR` and `PREVIEW_STOPPED` otherwise, and is never `PREVIEWING`
afterwards. -/
theorem takePicture_in_previewing (hwi : QCamera2HardwareInterface σ)
    (payload : Payload) (m : QCameraStateMachine σ)
    (hs : m.m_state = qcamera_state_enum_t.QCAMERA_SM_STATE_PREVIEWING) :
    (stateMachine hwi qcamera_sm_evt_enum_t.QCAMERA_SM_EVT_TAKE_PICTURE payload m).1 = (hwi.exec HwiCall.takePicture m.m_parent).1 ∧
    (stateMachine hwi qcamera_sm_evt_enum_t.QCAMERA_SM_EVT_TAKE_PICTURE payload m).2.calls = m.calls ++
      [HwiCall.takePicture,
       HwiCall.signalAPIResult
        { status := (hwi.exec HwiCall.takePicture m.m_parent).1, request_api := qcamera_sm_evt_enum_t.QCAMERA_SM_EVT_TAKE_PICTURE }] ∧
    ((hwi.exec HwiCall.takePicture m.m_parent).1 = NO_ERROR →
      (stateMachine hwi qcamera_sm_evt_enum_t.QCAMERA_SM_EVT_TAKE_PICTURE payload m).2.m_state = qcamera_state_enum_t.QCAMERA_SM_STATE_PIC_TAKING) ∧
    ((hwi.exec HwiCall.takePicture m.m_parent).1 ≠ NO_ERROR →
      (stateMachine hwi qcamera_sm_evt_enum_t.QCAMERA_SM_EVT_TAKE_PICTURE payload m).2.m_state = qcamera_state_enum_t.QCAMERA_SM_STATE_PREVIEW_STOPPED) ∧
    (stateMachine hwi qcamera_sm_evt_enum_t.QCAMERA_SM_EVT_TAKE_PICTURE payload m).2.m_state ≠ qcamera_state_enum_t.QCAMERA_SM_STATE_PREVIEWING := by
  unfold stateMachine
  rw [hs]
  dsimp only
  unfold procEvtPreviewingState
  dsimp only
  simp only [replyDef, signalAPIResult, call]
  split_ifs with hst <;> simp_all

/-- Witness of C7: `takePicture` fails with status `-1`. -/
theorem takePicture_in_previewing_witness :
    (machineIn qcamera_state_enum_t.QCAMERA_SM_STATE_PREVIEWING 7).m_state = qcamera_state_enum_t.QCAMERA_SM_STATE_PREVIEWING ∧
    (stateMachine (scriptedHwi (failing HwiCall.takePicture) false) qcamera_sm_evt_enum_t.QCAMERA_SM_EVT_TAKE_PICTURE {}
      (machineIn qcamera_state_enum_t.QCAMERA_SM_STATE_PREVIEWING 7)).2.m_state = qcamera_state_enum_t.QCAMERA_SM_STATE_PREVIEW_STOPPED :=
  ⟨rfl, (takePicture_in_previewing (scriptedHwi (failing HwiCall.takePicture) false) {}
    (machineIn qcamera_state_enum_t.QCAMERA_SM_STATE_PREVIEWING 7) rfl).2.2.2.1 (by decide)⟩

/-- C8. `START_RECORDING` in `PREVIEWING` invokes `startRecording` and `TAKE_PICTURE`
in `RECORDING` invokes `takeLiveSnapshot`; in both cases the status of the operation
is returned and signalled, the state advances (to `RECORDING`, respectively
`VIDEO_PIC_TAKING`) exactly when that status is `NO_ERROR`, and the state is
unchanged when it is not. -/
theorem start_activity_on_running_preview (hwi : QCamera2HardwareInterface σ)
    (payload : Payload) (m : QCameraStateMachine σ) :
    (m.m_state = qcamera_state_enum_t.QCAMERA_SM_STATE_PREVIEWING →
      ((stateMachine hwi qcamera_sm_evt_enum_t.QCAMERA_SM_EVT_START_RECORDING payload m).2.m_state = qcamera_state_enum_t.QCAMERA_SM_STATE_RECORDING ↔
        (hwi.exec HwiCall.startRecording m.m_parent).1 = NO_ERROR) ∧
      ((hwi.exec HwiCall.startRecording m.m_parent).1 ≠ NO_ERROR →
        (stateMachine hwi qcamera_sm_evt_enum_t.QCAMERA_SM_EVT_START_RECORDING payload m).2.m_state = m.m_state) ∧
      (stateMachine hwi qcamera_sm_evt_enum_t.QCAMERA_SM_EVT_START_RECORDING payload m).1 = (hwi.exec HwiCall.startRecording m.m_parent).1 ∧
      (stateMachine hwi qcamera_sm_evt_enum_t.QCAMERA_SM_EVT_START_RECORDING payload m).2.calls = m.calls ++
        [HwiCall.startRecording,
         HwiCall.signalAPIResult
          { status := (hwi.exec HwiCall.startRecording m.m_parent).1, request_api := qcamera_sm_evt_enum_t.QCAMERA_SM_EVT_START_RECORDING }]) ∧
    (m.m_state = qcamera_state_enum_t.QCAMERA_SM_STATE_RECORDING →
      ((stateMachine hwi qcamera_sm_evt_enum_t.QCAMERA_SM_EVT_TAKE_PICTURE payload m).2.m_state = qcamera_state_enum_t.QCAMERA_SM_STATE_VIDEO_PIC_TAKING ↔
        (hwi.exec HwiCall.takeLiveSnapshot m.m_parent).1 = NO_ERROR) ∧
      ((hwi.exec HwiCall.takeLiveSnapshot m.m_parent).1 ≠ NO_ERROR →
        (stateMachine hwi qcamera_sm_evt_enum_t.QCAMERA_SM_EVT_TAKE_PICTURE payload m).2.m_state = m.m_state) ∧
      (stateMachine hwi qcamera_sm_evt_enum_t.QCAMERA_SM_EVT_TAKE_PICTURE payload m).1 = (hwi.exec HwiCall.takeLiveSnapshot m.m_parent).1 ∧
      (stateMachine hwi qcamera_sm_evt_enum_t.QCAMERA_SM_EVT_TAKE_PICTURE payload m).2.calls = m.calls ++
        [HwiCall.takeLiveSnapshot,
         HwiCall.signalAPIResult
          { status := (hwi.exec HwiCall.takeLiveSnapshot m.m_parent).1, request_api := qcamera_sm_evt_enum_t.QCAMERA_SM_EVT_TAKE_PICTURE }]) := by
  unfold stateMachine procEvtPreviewStoppedState procEvtPreviewReadyState
    procEvtPreviewingState procEvtPicTakingState procEvtRecordingState
    procEvtVideoPicTakingState procEvtPreviewPicTakingState
  refine ⟨fun hs => ?_, fun hs => ?_⟩ <;>
    (rw [hs]; dsimp only; simp only [replyDef, signalAPIResult, call]) <;>
    split_ifs with hst <;> simp_all [NO_ERROR]

/-- Witness of C8: both operations fail with status `-1` and the state is unchanged. -/
theorem start_activity_on_running_preview_witness :
    ((machineIn qcamera_state_enum_t.QCAMERA_SM_STATE_PREVIEWING 7).m_state = qcamera_state_enum_t.QCAMERA_SM_STATE_PREVIEWING ∧
      (stateMachine (scriptedHwi (failing HwiCall.startRecording) false) qcamera_sm_evt_enum_t.QCAMERA_SM_EVT_START_RECORDING {}
        (machineIn qcamera_state_enum_t.QCAMERA_SM_STATE_PREVIEWING 7)).2.m_state = (machineIn qcamera_state_enum_t.QCAMERA_SM_STATE_PREVIEWING 7).m_state) ∧
    ((machineIn qcamera_state_enum_t.QCAMERA_SM_STATE_RECORDING 7).m_state = qcamera_state_enum_t.QCAMERA_SM_STATE_RECORDING ∧
      (stateMachine (scriptedHwi (failing HwiCall.takeLiveSnapshot) false) qcamera_sm_evt_enum_t.QCAMERA_SM_EVT_TAKE_PICTURE {}
        (machineIn qcamera_state_enum_t.QCAMERA_SM_STATE_RECORDING 7)).2.m_state = (machineIn qcamera_state_enum_t.QCAMERA_SM_STATE_RECORDING 7).m_state) :=
  ⟨⟨rfl, ((start_activity_on_running_preview
      (scriptedHwi (failing HwiCall.startRecording) false) {}
      (machineIn qcamera_state_enum_t.QCAMERA_SM_STATE_PREVIEWING 7)).1 rfl).2.1 (by decide)⟩,
   ⟨rfl, ((start_activity_on_running_preview
      (scriptedHwi (failing HwiCall.takeLiveSnapshot) false) {}
      (machineIn qcamera_state_enum_t.QCAMERA_SM_STATE_RECORDING 7)).2 rfl).2.1 (by decide)⟩⟩

/-- C9. For the stop and cancel requests the next state is a fixed target whatever
the underlying operation returns; the status of that operation is returned and
signalled.  `STOP_RECORDING` leads from `VIDEO_PIC_TAKING` to `PREVIEW_PIC_TAKING` and
from `RECORDING` to `PREVIEWING`, `STOP_PREVIEW` from `PREVIEWING` to
`PREVIEW_STOPPED`, and `CANCEL_PICTURE` from `PIC_TAKING` to `PREVIEW_STOPPED`, from
`VIDEO_PIC_TAKING` to `RECORDING` and from `PREVIEW_PIC_TAKING` to `PREVIEWING`. -/
theorem stop_and_cancel_fixed_target (hwi : QCamera2HardwareInterface σ)
    (payload : Payload) (m : QCameraStateMachine σ) :
    (m.m_state = qcamera_state_enum_t.QCAMERA_SM_STATE_VIDEO_PIC_TAKING →
      (stateMachine hwi qcamera_sm_evt_enum_t.QCAMERA_SM_EVT_STOP_RECORDING payload m).2.m_state = qcamera_state_enum_t.QCAMERA_SM_STATE_PREVIEW_PIC_TAKING ∧
      (stateMachine hwi qcamera_sm_evt_enum_t.QCAMERA_SM_EVT_STOP_RECORDING payload m).1 = (hwi.exec HwiCall.stopRecording m.m_parent).1 ∧
      (stateMachine hwi qcamera_sm_evt_enum_t.QCAMERA_SM_EVT_STOP_RECORDING payload m).2.calls = m.calls ++
        [HwiCall.stopRecording,
         HwiCall.signalAPIResult
          { status := (hwi.exec HwiCall.stopRecording m.m_parent).1, request_api := qcamera_sm_evt_enum_t.QCAMERA_SM_EVT_STOP_RECORDING }]) ∧
    (m.m_state = qcamera_state_enum_t.QCAMERA_SM_STATE_RECORDING →
      (stateMachine hwi qcamera_sm_evt_enum_t.QCAMERA_SM_EVT_STOP_RECORDING payload m).2.m_state = qcamera_state_enum_t.QCAMERA_SM_STATE_PREVIEWING ∧
      (stateMachine hwi qcamera_sm_evt_enum_t.QCAMERA_SM_EVT_STOP_RECORDING payload m).1 = (hwi.exec HwiCall.stopRecording m.m_parent).1 ∧
      (stateMachine hwi qcamera_sm_evt_enum_t.QCAMERA_SM_EVT_STOP_RECORDING payload m).2.calls = m.calls ++
        [HwiCall.stopRecording,
         HwiCall.signalAPIResult
          { status := (hwi.exec HwiCall.stopRecording m.m_parent).1, request_api := qcamera_sm_evt_enum_t.QCAMERA_SM_EVT_STOP_RECORDING }]) ∧
    (m.m_state = qcamera_state_enum_t.QCAMERA_SM_STATE_PREVIEWING →
      (stateMachine hwi qcamera_sm_evt_enum_t.QCAMERA_SM_EVT_STOP_PREVIEW payload m).2.m_state = qcamera_state_enum_t.QCAMERA_SM_STATE_PREVIEW_STOPPED ∧
      (stateMachine hwi qcamera_sm_evt_enum_t.QCAMERA_SM_EVT_STOP_PREVIEW payload m).1 = (hwi.exec HwiCall.stopPreview m.m_parent).1 ∧
      (stateMachine hwi qcamera_sm_evt_enum_t.QCAMERA_SM_EVT_STOP_PREVIEW payload m).2.calls = m.calls ++
        [HwiCall.stopPreview,
         HwiCall.signalAPIResult
          { status := (hwi.exec HwiCall.stopPreview m.m_parent).1, request_api := qcamera_sm_evt_enum_t.QCAMERA_SM_EVT_STOP_PREVIEW }]) ∧
    (m.m_state = qcamera_state_enum_t.QCAMERA_SM_STATE_PIC_TAKING →
      (stateMachine hwi qcamera_sm_evt_enum_t.QCAMERA_SM_EVT_CANCEL_PICTURE payload m).2.m_state = qcamera_state_enum_t.QCAMERA_SM_STATE_PREVIEW_STOPPED ∧
      (stateMachine hwi qcamera_sm_evt_enum_t.QCAMERA_SM_EVT_CANCEL_PICTURE payload m).1 = (hwi.exec HwiCall.cancelPicture m.m_parent).1 ∧
      (stateMachine hwi qcamera_sm_evt_enum_t.QCAMERA_SM_EVT_CANCEL_PICTURE payload m).2.calls = m.calls ++
        [HwiCall.cancelPicture,
         HwiCall.signalAPIResult
          { status := (hwi.exec HwiCall.cancelPicture m.m_parent).1, request_api := qcamera_sm_evt_enum_t.QCAMERA_SM_EVT_CANCEL_PICTURE }]) ∧
    (m.m_state = qcamera_state_enum_t.QCAMERA_SM_STATE_VIDEO_PIC_TAKING →
      (stateMachine hwi qcamera_sm_evt_enum_t.QCAMERA_SM_EVT_CANCEL_PICTURE payload m).2.m_state = qcamera_state_enum_t.QCAMERA_SM_STATE_RECORDING ∧
      (stateMachine hwi qcamera_sm_evt_enum_t.QCAMERA_SM_EVT_CANCEL_PICTURE payload m).1 = (hwi.exec HwiCall.cancelLiveSnapshot m.m_parent).1 ∧
      (stateMachine hwi qcamera_sm_evt_enum_t.QCAMERA_SM_EVT_CANCEL_PICTURE payload m).2.calls = m.calls ++
        [HwiCall.cancelLiveSnapshot,
         HwiCall.signalAPIResult
          { status := (hwi.exec HwiCall.cancelLiveSnapshot m.m_parent).1, request_api := qcamera_sm_evt_enum_t.QCAMERA_SM_EVT_CANCEL_PICTURE }]) ∧
    (m.m_state = qcamera_state_enum_t.QCAMERA_SM_STATE_PREVIEW_PIC_TAKING →
      (stateMachine hwi qcamera_sm_evt_enum_t.QCAMERA_SM_EVT_CANCEL_PICTURE payload m).2.m_state = qcamera_state_enum_t.QCAMERA_SM_STATE_PREVIEWING ∧
      (stateMachine hwi qcamera_sm_evt_enum_t.QCAMERA_SM_EVT_CANCEL_PICTURE payload m).1 = (hwi.exec HwiCall.cancelLiveSnapshot m.m_parent).1 ∧
      (stateMachine hwi qcamera_sm_evt_enum_t.QCAMERA_SM_EVT_CANCEL_PICTURE payload m).2.calls = m.calls ++
        [HwiCall.cancelLiveSnapshot,
         HwiCall.signalAPIResult
          { status := (hwi.exec HwiCall.cancelLiveSnapshot m.m_parent).1, request_api := qcamera_sm_evt_enum_t.QCAMERA_SM_EVT_CANCEL_PICTURE }]) := by
  unfold stateMachine procEvtPreviewStoppedState procEvtPreviewReadyState
    procEvtPreviewingState procEvtPicTakingState procEvtRecordingState
    procEvtVideoPicTakingState procEvtPreviewPicTakingState
  refine ⟨fun hs => ?_, fun hs => ?_, fun hs => ?_, fun hs => ?_, fun hs => ?_, fun hs => ?_⟩ <;>
    (rw [hs]; dsimp only; simp [replyDef, signalAPIResult, call])

/-- Witness of C9: each of the six transitions with its operation failing with
status `-1`: the target state is reached and `-1` is returned. -/
theorem stop_and_cancel_fixed_target_witness :
    ((machineIn qcamera_state_enum_t.QCAMERA_SM_STATE_VIDEO_PIC_TAKING 7).m_state = qcamera_state_enum_t.QCAMERA_SM_STATE_VIDEO_PIC_TAKING ∧
      (stateMachine (scriptedHwi (failing HwiCall.stopRecording) false) qcamera_sm_evt_enum_t.QCAMERA_SM_EVT_STOP_RECORDING {}
        (machineIn qcamera_state_enum_t.QCAMERA_SM_STATE_VIDEO_PIC_TAKING 7)).2.m_state = qcamera_state_enum_t.QCAMERA_SM_STATE_PREVIEW_PIC_TAKING ∧
      (stateMachine (scriptedHwi (failing HwiCall.stopRecording) false) qcamera_sm_evt_enum_t.QCAMERA_SM_EVT_STOP_RECORDING {}
        (machineIn qcamera_state_enum_t.QCAMERA_SM_STATE_VIDEO_PIC_TAKING 7)).1 = -1) ∧
    ((machineIn qcamera_state_enum_t.QCAMERA_SM_STATE_RECORDING 7).m_state = qcamera_state_enum_t.QCAMERA_SM_STATE_RECORDING ∧
      (stateMachine (scriptedHwi (failing HwiCall.stopRecording) false) qcamera_sm_evt_enum_t.QCAMERA_SM_EVT_STOP_RECORDING {}
        (machineIn qcamera_state_enum_t.QCAMERA_SM_STATE_RECORDING 7)).2.m_state = qcamera_state_enum_t.QCAMERA_SM_STATE_PREVIEWING ∧
      (stateMachine (scriptedHwi (failing HwiCall.stopRecording) false) qcamera_sm_evt_enum_t.QCAMERA_SM_EVT_STOP_RECORDING {}
        (machineIn qcamera_state_enum_t.QCAMERA_SM_STATE_RECORDING 7)).1 = -1) ∧
    ((machineIn qcamera_state_enum_t.QCAMERA_SM_STATE_PREVIEWING 7).m_state = qcamera_state_enum_t.QCAMERA_SM_STATE_PREVIEWING ∧
      (stateMachine (scriptedHwi (failing HwiCall.stopPreview) false) qcamera_sm_evt_enum_t.QCAMERA_SM_EVT_STOP_PREVIEW {}
        (machineIn qcamera_state_enum_t.QCAMERA_SM_STATE_PREVIEWING 7)).2.m_state = qcamera_state_enum_t.QCAMERA_SM_STATE_PREVIEW_STOPPED ∧
      (stateMachine (scriptedHwi (failing HwiCall.stopPreview) false) qcamera_sm_evt_enum_t.QCAMERA_SM_EVT_STOP_PREVIEW {}
        (machineIn qcamera_state_enum_t.QCAMERA_SM_STATE_PREVIEWING 7)).1 = -1) ∧
    ((machineIn qcamera_state_enum_t.QCAMERA_SM_STATE_PIC_TAKING 7).m_state = qcamera_state_enum_t.QCAMERA_SM_STATE_PIC_TAKING ∧
      (stateMachine (scriptedHwi (failing HwiCall.cancelPicture) false) qcamera_sm_evt_enum_t.QCAMERA_SM_EVT_CANCEL_PICTURE {}
        (machineIn qcamera_state_enum_t.QCAMERA_SM_STATE_PIC_TAKING 7)).2.m_state = qcamera_state_enum_t.QCAMERA_SM_STATE_PREVIEW_STOPPED ∧
      (stateMachine (scriptedHwi (failing HwiCall.cancelPicture) false) qcamera_sm_evt_enum_t.QCAMERA_SM_EVT_CANCEL_PICTURE {}
        (machineIn qcamera_state_enum_t.QCAMERA_SM_STATE_PIC_TAKING 7)).1 = -1) ∧
    ((machineIn qcamera_state_enum_t.QCAMERA_SM_STATE_VIDEO_PIC_TAKING 7).m_state = qcamera_state_enum_t.QCAMERA_SM_STATE_VIDEO_PIC_TAKING ∧
      (stateMachine (scriptedHwi (failing HwiCall.cancelLiveSnapshot) false) qcamera_sm_evt_enum_t.QCAMERA_SM_EVT_CANCEL_PICTURE {}
        (machineIn qcamera_state_enum_t.QCAMERA_SM_STATE_VIDEO_PIC_TAKING 7)).2.m_state = qcamera_state_enum_t.QCAMERA_SM_STATE_RECORDING ∧
      (stateMachine (scriptedHwi (failing HwiCall.cancelLiveSnapshot) false) qcamera_sm_evt_enum_t.QCAMERA_SM_EVT_CANCEL_PICTURE {}
        (machineIn qcamera_state_enum_t.QCAMERA_SM_STATE_VIDEO_PIC_TAKING 7)).1 = -1) ∧
    ((machineIn qcamera_state_enum_t.QCAMERA_SM_STATE_PREVIEW_PIC_TAKING 7).m_state = qcamera_state_enum_t.QCAMERA_SM_STATE_PREVIEW_PIC_TAKING ∧
      (stateMachine (scriptedHwi (failing HwiCall.cancelLiveSnapshot) false) qcamera_sm_evt_enum_t.QCAMERA_SM_EVT_CANCEL_PICTURE {}
        (machineIn qcamera_state_enum_t.QCAMERA_SM_STATE_PREVIEW_PIC_TAKING 7)).2.m_state = qcamera_state_enum_t.QCAMERA_SM_STATE_PREVIEWING ∧
      (stateMachine (scriptedHwi (failing HwiCall.cancelLiveSnapshot) false) qcamera_sm_evt_enum_t.QCAMERA_SM_EVT_CANCEL_PICTURE {}
        (machineIn qcamera_state_enum_t.QCAMERA_SM_STATE_PREVIEW_PIC_TAKING 7)).1 = -1) :=
  ⟨⟨rfl, ((stop_and_cancel_fixed_target (scriptedHwi (failing HwiCall.stopRecording) false) {}
      (machineIn qcamera_state_enum_t.QCAMERA_SM_STATE_VIDEO_PIC_TAKING 7)).1 rfl).1,
      ((stop_and_cancel_fixed_target (scriptedHwi (failing HwiCall.stopRecording) false) {}
      (machineIn qcamera_state_enum_t.QCAMERA_SM_STATE_VIDEO_PIC_TAKING 7)).1 rfl).2.1⟩,
   ⟨rfl, ((stop_and_cancel_fixed_target (scriptedHwi (failing HwiCall.stopRecording) false) {}
      (machineIn qcamera_state_enum_t.QCAMERA_SM_STATE_RECORDING 7)).2.1 rfl).1,
      ((stop_and_cancel_fixed_target (scriptedHwi (failing HwiCall.stopRecording) false) {}
      (machineIn qcamera_state_enum_t.QCAMERA_SM_STATE_RECORDING 7)).2.1 rfl).2.1⟩,
   ⟨rfl, ((stop_and_cancel_fixed_target (scriptedHwi (failing HwiCall.stopPreview) false) {}
      (machineIn qcamera_state_enum_t.QCAMERA_SM_STATE_PREVIEWING 7)).2.2.1 rfl).1,
      ((stop_and_cancel_fixed_target (scriptedHwi (failing HwiCall.stopPreview) false) {}
      (machineIn qcamera_state_enum_t.QCAMERA_SM_STATE_PREVIEWING 7)).2.2.1 rfl).2.1⟩,
   ⟨rfl, ((stop_and_cancel_fixed_target (scriptedHwi (failing HwiCall.cancelPicture) false) {}
      (machineIn qcamera_state_enum_t.QCAMERA_SM_STATE_PIC_TAKING 7)).2.2.2.1 rfl).1,
      ((stop_and_cancel_fixed_target (scriptedHwi (failing HwiCall.cancelPicture) false) {}
      (machineIn qcamera_state_enum_t.QCAMERA_SM_STATE_PIC_TAKING 7)).2.2.2.1 rfl).2.1⟩,
   ⟨rfl, ((stop_and_cancel_fixed_target (scriptedHwi (failing HwiCall.cancelLiveSnapshot) false) {}
      (machineIn qcamera_state_enum_t.QCAMERA_SM_STATE_VIDEO_PIC_TAKING 7)).2.2.2.2.1 rfl).1,
      ((stop_and_cancel_fixed_target (scriptedHwi (failing HwiCall.cancelLiveSnapshot) false) {}
      (machineIn qcamera_state_enum_t.QCAMERA_SM_STATE_VIDEO_PIC_TAKING 7)).2.2.2.2.1 rfl).2.1⟩,
   ⟨rfl, ((stop_and_cancel_fixed_target (scriptedHwi (failing HwiCall.cancelLiveSnapshot) false) {}
      (machineIn qcamera_state_enum_t.QCAMERA_SM_STATE_PREVIEW_PIC_TAKING 7)).2.2.2.2.2 rfl).1,
      ((stop_and_cancel_fixed_target (scriptedHwi (failing HwiCall.cancelLiveSnapshot) false) {}
      (machineIn qcamera_state_enum_t.QCAMERA_SM_STATE_PREVIEW_PIC_TAKING 7)).2.2.2.2.2 rfl).2.1⟩⟩

/-- C10. The internal event `SNAPSHOT_DONE` takes `PIC_TAKING` to `PREVIEW_STOPPED`,
`VIDEO_PIC_TAKING` to `RECORDING` and `PREVIEW_PIC_TAKING` to `PREVIEWING`, which is
the state `CANCEL_PICTURE` reaches from the same machine.  The only hardware interface
operation invoked is the cancel operation (`cancelPicture`, respectively
`cancelLiveSnapshot`): no API result is signalled, and the target state does not
depend on the status the cancel operation returns, which is the status returned. -/
theorem snapshotDone_recovers (hwi : QCamera2HardwareInterface σ)
    (payload : Payload) (m : QCameraStateMachine σ) :
    (m.m_state = qcamera_state_enum_t.QCAMERA_SM_STATE_PIC_TAKING →
      (stateMachine hwi qcamera_sm_evt_enum_t.QCAMERA_SM_EVT_SNAPSHOT_DONE payload m).2.m_state = qcamera_state_enum_t.QCAMERA_SM_STATE_PREVIEW_STOPPED ∧
      (stateMachine hwi qcamera_sm_evt_enum_t.QCAMERA_SM_EVT_SNAPSHOT_DONE payload m).2.calls = m.calls ++ [HwiCall.cancelPicture] ∧
      (stateMachine hwi qcamera_sm_evt_enum_t.QCAMERA_SM_EVT_SNAPSHOT_DONE payload m).1 = (hwi.exec HwiCall.cancelPicture m.m_parent).1) ∧
    (m.m_state = qcamera_state_enum_t.QCAMERA_SM_STATE_VIDEO_PIC_TAKING →
      (stateMachine hwi qcamera_sm_evt_enum_t.QCAMERA_SM_EVT_SNAPSHOT_DONE payload m).2.m_state = qcamera_state_enum_t.QCAMERA_SM_STATE_RECORDING ∧
      (stateMachine hwi qcamera_sm_evt_enum_t.QCAMERA_SM_EVT_SNAPSHOT_DONE payload m).2.calls = m.calls ++ [HwiCall.cancelLiveSnapshot] ∧
      (stateMachine hwi qcamera_sm_evt_enum_t.QCAMERA_SM_EVT_SNAPSHOT_DONE payload m).1 = (hwi.exec HwiCall.cancelLiveSnapshot m.m_parent).1) ∧
    (m.m_state = qcamera_state_enum_t.QCAMERA_SM_STATE_PREVIEW_PIC_TAKING →
      (stateMachine hwi qcamera_sm_evt_enum_t.QCAMERA_SM_EVT_SNAPSHOT_DONE payload m).2.m_state = qcamera_state_enum_t.QCAMERA_SM_STATE_PREVIEWING ∧
      (stateMachine hwi qcamera_sm_evt_enum_t.QCAMERA_SM_EVT_SNAPSHOT_DONE payload m).2.calls = m.calls ++ [HwiCall.cancelLiveSnapshot] ∧
      (stateMachine hwi qcamera_sm_evt_enum_t.QCAMERA_SM_EVT_SNAPSHOT_DONE payload m).1 = (hwi.exec HwiCall.cancelLiveSnapshot m.m_parent).1) ∧
    (m.m_state = qcamera_state_enum_t.QCAMERA_SM_STATE_PIC_TAKING ∨ m.m_state = qcamera_state_enum_t.QCAMERA_SM_STATE_VIDEO_PIC_TAKING ∨
        m.m_state = qcamera_state_enum_t.QCAMERA_SM_STATE_PREVIEW_PIC_TAKING →
      (stateMachine hwi qcamera_sm_evt_enum_t.QCAMERA_SM_EVT_SNAPSHOT_DONE payload m).2.m_state = (stateMachine hwi qcamera_sm_evt_enum_t.QCAMERA_SM_EVT_CANCEL_PICTURE payload m).2.m_state ∧
      signalCount (stateMachine hwi qcamera_sm_evt_enum_t.QCAMERA_SM_EVT_SNAPSHOT_DONE payload m).2.calls = signalCount m.calls) := by
  unfold stateMachine procEvtPreviewStoppedState procEvtPreviewReadyState
    procEvtPreviewingState procEvtPicTakingState procEvtRecordingState
    procEvtVideoPicTakingState procEvtPreviewPicTakingState
  refine ⟨fun hs => ?_, fun hs => ?_, fun hs => ?_, fun hs => ?_⟩
  · rw [hs]; exact ⟨rfl, rfl, rfl⟩
  · rw [hs]; exact ⟨rfl, rfl, rfl⟩
  · rw [hs]; exact ⟨rfl, rfl, rfl⟩
  · rcases hs with hs | hs | hs <;>
      (rw [hs]; dsimp only; simp [replyDef, signalAPIResult, call, signalCount,
        HwiCall.isSignal])

/-- Witness of C10: in each of the three states, with the cancel operation failing
with status `-1`, the recovery state is reached and nothing is signalled. -/
theorem snapshotDone_recovers_witness :
    ((machineIn qcamera_state_enum_t.QCAMERA_SM_STATE_PIC_TAKING 7).m_state = qcamera_state_enum_t.QCAMERA_SM_STATE_PIC_TAKING ∧
      (stateMachine (scriptedHwi (failing HwiCall.cancelPicture) false) qcamera_sm_evt_enum_t.QCAMERA_SM_EVT_SNAPSHOT_DONE {}
        (machineIn qcamera_state_enum_t.QCAMERA_SM_STATE_PIC_TAKING 7)).2.m_state = qcamera_state_enum_t.QCAMERA_SM_STATE_PREVIEW_STOPPED ∧
      (stateMachine (scriptedHwi (failing HwiCall.cancelPicture) false) qcamera_sm_evt_enum_t.QCAMERA_SM_EVT_SNAPSHOT_DONE {}
        (machineIn qcamera_state_enum_t.QCAMERA_SM_STATE_PIC_TAKING 7)).2.calls =
          (machineIn qcamera_state_enum_t.QCAMERA_SM_STATE_PIC_TAKING 7).calls ++ [HwiCall.cancelPicture]) ∧
    ((machineIn qcamera_state_enum_t.QCAMERA_SM_STATE_VIDEO_PIC_TAKING 7).m_state = qcamera_state_enum_t.QCAMERA_SM_STATE_VIDEO_PIC_TAKING ∧
      (stateMachine (scriptedHwi (failing HwiCall.cancelLiveSnapshot) false) qcamera_sm_evt_enum_t.QCAMERA_SM_EVT_SNAPSHOT_DONE {}
        (machineIn qcamera_state_enum_t.QCAMERA_SM_STATE_VIDEO_PIC_TAKING 7)).2.m_state = qcamera_state_enum_t.QCAMERA_SM_STATE_RECORDING) ∧
    ((machineIn qcamera_state_enum_t.QCAMERA_SM_STATE_PREVIEW_PIC_TAKING 7).m_state = qcamera_state_enum_t.QCAMERA_SM_STATE_PREVIEW_PIC_TAKING ∧
      (stateMachine (scriptedHwi (failing HwiCall.cancelLiveSnapshot) false) qcamera_sm_evt_enum_t.QCAMERA_SM_EVT_SNAPSHOT_DONE {}
        (machineIn qcamera_state_enum_t.QCAMERA_SM_STATE_PREVIEW_PIC_TAKING 7)).2.m_state = qcamera_state_enum_t.QCAMERA_SM_STATE_PREVIEWING) ∧
    (((machineIn qcamera_state_enum_t.QCAMERA_SM_STATE_PIC_TAKING 7).m_state = qcamera_state_enum_t.QCAMERA_SM_STATE_PIC_TAKING ∨
        (machineIn qcamera_state_enum_t.QCAMERA_SM_STATE_PIC_TAKING 7).m_state = qcamera_state_enum_t.QCAMERA_SM_STATE_VIDEO_PIC_TAKING ∨
        (machineIn qcamera_state_enum_t.QCAMERA_SM_STATE_PIC_TAKING 7).m_state = qcamera_state_enum_t.QCAMERA_SM_STATE_PREVIEW_PIC_TAKING) ∧
      signalCount (stateMachine (scriptedHwi (failing HwiCall.cancelPicture) false)
        qcamera_sm_evt_enum_t.QCAMERA_SM_EVT_SNAPSHOT_DONE {} (machineIn qcamera_state_enum_t.QCAMERA_SM_STATE_PIC_TAKING 7)).2.calls =
          signalCount (machineIn qcamera_state_enum_t.QCAMERA_SM_STATE_PIC_TAKING 7).calls) :=
  ⟨⟨rfl, ((snapshotDone_recovers (scriptedHwi (failing HwiCall.cancelPicture) false) {}
      (machineIn qcamera_state_enum_t.QCAMERA_SM_STATE_PIC_TAKING 7)).1 rfl).1,
      ((snapshotDone_recovers (scriptedHwi (failing HwiCall.cancelPicture) false) {}
      (machineIn qcamera_state_enum_t.QCAMERA_SM_STATE_PIC_TAKING 7)).1 rfl).2.1⟩,
   ⟨rfl, ((snapshotDone_recovers (scriptedHwi (failing HwiCall.cancelLiveSnapshot) false) {}
      (machineIn qcamera_state_enum_t.QCAMERA_SM_STATE_VIDEO_PIC_TAKING 7)).2.1 rfl).1⟩,
   ⟨rfl, ((snapshotDone_recovers (scriptedHwi (failing HwiCall.cancelLiveSnapshot) false) {}
      (machineIn qcamera_state_enum_t.QCAMERA_SM_STATE_PREVIEW_PIC_TAKING 7)).2.2.1 rfl).1⟩,
   ⟨Or.inl rfl, ((snapshotDone_recovers (scriptedHwi (failing HwiCall.cancelPicture) false) {}
      (machineIn qcamera_state_enum_t.QCAMERA_SM_STATE_PIC_TAKING 7)).2.2.2 (Or.inl rfl)).2⟩⟩

/-- C11. In `PREVIEWING` and in `PREVIEW_PIC_TAKING`, a `SET_PARAMS` request whose
`updateParameters` returns `NO_ERROR` and asks for a restart invokes, after the update,
`stopPreview`, `commitParameterChanges` and `startPreview`, in that order and once
each, and only then `signalAPIResult`; the status returned and signalled is that of
`commitParameterChanges`, and the state is unchanged. -/
theorem setParams_restart_sequence (hwi : QCamera2HardwareInterface σ)
    (payload : Payload) (m : QCameraStateMachine σ)
    (hs : m.m_state = qcamera_state_enum_t.QCAMERA_SM_STATE_PREVIEWING ∨ m.m_state = qcamera_state_enum_t.QCAMERA_SM_STATE_PREVIEW_PIC_TAKING)
    (hu : (hwi.updateParameters payload.ptr m.m_parent).1 = NO_ERROR)
    (hr : (hwi.updateParameters payload.ptr m.m_parent).2.1 = true) :
    (stateMachine hwi qcamera_sm_evt_enum_t.QCAMERA_SM_EVT_SET_PARAMS payload m).2.calls = m.calls ++
        [HwiCall.updateParameters payload.ptr, HwiCall.stopPreview,
         HwiCall.commitParameterChanges, HwiCall.startPreview,
         HwiCall.signalAPIResult
          { status := (hwi.exec HwiCall.commitParameterChanges (hwi.exec HwiCall.stopPreview (hwi.updateParameters payload.ptr m.m_parent).2.2).2).1,
            request_api := qcamera_sm_evt_enum_t.QCAMERA_SM_EVT_SET_PARAMS }] ∧
      (stateMachine hwi qcamera_sm_evt_enum_t.QCAMERA_SM_EVT_SET_PARAMS payload m).1 = (hwi.exec HwiCall.commitParameterChanges (hwi.exec HwiCall.stopPreview (hwi.updateParameters payload.ptr m.m_parent).2.2).2).1 ∧
      (stateMachine hwi qcamera_sm_evt_enum_t.QCAMERA_SM_EVT_SET_PARAMS payload m).2.m_state = m.m_state := by
  unfold stateMachine procEvtPreviewStoppedState procEvtPreviewReadyState
    procEvtPreviewingState procEvtPicTakingState procEvtRecordingState
    procEvtVideoPicTakingState procEvtPreviewPicTakingState
  rcases hs with hs | hs <;>
    (rw [hs]; dsimp only
     simp only [setParamsRestart, callAndReply, replyDef, signalAPIResult, call,
       callUpdateParameters]
     rw [if_pos hu, if_pos hr]
     simp [hs])

/-- Witness of C11: in `PREVIEWING`, every operation succeeds and the update asks for a
restart. -/
theorem setParams_restart_sequence_witness :
    ((machineIn qcamera_state_enum_t.QCAMERA_SM_STATE_PREVIEWING 7).m_state = qcamera_state_enum_t.QCAMERA_SM_STATE_PREVIEWING ∨
      (machineIn qcamera_state_enum_t.QCAMERA_SM_STATE_PREVIEWING 7).m_state = qcamera_state_enum_t.QCAMERA_SM_STATE_PREVIEW_PIC_TAKING) ∧
    (stateMachine (scriptedHwi allSucceed true) qcamera_sm_evt_enum_t.QCAMERA_SM_EVT_SET_PARAMS {}
      (machineIn qcamera_state_enum_t.QCAMERA_SM_STATE_PREVIEWING 7)).2.calls =
        [HwiCall.updateParameters 0, HwiCall.stopPreview,
         HwiCall.commitParameterChanges, HwiCall.startPreview,
         HwiCall.signalAPIResult { status := 0, request_api := qcamera_sm_evt_enum_t.QCAMERA_SM_EVT_SET_PARAMS }] :=
  ⟨Or.inl rfl, (setParams_restart_sequence (scriptedHwi allSucceed true) {}
    (machineIn qcamera_state_enum_t.QCAMERA_SM_STATE_PREVIEWING 7) (Or.inl rfl) rfl rfl).1⟩

/-- C12. In `RECORDING` and in `VIDEO_PIC_TAKING`, a `SET_PARAMS` request whose
`updateParameters` returns `NO_ERROR` and asks for a restart returns `BAD_VALUE` and
leaves the state unchanged; besides the update the only invocation is the
`signalAPIResult` that carries `BAD_VALUE`: neither `stopPreview` nor `startPreview`
nor `commitParameterChanges` is invoked. -/
theorem setParams_restart_rejected (hwi : QCamera2HardwareInterface σ)
    (payload : Payload) (m : QCameraStateMachine σ)
    (hs : m.m_state = qcamera_state_enum_t.QCAMERA_SM_STATE_RECORDING ∨ m.m_state = qcamera_state_enum_t.QCAMERA_SM_STATE_VIDEO_PIC_TAKING)
    (hu : (hwi.updateParameters payload.ptr m.m_parent).1 = NO_ERROR)
    (hr : (hwi.updateParameters payload.ptr m.m_parent).2.1 = true) :
    (stateMachine hwi qcamera_sm_evt_enum_t.QCAMERA_SM_EVT_SET_PARAMS payload m).1 = BAD_VALUE ∧
      (stateMachine hwi qcamera_sm_evt_enum_t.QCAMERA_SM_EVT_SET_PARAMS payload m).2.m_state = m.m_state ∧
      (stateMachine hwi qcamera_sm_evt_enum_t.QCAMERA_SM_EVT_SET_PARAMS payload m).2.calls = m.calls ++
        [HwiCall.updateParameters payload.ptr,
         HwiCall.signalAPIResult { status := BAD_VALUE, request_api := qcamera_sm_evt_enum_t.QCAMERA_SM_EVT_SET_PARAMS }] ∧
      HwiCall.stopPreview ∉ List.drop m.calls.length (stateMachine hwi qcamera_sm_evt_enum_t.QCAMERA_SM_EVT_SET_PARAMS payload m).2.calls ∧
      HwiCall.startPreview ∉ List.drop m.calls.length (stateMachine hwi qcamera_sm_evt_enum_t.QCAMERA_SM_EVT_SET_PARAMS payload m).2.calls ∧
      HwiCall.commitParameterChanges ∉ List.drop m.calls.length (stateMachine hwi qcamera_sm_evt_enum_t.QCAMERA_SM_EVT_SET_PARAMS payload m).2.calls := by
  unfold stateMachine procEvtPreviewStoppedState procEvtPreviewReadyState
    procEvtPreviewingState procEvtPicTakingState procEvtRecordingState
    procEvtVideoPicTakingState procEvtPreviewPicTakingState
  rcases hs with hs | hs <;>
    (rw [hs]; dsimp only
     simp only [setParamsNoRestart, callAndReply, replyDef, signalAPIResult, call,
       callUpdateParameters]
     rw [if_pos hu, if_pos hr]
     simp [hs])

/-- Witness of C12: in `VIDEO_PIC_TAKING`, the update succeeds and asks for a restart. -/
theorem setParams_restart_rejected_witness :
    ((machineIn qcamera_state_enum_t.QCAMERA_SM_STATE_VIDEO_PIC_TAKING 7).m_state = qcamera_state_enum_t.QCAMERA_SM_STATE_RECORDING ∨
      (machineIn qcamera_state_enum_t.QCAMERA_SM_STATE_VIDEO_PIC_TAKING 7).m_state = qcamera_state_enum_t.QCAMERA_SM_STATE_VIDEO_PIC_TAKING) ∧
    (stateMachine (scriptedHwi allSucceed true) qcamera_sm_evt_enum_t.QCAMERA_SM_EVT_SET_PARAMS {}
      (machineIn qcamera_state_enum_t.QCAMERA_SM_STATE_VIDEO_PIC_TAKING 7)).1 = BAD_VALUE :=
  ⟨Or.inr rfl, (setParams_restart_rejected (scriptedHwi allSucceed true) {}
    (machineIn qcamera_state_enum_t.QCAMERA_SM_STATE_VIDEO_PIC_TAKING 7) (Or.inr rfl) rfl rfl).1⟩

/-- C13, as stated, fails: in `RECORDING`, with every operation succeeding and the
update asking for a restart, `SET_PARAMS` returns `BAD_VALUE`, not success, and it
invokes neither `stopPreview` nor `commitParameterChanges` nor `startPreview`. -/
theorem setParams_in_recording_counterexample :
    (stateMachine (scriptedHwi allSucceed true) qcamera_sm_evt_enum_t.QCAMERA_SM_EVT_SET_PARAMS {}
      (machineIn qcamera_state_enum_t.QCAMERA_SM_STATE_RECORDING 7)).1 = BAD_VALUE ∧
    (stateMachine (scriptedHwi allSucceed true) qcamera_sm_evt_enum_t.QCAMERA_SM_EVT_SET_PARAMS {}
      (machineIn qcamera_state_enum_t.QCAMERA_SM_STATE_RECORDING 7)).1 ≠ NO_ERROR ∧
    (stateMachine (scriptedHwi allSucceed true) qcamera_sm_evt_enum_t.QCAMERA_SM_EVT_SET_PARAMS {}
      (machineIn qcamera_state_enum_t.QCAMERA_SM_STATE_RECORDING 7)).2.calls =
        [HwiCall.updateParameters 0,
         HwiCall.signalAPIResult { status := BAD_VALUE, request_api := qcamera_sm_evt_enum_t.QCAMERA_SM_EVT_SET_PARAMS }] :=
  ⟨rfl, by decide, rfl⟩

/-- C13, amended. In `RECORDING`, a `SET_PARAMS` request with a restart-required change
whose update succeeds runs no stop/commit/start sequence (it invokes nothing between
the update and the signal), returns `BAD_VALUE`, which is not the success status, and
leaves the state `RECORDING`. -/
theorem setParams_in_recording (hwi : QCamera2HardwareInterface σ)
    (payload : Payload) (m : QCameraStateMachine σ)
    (hs : m.m_state = qcamera_state_enum_t.QCAMERA_SM_STATE_RECORDING)
    (hu : (hwi.updateParameters payload.ptr m.m_parent).1 = NO_ERROR)
    (hr : (hwi.updateParameters payload.ptr m.m_parent).2.1 = true) :
    (stateMachine hwi qcamera_sm_evt_enum_t.QCAMERA_SM_EVT_SET_PARAMS payload m).2.calls = m.calls ++
        [HwiCall.updateParameters payload.ptr,
         HwiCall.signalAPIResult { status := BAD_VALUE, request_api := qcamera_sm_evt_enum_t.QCAMERA_SM_EVT_SET_PARAMS }] ∧
      (stateMachine hwi qcamera_sm_evt_enum_t.QCAMERA_SM_EVT_SET_PARAMS payload m).1 = BAD_VALUE ∧ BAD_VALUE ≠ NO_ERROR ∧
      (stateMachine hwi qcamera_sm_evt_enum_t.QCAMERA_SM_EVT_SET_PARAMS payload m).2.m_state = qcamera_state_enum_t.QCAMERA_SM_STATE_RECORDING := by
  unfold stateMachine
  rw [hs]
  dsimp only
  unfold procEvtRecordingState
  dsimp only
  simp only [setParamsNoRestart, callAndReply, replyDef, signalAPIResult, call,
    callUpdateParameters]
  rw [if_pos hu, if_pos hr]
  exact ⟨by simp, rfl, by decide, hs⟩

/-- Witness of C13, amended: every operation succeeds and the update asks for a
restart. -/
theorem setParams_in_recording_witness :
    (machineIn qcamera_state_enum_t.QCAMERA_SM_STATE_RECORDING 7).m_state = qcamera_state_enum_t.QCAMERA_SM_STATE_RECORDING ∧
    (stateMachine (scriptedHwi allSucceed true) qcamera_sm_evt_enum_t.QCAMERA_SM_EVT_SET_PARAMS {}
      (machineIn qcamera_state_enum_t.QCAMERA_SM_STATE_RECORDING 7)).2.m_state = qcamera_state_enum_t.QCAMERA_SM_STATE_RECORDING :=
  ⟨rfl, (setParams_in_recording (scriptedHwi allSucceed true) {}
    (machineIn qcamera_state_enum_t.QCAMERA_SM_STATE_RECORDING 7) rfl rfl rfl).2.2.2⟩

/-- C14, as stated, fails: in `PREVIEW_STOPPED` an internal focus-update event, a
zoom-done server event and a JPEG event are not passed on: nothing is invoked. -/
theorem events_funnelled_counterexample :
    (stateMachine (scriptedHwi allSucceed false) qcamera_sm_evt_enum_t.QCAMERA_SM_EVT_EVT_INTERNAL
      { evt_type := qcamera_internal_evt_type_t.QCAMERA_INTERNAL_EVT_FOCUS_UPDATE }
      (machineIn qcamera_state_enum_t.QCAMERA_SM_STATE_PREVIEW_STOPPED 0)).2.calls = [] ∧
    (stateMachine (scriptedHwi allSucceed false) qcamera_sm_evt_enum_t.QCAMERA_SM_EVT_EVT_NOTIFY
      { server_event_type := cam_event_type_t.CAM_EVENT_TYPE_ZOOM_DONE }
      (machineIn qcamera_state_enum_t.QCAMERA_SM_STATE_PREVIEW_STOPPED 0)).2.calls = [] ∧
    (stateMachine (scriptedHwi allSucceed false) qcamera_sm_evt_enum_t.QCAMERA_SM_EVT_JPEG_EVT_NOTIFY { ptr := 5 }
      (machineIn qcamera_state_enum_t.QCAMERA_SM_STATE_PREVIEW_STOPPED 0)).2.calls = [] :=
  ⟨rfl, rfl, rfl⟩

/-- C14, amended. In the five states `PREVIEWING`, `PIC_TAKING`, `RECORDING`,
`VIDEO_PIC_TAKING` and `PREVIEW_PIC_TAKING` an internal focus-update event is passed
to `processAutoFocusEvent` and a zoom-done server event to `processZoomEvent`; in the
three states `PIC_TAKING`, `VIDEO_PIC_TAKING` and `PREVIEW_PIC_TAKING` a JPEG event is
passed to `processJpegNotify`; in each case this is the only invocation and its status
is returned.  In `PREVIEW_STOPPED` and `PREVIEW_READY` the three events, and in
`PREVIEWING` and `RECORDING` the JPEG event, are only logged: nothing is invoked and
the machine is unchanged. -/
theorem events_funnelled (hwi : QCamera2HardwareInterface σ)
    (payload : Payload) (m : QCameraStateMachine σ) :
    (m.m_state ≠ qcamera_state_enum_t.QCAMERA_SM_STATE_PREVIEW_STOPPED → m.m_state ≠ qcamera_state_enum_t.QCAMERA_SM_STATE_PREVIEW_READY →
      payload.evt_type = qcamera_internal_evt_type_t.QCAMERA_INTERNAL_EVT_FOCUS_UPDATE →
      (stateMachine hwi qcamera_sm_evt_enum_t.QCAMERA_SM_EVT_EVT_INTERNAL payload m) =
        call hwi (HwiCall.processAutoFocusEvent payload.focus_data) m) ∧
    (m.m_state ≠ qcamera_state_enum_t.QCAMERA_SM_STATE_PREVIEW_STOPPED → m.m_state ≠ qcamera_state_enum_t.QCAMERA_SM_STATE_PREVIEW_READY →
      payload.server_event_type = cam_event_type_t.CAM_EVENT_TYPE_ZOOM_DONE →
      (stateMachine hwi qcamera_sm_evt_enum_t.QCAMERA_SM_EVT_EVT_NOTIFY payload m) = call hwi (HwiCall.processZoomEvent payload.status) m) ∧
    (m.m_state = qcamera_state_enum_t.QCAMERA_SM_STATE_PIC_TAKING ∨ m.m_state = qcamera_state_enum_t.QCAMERA_SM_STATE_VIDEO_PIC_TAKING ∨
        m.m_state = qcamera_state_enum_t.QCAMERA_SM_STATE_PREVIEW_PIC_TAKING →
      (stateMachine hwi qcamera_sm_evt_enum_t.QCAMERA_SM_EVT_JPEG_EVT_NOTIFY payload m) = call hwi (HwiCall.processJpegNotify payload.ptr) m) ∧
    (m.m_state = qcamera_state_enum_t.QCAMERA_SM_STATE_PREVIEW_STOPPED ∨ m.m_state = qcamera_state_enum_t.QCAMERA_SM_STATE_PREVIEW_READY →
      (stateMachine hwi qcamera_sm_evt_enum_t.QCAMERA_SM_EVT_EVT_INTERNAL payload m) = (NO_ERROR, m) ∧
      (stateMachine hwi qcamera_sm_evt_enum_t.QCAMERA_SM_EVT_EVT_NOTIFY payload m) = (NO_ERROR, m) ∧
      (stateMachine hwi qcamera_sm_evt_enum_t.QCAMERA_SM_EVT_JPEG_EVT_NOTIFY payload m) = (NO_ERROR, m)) ∧
    (m.m_state = qcamera_state_enum_t.QCAMERA_SM_STATE_PREVIEWING ∨ m.m_state = qcamera_state_enum_t.QCAMERA_SM_STATE_RECORDING →
      (stateMachine hwi qcamera_sm_evt_enum_t.QCAMERA_SM_EVT_JPEG_EVT_NOTIFY payload m) = (NO_ERROR, m)) := by
  unfold stateMachine procEvtPreviewStoppedState procEvtPreviewReadyState
    procEvtPreviewingState procEvtPicTakingState procEvtRecordingState
    procEvtVideoPicTakingState procEvtPreviewPicTakingState
  refine ⟨fun h1 h2 hp => ?_, fun h1 h2 hp => ?_, fun hs => ?_, fun hs => ?_, fun hs => ?_⟩
  · cases hs : m.m_state <;> simp only [hs, ne_eq, not_true_eq_false, reduceCtorEq] at h1 h2 <;>
      simp only [procInternalEvt, hp]
  · cases hs : m.m_state <;> simp only [hs, ne_eq, not_true_eq_false, reduceCtorEq] at h1 h2 <;>
      simp only [procNotifyEvt, hp]
  · rcases hs with hs | hs | hs <;> rw [hs]
  · rcases hs with hs | hs <;> rw [hs] <;> exact ⟨rfl, rfl, rfl⟩
  · rcases hs with hs | hs <;> rw [hs]

/-- Witness of C14, amended: a focus update in `RECORDING`, a zoom-done event in
`PREVIEWING`, a JPEG event in `PIC_TAKING`, and a JPEG event in `RECORDING`. -/
theorem events_funnelled_witness :
    (stateMachine (scriptedHwi allSucceed false) qcamera_sm_evt_enum_t.QCAMERA_SM_EVT_EVT_INTERNAL
      { evt_type := qcamera_internal_evt_type_t.QCAMERA_INTERNAL_EVT_FOCUS_UPDATE, focus_data := 3 }
      (machineIn qcamera_state_enum_t.QCAMERA_SM_STATE_RECORDING 7)).2.calls = [HwiCall.processAutoFocusEvent 3] ∧
    (stateMachine (scriptedHwi allSucceed false) qcamera_sm_evt_enum_t.QCAMERA_SM_EVT_EVT_NOTIFY
      { server_event_type := cam_event_type_t.CAM_EVENT_TYPE_ZOOM_DONE, status := 1 }
      (machineIn qcamera_state_enum_t.QCAMERA_SM_STATE_PREVIEWING 7)).2.calls = [HwiCall.processZoomEvent 1] ∧
    (stateMachine (scriptedHwi allSucceed false) qcamera_sm_evt_enum_t.QCAMERA_SM_EVT_JPEG_EVT_NOTIFY { ptr := 5 }
      (machineIn qcamera_state_enum_t.QCAMERA_SM_STATE_PIC_TAKING 7)).2.calls = [HwiCall.processJpegNotify 5] ∧
    (stateMachine (scriptedHwi allSucceed false) qcamera_sm_evt_enum_t.QCAMERA_SM_EVT_EVT_INTERNAL
      { evt_type := qcamera_internal_evt_type_t.QCAMERA_INTERNAL_EVT_FOCUS_UPDATE, focus_data := 3 }
      (machineIn qcamera_state_enum_t.QCAMERA_SM_STATE_PREVIEW_READY 0)).2.calls = [] ∧
    (stateMachine (scriptedHwi allSucceed false) qcamera_sm_evt_enum_t.QCAMERA_SM_EVT_JPEG_EVT_NOTIFY { ptr := 5 }
      (machineIn qcamera_state_enum_t.QCAMERA_SM_STATE_RECORDING 7)).2.calls = [] :=
  ⟨congrArg (fun r => r.2.calls)
      ((events_funnelled (scriptedHwi allSucceed false)
        { evt_type := qcamera_internal_evt_type_t.QCAMERA_INTERNAL_EVT_FOCUS_UPDATE, focus_data := 3 }
        (machineIn qcamera_state_enum_t.QCAMERA_SM_STATE_RECORDING 7)).1 (by decide) (by decide) rfl),
   congrArg (fun r => r.2.calls)
      ((events_funnelled (scriptedHwi allSucceed false)
        { server_event_type := cam_event_type_t.CAM_EVENT_TYPE_ZOOM_DONE, status := 1 }
        (machineIn qcamera_state_enum_t.QCAMERA_SM_STATE_PREVIEWING 7)).2.1 (by decide) (by decide) rfl),
   congrArg (fun r => r.2.calls)
      ((events_funnelled (scriptedHwi allSucceed false) { ptr := 5 }
        (machineIn qcamera_state_enum_t.QCAMERA_SM_STATE_PIC_TAKING 7)).2.2.1 (Or.inl rfl)),
   congrArg (fun r => r.2.calls)
      ((events_funnelled (scriptedHwi allSucceed false)
        { evt_type := qcamera_internal_evt_type_t.QCAMERA_INTERNAL_EVT_FOCUS_UPDATE, focus_data := 3 }
        (machineIn qcamera_state_enum_t.QCAMERA_SM_STATE_PREVIEW_READY 0)).2.2.2.1 (Or.inr rfl)).1,
   congrArg (fun r => r.2.calls)
      ((events_funnelled (scriptedHwi allSucceed false) { ptr := 5 }
        (machineIn qcamera_state_enum_t.QCAMERA_SM_STATE_RECORDING 7)).2.2.2.2 (Or.inr rfl))⟩

/-- C15. `isPreviewRunning` is `true` exactly in `PREVIEWING`, `RECORDING`,
`VIDEO_PIC_TAKING` and `PREVIEW_PIC_TAKING` and `false` exactly in `PREVIEW_STOPPED`,
`PREVIEW_READY` and `PIC_TAKING`; it reads nothing but `m_state`.  (The function has
no assignment in its body; its embedding is a function from the machine to the
answer, so that the machine after the call is the machine before it.) -/
theorem isPreviewRunning_iff (m : QCameraStateMachine σ) :
    (isPreviewRunning m = true ↔
      (m.m_state = qcamera_state_enum_t.QCAMERA_SM_STATE_PREVIEWING ∨ m.m_state = qcamera_state_enum_t.QCAMERA_SM_STATE_RECORDING ∨
        m.m_state = qcamera_state_enum_t.QCAMERA_SM_STATE_VIDEO_PIC_TAKING ∨ m.m_state = qcamera_state_enum_t.QCAMERA_SM_STATE_PREVIEW_PIC_TAKING)) ∧
    (isPreviewRunning m = false ↔
      (m.m_state = qcamera_state_enum_t.QCAMERA_SM_STATE_PREVIEW_STOPPED ∨ m.m_state = qcamera_state_enum_t.QCAMERA_SM_STATE_PREVIEW_READY ∨
        m.m_state = qcamera_state_enum_t.QCAMERA_SM_STATE_PIC_TAKING)) ∧
    (∀ other : QCameraStateMachine σ, other.m_state = m.m_state →
      isPreviewRunning other = isPreviewRunning m) := by
  unfold isPreviewRunning
  refine ⟨?_, ?_, fun other ho => by rw [ho]⟩ <;> cases m.m_state <;> simp

/-- Witness of C15: two machines in `RECORDING` get the same answer. -/
theorem isPreviewRunning_iff_witness :
    (machineIn qcamera_state_enum_t.QCAMERA_SM_STATE_RECORDING 0).m_state = (machineIn qcamera_state_enum_t.QCAMERA_SM_STATE_RECORDING 7).m_state ∧
    isPreviewRunning (machineIn qcamera_state_enum_t.QCAMERA_SM_STATE_RECORDING 0) =
      isPreviewRunning (machineIn qcamera_state_enum_t.QCAMERA_SM_STATE_RECORDING 7) :=
  ⟨rfl, (isPreviewRunning_iff (machineIn qcamera_state_enum_t.QCAMERA_SM_STATE_RECORDING 7)).2.2
    (machineIn qcamera_state_enum_t.QCAMERA_SM_STATE_RECORDING 0) rfl⟩

/-- The state a successful `START_PREVIEW` leaves: it is accepted in `PREVIEW_STOPPED`,
`PREVIEW_READY` and `PREVIEWING` only. -/
theorem startPreview_state (hwi : QCamera2HardwareInterface σ) (m : QCameraStateMachine σ)
    (h : (stateMachine hwi qcamera_sm_evt_enum_t.QCAMERA_SM_EVT_START_PREVIEW {} m).1 = NO_ERROR) :
    (m.m_state = qcamera_state_enum_t.QCAMERA_SM_STATE_PREVIEW_STOPPED ∧
      (stateMachine hwi qcamera_sm_evt_enum_t.QCAMERA_SM_EVT_START_PREVIEW {} m).2.m_state =
        (if hwi.mPreviewWindow m.m_parent = 0 then qcamera_state_enum_t.QCAMERA_SM_STATE_PREVIEW_READY
          else qcamera_state_enum_t.QCAMERA_SM_STATE_PREVIEWING)) ∨
    (m.m_state = qcamera_state_enum_t.QCAMERA_SM_STATE_PREVIEW_READY ∧
      (stateMachine hwi qcamera_sm_evt_enum_t.QCAMERA_SM_EVT_START_PREVIEW {} m).2.m_state = qcamera_state_enum_t.QCAMERA_SM_STATE_PREVIEW_READY) ∨
    (m.m_state = qcamera_state_enum_t.QCAMERA_SM_STATE_PREVIEWING ∧
      (stateMachine hwi qcamera_sm_evt_enum_t.QCAMERA_SM_EVT_START_PREVIEW {} m).2.m_state = qcamera_state_enum_t.QCAMERA_SM_STATE_PREVIEWING) := by
  revert h
  unfold stateMachine procEvtPreviewStoppedState procEvtPreviewReadyState
    procEvtPreviewingState procEvtPicTakingState procEvtRecordingState
    procEvtVideoPicTakingState procEvtPreviewPicTakingState
  cases hs : m.m_state <;> dsimp only <;>
    simp only [prepareAndStart, replyDef, signalAPIResult, call]
  case QCAMERA_SM_STATE_PREVIEW_STOPPED =>
    split_ifs <;> simp_all
  case QCAMERA_SM_STATE_PREVIEW_READY => simp [hs]
  case QCAMERA_SM_STATE_PREVIEWING => simp [hs]
  all_goals exact fun h => absurd h (by decide)

/-- `STOP_PREVIEW` leaves `PREVIEW_STOPPED` when dispatched in `PREVIEW_STOPPED`,
`PREVIEW_READY` or `PREVIEWING`. -/
theorem stopPreview_state (hwi : QCamera2HardwareInterface σ) (m : QCameraStateMachine σ)
    (hs : m.m_state = qcamera_state_enum_t.QCAMERA_SM_STATE_PREVIEW_STOPPED ∨ m.m_state = qcamera_state_enum_t.QCAMERA_SM_STATE_PREVIEW_READY ∨
      m.m_state = qcamera_state_enum_t.QCAMERA_SM_STATE_PREVIEWING) :
    (stateMachine hwi qcamera_sm_evt_enum_t.QCAMERA_SM_EVT_STOP_PREVIEW {} m).2.m_state = qcamera_state_enum_t.QCAMERA_SM_STATE_PREVIEW_STOPPED := by
  unfold stateMachine procEvtPreviewStoppedState procEvtPreviewReadyState
    procEvtPreviewingState procEvtPicTakingState procEvtRecordingState
    procEvtVideoPicTakingState procEvtPreviewPicTakingState
  rcases hs with hs | hs | hs <;>
    (rw [hs]; dsimp only; simp [replyDef, signalAPIResult, call, hs])

/-- C16, as stated, fails.  From the initial state (`PREVIEW_STOPPED`, no preview
window) a successful `START_NODISPLAY_PREVIEW` reaches `PREVIEWING` with no window
set.  From there `START_PREVIEW`, `STOP_PREVIEW`, `START_PREVIEW` all return
`NO_ERROR` and the window stays unset, but the first `START_PREVIEW` leaves
`PREVIEWING` and the second one leaves `PREVIEW_READY`. -/
theorem startStopStart_counterexample :
    ((stateMachine (scriptedHwi allSucceed false) qcamera_sm_evt_enum_t.QCAMERA_SM_EVT_START_NODISPLAY_PREVIEW {}
        (machineIn qcamera_state_enum_t.QCAMERA_SM_STATE_PREVIEW_STOPPED 0)).2).m_state = qcamera_state_enum_t.QCAMERA_SM_STATE_PREVIEWING ∧
    (startStopStart (scriptedHwi allSucceed false)
      (stateMachine (scriptedHwi allSucceed false) qcamera_sm_evt_enum_t.QCAMERA_SM_EVT_START_NODISPLAY_PREVIEW {}
        (machineIn qcamera_state_enum_t.QCAMERA_SM_STATE_PREVIEW_STOPPED 0)).2).1.1 = NO_ERROR ∧
    (startStopStart (scriptedHwi allSucceed false)
      (stateMachine (scriptedHwi allSucceed false) qcamera_sm_evt_enum_t.QCAMERA_SM_EVT_START_NODISPLAY_PREVIEW {}
        (machineIn qcamera_state_enum_t.QCAMERA_SM_STATE_PREVIEW_STOPPED 0)).2).2.1.1 = NO_ERROR ∧
    (startStopStart (scriptedHwi allSucceed false)
      (stateMachine (scriptedHwi allSucceed false) qcamera_sm_evt_enum_t.QCAMERA_SM_EVT_START_NODISPLAY_PREVIEW {}
        (machineIn qcamera_state_enum_t.QCAMERA_SM_STATE_PREVIEW_STOPPED 0)).2).2.2.1 = NO_ERROR ∧
    (startStopStart (scriptedHwi allSucceed false)
      (stateMachine (scriptedHwi allSucceed false) qcamera_sm_evt_enum_t.QCAMERA_SM_EVT_START_NODISPLAY_PREVIEW {}
        (machineIn qcamera_state_enum_t.QCAMERA_SM_STATE_PREVIEW_STOPPED 0)).2).1.2.m_state = qcamera_state_enum_t.QCAMERA_SM_STATE_PREVIEWING ∧
    (startStopStart (scriptedHwi allSucceed false)
      (stateMachine (scriptedHwi allSucceed false) qcamera_sm_evt_enum_t.QCAMERA_SM_EVT_START_NODISPLAY_PREVIEW {}
        (machineIn qcamera_state_enum_t.QCAMERA_SM_STATE_PREVIEW_STOPPED 0)).2).2.2.2.m_state = qcamera_state_enum_t.QCAMERA_SM_STATE_PREVIEW_READY ∧
    (startStopStart (scriptedHwi allSucceed false)
      (stateMachine (scriptedHwi allSucceed false) qcamera_sm_evt_enum_t.QCAMERA_SM_EVT_START_NODISPLAY_PREVIEW {}
        (machineIn qcamera_state_enum_t.QCAMERA_SM_STATE_PREVIEW_STOPPED 0)).2).2.2.2.m_state ≠
      (startStopStart (scriptedHwi allSucceed false)
      (stateMachine (scriptedHwi allSucceed false) qcamera_sm_evt_enum_t.QCAMERA_SM_EVT_START_NODISPLAY_PREVIEW {}
        (machineIn qcamera_state_enum_t.QCAMERA_SM_STATE_PREVIEW_STOPPED 0)).2).1.2.m_state ∧
    (scriptedHwi allSucceed false).mPreviewWindow
      (startStopStart (scriptedHwi allSucceed false)
      (stateMachine (scriptedHwi allSucceed false) qcamera_sm_evt_enum_t.QCAMERA_SM_EVT_START_NODISPLAY_PREVIEW {}
        (machineIn qcamera_state_enum_t.QCAMERA_SM_STATE_PREVIEW_STOPPED 0)).2).2.2.2.m_parent = 0 :=
  ⟨rfl, rfl, rfl, rfl, rfl, rfl, by decide, rfl⟩

/-- C16, amended. Let the machine be in a state that agrees with the preview window:
`PREVIEW_READY` only while no window is set and `PREVIEWING` only while a window is
set.  If `START_PREVIEW`, `STOP_PREVIEW` and `START_PREVIEW` are dispatched in that
order, each returns `NO_ERROR`, and the window read by the second `START_PREVIEW` is
the window read by the first, then the state after the second `START_PREVIEW` equals
the state after the first. -/
theorem startStopStart_same_state (hwi : QCamera2HardwareInterface σ)
    (m : QCameraStateMachine σ)
    (hready : m.m_state = qcamera_state_enum_t.QCAMERA_SM_STATE_PREVIEW_READY → hwi.mPreviewWindow m.m_parent = 0)
    (hprev : m.m_state = qcamera_state_enum_t.QCAMERA_SM_STATE_PREVIEWING → hwi.mPreviewWindow m.m_parent ≠ 0)
    (hfix : hwi.mPreviewWindow (startStopStart hwi m).2.1.2.m_parent =
      hwi.mPreviewWindow m.m_parent)
    (h1 : (startStopStart hwi m).1.1 = NO_ERROR)
    (h2 : (startStopStart hwi m).2.1.1 = NO_ERROR)
    (h3 : (startStopStart hwi m).2.2.1 = NO_ERROR) :
    (startStopStart hwi m).2.2.2.m_state = (startStopStart hwi m).1.2.m_state := by
  revert hfix h1 h2 h3
  unfold startStopStart
  dsimp only
  intro hfix h1 _ h3
  have hstop : ∀ m1 : QCameraStateMachine σ,
      (m1.m_state = qcamera_state_enum_t.QCAMERA_SM_STATE_PREVIEW_READY ∨ m1.m_state = qcamera_state_enum_t.QCAMERA_SM_STATE_PREVIEWING) →
      (stateMachine hwi qcamera_sm_evt_enum_t.QCAMERA_SM_EVT_STOP_PREVIEW {} m1).2.m_state = qcamera_state_enum_t.QCAMERA_SM_STATE_PREVIEW_STOPPED :=
    fun m1 h => stopPreview_state hwi m1 (Or.inr h)
  rcases startPreview_state hwi m h1 with ⟨hs, e1⟩ | ⟨hs, e1⟩ | ⟨hs, e1⟩
  · have e2 := hstop (stateMachine hwi qcamera_sm_evt_enum_t.QCAMERA_SM_EVT_START_PREVIEW {} m).2
      (by rw [e1]; split_ifs <;> simp)
    rcases startPreview_state hwi _ h3 with ⟨_, e3⟩ | ⟨hs3, _⟩ | ⟨hs3, _⟩
    · rw [e3, e1, hfix]
    · rw [e2] at hs3; exact absurd hs3 (by decide)
    · rw [e2] at hs3; exact absurd hs3 (by decide)
  · have e2 := hstop (stateMachine hwi qcamera_sm_evt_enum_t.QCAMERA_SM_EVT_START_PREVIEW {} m).2 (Or.inl e1)
    rcases startPreview_state hwi _ h3 with ⟨_, e3⟩ | ⟨hs3, _⟩ | ⟨hs3, _⟩
    · rw [e3, e1, hfix, if_pos (hready hs)]
    · rw [e2] at hs3; exact absurd hs3 (by decide)
    · rw [e2] at hs3; exact absurd hs3 (by decide)
  · have e2 := hstop (stateMachine hwi qcamera_sm_evt_enum_t.QCAMERA_SM_EVT_START_PREVIEW {} m).2 (Or.inr e1)
    rcases startPreview_state hwi _ h3 with ⟨_, e3⟩ | ⟨hs3, _⟩ | ⟨hs3, _⟩
    · rw [e3, e1, hfix, if_neg (hprev hs)]
    · rw [e2] at hs3; exact absurd hs3 (by decide)
    · rw [e2] at hs3; exact absurd hs3 (by decide)

/-- Witness of C16, amended: from `PREVIEW_STOPPED` and from `PREVIEWING`, with window
`7` and every operation succeeding, the three requests return `NO_ERROR` and both
`START_PREVIEW` requests leave the same state. -/
theorem startStopStart_same_state_witness :
    ((startStopStart (scriptedHwi allSucceed false)
        (machineIn qcamera_state_enum_t.QCAMERA_SM_STATE_PREVIEW_STOPPED 7)).1.1 = NO_ERROR ∧
      (startStopStart (scriptedHwi allSucceed false)
        (machineIn qcamera_state_enum_t.QCAMERA_SM_STATE_PREVIEW_STOPPED 7)).2.1.1 = NO_ERROR ∧
      (startStopStart (scriptedHwi allSucceed false)
        (machineIn qcamera_state_enum_t.QCAMERA_SM_STATE_PREVIEW_STOPPED 7)).2.2.1 = NO_ERROR ∧
      (startStopStart (scriptedHwi allSucceed false)
        (machineIn qcamera_state_enum_t.QCAMERA_SM_STATE_PREVIEW_STOPPED 7)).2.2.2.m_state =
        (startStopStart (scriptedHwi allSucceed false)
          (machineIn qcamera_state_enum_t.QCAMERA_SM_STATE_PREVIEW_STOPPED 7)).1.2.m_state) ∧
    ((scriptedHwi allSucceed false).mPreviewWindow
        (machineIn qcamera_state_enum_t.QCAMERA_SM_STATE_PREVIEWING 7).m_parent ≠ 0 ∧
      (startStopStart (scriptedHwi allSucceed false)
        (machineIn qcamera_state_enum_t.QCAMERA_SM_STATE_PREVIEWING 7)).2.2.2.m_state =
        (startStopStart (scriptedHwi allSucceed false)
          (machineIn qcamera_state_enum_t.QCAMERA_SM_STATE_PREVIEWING 7)).1.2.m_state) :=
  ⟨⟨rfl, rfl, rfl, startStopStart_same_state (scriptedHwi allSucceed false)
      (machineIn qcamera_state_enum_t.QCAMERA_SM_STATE_PREVIEW_STOPPED 7) (fun h => absurd h (by decide))
      (fun h => absurd h (by decide)) rfl rfl rfl rfl⟩,
   ⟨by decide, startStopStart_same_state (scriptedHwi allSucceed false)
      (machineIn qcamera_state_enum_t.QCAMERA_SM_STATE_PREVIEWING 7) (fun h => absurd h (by decide))
      (fun _ => by decide) rfl rfl rfl rfl⟩⟩

/-- C17 at the failing input: in `PREVIEWING` and in `PREVIEW_PIC_TAKING`, a
`SET_PARAMS` request whose update asks for a restart invokes `startPreview`; when that
invocation fails (status `-1`) the status is dropped: the request returns `NO_ERROR`
and the state stays one in which `isPreviewRunning` answers `true`. -/
theorem setParams_restart_start_failure_ignored :
    ((scriptedHwi (failing HwiCall.startPreview) true).exec HwiCall.startPreview 7).1 = -1 ∧
    HwiCall.startPreview ∈ (stateMachine (scriptedHwi (failing HwiCall.startPreview) true) qcamera_sm_evt_enum_t.QCAMERA_SM_EVT_SET_PARAMS {}
      (machineIn qcamera_state_enum_t.QCAMERA_SM_STATE_PREVIEWING 7)).2.calls ∧
    (stateMachine (scriptedHwi (failing HwiCall.startPreview) true) qcamera_sm_evt_enum_t.QCAMERA_SM_EVT_SET_PARAMS {}
      (machineIn qcamera_state_enum_t.QCAMERA_SM_STATE_PREVIEWING 7)).1 = NO_ERROR ∧
    (stateMachine (scriptedHwi (failing HwiCall.startPreview) true) qcamera_sm_evt_enum_t.QCAMERA_SM_EVT_SET_PARAMS {}
      (machineIn qcamera_state_enum_t.QCAMERA_SM_STATE_PREVIEWING 7)).2.m_state = qcamera_state_enum_t.QCAMERA_SM_STATE_PREVIEWING ∧
    isPreviewRunning (stateMachine (scriptedHwi (failing HwiCall.startPreview) true) qcamera_sm_evt_enum_t.QCAMERA_SM_EVT_SET_PARAMS {}
      (machineIn qcamera_state_enum_t.QCAMERA_SM_STATE_PREVIEWING 7)).2 = true ∧
    HwiCall.startPreview ∈ (stateMachine (scriptedHwi (failing HwiCall.startPreview) true) qcamera_sm_evt_enum_t.QCAMERA_SM_EVT_SET_PARAMS {}
      (machineIn qcamera_state_enum_t.QCAMERA_SM_STATE_PREVIEW_PIC_TAKING 7)).2.calls ∧
    (stateMachine (scriptedHwi (failing HwiCall.startPreview) true) qcamera_sm_evt_enum_t.QCAMERA_SM_EVT_SET_PARAMS {}
      (machineIn qcamera_state_enum_t.QCAMERA_SM_STATE_PREVIEW_PIC_TAKING 7)).2.m_state = qcamera_state_enum_t.QCAMERA_SM_STATE_PREVIEW_PIC_TAKING ∧
    isPreviewRunning (stateMachine (scriptedHwi (failing HwiCall.startPreview) true) qcamera_sm_evt_enum_t.QCAMERA_SM_EVT_SET_PARAMS {}
      (machineIn qcamera_state_enum_t.QCAMERA_SM_STATE_PREVIEW_PIC_TAKING 7)).2 = true := by
  refine ⟨rfl, ?_, rfl, rfl, rfl, ?_, rfl, rfl⟩ <;> decide

/-- A handler neither reads nor writes the log of the worker routine. -/
theorem stateMachine_worker (hwi : QCamera2HardwareInterface σ)
    (evt : qcamera_sm_evt_enum_t) (payload : Payload) (m : QCameraStateMachine σ)
    (w : List WorkerAct) :
    stateMachine hwi evt payload { m with worker := w } =
      ((stateMachine hwi evt payload m).1,
        { (stateMachine hwi evt payload m).2 with worker := w }) := by
  unfold stateMachine procEvtPreviewStoppedState procEvtPreviewReadyState
    procEvtPreviewingState procEvtPicTakingState procEvtRecordingState
    procEvtVideoPicTakingState procEvtPreviewPicTakingState
  obtain ⟨parent, state, apiq, evtq, calls, _⟩ := m
  cases state <;> cases evt <;> dsimp only <;>
    (try simp only [callAndReply, replyDef, replyEnableFlag, replyParams, setParamsPlain,
      setParamsRestart, setParamsNoRestart, prepareAndStart, procInternalEvt, procNotifyEvt,
      signalAPIResult, call, callUpdateParameters]) <;>
    (try split) <;> (try split_ifs) <;> rfl

/-- C18. What the worker does with a record `node` it has dequeued (`procCmd` hands the
record it takes off the API queue, or else off the event queue, to `dispatchNode`).
For an API command the machine afterwards is the result of one invocation of the
state handler, and the worker has logged one dispatch and one `free` of the record,
none of the payload.  For an event command the same holds with one `free` of the
payload between the dispatch and the `free` of the record.  For a shutdown command
no handler is invoked, the record is freed once, `running` becomes false, and the
routine returns at once: the commands still queued stay queued, whatever waits were
to follow. -/
theorem dispatchNode_lifecycle (hwi : QCamera2HardwareInterface σ)
    (node : qcamera_sm_cmd_t) (m : QCameraStateMachine σ) :
    (∀ rest, m.api_queue = node :: rest →
      procCmd hwi m = dispatchNode hwi node { m with api_queue := rest }) ∧
    (∀ rest, m.api_queue = [] → m.evt_queue = node :: rest →
      procCmd hwi m = dispatchNode hwi node { m with evt_queue := rest }) ∧
    (node.cmd = qcamera_sm_cmd_type_t.QCAMERA_SM_CMD_TYPE_API →
      dispatchNode hwi node m =
        (true, { (stateMachine hwi node.evt node.evt_payload m).2 with
          worker := m.worker ++ [WorkerAct.dispatch node, WorkerAct.freeNode node] })) ∧
    (node.cmd = qcamera_sm_cmd_type_t.QCAMERA_SM_CMD_TYPE_EVT →
      dispatchNode hwi node m =
        (true, { (stateMachine hwi node.evt node.evt_payload m).2 with
          worker := m.worker ++ [WorkerAct.dispatch node, WorkerAct.freePayload node,
            WorkerAct.freeNode node] })) ∧
    (node.cmd = qcamera_sm_cmd_type_t.QCAMERA_SM_CMD_TYPE_EXIT →
      dispatchNode hwi node m =
        (false, { m with worker := m.worker ++ [WorkerAct.freeNode node] })) ∧
    (node.cmd = qcamera_sm_cmd_type_t.QCAMERA_SM_CMD_TYPE_EXIT →
      ∀ (rest : List qcamera_sm_cmd_t) (w : SemWait) (ws : List SemWait),
        w.arrivals = [] → w.ret = 0 → m.api_queue = node :: rest →
        smEvtProcRoutine hwi (w :: ws) m =
          RoutineEnd.returned
            { m with api_queue := rest,
                     worker := m.worker ++ [WorkerAct.freeNode node] }) := by
  have hapi : ∀ rest, m.api_queue = node :: rest →
      procCmd hwi m = dispatchNode hwi node { m with api_queue := rest } := by
    intro rest ha
    unfold procCmd
    rw [ha]
    rfl
  have hexit : node.cmd = qcamera_sm_cmd_type_t.QCAMERA_SM_CMD_TYPE_EXIT → ∀ m1 : QCameraStateMachine σ,
      dispatchNode hwi node m1 =
        (false, { m1 with worker := m1.worker ++ [WorkerAct.freeNode node] }) := by
    intro hc m1
    unfold dispatchNode
    rw [hc]
  refine ⟨hapi, ?_, ?_, ?_, fun hc => hexit hc m, ?_⟩
  · intro rest ha he
    unfold procCmd
    rw [ha, he]
    dsimp only [QCameraQueue.dequeue]
  · intro hc
    unfold dispatchNode
    rw [hc]
    dsimp only
    rw [stateMachine_worker]
    simp
  · intro hc
    unfold dispatchNode
    rw [hc]
    dsimp only
    rw [stateMachine_worker]
    simp
  · intro hc rest w ws harr hret ha
    unfold smEvtProcRoutine
    simp only [harr, hret, List.foldl_nil, ne_eq, not_true_eq_false, false_and, if_false]
    rw [hapi rest ha, hexit hc]
    simp

/-- Witness of C18: a shutdown record at the head of the API queue with a `STOP_PREVIEW`
command behind it: the routine returns, `STOP_PREVIEW` is still queued and was not
dispatched. -/
theorem dispatchNode_lifecycle_witness :
    (smEvtProcRoutine (scriptedHwi allSucceed false) [{}, {}] pendingExit).isReturned = true ∧
    (smEvtProcRoutine (scriptedHwi allSucceed false) [{}, {}] pendingExit).machine.api_queue =
      [{ cmd := qcamera_sm_cmd_type_t.QCAMERA_SM_CMD_TYPE_API, evt := qcamera_sm_evt_enum_t.QCAMERA_SM_EVT_STOP_PREVIEW, evt_payload := {} }] ∧
    (smEvtProcRoutine (scriptedHwi allSucceed false) [{}, {}] pendingExit).machine.calls = [] :=
  have h := (dispatchNode_lifecycle (scriptedHwi allSucceed false)
    { cmd := qcamera_sm_cmd_type_t.QCAMERA_SM_CMD_TYPE_EXIT, evt := qcamera_sm_evt_enum_t.OUT_OF_ENUM (-1), evt_payload := {} }
    pendingExit).2.2.2.2.2 rfl
    [{ cmd := qcamera_sm_cmd_type_t.QCAMERA_SM_CMD_TYPE_API, evt := qcamera_sm_evt_enum_t.QCAMERA_SM_EVT_STOP_PREVIEW, evt_payload := {} }] {} [{}] rfl rfl rfl
  ⟨by rw [h]; rfl, by rw [h]; rfl, by rw [h]; rfl⟩

/-- The API and the event part of C18 at a concrete record: the log of the worker
after a `STOP_PREVIEW` API command, and after a zoom-done event command, dispatched
in `PREVIEWING`. -/
theorem dispatchNode_lifecycle_examples :
    (dispatchNode (scriptedHwi allSucceed false)
      { cmd := qcamera_sm_cmd_type_t.QCAMERA_SM_CMD_TYPE_API, evt := qcamera_sm_evt_enum_t.QCAMERA_SM_EVT_STOP_PREVIEW, evt_payload := {} }
      (machineIn qcamera_state_enum_t.QCAMERA_SM_STATE_PREVIEWING 7)).2.worker =
      [WorkerAct.dispatch { cmd := qcamera_sm_cmd_type_t.QCAMERA_SM_CMD_TYPE_API, evt := qcamera_sm_evt_enum_t.QCAMERA_SM_EVT_STOP_PREVIEW, evt_payload := {} },
       WorkerAct.freeNode { cmd := qcamera_sm_cmd_type_t.QCAMERA_SM_CMD_TYPE_API, evt := qcamera_sm_evt_enum_t.QCAMERA_SM_EVT_STOP_PREVIEW, evt_payload := {} }] ∧
    (dispatchNode (scriptedHwi allSucceed false)
      { cmd := qcamera_sm_cmd_type_t.QCAMERA_SM_CMD_TYPE_EVT, evt := qcamera_sm_evt_enum_t.QCAMERA_SM_EVT_EVT_NOTIFY, evt_payload := {} }
      (machineIn qcamera_state_enum_t.QCAMERA_SM_STATE_PREVIEWING 7)).2.worker =
      [WorkerAct.dispatch { cmd := qcamera_sm_cmd_type_t.QCAMERA_SM_CMD_TYPE_EVT, evt := qcamera_sm_evt_enum_t.QCAMERA_SM_EVT_EVT_NOTIFY, evt_payload := {} },
       WorkerAct.freePayload { cmd := qcamera_sm_cmd_type_t.QCAMERA_SM_CMD_TYPE_EVT, evt := qcamera_sm_evt_enum_t.QCAMERA_SM_EVT_EVT_NOTIFY, evt_payload := {} },
       WorkerAct.freeNode { cmd := qcamera_sm_cmd_type_t.QCAMERA_SM_CMD_TYPE_EVT, evt := qcamera_sm_evt_enum_t.QCAMERA_SM_EVT_EVT_NOTIFY, evt_payload := {} }] :=
  ⟨rfl, rfl⟩

/-- A producer other than the destructor queues no shutdown record. -/
theorem producer_run_noExit (p : Producer) (m : QCameraStateMachine σ)
    (hp : p ≠ Producer.destructor) (hm : NoExitQueued m) : NoExitQueued (p.run m) := by
  cases p
  case destructor => exact absurd rfl hp
  case procAPI evt api_payload =>
    refine ⟨fun n hn => ?_, hm.2⟩
    simp only [Producer.run, QCamera.procAPI, QCameraQueue.enqueue, if_true,
      List.mem_append, List.mem_singleton] at hn
    rcases hn with hn | hn
    · exact hm.1 n hn
    · rw [hn]; simp
  case procEvt evt evt_payload =>
    refine ⟨hm.1, fun n hn => ?_⟩
    simp only [Producer.run, QCamera.procEvt, QCameraQueue.enqueue, if_true,
      List.mem_append, List.mem_singleton] at hn
    rcases hn with hn | hn
    · exact hm.2 n hn
    · rw [hn]; simp

/-- Producers other than the destructor queue no shutdown record. -/
theorem arrivals_noExit (ps : List Producer) (m : QCameraStateMachine σ)
    (hp : Producer.destructor ∉ ps) (hm : NoExitQueued m) :
    NoExitQueued (ps.foldl (fun acc p => p.run acc) m) := by
  induction ps generalizing m with
  | nil => exact hm
  | cons p ps ih =>
    simp only [List.mem_cons, not_or] at hp
    exact ih _ hp.2 (producer_run_noExit p m (fun h => hp.1 h.symm) hm)

/-- Handling a record that is not a shutdown record keeps the loop running and leaves
the queues as they are. -/
theorem dispatchNode_noExit (hwi : QCamera2HardwareInterface σ) (node : qcamera_sm_cmd_t)
    (m : QCameraStateMachine σ) (hn : node.cmd ≠ qcamera_sm_cmd_type_t.QCAMERA_SM_CMD_TYPE_EXIT) :
    (dispatchNode hwi node m).1 = true ∧
      (dispatchNode hwi node m).2.api_queue = m.api_queue ∧
      (dispatchNode hwi node m).2.evt_queue = m.evt_queue := by
  unfold dispatchNode
  cases hc : node.cmd
  case QCAMERA_SM_CMD_TYPE_EXIT => exact absurd hc hn
  case QCAMERA_SM_CMD_TYPE_API =>
    exact ⟨rfl, (stateMachine_frame hwi _ _ _).1, (stateMachine_frame hwi _ _ _).2.1⟩
  case QCAMERA_SM_CMD_TYPE_EVT =>
    exact ⟨rfl, (stateMachine_frame hwi _ _ _).1, (stateMachine_frame hwi _ _ _).2.1⟩
  case QCAMERA_SM_CMD_TYPE_MAX => exact ⟨rfl, rfl, rfl⟩

/-- An iteration with no shutdown record pending keeps the loop running and leaves
no shutdown record pending. -/
theorem procCmd_noExit (hwi : QCamera2HardwareInterface σ) (m : QCameraStateMachine σ)
    (hm : NoExitQueued m) :
    (procCmd hwi m).1 = true ∧ NoExitQueued (procCmd hwi m).2 := by
  cases ha : m.api_queue with
  | cons node rest =>
    have hp : procCmd hwi m = dispatchNode hwi node { m with api_queue := rest } := by
      unfold procCmd
      rw [ha]
      rfl
    have hn : node.cmd ≠ qcamera_sm_cmd_type_t.QCAMERA_SM_CMD_TYPE_EXIT := hm.1 node (by rw [ha]; exact List.mem_cons_self _ _)
    have h := dispatchNode_noExit hwi node { m with api_queue := rest } hn
    rw [hp]
    refine ⟨h.1, fun n hmem => ?_, fun n hmem => ?_⟩
    · rw [h.2.1] at hmem
      exact hm.1 n (by rw [ha]; exact List.mem_cons_of_mem _ hmem)
    · rw [h.2.2] at hmem
      exact hm.2 n hmem
  | nil =>
    cases he : m.evt_queue with
    | nil =>
      have hp : procCmd hwi m = (true, { m with api_queue := [], evt_queue := [] }) := by
        unfold procCmd
        rw [ha, he]
        rfl
      rw [hp]
      exact ⟨rfl, fun n hmem => (by cases hmem), fun n hmem => (by cases hmem)⟩
    | cons node rest =>
      have hp : procCmd hwi m =
          dispatchNode hwi node { m with api_queue := [], evt_queue := rest } := by
        unfold procCmd
        rw [ha, he]
        rfl
      have hn : node.cmd ≠ qcamera_sm_cmd_type_t.QCAMERA_SM_CMD_TYPE_EXIT := hm.2 node (by rw [he]; exact List.mem_cons_self _ _)
      have h := dispatchNode_noExit hwi node
        { m with api_queue := [], evt_queue := rest } hn
      rw [hp]
      refine ⟨h.1, fun n hmem => ?_, fun n hmem => ?_⟩
      · rw [h.2.1] at hmem
        cases hmem
      · rw [h.2.2] at hmem
        exact hm.2 n (by rw [he]; exact List.mem_cons_of_mem _ hmem)

/-- C19, as stated, fails: with both queues empty (no shutdown record anywhere) and a
single `sem_wait` that fails with an `errno` other than `EINVAL` (here `EINTR`, 4),
the routine returns. -/
theorem smEvtProcRoutine_returns_on_wait_error :
    (machineIn qcamera_state_enum_t.QCAMERA_SM_STATE_PREVIEW_STOPPED 0).api_queue = [] ∧
    (machineIn qcamera_state_enum_t.QCAMERA_SM_STATE_PREVIEW_STOPPED 0).evt_queue = [] ∧
    (smEvtProcRoutine (scriptedHwi allSucceed false) [{ ret := -1, errno := 4 }]
      (machineIn qcamera_state_enum_t.QCAMERA_SM_STATE_PREVIEW_STOPPED 0)).isReturned = true :=
  ⟨rfl, rfl, by decide⟩

/-- C19, amended. The worker routine returns only when it dequeues a shutdown record or
when `sem_wait` fails with an `errno` other than `EINVAL`: over every finite sequence
of `sem_wait` returns none of which is such a failure, with no shutdown record pending
at the start and none queued by a producer on the way, the routine has not returned
(it is blocked in the next `sem_wait`). -/
theorem smEvtProcRoutine_never_returns (hwi : QCamera2HardwareInterface σ)
    (waits : List SemWait) (m : QCameraStateMachine σ)
    (hq : NoExitQueued m)
    (ha : ∀ w ∈ waits, Producer.destructor ∉ w.arrivals)
    (hw : ∀ w ∈ waits, w.ret ≠ 0 → w.errno = EINVAL) :
    (smEvtProcRoutine hwi waits m).isReturned = false := by
  induction waits generalizing m with
  | nil => rfl
  | cons w ws ih =>
    have hm0 := arrivals_noExit w.arrivals m (ha w (List.mem_cons_self _ _)) hq
    have ha' : ∀ w' ∈ ws, Producer.destructor ∉ w'.arrivals :=
      fun w' h => ha w' (List.mem_cons_of_mem _ h)
    have hw' : ∀ w' ∈ ws, w'.ret ≠ 0 → w'.errno = EINVAL :=
      fun w' h => hw w' (List.mem_cons_of_mem _ h)
    unfold smEvtProcRoutine
    dsimp only
    by_cases hret : w.ret = 0
    · have hp := procCmd_noExit hwi _ hm0
      simp only [hret, ne_eq, not_true_eq_false, false_and, if_false, hp.1, if_true]
      exact ih _ hp.2 ha' hw'
    · have herr := hw w (List.mem_cons_self _ _) hret
      simp only [herr, ne_eq, not_true_eq_false, and_false, if_false, hret,
        not_false_eq_true, if_true]
      exact ih _ hm0 ha' hw'

/-- Witness of C19, amended: a wait interrupted with `EINVAL`, then a wait during which an
API command and an event command arrive, then a wait that finds the event: the
routine has not returned, and both commands were dispatched, the API command first. -/
theorem smEvtProcRoutine_never_returns_witness :
    NoExitQueued pendingBoth ∧
    (smEvtProcRoutine (scriptedHwi allSucceed false)
      [{ ret := -1, errno := EINVAL }, {}, {}] pendingBoth).isReturned = false :=
  ⟨⟨by decide, by decide⟩,
    smEvtProcRoutine_never_returns (scriptedHwi allSucceed false)
      [{ ret := -1, errno := EINVAL }, {}, {}] pendingBoth ⟨by decide, by decide⟩
      (by decide) (by decide)⟩

/-- On its success path `allocOneBuffer` returns `OK` and fills the descriptor. -/
theorem allocOneBuffer_of_succeeds (r : IonReply) (memInfo : QCameraMemInfo)
    (heap_id size : Int) (h : r.succeeds = true) :
    (allocOneBuffer r memInfo heap_id size).1 = OK ∧
      (allocOneBuffer r memInfo heap_id size).2.1 =
        { main_ion_fd := r.open_fd, fd := r.share_fd, handle := r.alloc_handle,
          size := alignedLen size } := by
  simp only [IonReply.succeeds, Bool.and_eq_true, decide_eq_true_eq] at h
  unfold allocOneBuffer
  rw [if_neg (by omega), if_neg (by omega), if_neg (by omega)]
  exact ⟨rfl, rfl⟩

/-- On each of its failure paths `allocOneBuffer` returns `NO_MEMORY` and leaves the
descriptor as it was. -/
theorem allocOneBuffer_of_fails (r : IonReply) (memInfo : QCameraMemInfo)
    (heap_id size : Int) (h : r.succeeds = false) :
    (allocOneBuffer r memInfo heap_id size).1 = NO_MEMORY ∧
      (allocOneBuffer r memInfo heap_id size).2.1 = memInfo := by
  unfold allocOneBuffer
  split_ifs with h1 h2 h3
  · exact ⟨rfl, rfl⟩
  · exact ⟨rfl, rfl⟩
  · exact ⟨rfl, rfl⟩
  · exfalso
    have : r.succeeds = true := by
      simp only [IonReply.succeeds, Bool.and_eq_true, decide_eq_true_eq]
      omega
    rw [h] at this
    exact Bool.noConfusion this

/-- The log of `allocOneBuffer` holds no `deallocOneBuffer` marker. -/
theorem allocOneBuffer_deallocIndices (r : IonReply) (memInfo : QCameraMemInfo)
    (heap_id size : Int) :
    deallocIndices (allocOneBuffer r memInfo heap_id size).2.2 = [] := by
  unfold allocOneBuffer
  split_ifs <;> rfl

/-- The system calls of `deallocOneBuffer` hold no `deallocOneBuffer` marker. -/
theorem deallocOneBuffer_deallocIndices (memInfo : QCameraMemInfo) :
    deallocIndices (deallocOneBuffer memInfo).2 = [] := by
  unfold deallocOneBuffer
  dsimp only
  split_ifs <;> rfl

/-- After `deallocOneBuffer` a descriptor whose two file descriptors were not negative
holds zeros only. -/
theorem deallocOneBuffer_zero (memInfo : QCameraMemInfo)
    (hfd : 0 ≤ memInfo.fd) (hion : 0 ≤ memInfo.main_ion_fd) :
    (deallocOneBuffer memInfo).1 = {} := by
  obtain ⟨fd, ion, handle, size⟩ := memInfo
  simp only at hfd hion
  unfold deallocOneBuffer
  dsimp only
  split_ifs with h1 h2 h2 <;> simp only [QCameraMemInfo.mk.injEq, and_true, true_and] <;>
    dsimp only at h1 h2 <;> omega

/-- The roll-back loop of `alloc`: `deallocOneBuffer` is applied to the descriptors
`i-1, ..., 0` and to no other. -/
theorem deallocBelow_spec (i : Nat) (p : QCameraMemory)
    (hgood : ∀ j < i, 0 ≤ (p.mMemInfo j).fd ∧ 0 ≤ (p.mMemInfo j).main_ion_fd) :
    (QCameraMemory.deallocBelow i p).mBufferCount = p.mBufferCount ∧
      deallocIndices (QCameraMemory.deallocBelow i p).ops =
        deallocIndices p.ops ++ (List.range i).reverse ∧
      (∀ j < i, (QCameraMemory.deallocBelow i p).mMemInfo j = {}) ∧
      (∀ j, i ≤ j → (QCameraMemory.deallocBelow i p).mMemInfo j = p.mMemInfo j) := by
  induction i generalizing p with
  | zero =>
    refine ⟨rfl, ?_, fun j hj => absurd hj (Nat.not_lt_zero j), fun j _ => rfl⟩
    simp [QCameraMemory.deallocBelow]
  | succ i ih =>
    have hz : (p.deallocAt i).mMemInfo i = {} := by
      simp only [QCameraMemory.deallocAt, Function.update_same]
      exact deallocOneBuffer_zero _ (hgood i (Nat.lt_succ_self i)).1
        (hgood i (Nat.lt_succ_self i)).2
    have hother : ∀ j, j ≠ i → (p.deallocAt i).mMemInfo j = p.mMemInfo j := by
      intro j hj
      simp only [QCameraMemory.deallocAt, Function.update_noteq hj]
    have hg : ∀ j < i, 0 ≤ ((p.deallocAt i).mMemInfo j).fd ∧
        0 ≤ ((p.deallocAt i).mMemInfo j).main_ion_fd := by
      intro j hj
      rw [hother j (Nat.ne_of_lt hj)]
      exact hgood j (Nat.lt_succ_of_lt hj)
    obtain ⟨h1, h2, h3, h4⟩ := ih (p.deallocAt i) hg
    refine ⟨?_, ?_, ?_, ?_⟩
    · rw [QCameraMemory.deallocBelow, h1]; rfl
    · rw [QCameraMemory.deallocBelow, h2]
      simp only [QCameraMemory.deallocAt, deallocIndices, List.filterMap_append,
        List.range_succ, List.reverse_append, List.reverse_cons, List.reverse_nil]
      have hd := deallocOneBuffer_deallocIndices (p.mMemInfo i)
      simp only [deallocIndices] at hd
      rw [hd]
      simp [IonOp.deallocIndex]
    · intro j hj
      rw [QCameraMemory.deallocBelow]
      rcases Nat.lt_succ_iff_lt_or_eq.mp hj with hlt | heq
      · exact h3 j hlt
      · rw [h4 j (Nat.le_of_eq heq.symm), heq]; exact hz
    · intro j hj
      rw [QCameraMemory.deallocBelow, h4 j (Nat.le_of_succ_le hj)]
      exact hother j (Nat.ne_of_gt hj)

/-- The loop of `alloc` when the first buffer that cannot be allocated is buffer `k`. -/
theorem allocLoop_fail_spec (ion : Nat → IonReply) (heap_id size : Int) (k : Nat)
    (hfail : (ion k).succeeds = false) (n : Nat) :
    ∀ (i : Nat) (rc : Int) (p : QCameraMemory), i ≤ k → k < i + n →
      (∀ j < i, 0 ≤ (p.mMemInfo j).fd ∧ 0 ≤ (p.mMemInfo j).main_ion_fd) →
      (∀ j, i ≤ j → j < k → (ion j).succeeds = true ∧ 0 ≤ (ion j).share_fd) →
      (QCameraMemory.allocLoop ion heap_id size n i rc p).1 = NO_MEMORY ∧
      (QCameraMemory.allocLoop ion heap_id size n i rc p).2.mBufferCount = p.mBufferCount ∧
      deallocIndices (QCameraMemory.allocLoop ion heap_id size n i rc p).2.ops =
        deallocIndices p.ops ++ (List.range k).reverse ∧
      (∀ j < k, (QCameraMemory.allocLoop ion heap_id size n i rc p).2.mMemInfo j = {}) ∧
      (∀ j, k ≤ j →
        (QCameraMemory.allocLoop ion heap_id size n i rc p).2.mMemInfo j = p.mMemInfo j) := by
  induction n with
  | zero => intro i rc p hik hkn; omega
  | succ n ih =>
    intro i rc p hik hkn hgood hok
    have hops : ∀ r : IonReply,
        deallocIndices (p.ops ++ [IonOp.allocOneBuffer i] ++
          (allocOneBuffer r (p.mMemInfo i) heap_id size).2.2) = deallocIndices p.ops := by
      intro r
      have h := allocOneBuffer_deallocIndices r (p.mMemInfo i) heap_id size
      simp only [deallocIndices] at h
      simp [deallocIndices, h, IonOp.deallocIndex]
    unfold QCameraMemory.allocLoop
    dsimp only
    rcases Nat.lt_or_ge i k with hlt | hge
    · -- buffer `i` is allocated, the loop goes on
      obtain ⟨hs, hfd⟩ := hok i (Nat.le_refl i) hlt
      obtain ⟨h1, h2⟩ := allocOneBuffer_of_succeeds (ion i) (p.mMemInfo i) heap_id size hs
      have hopen : 0 < (ion i).open_fd := by
        simp only [IonReply.succeeds, Bool.and_eq_true, decide_eq_true_eq] at hs
        exact hs.1.1
      rw [if_neg (by rw [h1]; decide)]
      obtain ⟨e1, e2, e3, e4, e5⟩ := ih (i + 1)
        (allocOneBuffer (ion i) (p.mMemInfo i) heap_id size).1
        { p with
          mMemInfo := Function.update p.mMemInfo i
            (allocOneBuffer (ion i) (p.mMemInfo i) heap_id size).2.1,
          ops := p.ops ++ [IonOp.allocOneBuffer i] ++
            (allocOneBuffer (ion i) (p.mMemInfo i) heap_id size).2.2 }
        (by omega) (by omega)
        (by
          intro j hj
          dsimp only
          rcases Nat.lt_succ_iff_lt_or_eq.mp hj with hj' | hj'
          · rw [Function.update_noteq (Nat.ne_of_lt hj')]
            exact hgood j hj'
          · rw [hj', Function.update_same, h2]
            exact ⟨hfd, Int.le_of_lt hopen⟩)
        (fun j hij hjk => hok j (by omega) hjk)
      refine ⟨e1, e2, ?_, e4, ?_⟩
      · rw [e3]
        dsimp only
        rw [hops]
      · intro j hj
        rw [e5 j hj]
        dsimp only
        rw [Function.update_noteq (by omega)]
    · -- buffer `i = k` cannot be allocated: roll back
      have hik' : i = k := Nat.le_antisymm hik hge
      obtain ⟨h1, h2⟩ := allocOneBuffer_of_fails (ion i) (p.mMemInfo i) heap_id size
        (by rw [hik']; exact hfail)
      rw [if_pos (by rw [h1]; decide)]
      dsimp only
      rw [h1, h2, Function.update_eq_self]
      obtain ⟨d1, d2, d3, d4⟩ := deallocBelow_spec i
        { p with ops := p.ops ++ [IonOp.allocOneBuffer i] ++
            (allocOneBuffer (ion i) (p.mMemInfo i) heap_id size).2.2 } hgood
      rw [hik'] at d1 d2 d3 d4 ⊢
      refine ⟨rfl, d1, ?_, d3, d4⟩
      rw [d2]
      dsimp only
      rw [← hik', hops]

/-- C20. `QCameraMemory::alloc` with `0 ≤ count ≤ MM_CAMERA_MAX_NUM_FRAMES` on a pool
whose buffer count is zero, when the buffers below `k` are allocated (the kernel
hands out a descriptor that is not negative for each) and buffer `k < count` cannot be
allocated: the call returns `NO_MEMORY`, `deallocOneBuffer` is applied to the
descriptors `k-1, ..., 0`, once each, and to no other, every descriptor below `k`
holds zeros only afterwards (no fd, no ion fd, no handle, no size), every descriptor
from `k` on is as it was before the call, and the buffer count is still zero. -/
theorem alloc_failure_rolls_back (MM_CAMERA_MAX_NUM_FRAMES : Int) (ion : Nat → IonReply)
    (count size heap_id : Int) (p : QCameraMemory) (k : Nat)
    (h0 : 0 ≤ count) (hmax : count ≤ MM_CAMERA_MAX_NUM_FRAMES)
    (hcnt : p.mBufferCount = 0) (hk : (k : Int) < count)
    (hok : ∀ j < k, (ion j).succeeds = true ∧ 0 ≤ (ion j).share_fd)
    (hfail : (ion k).succeeds = false) :
    (QCameraMemory.alloc MM_CAMERA_MAX_NUM_FRAMES ion count size heap_id p).1 = NO_MEMORY ∧
      (QCameraMemory.alloc MM_CAMERA_MAX_NUM_FRAMES ion count size heap_id p).2.mBufferCount
        = 0 ∧
      deallocIndices
          (QCameraMemory.alloc MM_CAMERA_MAX_NUM_FRAMES ion count size heap_id p).2.ops =
        deallocIndices p.ops ++ (List.range k).reverse ∧
      (∀ j < k,
        (QCameraMemory.alloc MM_CAMERA_MAX_NUM_FRAMES ion count size heap_id p).2.mMemInfo j =
          { fd := 0, main_ion_fd := 0, handle := 0, size := 0 }) ∧
      (∀ j, k ≤ j →
        (QCameraMemory.alloc MM_CAMERA_MAX_NUM_FRAMES ion count size heap_id p).2.mMemInfo j =
          p.mMemInfo j) := by
  unfold QCameraMemory.alloc
  rw [if_neg (by omega), if_neg (by simp [hcnt])]
  obtain ⟨e1, e2, e3, e4, e5⟩ := allocLoop_fail_spec ion heap_id size k hfail count.toNat
    0 OK p (Nat.zero_le k) (by omega) (fun j hj => absurd hj (Nat.not_lt_zero j))
    (fun j _ hj => hok j hj)
  exact ⟨e1, by rw [e2, hcnt], e3, e4, e5⟩

/-- Witness of C20: five buffers are requested from an empty pool and buffer 2 cannot
be allocated. -/
theorem alloc_failure_rolls_back_witness :
    (QCameraMemory.alloc 16 (ionFailingAt 2) 5 5000 0 {}).1 = NO_MEMORY ∧
    deallocIndices (QCameraMemory.alloc 16 (ionFailingAt 2) 5 5000 0 {}).2.ops = [1, 0] ∧
    (∀ j < 2, (QCameraMemory.alloc 16 (ionFailingAt 2) 5 5000 0 {}).2.mMemInfo j =
      { fd := 0, main_ion_fd := 0, handle := 0, size := 0 }) :=
  have h := alloc_failure_rolls_back 16 (ionFailingAt 2) 5 5000 0 {} 2 (by decide)
    (by decide) rfl (by decide) (by decide) (by decide)
  ⟨h.1, h.2.2.1, h.2.2.2.1⟩

/-- Clearing the low twelve bits of a 32-bit value rounds it down to a multiple of
4096. -/
theorem land_page_mask (x : Nat) (hx : x < 4294967296) :
    x &&& 4294963200 = 4096 * (x / 4096) := by
  apply Nat.eq_of_testBit_eq
  intro i
  have hM : (4294963200 : Nat) = 2 ^ 12 * (2 ^ 20 - 1) := by norm_num
  have hq : 4096 * (x / 4096) = 2 ^ 12 * (x >>> 12) := by
    rw [Nat.shiftRight_eq_div_pow]; norm_num
  rw [Nat.testBit_and, hM, hq, Nat.testBit_mul_pow_two, Nat.testBit_mul_pow_two,
    Nat.testBit_two_pow_sub_one, Nat.testBit_shiftRight]
  by_cases h12 : 12 ≤ i
  · have e : 12 + (i - 12) = i := by omega
    rw [e]
    by_cases h32 : i < 32
    · have : i - 12 < 20 := by omega
      simp [h12, this]
    · have hb : x.testBit i = false :=
        Nat.testBit_lt_two_pow
          (Nat.lt_of_lt_of_le hx (by
            have : (2 : Nat) ^ 32 ≤ 2 ^ i := Nat.pow_le_pow_right (by decide) (by omega)
            simpa using this))
      simp [hb]
  · simp [h12]

/-- C24. For every requested size with `0 ≤ size ≤ 2^31 - 4096`, the length
`(size + 4095) & ~4095` of `allocOneBuffer` is a multiple of 4096, is at least `size`
and is less than `size + 4096`; it is the length `allocOneBuffer` asks the kernel for
in `ION_IOC_ALLOC` and, when the allocation succeeds, the size it records in the
descriptor. -/
theorem alignedLen_page_aligned (size : Int) (h0 : 0 ≤ size)
    (h1 : size ≤ 2147483648 - 4096) :
    alignedLen size % 4096 = 0 ∧ size ≤ alignedLen size ∧
      (alignedLen size : Int) < size + 4096 ∧
      ∀ (r : IonReply) (memInfo : QCameraMemInfo) (heap_id : Int), r.succeeds = true →
        IonOp.ionAlloc r.open_fd (alignedLen size) heap_id ∈
            (allocOneBuffer r memInfo heap_id size).2.2 ∧
          (allocOneBuffer r memInfo heap_id size).2.1.size = alignedLen size := by
  have hs : ((size % 4294967296).toNat + 4095) % 4294967296 = size.toNat + 4095 := by
    omega
  have ha : alignedLen size = 4096 * ((size.toNat + 4095) / 4096) := by
    unfold alignedLen
    rw [hs]
    exact land_page_mask _ (by omega)
  refine ⟨by omega, by omega, by omega, ?_⟩
  intro r memInfo heap_id hr
  have h2 := (allocOneBuffer_of_succeeds r memInfo heap_id size hr).2
  refine ⟨?_, by rw [h2]⟩
  simp only [IonReply.succeeds, Bool.and_eq_true, decide_eq_true_eq] at hr
  unfold allocOneBuffer
  rw [if_neg (by omega), if_neg (by omega), if_neg (by omega)]
  simp

/-- Witness of C24: a request of 5000 bytes is rounded up to 8192 bytes. -/
theorem alignedLen_page_aligned_witness :
    alignedLen 5000 % 4096 = 0 ∧ (5000 : Int) ≤ alignedLen 5000 ∧
      (alignedLen 5000 : Int) < 5000 + 4096 ∧
      ∀ (r : IonReply) (memInfo : QCameraMemInfo) (heap_id : Int), r.succeeds = true →
        IonOp.ionAlloc r.open_fd (alignedLen 5000) heap_id ∈
            (allocOneBuffer r memInfo heap_id 5000).2.2 ∧
          (allocOneBuffer r memInfo heap_id 5000).2.1.size = alignedLen 5000 :=
  alignedLen_page_aligned 5000 (by decide) (by decide)

/-- The counter part of a handle is below `2^16` and its index part is the index. -/
theorem generate_handler_eq (g index : Nat) :
    ∃ c, c < 65536 ∧ 0 < c ∧ (mm_camera_util_generate_handler g index).2 = c ∧
      (mm_camera_util_generate_handler g index).1 = 256 * c + index % 256 := by
  unfold mm_camera_util_generate_handler
  dsimp only
  refine ⟨_, ?_, ?_, rfl, ?_⟩
  · split_ifs <;> omega
  · split_ifs <;> omega
  · generalize hc : (if (g % 65536 + 1) % 65536 = 0 then ((g % 65536 + 1) % 65536 + 1) % 65536
        else (g % 65536 + 1) % 65536) = c
    have hlt : c < 65536 := by rw [← hc]; split_ifs <;> omega
    have h8 : c <<< 8 = 2 ^ 8 * c := by rw [Nat.shiftLeft_eq, Nat.mul_comm]
    have hm : (c <<< 8) % 4294967296 = 2 ^ 8 * c := by rw [h8]; omega
    rw [hm, ← Nat.mul_add_lt_is_or (by omega) c]

/-- C30. For every index in `0..255` and every value of the handle history counter,
`mm_camera_util_get_index_by_handler` applied to the handle that
`mm_camera_util_generate_handler` returns for the index gives the index back. -/
theorem get_index_of_generated_handler (g_handler_history_count index : Nat)
    (hindex : index < 256) :
    mm_camera_util_get_index_by_handler
      (mm_camera_util_generate_handler g_handler_history_count index).1 = index := by
  obtain ⟨c, hc, _, _, h⟩ := generate_handler_eq g_handler_history_count index
  rw [h]
  unfold mm_camera_util_get_index_by_handler
  have e : (255 : Nat) = 2 ^ 8 - 1 := by norm_num
  rw [e, Nat.and_pow_two_sub_one_eq_mod]
  omega

/-- Witness of C30: the counter is about to wrap (65535) and the index is 255. -/
theorem get_index_of_generated_handler_witness :
    mm_camera_util_get_index_by_handler (mm_camera_util_generate_handler 65535 255).1 = 255 :=
  get_index_of_generated_handler 65535 255 (by decide)

/-- On a descriptor whose two file descriptors are positive, `deallocOneBuffer` closes
the shared descriptor, frees the handle and closes the ion descriptor, and leaves
zeros only. -/
theorem deallocOneBuffer_of_pos (d : QCameraMemInfo) (hfd : 0 < d.fd)
    (hion : 0 < d.main_ion_fd) :
    deallocOneBuffer d =
      ({}, [IonOp.close d.fd, IonOp.ionFree d.main_ion_fd d.handle,
            IonOp.close d.main_ion_fd]) := by
  obtain ⟨fd, ion, handle, size⟩ := d
  simp only at hfd hion
  unfold deallocOneBuffer
  simp [hfd, hion]

/-- The loop of `alloc` when every buffer of the range can be allocated. -/
theorem allocLoop_ok_spec (ion : Nat → IonReply) (heap_id size : Int) (n : Nat) :
    ∀ (i : Nat) (rc : Int) (p : QCameraMemory),
      (∀ j, i ≤ j → j < i + n → (ion j).succeeds = true) →
      (QCameraMemory.allocLoop ion heap_id size n i rc p).1 = (if n = 0 then rc else OK) ∧
      (QCameraMemory.allocLoop ion heap_id size n i rc p).2.mBufferCount = p.mBufferCount ∧
      (∀ j, i ≤ j → j < i + n →
        (QCameraMemory.allocLoop ion heap_id size n i rc p).2.mMemInfo j =
          { main_ion_fd := (ion j).open_fd, fd := (ion j).share_fd,
            handle := (ion j).alloc_handle, size := alignedLen size }) ∧
      (∀ j, (j < i ∨ i + n ≤ j) →
        (QCameraMemory.allocLoop ion heap_id size n i rc p).2.mMemInfo j = p.mMemInfo j) ∧
      deallocIndices (QCameraMemory.allocLoop ion heap_id size n i rc p).2.ops =
        deallocIndices p.ops := by
  induction n with
  | zero =>
    intro i rc p _
    refine ⟨rfl, rfl, fun j h1 h2 => by omega, fun j _ => rfl, rfl⟩
  | succ n ih =>
    intro i rc p hok
    obtain ⟨h1, h2⟩ := allocOneBuffer_of_succeeds (ion i) (p.mMemInfo i) heap_id size
      (hok i (Nat.le_refl i) (by omega))
    have hops : deallocIndices (p.ops ++ [IonOp.allocOneBuffer i] ++
          (allocOneBuffer (ion i) (p.mMemInfo i) heap_id size).2.2) = deallocIndices p.ops := by
      have h := allocOneBuffer_deallocIndices (ion i) (p.mMemInfo i) heap_id size
      simp only [deallocIndices] at h
      simp [deallocIndices, h, IonOp.deallocIndex]
    unfold QCameraMemory.allocLoop
    dsimp only
    rw [if_neg (by rw [h1]; decide)]
    obtain ⟨e1, e2, e3, e4, e5⟩ := ih (i + 1)
      (allocOneBuffer (ion i) (p.mMemInfo i) heap_id size).1
      { p with
        mMemInfo := Function.update p.mMemInfo i
          (allocOneBuffer (ion i) (p.mMemInfo i) heap_id size).2.1,
        ops := p.ops ++ [IonOp.allocOneBuffer i] ++
          (allocOneBuffer (ion i) (p.mMemInfo i) heap_id size).2.2 }
      (fun j hj1 hj2 => hok j (by omega) (by omega))
    refine ⟨?_, e2, ?_, ?_, ?_⟩
    · rw [e1, if_neg (Nat.succ_ne_zero n)]
      split_ifs
      · exact h1
      · rfl
    · intro j hj1 hj2
      rcases Nat.eq_or_lt_of_le hj1 with heq | hlt
      · rw [e4 j (Or.inl (by omega))]
        dsimp only
        rw [← heq, Function.update_same, h2]
      · exact e3 j (by omega) (by omega)
    · intro j hj
      rw [e4 j (by omega)]
      dsimp only
      rw [Function.update_noteq (by omega)]
    · rw [e5]
      exact hops

/-- The function `alloc` when every one of the `count` buffers can be allocated: it
returns `OK`, fills the descriptors below `count`, and leaves the buffer count as it
was. -/
theorem alloc_ok_spec (MM_CAMERA_MAX_NUM_FRAMES : Int) (ion : Nat → IonReply)
    (count size heap_id : Int) (p : QCameraMemory)
    (h0 : 0 ≤ count) (hmax : count ≤ MM_CAMERA_MAX_NUM_FRAMES) (hcnt : p.mBufferCount = 0)
    (hion : ∀ j : Nat, (j : Int) < count → (ion j).succeeds = true) :
    (QCameraMemory.alloc MM_CAMERA_MAX_NUM_FRAMES ion count size heap_id p).1 = OK ∧
      (QCameraMemory.alloc MM_CAMERA_MAX_NUM_FRAMES ion count size heap_id p).2.mBufferCount
        = 0 ∧
      (∀ j : Nat, (j : Int) < count →
        (QCameraMemory.alloc MM_CAMERA_MAX_NUM_FRAMES ion count size heap_id p).2.mMemInfo j =
          { main_ion_fd := (ion j).open_fd, fd := (ion j).share_fd,
            handle := (ion j).alloc_handle, size := alignedLen size }) ∧
      deallocIndices
          (QCameraMemory.alloc MM_CAMERA_MAX_NUM_FRAMES ion count size heap_id p).2.ops =
        deallocIndices p.ops := by
  unfold QCameraMemory.alloc
  rw [if_neg (by omega), if_neg (by simp [hcnt])]
  obtain ⟨e1, e2, e3, _, e5⟩ := allocLoop_ok_spec ion heap_id size count.toNat 0 OK p
    (fun j _ hj => hion j (by omega))
  refine ⟨?_, by rw [e2, hcnt], fun j hj => e3 j (Nat.zero_le j) (by omega), e5⟩
  rw [e1]
  split_ifs <;> rfl

/-- The loop of `dealloc`: `deallocOneBuffer` is applied to every descriptor of the
range, its system calls are in the log afterwards, and nothing else changes. -/
theorem deallocUpTo_spec (n : Nat) :
    ∀ (i : Nat) (p : QCameraMemory),
      (QCameraMemory.deallocUpTo n i p).mBufferCount = p.mBufferCount ∧
      (∀ j, i ≤ j → j < i + n →
        (QCameraMemory.deallocUpTo n i p).mMemInfo j = (deallocOneBuffer (p.mMemInfo j)).1 ∧
        ∀ op ∈ (deallocOneBuffer (p.mMemInfo j)).2,
          op ∈ (QCameraMemory.deallocUpTo n i p).ops) ∧
      (∀ j, (j < i ∨ i + n ≤ j) →
        (QCameraMemory.deallocUpTo n i p).mMemInfo j = p.mMemInfo j) ∧
      (∀ op ∈ p.ops, op ∈ (QCameraMemory.deallocUpTo n i p).ops) := by
  induction n with
  | zero =>
    intro i p
    exact ⟨rfl, fun j h1 h2 => by omega, fun j _ => rfl, fun op h => h⟩
  | succ n ih =>
    intro i p
    obtain ⟨e1, e2, e3, e4⟩ := ih (i + 1) (p.deallocAt i)
    have hother : ∀ j, j ≠ i → (p.deallocAt i).mMemInfo j = p.mMemInfo j := by
      intro j hj
      simp only [QCameraMemory.deallocAt, Function.update_noteq hj]
    unfold QCameraMemory.deallocUpTo
    refine ⟨by rw [e1]; rfl, ?_, ?_, ?_⟩
    · intro j hj1 hj2
      rcases Nat.eq_or_lt_of_le hj1 with heq | hlt
      · subst heq
        refine ⟨?_, ?_⟩
        · rw [e3 i (Or.inl (Nat.lt_succ_self i))]
          simp only [QCameraMemory.deallocAt, Function.update_same]
        · intro op hop
          apply e4
          simp only [QCameraMemory.deallocAt, List.mem_append]
          exact Or.inr hop
      · obtain ⟨a, b⟩ := e2 j (by omega) (by omega)
        rw [hother j (by omega)] at a b
        exact ⟨a, b⟩
    · intro j hj
      rw [e3 j (by omega)]
      exact hother j (by omega)
    · intro op hop
      apply e4
      simp only [QCameraMemory.deallocAt, List.mem_append]
      exact Or.inl (Or.inl hop)

/-- The three system calls that give back what a successful `allocOneBuffer` acquired
are in the log of a pool after `dealloc`, and the descriptor holds zeros only, for
every descriptor below the buffer count that such an `allocOneBuffer` filled. -/
theorem dealloc_releases (p : QCameraMemory) (j : Nat) (r : IonReply) (len : Nat)
    (hj : (j : Int) < p.mBufferCount)
    (hd : p.mMemInfo j =
      { main_ion_fd := r.open_fd, fd := r.share_fd, handle := r.alloc_handle, size := len })
    (hs : r.succeeds = true) (hfd : 0 < r.share_fd) :
    IonReleased r p.dealloc.ops ∧ p.dealloc.mMemInfo j = {} ∧
      p.dealloc.mBufferCount = p.mBufferCount := by
  have hopen : 0 < r.open_fd := by
    simp only [IonReply.succeeds, Bool.and_eq_true, decide_eq_true_eq] at hs
    exact hs.1.1
  obtain ⟨e1, e2, _, _⟩ := deallocUpTo_spec p.mBufferCount.toNat 0 p
  obtain ⟨a, b⟩ := e2 j (Nat.zero_le j) (by omega)
  have hone := deallocOneBuffer_of_pos (p.mMemInfo j) (by rw [hd]; exact hfd)
    (by rw [hd]; exact hopen)
  rw [hone] at a b
  rw [hd] at b
  unfold QCameraMemory.dealloc
  refine ⟨⟨b _ (by simp), b _ (by simp), b _ (by simp)⟩, a, e1⟩

/-- The mapping loop of the heap pool when every `mmap` of the range succeeds. -/
theorem mapLoop_ok_spec (mmapRet : Nat → Int) (n : Nat) :
    ∀ (i : Nat) (rc : Int) (h : QCameraHeapMemory),
      (∀ j, i ≤ j → j < i + n → mmapRet j ≠ MAP_FAILED) →
      (QCameraHeapMemory.mapLoop mmapRet n i rc h).1 = rc ∧
      (QCameraHeapMemory.mapLoop mmapRet n i rc h).2.base = h.base ∧
      (∀ j, i ≤ j → j < i + n →
        (QCameraHeapMemory.mapLoop mmapRet n i rc h).2.mPtr j = mmapRet j) ∧
      (∀ (a : Int) (len : Nat),
        HeapOp.munmap a len ∈ (QCameraHeapMemory.mapLoop mmapRet n i rc h).2.maps →
        HeapOp.munmap a len ∈ h.maps) := by
  induction n with
  | zero =>
    intro i rc h _
    exact ⟨rfl, rfl, fun j h1 h2 => by omega, fun a len hop => hop⟩
  | succ n ih =>
    intro i rc h hok
    unfold QCameraHeapMemory.mapLoop
    dsimp only
    rw [if_neg (hok i (Nat.le_refl i) (by omega))]
    obtain ⟨e1, e2, e3, e4⟩ := ih (i + 1) rc
      { h with
        maps := h.maps ++
          [HeapOp.mmap (h.base.mMemInfo i).size (h.base.mMemInfo i).fd (mmapRet i)],
        mPtr := Function.update h.mPtr i (mmapRet i) }
      (fun j hj1 hj2 => hok j (by omega) (by omega))
    refine ⟨e1, e2, ?_, ?_⟩
    · intro j hj1 hj2
      rcases Nat.eq_or_lt_of_le hj1 with heq | hlt
      · subst heq
        have hkeep : ∀ (m : Nat) (k : Nat) (rc0 : Int) (h0 : QCameraHeapMemory), i < k →
            (QCameraHeapMemory.mapLoop mmapRet m k rc0 h0).2.mPtr i = h0.mPtr i := by
          intro m
          induction m with
          | zero => intro k rc0 h0 _; rfl
          | succ m ihm =>
            intro k rc0 h0 hk
            unfold QCameraHeapMemory.mapLoop
            dsimp only
            split_ifs
            · rw [ihm (k + 1) _ _ (by omega)]
            · rw [ihm (k + 1) _ _ (by omega)]
            · rw [ihm (k + 1) _ _ (by omega)]
              dsimp only
              rw [Function.update_noteq (by omega)]
        rw [hkeep n (i + 1) _ _ (Nat.lt_succ_self i)]
        dsimp only
        rw [Function.update_same]
      · exact e3 j (by omega) (by omega)
    · intro a len hop
      have := e4 a len hop
      simpa using this

/-- The unmapping loop of the heap pool. -/
theorem unmapLoop_spec (n : Nat) :
    ∀ (i : Nat) (h : QCameraHeapMemory),
      (QCameraHeapMemory.unmapLoop n i h).base = h.base ∧
      (∀ j, i ≤ j → j < i + n →
        HeapOp.munmap (h.mPtr j) (h.base.mMemInfo j).size ∈
          (QCameraHeapMemory.unmapLoop n i h).maps ∧
        (QCameraHeapMemory.unmapLoop n i h).mPtr j = 0) ∧
      (∀ j, (j < i ∨ i + n ≤ j) → (QCameraHeapMemory.unmapLoop n i h).mPtr j = h.mPtr j) ∧
      (∀ op ∈ h.maps, op ∈ (QCameraHeapMemory.unmapLoop n i h).maps) := by
  induction n with
  | zero =>
    intro i h
    exact ⟨rfl, fun j h1 h2 => by omega, fun j _ => rfl, fun op hop => hop⟩
  | succ n ih =>
    intro i h
    unfold QCameraHeapMemory.unmapLoop
    obtain ⟨e1, e2, e3, e4⟩ := ih (i + 1)
      { h with
        maps := h.maps ++ [HeapOp.munmap (h.mPtr i) (h.base.mMemInfo i).size],
        mPtr := Function.update h.mPtr i 0 }
    refine ⟨e1, ?_, ?_, ?_⟩
    · intro j hj1 hj2
      rcases Nat.eq_or_lt_of_le hj1 with heq | hlt
      · subst heq
        refine ⟨e4 _ (by simp), ?_⟩
        rw [e3 i (Or.inl (Nat.lt_succ_self i))]
        dsimp only
        rw [Function.update_same]
      · obtain ⟨a, b⟩ := e2 j (by omega) (by omega)
        dsimp only at a
        rw [Function.update_noteq (by omega)] at a
        exact ⟨a, b⟩
    · intro j hj
      rw [e3 j (by omega)]
      dsimp only
      rw [Function.update_noteq (by omega)]
    · intro op hop
      exact e4 op (by simp [hop])

/-- The loop of the stream pool that asks the framework for a handle per buffer. -/
theorem getLoop_spec (mGetMemory : Nat → Int) (n : Nat) :
    ∀ (i : Nat) (s : QCameraStreamMemory),
      (QCameraStreamMemory.getLoop mGetMemory n i s).base = s.base ∧
      (∀ j, i ≤ j → j < i + n →
        (QCameraStreamMemory.getLoop mGetMemory n i s).mCameraMemory j = mGetMemory j) ∧
      (∀ j, (j < i ∨ i + n ≤ j) →
        (QCameraStreamMemory.getLoop mGetMemory n i s).mCameraMemory j = s.mCameraMemory j) ∧
      (∀ x, CameraMemoryOp.release x ∈ (QCameraStreamMemory.getLoop mGetMemory n i s).handles →
        CameraMemoryOp.release x ∈ s.handles) := by
  induction n with
  | zero =>
    intro i s
    exact ⟨rfl, fun j h1 h2 => by omega, fun j _ => rfl, fun x hx => hx⟩
  | succ n ih =>
    intro i s
    unfold QCameraStreamMemory.getLoop
    obtain ⟨e1, e2, e3, e4⟩ := ih (i + 1)
      { s with
        mCameraMemory := Function.update s.mCameraMemory i (mGetMemory i),
        handles := s.handles ++
          [CameraMemoryOp.getMemory (s.base.mMemInfo i).fd (s.base.mMemInfo i).size
            (mGetMemory i)] }
    refine ⟨e1, ?_, ?_, ?_⟩
    · intro j hj1 hj2
      rcases Nat.eq_or_lt_of_le hj1 with heq | hlt
      · subst heq
        rw [e3 i (Or.inl (Nat.lt_succ_self i))]
        dsimp only
        rw [Function.update_same]
      · exact e2 j (by omega) (by omega)
    · intro j hj
      rw [e3 j (by omega)]
      dsimp only
      rw [Function.update_noteq (by omega)]
    · intro x hx
      have := e4 x hx
      simpa using this

/-- The loop of the stream pool that releases the handle of every buffer. -/
theorem stream_releaseLoop_spec (n : Nat) :
    ∀ (i : Nat) (s : QCameraStreamMemory),
      (QCameraStreamMemory.releaseLoop n i s).base = s.base ∧
      (∀ j, i ≤ j → j < i + n →
        CameraMemoryOp.release (s.mCameraMemory j) ∈
          (QCameraStreamMemory.releaseLoop n i s).handles ∧
        (QCameraStreamMemory.releaseLoop n i s).mCameraMemory j = 0) ∧
      (∀ j, (j < i ∨ i + n ≤ j) →
        (QCameraStreamMemory.releaseLoop n i s).mCameraMemory j = s.mCameraMemory j) ∧
      (∀ op ∈ s.handles, op ∈ (QCameraStreamMemory.releaseLoop n i s).handles) := by
  induction n with
  | zero =>
    intro i s
    exact ⟨rfl, fun j h1 h2 => by omega, fun j _ => rfl, fun op hop => hop⟩
  | succ n ih =>
    intro i s
    unfold QCameraStreamMemory.releaseLoop
    obtain ⟨e1, e2, e3, e4⟩ := ih (i + 1)
      { s with
        handles := s.handles ++ [CameraMemoryOp.release (s.mCameraMemory i)],
        mCameraMemory := Function.update s.mCameraMemory i 0 }
    refine ⟨e1, ?_, ?_, ?_⟩
    · intro j hj1 hj2
      rcases Nat.eq_or_lt_of_le hj1 with heq | hlt
      · subst heq
        refine ⟨e4 _ (by simp), ?_⟩
        rw [e3 i (Or.inl (Nat.lt_succ_self i))]
        dsimp only
        rw [Function.update_same]
      · obtain ⟨a, b⟩ := e2 j (by omega) (by omega)
        dsimp only at a
        rw [Function.update_noteq (by omega)] at a
        exact ⟨a, b⟩
    · intro j hj
      rw [e3 j (by omega)]
      dsimp only
      rw [Function.update_noteq (by omega)]
    · intro op hop
      exact e4 op (by simp [hop])

/-- The metadata loop of the video pool when the framework hands out a handle for
every buffer of the range: the loop runs to its end and touches neither the
descriptors nor the handles of the stream buffers. -/
theorem metaLoop_ok_spec (metadataRet : Nat → Int) (n : Nat) :
    ∀ (i : Nat) (v : QCameraVideoMemory),
      (∀ j, i ≤ j → j < i + n → metadataRet j ≠ 0) →
      (QCameraVideoMemory.metaLoop metadataRet n i v).1 = none ∧
      (QCameraVideoMemory.metaLoop metadataRet n i v).2.stream.base = v.stream.base ∧
      (QCameraVideoMemory.metaLoop metadataRet n i v).2.stream.mCameraMemory =
        v.stream.mCameraMemory ∧
      (∀ j, i ≤ j → j < i + n →
        (QCameraVideoMemory.metaLoop metadataRet n i v).2.mMetadata j = metadataRet j) ∧
      (∀ j, (j < i ∨ i + n ≤ j) →
        (QCameraVideoMemory.metaLoop metadataRet n i v).2.mMetadata j = v.mMetadata j) ∧
      (∀ x, CameraMemoryOp.release x ∈
          (QCameraVideoMemory.metaLoop metadataRet n i v).2.stream.handles →
        CameraMemoryOp.release x ∈ v.stream.handles) := by
  induction n with
  | zero =>
    intro i v _
    exact ⟨rfl, rfl, rfl, fun j h1 h2 => by omega, fun j _ => rfl, fun x hx => hx⟩
  | succ n ih =>
    intro i v hok
    unfold QCameraVideoMemory.metaLoop
    dsimp only
    rw [if_neg (hok i (Nat.le_refl i) (by omega))]
    obtain ⟨e1, e2, e3, e4, e5, e6⟩ := ih (i + 1)
      { v with
        mMetadata := Function.update v.mMetadata i (metadataRet i),
        stream := { v.stream with
          handles := v.stream.handles ++ [CameraMemoryOp.getMetadata (metadataRet i)] } }
      (fun j hj1 hj2 => hok j (by omega) (by omega))
    refine ⟨e1, e2, e3, ?_, ?_, ?_⟩
    · intro j hj1 hj2
      rcases Nat.eq_or_lt_of_le hj1 with heq | hlt
      · subst heq
        rw [e5 i (Or.inl (Nat.lt_succ_self i))]
        dsimp only
        rw [Function.update_same]
      · exact e4 j (by omega) (by omega)
    · intro j hj
      rw [e5 j (by omega)]
      dsimp only
      rw [Function.update_noteq (by omega)]
    · intro x hx
      have := e6 x hx
      simpa using this

/-- The loop of the video pool that releases the metadata handle of every buffer. -/
theorem video_releaseLoop_spec (n : Nat) :
    ∀ (i : Nat) (v : QCameraVideoMemory),
      (QCameraVideoMemory.releaseLoop n i v).stream.base = v.stream.base ∧
      (QCameraVideoMemory.releaseLoop n i v).stream.mCameraMemory = v.stream.mCameraMemory ∧
      (∀ j, i ≤ j → j < i + n →
        CameraMemoryOp.release (v.mMetadata j) ∈
          (QCameraVideoMemory.releaseLoop n i v).stream.handles ∧
        (QCameraVideoMemory.releaseLoop n i v).mMetadata j = 0) ∧
      (∀ j, (j < i ∨ i + n ≤ j) →
        (QCameraVideoMemory.releaseLoop n i v).mMetadata j = v.mMetadata j) ∧
      (∀ op ∈ v.stream.handles, op ∈ (QCameraVideoMemory.releaseLoop n i v).stream.handles) := by
  induction n with
  | zero =>
    intro i v
    exact ⟨rfl, rfl, fun j h1 h2 => by omega, fun j _ => rfl, fun op hop => hop⟩
  | succ n ih =>
    intro i v
    unfold QCameraVideoMemory.releaseLoop
    obtain ⟨e1, e1b, e2, e3, e4⟩ := ih (i + 1)
      { v with
        stream := { v.stream with
          handles := v.stream.handles ++ [CameraMemoryOp.release (v.mMetadata i)] },
        mMetadata := Function.update v.mMetadata i 0 }
    refine ⟨e1, e1b, ?_, ?_, ?_⟩
    · intro j hj1 hj2
      rcases Nat.eq_or_lt_of_le hj1 with heq | hlt
      · subst heq
        refine ⟨e4 _ (by simp), ?_⟩
        rw [e3 i (Or.inl (Nat.lt_succ_self i))]
        dsimp only
        rw [Function.update_same]
      · obtain ⟨a, b⟩ := e2 j (by omega) (by omega)
        dsimp only at a
        rw [Function.update_noteq (by omega)] at a
        exact ⟨a, b⟩
    · intro j hj
      rw [e3 j (by omega)]
      dsimp only
      rw [Function.update_noteq (by omega)]
    · intro op hop
      exact e4 op (by simp [hop])

/-- The function `QCameraHeapMemory::allocate` when every buffer is allocated and
mapped. -/
theorem heap_allocate_ok (MM_CAMERA_MAX_NUM_FRAMES heap_mask : Int) (ion : Nat → IonReply)
    (mmapRet : Nat → Int) (count size : Int) (h : QCameraHeapMemory)
    (h0 : 0 ≤ count) (hmax : count ≤ MM_CAMERA_MAX_NUM_FRAMES)
    (hcnt : h.base.mBufferCount = 0)
    (hion : ∀ j : Nat, (j : Int) < count → (ion j).succeeds = true)
    (hmap : ∀ j : Nat, (j : Int) < count → mmapRet j ≠ MAP_FAILED) :
    (QCameraHeapMemory.allocate MM_CAMERA_MAX_NUM_FRAMES heap_mask ion mmapRet count size h).1
        = OK ∧
      (QCameraHeapMemory.allocate MM_CAMERA_MAX_NUM_FRAMES heap_mask ion mmapRet count size
        h).2.base.mBufferCount = count ∧
      (∀ j : Nat, (j : Int) < count →
        (QCameraHeapMemory.allocate MM_CAMERA_MAX_NUM_FRAMES heap_mask ion mmapRet count size
          h).2.base.mMemInfo j =
          { main_ion_fd := (ion j).open_fd, fd := (ion j).share_fd,
            handle := (ion j).alloc_handle, size := alignedLen size } ∧
        (QCameraHeapMemory.allocate MM_CAMERA_MAX_NUM_FRAMES heap_mask ion mmapRet count size
          h).2.mPtr j = mmapRet j) := by
  obtain ⟨a1, _, a3, _⟩ := alloc_ok_spec MM_CAMERA_MAX_NUM_FRAMES ion count size heap_mask
    h.base h0 hmax hcnt hion
  obtain ⟨m1, m2, m3, _⟩ := mapLoop_ok_spec mmapRet count.toNat 0
    (h.base.alloc MM_CAMERA_MAX_NUM_FRAMES ion count size heap_mask).1
    { h with base := (h.base.alloc MM_CAMERA_MAX_NUM_FRAMES ion count size heap_mask).2 }
    (fun j _ hj => hmap j (by omega))
  unfold QCameraHeapMemory.allocate
  dsimp only
  rw [if_neg (by rw [a1]; decide), if_pos (by rw [m1, a1]; rfl)]
  dsimp only
  refine ⟨rfl, rfl, fun j hj => ⟨?_, m3 j (Nat.zero_le j) (by omega)⟩⟩
  rw [m2]
  exact a3 j hj

/-- The function `QCameraHeapMemory::deallocate`. -/
theorem heap_deallocate_spec (h : QCameraHeapMemory) :
    h.deallocate.base.mBufferCount = 0 ∧
      (∀ j : Nat, (j : Int) < h.base.mBufferCount →
        HeapOp.munmap (h.mPtr j) (h.base.mMemInfo j).size ∈ h.deallocate.maps ∧
        h.deallocate.mPtr j = 0) ∧
      (∀ (j : Nat) (r : IonReply) (len : Nat), (j : Int) < h.base.mBufferCount →
        h.base.mMemInfo j =
          { main_ion_fd := r.open_fd, fd := r.share_fd, handle := r.alloc_handle,
            size := len } →
        r.succeeds = true → 0 < r.share_fd →
        IonReleased r h.deallocate.base.ops ∧ h.deallocate.base.mMemInfo j = {}) := by
  obtain ⟨e1, e2, _, _⟩ := unmapLoop_spec h.base.mBufferCount.toNat 0 h
  unfold QCameraHeapMemory.deallocate
  dsimp only
  refine ⟨rfl, fun j hj => e2 j (Nat.zero_le j) (by omega), ?_⟩
  intro j r len hj hd hs hfd
  rw [e1]
  obtain ⟨a, b, _⟩ := dealloc_releases h.base j r len hj hd hs hfd
  exact ⟨a, b⟩

/-- The function `QCameraStreamMemory::allocate` when every buffer is allocated. -/
theorem stream_allocate_ok (MM_CAMERA_MAX_NUM_FRAMES heap_mask : Int) (ion : Nat → IonReply)
    (mGetMemory : Nat → Int) (count size : Int) (s : QCameraStreamMemory)
    (h0 : 0 ≤ count) (hmax : count ≤ MM_CAMERA_MAX_NUM_FRAMES)
    (hcnt : s.base.mBufferCount = 0)
    (hion : ∀ j : Nat, (j : Int) < count → (ion j).succeeds = true) :
    (QCameraStreamMemory.allocate MM_CAMERA_MAX_NUM_FRAMES heap_mask ion mGetMemory count size
        s).1 = NO_ERROR ∧
      (QCameraStreamMemory.allocate MM_CAMERA_MAX_NUM_FRAMES heap_mask ion mGetMemory count size
        s).2.base.mBufferCount = count ∧
      (∀ j : Nat, (j : Int) < count →
        (QCameraStreamMemory.allocate MM_CAMERA_MAX_NUM_FRAMES heap_mask ion mGetMemory count
          size s).2.base.mMemInfo j =
          { main_ion_fd := (ion j).open_fd, fd := (ion j).share_fd,
            handle := (ion j).alloc_handle, size := alignedLen size } ∧
        (QCameraStreamMemory.allocate MM_CAMERA_MAX_NUM_FRAMES heap_mask ion mGetMemory count
          size s).2.mCameraMemory j = mGetMemory j) := by
  obtain ⟨a1, _, a3, _⟩ := alloc_ok_spec MM_CAMERA_MAX_NUM_FRAMES ion count size heap_mask
    s.base h0 hmax hcnt hion
  obtain ⟨m1, m2, _, _⟩ := getLoop_spec mGetMemory count.toNat 0
    { s with base := (s.base.alloc MM_CAMERA_MAX_NUM_FRAMES ion count size heap_mask).2 }
  unfold QCameraStreamMemory.allocate
  dsimp only
  rw [if_neg (by rw [a1]; decide)]
  dsimp only
  refine ⟨rfl, rfl, fun j hj => ⟨?_, m2 j (Nat.zero_le j) (by omega)⟩⟩
  rw [m1]
  exact a3 j hj

/-- The function `QCameraStreamMemory::deallocate`. -/
theorem stream_deallocate_spec (s : QCameraStreamMemory) :
    s.deallocate.base.mBufferCount = 0 ∧
      (∀ j : Nat, (j : Int) < s.base.mBufferCount →
        CameraMemoryOp.release (s.mCameraMemory j) ∈ s.deallocate.handles ∧
        s.deallocate.mCameraMemory j = 0) ∧
      (∀ (j : Nat) (r : IonReply) (len : Nat), (j : Int) < s.base.mBufferCount →
        s.base.mMemInfo j =
          { main_ion_fd := r.open_fd, fd := r.share_fd, handle := r.alloc_handle,
            size := len } →
        r.succeeds = true → 0 < r.share_fd →
        IonReleased r s.deallocate.base.ops ∧ s.deallocate.base.mMemInfo j = {}) := by
  obtain ⟨e1, e2, _, _⟩ := stream_releaseLoop_spec s.base.mBufferCount.toNat 0 s
  unfold QCameraStreamMemory.deallocate
  dsimp only
  refine ⟨rfl, fun j hj => e2 j (Nat.zero_le j) (by omega), ?_⟩
  intro j r len hj hd hs hfd
  rw [e1]
  obtain ⟨a, b, _⟩ := dealloc_releases s.base j r len hj hd hs hfd
  exact ⟨a, b⟩

/-- The function `QCameraVideoMemory::allocate` when every buffer is allocated and the
framework hands out a metadata handle for each. -/
theorem video_allocate_ok (MM_CAMERA_MAX_NUM_FRAMES heap_mask : Int) (ion : Nat → IonReply)
    (mGetMemory metadataRet : Nat → Int) (count size : Int) (v : QCameraVideoMemory)
    (h0 : 0 ≤ count) (hmax : count ≤ MM_CAMERA_MAX_NUM_FRAMES)
    (hcnt : v.stream.base.mBufferCount = 0)
    (hion : ∀ j : Nat, (j : Int) < count → (ion j).succeeds = true)
    (hmeta : ∀ j : Nat, (j : Int) < count → metadataRet j ≠ 0) :
    (QCameraVideoMemory.allocate MM_CAMERA_MAX_NUM_FRAMES heap_mask ion mGetMemory metadataRet
        count size v).1 = NO_ERROR ∧
      (QCameraVideoMemory.allocate MM_CAMERA_MAX_NUM_FRAMES heap_mask ion mGetMemory
        metadataRet count size v).2.stream.base.mBufferCount = count ∧
      (∀ j : Nat, (j : Int) < count →
        (QCameraVideoMemory.allocate MM_CAMERA_MAX_NUM_FRAMES heap_mask ion mGetMemory
          metadataRet count size v).2.stream.base.mMemInfo j =
          { main_ion_fd := (ion j).open_fd, fd := (ion j).share_fd,
            handle := (ion j).alloc_handle, size := alignedLen size } ∧
        (QCameraVideoMemory.allocate MM_CAMERA_MAX_NUM_FRAMES heap_mask ion mGetMemory
          metadataRet count size v).2.stream.mCameraMemory j = mGetMemory j ∧
        (QCameraVideoMemory.allocate MM_CAMERA_MAX_NUM_FRAMES heap_mask ion mGetMemory
          metadataRet count size v).2.mMetadata j = metadataRet j) ∧
      (∀ x, CameraMemoryOp.release x ∈
          (QCameraVideoMemory.allocate MM_CAMERA_MAX_NUM_FRAMES heap_mask ion mGetMemory
            metadataRet count size v).2.stream.handles →
        CameraMemoryOp.release x ∈ v.stream.handles) := by
  obtain ⟨a1, a2, a3⟩ := stream_allocate_ok MM_CAMERA_MAX_NUM_FRAMES heap_mask ion mGetMemory
    count size v.stream h0 hmax hcnt hion
  obtain ⟨m1, m2, m3, m4, _, m6⟩ := metaLoop_ok_spec metadataRet count.toNat 0
    { v with stream := (v.stream.allocate MM_CAMERA_MAX_NUM_FRAMES heap_mask ion mGetMemory
        count size).2 }
    (fun j _ hj => hmeta j (by omega))
  have hrel : ∀ x, CameraMemoryOp.release x ∈
      (v.stream.allocate MM_CAMERA_MAX_NUM_FRAMES heap_mask ion mGetMemory count size).2.handles →
      CameraMemoryOp.release x ∈ v.stream.handles := by
    intro x hx
    obtain ⟨b1, _⟩ := alloc_ok_spec MM_CAMERA_MAX_NUM_FRAMES ion count size heap_mask
      v.stream.base h0 hmax hcnt hion
    unfold QCameraStreamMemory.allocate at hx
    dsimp only at hx
    rw [if_neg (by rw [b1]; decide)] at hx
    dsimp only at hx
    exact (getLoop_spec mGetMemory count.toNat 0
      { v.stream with
        base := (v.stream.base.alloc MM_CAMERA_MAX_NUM_FRAMES ion count size heap_mask).2 }).2.2.2
      x hx
  unfold QCameraVideoMemory.allocate
  dsimp only
  rw [if_neg (by rw [a1]; decide)]
  generalize QCameraVideoMemory.metaLoop metadataRet count.toNat 0
    { v with stream := (v.stream.allocate MM_CAMERA_MAX_NUM_FRAMES heap_mask ion mGetMemory
        count size).2 } = m at m1 m2 m3 m4 m6 ⊢
  obtain ⟨o, v1⟩ := m
  dsimp only at m1 m2 m3 m4 m6
  subst m1
  dsimp only
  refine ⟨rfl, rfl, fun j hj => ⟨?_, ?_, m4 j (Nat.zero_le j) (by omega)⟩, ?_⟩
  · rw [m2]
    exact (a3 j hj).1
  · rw [m3]
    exact (a3 j hj).2
  · intro x hx
    exact hrel x (m6 x hx)

/-- The function `QCameraVideoMemory::deallocate`. -/
theorem video_deallocate_spec (v : QCameraVideoMemory) :
    v.deallocate.stream.base.mBufferCount = 0 ∧
      v.deallocate.stream.mCameraMemory = v.stream.mCameraMemory ∧
      (∀ j : Nat, (j : Int) < v.stream.base.mBufferCount →
        CameraMemoryOp.release (v.mMetadata j) ∈ v.deallocate.stream.handles ∧
        v.deallocate.mMetadata j = 0) ∧
      (∀ (j : Nat) (r : IonReply) (len : Nat), (j : Int) < v.stream.base.mBufferCount →
        v.stream.base.mMemInfo j =
          { main_ion_fd := r.open_fd, fd := r.share_fd, handle := r.alloc_handle,
            size := len } →
        r.succeeds = true → 0 < r.share_fd →
        IonReleased r v.deallocate.stream.base.ops ∧
          v.deallocate.stream.base.mMemInfo j = {}) := by
  obtain ⟨e1, e1b, e2, _, _⟩ := video_releaseLoop_spec v.stream.base.mBufferCount.toNat 0 v
  unfold QCameraVideoMemory.deallocate
  dsimp only
  refine ⟨rfl, e1b, fun j hj => e2 j (Nat.zero_le j) (by omega), ?_⟩
  intro j r len hj hd hs hfd
  rw [e1]
  obtain ⟨a, b, _⟩ := dealloc_releases v.stream.base j r len hj hd hs hfd
  exact ⟨a, b⟩

/-- Counterexample to C21 as stated.  Base class: `alloc` of two buffers returns `OK`
but leaves the buffer count at zero, so the `dealloc` that follows applies
`deallocOneBuffer` to no descriptor; the ION buffer of descriptor 0 is not released
and the descriptor still holds it.  Video pool: `allocate` of two buffers obtains the
stream handles 500 and 501 through the get-memory callback; after `deallocate` the
buffer count is zero and neither handle has been released. -/
theorem round_trip_counterexample :
    (QCameraMemory.alloc 8 ionAllOk 2 5000 3 {}).1 = OK ∧
    (QCameraMemory.roundTrip 8 ionAllOk 2 5000 3).mBufferCount = 0 ∧
    deallocIndices (QCameraMemory.roundTrip 8 ionAllOk 2 5000 3).ops = [] ∧
    ¬ IonReleased (ionAllOk 0) (QCameraMemory.roundTrip 8 ionAllOk 2 5000 3).ops ∧
    (QCameraMemory.roundTrip 8 ionAllOk 2 5000 3).mMemInfo 0 =
      { main_ion_fd := 100, fd := 300, handle := 200, size := 8192 } ∧
    (QCameraVideoMemory.allocate 8 3 ionAllOk (handlesFrom 500) (handlesFrom 700) 2 5000
      {}).1 = NO_ERROR ∧
    CameraMemoryOp.getMemory 300 8192 500 ∈
      (QCameraVideoMemory.allocate 8 3 ionAllOk (handlesFrom 500) (handlesFrom 700) 2 5000
        {}).2.stream.handles ∧
    CameraMemoryOp.getMemory 301 8192 501 ∈
      (QCameraVideoMemory.allocate 8 3 ionAllOk (handlesFrom 500) (handlesFrom 700) 2 5000
        {}).2.stream.handles ∧
    (QCameraVideoMemory.roundTrip 8 3 ionAllOk (handlesFrom 500) (handlesFrom 700) 2
      5000).stream.base.mBufferCount = 0 ∧
    CameraMemoryOp.release 500 ∉
      (QCameraVideoMemory.roundTrip 8 3 ionAllOk (handlesFrom 500) (handlesFrom 700) 2
        5000).stream.handles ∧
    CameraMemoryOp.release 501 ∉
      (QCameraVideoMemory.roundTrip 8 3 ionAllOk (handlesFrom 500) (handlesFrom 700) 2
        5000).stream.handles ∧
    (QCameraVideoMemory.roundTrip 8 3 ionAllOk (handlesFrom 500) (handlesFrom 700) 2
      5000).stream.mCameraMemory 0 = 500 := by
  refine ⟨?_, ?_, ?_, ?_, ?_, ?_, ?_, ?_, ?_, ?_, ?_, ?_⟩ <;> decide

/-- C21, amended.  On a newly constructed pool, when the kernel allocates each of the
`count` buffers (`0 ≤ count ≤ MM_CAMERA_MAX_NUM_FRAMES`) and hands out a positive
shared descriptor for it, every `mmap` succeeds and the framework hands out a
non-null handle on every call of the get-memory callback:
* heap pool: `allocate` returns `OK` and sets the buffer count to `count`; after the
  `deallocate` that follows the buffer count is zero and, for every buffer, the ION
  buffer is released (shared descriptor closed, handle freed, ion descriptor closed),
  its descriptor holds zeros only, and its mapping is unmapped;
* stream pool: the same with the framework handle of every buffer released in place
  of the mapping;
* video pool: after `allocate` and `deallocate` the buffer count is zero, every ION
  buffer is released and every metadata handle is released;
* base class: `alloc` returns `OK` and leaves the buffer count at zero; once the
  buffer count is set to `count`, as the `allocate` of a variant does, `dealloc`
  releases the ION buffer of every descriptor. -/
theorem round_trip_releases (MM_CAMERA_MAX_NUM_FRAMES heap_mask : Int)
    (ion : Nat → IonReply) (mmapRet mGetMemory metadataRet : Nat → Int) (count size : Int)
    (h0 : 0 ≤ count) (hmax : count ≤ MM_CAMERA_MAX_NUM_FRAMES)
    (hion : ∀ j : Nat, (j : Int) < count → (ion j).succeeds = true ∧ 0 < (ion j).share_fd)
    (hmap : ∀ j : Nat, (j : Int) < count → mmapRet j ≠ MAP_FAILED)
    (_hget : ∀ j : Nat, (j : Int) < count → mGetMemory j ≠ 0)
    (hmeta : ∀ j : Nat, (j : Int) < count → metadataRet j ≠ 0) :
    ((QCameraHeapMemory.allocate MM_CAMERA_MAX_NUM_FRAMES heap_mask ion mmapRet count size
        {}).1 = OK ∧
      (QCameraHeapMemory.allocate MM_CAMERA_MAX_NUM_FRAMES heap_mask ion mmapRet count size
        {}).2.base.mBufferCount = count ∧
      (QCameraHeapMemory.roundTrip MM_CAMERA_MAX_NUM_FRAMES heap_mask ion mmapRet count
        size).base.mBufferCount = 0 ∧
      ∀ j : Nat, (j : Int) < count →
        IonReleased (ion j)
          (QCameraHeapMemory.roundTrip MM_CAMERA_MAX_NUM_FRAMES heap_mask ion mmapRet count
            size).base.ops ∧
        (QCameraHeapMemory.roundTrip MM_CAMERA_MAX_NUM_FRAMES heap_mask ion mmapRet count
          size).base.mMemInfo j = {} ∧
        HeapOp.munmap (mmapRet j) (alignedLen size) ∈
          (QCameraHeapMemory.roundTrip MM_CAMERA_MAX_NUM_FRAMES heap_mask ion mmapRet count
            size).maps) ∧
    ((QCameraStreamMemory.allocate MM_CAMERA_MAX_NUM_FRAMES heap_mask ion mGetMemory count size
        {}).1 = NO_ERROR ∧
      (QCameraStreamMemory.allocate MM_CAMERA_MAX_NUM_FRAMES heap_mask ion mGetMemory count size
        {}).2.base.mBufferCount = count ∧
      (QCameraStreamMemory.roundTrip MM_CAMERA_MAX_NUM_FRAMES heap_mask ion mGetMemory count
        size).base.mBufferCount = 0 ∧
      ∀ j : Nat, (j : Int) < count →
        IonReleased (ion j)
          (QCameraStreamMemory.roundTrip MM_CAMERA_MAX_NUM_FRAMES heap_mask ion mGetMemory
            count size).base.ops ∧
        (QCameraStreamMemory.roundTrip MM_CAMERA_MAX_NUM_FRAMES heap_mask ion mGetMemory count
          size).base.mMemInfo j = {} ∧
        CameraMemoryOp.release (mGetMemory j) ∈
          (QCameraStreamMemory.roundTrip MM_CAMERA_MAX_NUM_FRAMES heap_mask ion mGetMemory
            count size).handles) ∧
    ((QCameraVideoMemory.allocate MM_CAMERA_MAX_NUM_FRAMES heap_mask ion mGetMemory
        metadataRet count size {}).1 = NO_ERROR ∧
      (QCameraVideoMemory.allocate MM_CAMERA_MAX_NUM_FRAMES heap_mask ion mGetMemory
        metadataRet count size {}).2.stream.base.mBufferCount = count ∧
      (QCameraVideoMemory.roundTrip MM_CAMERA_MAX_NUM_FRAMES heap_mask ion mGetMemory
        metadataRet count size).stream.base.mBufferCount = 0 ∧
      ∀ j : Nat, (j : Int) < count →
        IonReleased (ion j)
          (QCameraVideoMemory.roundTrip MM_CAMERA_MAX_NUM_FRAMES heap_mask ion mGetMemory
            metadataRet count size).stream.base.ops ∧
        (QCameraVideoMemory.roundTrip MM_CAMERA_MAX_NUM_FRAMES heap_mask ion mGetMemory
          metadataRet count size).stream.base.mMemInfo j = {} ∧
        CameraMemoryOp.release (metadataRet j) ∈
          (QCameraVideoMemory.roundTrip MM_CAMERA_MAX_NUM_FRAMES heap_mask ion mGetMemory
            metadataRet count size).stream.handles) ∧
    ((QCameraMemory.alloc MM_CAMERA_MAX_NUM_FRAMES ion count size heap_mask {}).1 = OK ∧
      (QCameraMemory.alloc MM_CAMERA_MAX_NUM_FRAMES ion count size heap_mask
        {}).2.mBufferCount = 0 ∧
      ∀ j : Nat, (j : Int) < count →
        IonReleased (ion j)
          (QCameraMemory.dealloc
            { QCameraMemory.alloc MM_CAMERA_MAX_NUM_FRAMES ion count size heap_mask {} |>.2 with
              mBufferCount := count }).ops ∧
        (QCameraMemory.dealloc
          { QCameraMemory.alloc MM_CAMERA_MAX_NUM_FRAMES ion count size heap_mask {} |>.2 with
            mBufferCount := count }).mMemInfo j = {}) := by
  have hs : ∀ j : Nat, (j : Int) < count → (ion j).succeeds = true := fun j hj => (hion j hj).1
  refine ⟨?_, ?_, ?_, ?_⟩
  · obtain ⟨a1, a2, a3⟩ := heap_allocate_ok MM_CAMERA_MAX_NUM_FRAMES heap_mask ion mmapRet
      count size {} h0 hmax rfl hs hmap
    obtain ⟨d1, d2, d3⟩ := heap_deallocate_spec
      (QCameraHeapMemory.allocate MM_CAMERA_MAX_NUM_FRAMES heap_mask ion mmapRet count size {}).2
    refine ⟨a1, a2, d1, fun j hj => ?_⟩
    obtain ⟨b1, b2⟩ := a3 j hj
    obtain ⟨c1, c2⟩ := d3 j (ion j) (alignedLen size) (by rw [a2]; exact hj) b1 (hs j hj)
      (hion j hj).2
    have c3 := (d2 j (by rw [a2]; exact hj)).1
    rw [b1, b2] at c3
    exact ⟨c1, c2, c3⟩
  · obtain ⟨a1, a2, a3⟩ := stream_allocate_ok MM_CAMERA_MAX_NUM_FRAMES heap_mask ion
      mGetMemory count size {} h0 hmax rfl hs
    obtain ⟨d1, d2, d3⟩ := stream_deallocate_spec
      (QCameraStreamMemory.allocate MM_CAMERA_MAX_NUM_FRAMES heap_mask ion mGetMemory count
        size {}).2
    refine ⟨a1, a2, d1, fun j hj => ?_⟩
    obtain ⟨b1, b2⟩ := a3 j hj
    obtain ⟨c1, c2⟩ := d3 j (ion j) (alignedLen size) (by rw [a2]; exact hj) b1 (hs j hj)
      (hion j hj).2
    have c3 := (d2 j (by rw [a2]; exact hj)).1
    rw [b2] at c3
    exact ⟨c1, c2, c3⟩
  · obtain ⟨a1, a2, a3, _⟩ := video_allocate_ok MM_CAMERA_MAX_NUM_FRAMES heap_mask ion
      mGetMemory metadataRet count size {} h0 hmax rfl hs hmeta
    obtain ⟨d1, _, d2, d3⟩ := video_deallocate_spec
      (QCameraVideoMemory.allocate MM_CAMERA_MAX_NUM_FRAMES heap_mask ion mGetMemory
        metadataRet count size {}).2
    refine ⟨a1, a2, d1, fun j hj => ?_⟩
    obtain ⟨b1, _, b3⟩ := a3 j hj
    obtain ⟨c1, c2⟩ := d3 j (ion j) (alignedLen size) (by rw [a2]; exact hj) b1 (hs j hj)
      (hion j hj).2
    have c3 := (d2 j (by rw [a2]; exact hj)).1
    rw [b3] at c3
    exact ⟨c1, c2, c3⟩
  · obtain ⟨a1, a2, a3, _⟩ := alloc_ok_spec MM_CAMERA_MAX_NUM_FRAMES ion count size heap_mask
      {} h0 hmax rfl hs
    refine ⟨a1, a2, fun j hj => ?_⟩
    obtain ⟨c1, c2, _⟩ := dealloc_releases
      { QCameraMemory.alloc MM_CAMERA_MAX_NUM_FRAMES ion count size heap_mask {} |>.2 with
        mBufferCount := count } j (ion j) (alignedLen size) hj (a3 j hj) (hs j hj)
      (hion j hj).2
    exact ⟨c1, c2⟩

/-- Witness of C21: two buffers of 5000 bytes with capacity 8. -/
theorem round_trip_releases_witness :
    (QCameraHeapMemory.roundTrip 8 3 ionAllOk (handlesFrom 4096) 2 5000).base.mBufferCount = 0 ∧
    IonReleased (ionAllOk 1)
      (QCameraHeapMemory.roundTrip 8 3 ionAllOk (handlesFrom 4096) 2 5000).base.ops ∧
    HeapOp.munmap 4097 8192 ∈
      (QCameraHeapMemory.roundTrip 8 3 ionAllOk (handlesFrom 4096) 2 5000).maps ∧
    CameraMemoryOp.release 501 ∈
      (QCameraStreamMemory.roundTrip 8 3 ionAllOk (handlesFrom 500) 2 5000).handles ∧
    CameraMemoryOp.release 701 ∈
      (QCameraVideoMemory.roundTrip 8 3 ionAllOk (handlesFrom 500) (handlesFrom 700) 2
        5000).stream.handles :=
  have h := round_trip_releases 8 3 ionAllOk (handlesFrom 4096) (handlesFrom 500)
    (handlesFrom 700) 2 5000 (by decide) (by decide)
    (fun j hj => by
      have : j < 2 := by omega
      interval_cases j <;> exact ⟨by decide, by decide⟩)
    (fun j hj => by
      have : j < 2 := by omega
      interval_cases j <;> decide)
    (fun j hj => by
      have : j < 2 := by omega
      interval_cases j <;> decide)
    (fun j hj => by
      have : j < 2 := by omega
      interval_cases j <;> decide)
  ⟨h.1.2.2.1, (h.1.2.2.2 1 (by decide)).1, (h.1.2.2.2 1 (by decide)).2.2,
    (h.2.1.2.2.2 1 (by decide)).2.2, (h.2.2.1.2.2.2 1 (by decide)).2.2⟩

/-- C22 at the failing inputs.  Two buffers are requested from a newly constructed
heap pool and `mmap` fails for buffer 1: `allocate` returns `OK`, the one `munmap`
made is applied to `mPtr[1]`, which is still `NULL`, the mapping of buffer 0 stays,
`deallocOneBuffer` is applied to no descriptor and descriptor 0 still holds its ION
buffer.  One buffer is requested and `mmap` fails for it: `allocate` returns `OK` and
sets the buffer count to 1 although `mPtr[0]` is `NULL`. -/
theorem heap_allocate_map_failure :
    (QCameraHeapMemory.allocate 8 3 ionAllOk (replyFailingAt 4096 1 MAP_FAILED) 2 5000 {}).1
      = OK ∧
    (QCameraHeapMemory.allocate 8 3 ionAllOk (replyFailingAt 4096 1 MAP_FAILED) 2 5000
      {}).2.base.mBufferCount = 0 ∧
    (QCameraHeapMemory.allocate 8 3 ionAllOk (replyFailingAt 4096 1 MAP_FAILED) 2 5000
      {}).2.maps =
      [HeapOp.mmap 8192 300 4096, HeapOp.mmap 8192 301 MAP_FAILED, HeapOp.munmap 0 8192] ∧
    (QCameraHeapMemory.allocate 8 3 ionAllOk (replyFailingAt 4096 1 MAP_FAILED) 2 5000
      {}).2.mPtr 0 = 4096 ∧
    deallocIndices
      (QCameraHeapMemory.allocate 8 3 ionAllOk (replyFailingAt 4096 1 MAP_FAILED) 2 5000
        {}).2.base.ops = [] ∧
    (QCameraHeapMemory.allocate 8 3 ionAllOk (replyFailingAt 4096 1 MAP_FAILED) 2 5000
      {}).2.base.mMemInfo 0 = { main_ion_fd := 100, fd := 300, handle := 200, size := 8192 } ∧
    (QCameraHeapMemory.allocate 8 3 ionAllOk (replyFailingAt 4096 0 MAP_FAILED) 1 5000 {}).1
      = OK ∧
    (QCameraHeapMemory.allocate 8 3 ionAllOk (replyFailingAt 4096 0 MAP_FAILED) 1 5000
      {}).2.base.mBufferCount = 1 ∧
    (QCameraHeapMemory.allocate 8 3 ionAllOk (replyFailingAt 4096 0 MAP_FAILED) 1 5000
      {}).2.mPtr 0 = 0 := by
  refine ⟨?_, ?_, ?_, ?_, ?_, ?_, ?_, ?_, ?_⟩ <;> decide

/-- C23 at the failing input.  Three buffers are requested from a newly constructed
video pool, the framework hands out the metadata handles 700 and 701 and then `NULL`
for buffer 2: `allocate` returns `NO_MEMORY`, the buffer count is zero, the stream
handles 500, 501 and 502 are released, the metadata handle 700 is released once, and
the metadata handle 701 is not released. -/
theorem video_allocate_metadata_failure :
    (QCameraVideoMemory.allocate 8 3 ionAllOk (handlesFrom 500) (replyFailingAt 700 2 0) 3
      5000 {}).1 = NO_MEMORY ∧
    (QCameraVideoMemory.allocate 8 3 ionAllOk (handlesFrom 500) (replyFailingAt 700 2 0) 3
      5000 {}).2.stream.base.mBufferCount = 0 ∧
    (QCameraVideoMemory.allocate 8 3 ionAllOk (handlesFrom 500) (replyFailingAt 700 2 0) 3
      5000 {}).2.stream.handles =
      [CameraMemoryOp.getMemory 300 8192 500, CameraMemoryOp.getMemory 301 8192 501,
       CameraMemoryOp.getMemory 302 8192 502, CameraMemoryOp.getMetadata 700,
       CameraMemoryOp.getMetadata 701, CameraMemoryOp.getMetadata 0,
       CameraMemoryOp.release 700, CameraMemoryOp.release 500, CameraMemoryOp.release 501,
       CameraMemoryOp.release 502] ∧
    deallocIndices
      (QCameraVideoMemory.allocate 8 3 ionAllOk (handlesFrom 500) (replyFailingAt 700 2 0) 3
        5000 {}).2.stream.base.ops = [0, 1, 2] ∧
    CameraMemoryOp.release 701 ∉
      (QCameraVideoMemory.allocate 8 3 ionAllOk (handlesFrom 500) (replyFailingAt 700 2 0) 3
        5000 {}).2.stream.handles := by
  refine ⟨?_, ?_, ?_, ?_, ?_⟩ <;> decide

/-- The search loop of `displayBuffer` stops inside the range it searches, at an entry
that holds the handle. -/
theorem findHandle_spec (mBufferHandle : Nat → Int) (buffer_handle : Int) (n : Nat) :
    ∀ (i j : Nat),
      QCameraGrallocMemory.findHandle mBufferHandle buffer_handle n i = some j →
      i ≤ j ∧ j < i + n ∧ mBufferHandle j = buffer_handle := by
  induction n with
  | zero => intro i j h; exact Option.noConfusion h
  | succ n ih =>
    intro i j h
    unfold QCameraGrallocMemory.findHandle at h
    split_ifs at h with hc
    · cases h
      exact ⟨Nat.le_refl _, by omega, hc⟩
    · obtain ⟨a, b, c⟩ := ih (i + 1) j h
      exact ⟨by omega, by omega, c⟩

/-- Counterexample to C27 as stated: buffer 0 of the pool is `BUFFER_LOCKED` and
`genlock_unlock_buffer` fails; `displayBuffer(0)` still calls `enqueue_buffer` for
buffer 0, whose flag is `BUFFER_LOCKED` at that moment. -/
theorem displayBuffer_enqueues_locked_counterexample :
    grallocTwoLocked.mLocalFlag 0 = BufferFlag.BUFFER_LOCKED ∧
    enqueuedBuffers grallocTwoLocked.calls = [] ∧
    enqueuedBuffers
      (QCameraGrallocMemory.displayBuffer
        { genlock_unlock := genlock_status_t.GENLOCK_FAILURE, dequeue_handle := 901 } 0
        grallocTwoLocked).2.calls = [(0, BufferFlag.BUFFER_LOCKED)] := by
  refine ⟨?_, ?_, ?_⟩ <;> decide

/-- C27, amended.  `displayBuffer(index)` calls `enqueue_buffer` for the buffer exactly
once, whatever its flag: at that moment the flag is `BUFFER_LOCKED` when the buffer
was locked and `genlock_unlock_buffer` failed, `BUFFER_UNLOCKED` when it was locked
and the unlock did not fail, and its former value when it was not locked.  Every
value `displayBuffer` returns other than `BAD_INDEX` lies in `[0, mBufferCount)` and
names a buffer whose flag is `BUFFER_LOCKED` on return. -/
theorem displayBuffer_enqueue_and_return (r : DisplayReply) (index : Nat)
    (g : QCameraGrallocMemory) :
    enqueuedBuffers (QCameraGrallocMemory.displayBuffer r index g).2.calls =
      enqueuedBuffers g.calls ++
        [(index,
          if g.mLocalFlag index = BufferFlag.BUFFER_LOCKED then
            (if r.genlock_unlock = genlock_status_t.GENLOCK_FAILURE then
              BufferFlag.BUFFER_LOCKED
            else BufferFlag.BUFFER_UNLOCKED)
          else g.mLocalFlag index)] ∧
    ((QCameraGrallocMemory.displayBuffer r index g).1 ≠ BAD_INDEX →
      0 ≤ (QCameraGrallocMemory.displayBuffer r index g).1 ∧
      (QCameraGrallocMemory.displayBuffer r index g).1 < g.base.mBufferCount ∧
      (QCameraGrallocMemory.displayBuffer r index g).2.mLocalFlag
        (QCameraGrallocMemory.displayBuffer r index g).1.toNat = BufferFlag.BUFFER_LOCKED) := by
  unfold QCameraGrallocMemory.displayBuffer
  dsimp only
  by_cases hl : g.mLocalFlag index = BufferFlag.BUFFER_LOCKED <;>
  by_cases hu : r.genlock_unlock = genlock_status_t.GENLOCK_FAILURE <;>
  by_cases he : r.enqueue_err = 0 <;>
  simp only [hl, hu, he, if_true, if_false, ne_eq, not_true_eq_false, not_false_eq_true] <;>
  (constructor
   · split <;> (try split) <;> (try split) <;>
       simp [enqueuedBuffers, GrallocOp.enqueued, List.filterMap_append]
   · intro hret
     split at hret
     · split at hret
       · rename_i i hfind
         obtain ⟨_, hlt, _⟩ := findHandle_spec _ _ _ _ _ hfind
         split_ifs at hret ⊢ with hg
         · exact absurd rfl hret
         · dsimp only
           refine ⟨Int.natCast_nonneg i, by omega, ?_⟩
           rw [Int.toNat_natCast, Function.update_same]
       · exact absurd rfl hret
     · exact absurd rfl hret)

/-- Witness of C27: the window hands buffer 1 back while buffer 0 is enqueued. -/
theorem displayBuffer_enqueue_and_return_witness :
    (QCameraGrallocMemory.displayBuffer { dequeue_handle := 901 } 0 grallocTwoLocked).1 = 1 ∧
    (0 : Int) ≤ 1 ∧ (1 : Int) < grallocTwoLocked.base.mBufferCount ∧
    (QCameraGrallocMemory.displayBuffer { dequeue_handle := 901 } 0
      grallocTwoLocked).2.mLocalFlag 1 = BufferFlag.BUFFER_LOCKED :=
  ⟨by decide,
    (displayBuffer_enqueue_and_return { dequeue_handle := 901 } 0 grallocTwoLocked).2
      (by decide)⟩

/-- The unlock statement of the cancel loops changes at most the flag of its buffer,
and only from `BUFFER_LOCKED` to `BUFFER_UNLOCKED`. -/
theorem unlockIfLocked_spec (unlockRet : Nat → genlock_status_t) (i : Nat)
    (g : QCameraGrallocMemory) :
    (g.unlockIfLocked unlockRet i).base = g.base ∧
    (g.unlockIfLocked unlockRet i).mWindow = g.mWindow ∧
    (g.unlockIfLocked unlockRet i).mMinUndequeuedBuffers = g.mMinUndequeuedBuffers ∧
    (∀ j, j ≠ i → (g.unlockIfLocked unlockRet i).mLocalFlag j = g.mLocalFlag j) ∧
    (g.mLocalFlag i ≠ BufferFlag.BUFFER_LOCKED →
      (g.unlockIfLocked unlockRet i).mLocalFlag i = g.mLocalFlag i) ∧
    cancelledBuffers (g.unlockIfLocked unlockRet i).calls = cancelledBuffers g.calls := by
  unfold QCameraGrallocMemory.unlockIfLocked
  split_ifs with h1 h2
  · exact ⟨rfl, rfl, rfl, fun j _ => rfl, fun _ => rfl,
      by simp [cancelledBuffers, GrallocOp.cancelled]⟩
  · refine ⟨rfl, rfl, rfl, fun j hj => ?_, fun h => absurd h1 h,
      by simp [cancelledBuffers, GrallocOp.cancelled]⟩
    dsimp only
    rw [Function.update_noteq hj]
  · exact ⟨rfl, rfl, rfl, fun j _ => rfl, fun _ => rfl, rfl⟩

/-- The roll-back loop of `allocate` flags every buffer of its range
`BUFFER_NOT_OWNED` and leaves the flags of the other buffers alone. -/
theorem rollbackLoop_spec (unlockRet : Nat → genlock_status_t) (n : Nat) :
    ∀ (i : Nat) (g : QCameraGrallocMemory),
      (QCameraGrallocMemory.rollbackLoop unlockRet n i g).base = g.base ∧
      (∀ j, i ≤ j → j < i + n →
        (QCameraGrallocMemory.rollbackLoop unlockRet n i g).mLocalFlag j =
          BufferFlag.BUFFER_NOT_OWNED) ∧
      (∀ j, (j < i ∨ i + n ≤ j) →
        (QCameraGrallocMemory.rollbackLoop unlockRet n i g).mLocalFlag j = g.mLocalFlag j) := by
  induction n with
  | zero =>
    intro i g
    exact ⟨rfl, fun j h1 h2 => by omega, fun j _ => rfl⟩
  | succ n ih =>
    intro i g
    obtain ⟨u1, _, _, u4, _, _⟩ := unlockIfLocked_spec unlockRet i g
    unfold QCameraGrallocMemory.rollbackLoop
    dsimp only
    have hbase : ∀ g2 : QCameraGrallocMemory,
        g2 = (if (g.unlockIfLocked unlockRet i).mLocalFlag i ≠ BufferFlag.BUFFER_NOT_OWNED then
          { g.unlockIfLocked unlockRet i with
            calls := (g.unlockIfLocked unlockRet i).calls ++ [GrallocOp.cancel_buffer i] }
          else g.unlockIfLocked unlockRet i) →
        g2.base = g.base ∧ ∀ j, j ≠ i → g2.mLocalFlag j = g.mLocalFlag j := by
      intro g2 hg2
      subst hg2
      split_ifs
      · exact ⟨u1, u4⟩
      · exact ⟨u1, u4⟩
    generalize hg2 : (if (g.unlockIfLocked unlockRet i).mLocalFlag i ≠
        BufferFlag.BUFFER_NOT_OWNED then
          { g.unlockIfLocked unlockRet i with
            calls := (g.unlockIfLocked unlockRet i).calls ++ [GrallocOp.cancel_buffer i] }
          else g.unlockIfLocked unlockRet i) = g2
    obtain ⟨b1, b2⟩ := hbase g2 hg2.symm
    obtain ⟨e1, e2, e3⟩ := ih (i + 1)
      { g2 with
        mLocalFlag := Function.update g2.mLocalFlag i BufferFlag.BUFFER_NOT_OWNED,
        mBufferHandle := Function.update g2.mBufferHandle i 0 }
    refine ⟨by rw [e1]; exact b1, ?_, ?_⟩
    · intro j hj1 hj2
      rcases Nat.eq_or_lt_of_le hj1 with heq | hlt
      · subst heq
        rw [e3 i (Or.inl (Nat.lt_succ_self i))]
        dsimp only
        rw [Function.update_same]
      · exact e2 j (by omega) (by omega)
    · intro j hj
      rw [e3 j (by omega)]
      dsimp only
      rw [Function.update_noteq (by omega)]
      exact b2 j (by omega)

/-- The loop of `allocate` that cancels the first `mMinUndequeuedBuffers` buffers flags
every buffer of its range `BUFFER_NOT_OWNED` and leaves the flags of the other buffers
alone. -/
theorem cancelMinLoop_spec (unlockRet : Nat → genlock_status_t) (n : Nat) :
    ∀ (i : Nat) (g : QCameraGrallocMemory),
      (QCameraGrallocMemory.cancelMinLoop unlockRet n i g).base = g.base ∧
      (∀ j, i ≤ j → j < i + n →
        (QCameraGrallocMemory.cancelMinLoop unlockRet n i g).mLocalFlag j =
          BufferFlag.BUFFER_NOT_OWNED) ∧
      (∀ j, (j < i ∨ i + n ≤ j) →
        (QCameraGrallocMemory.cancelMinLoop unlockRet n i g).mLocalFlag j =
          g.mLocalFlag j) := by
  induction n with
  | zero =>
    intro i g
    exact ⟨rfl, fun j h1 h2 => by omega, fun j _ => rfl⟩
  | succ n ih =>
    intro i g
    obtain ⟨u1, _, _, u4, _, _⟩ := unlockIfLocked_spec unlockRet i g
    unfold QCameraGrallocMemory.cancelMinLoop
    dsimp only
    obtain ⟨e1, e2, e3⟩ := ih (i + 1)
      { g.unlockIfLocked unlockRet i with
        calls := (g.unlockIfLocked unlockRet i).calls ++ [GrallocOp.cancel_buffer i],
        mLocalFlag := Function.update (g.unlockIfLocked unlockRet i).mLocalFlag i
          BufferFlag.BUFFER_NOT_OWNED }
    refine ⟨by rw [e1]; exact u1, ?_, ?_⟩
    · intro j hj1 hj2
      rcases Nat.eq_or_lt_of_le hj1 with heq | hlt
      · subst heq
        rw [e3 i (Or.inl (Nat.lt_succ_self i))]
        dsimp only
        rw [Function.update_same]
      · exact e2 j (by omega) (by omega)
    · intro j hj
      rw [e3 j (by omega)]
      dsimp only
      rw [Function.update_noteq (by omega)]
      exact u4 j (by omega)

/-- The acquisition loop of `allocate` from a buffer after `k` on: when it runs to its
end the flag of buffer `k` is as before, and when it is left through `goto end` the
status is `UNKNOWN_ERROR` and buffer `k` is flagged `BUFFER_NOT_OWNED`. -/
theorem grallocLoop_after (reply : Nat → GrallocReply) (unlockRet : Nat → genlock_status_t)
    (k : Nat) (n : Nat) :
    ∀ (cnt : Nat) (g : QCameraGrallocMemory), k < cnt →
      ((QCameraGrallocMemory.allocLoop reply unlockRet n cnt g).1 = none →
        (QCameraGrallocMemory.allocLoop reply unlockRet n cnt g).2.mLocalFlag k =
          g.mLocalFlag k) ∧
      (∀ rc, (QCameraGrallocMemory.allocLoop reply unlockRet n cnt g).1 = some rc →
        rc = UNKNOWN_ERROR ∧
        (QCameraGrallocMemory.allocLoop reply unlockRet n cnt g).2.mLocalFlag k =
          BufferFlag.BUFFER_NOT_OWNED) := by
  induction n with
  | zero =>
    intro cnt g _
    exact ⟨fun _ => rfl, fun rc h => Option.noConfusion h⟩
  | succ n ih =>
    intro cnt g hk
    unfold QCameraGrallocMemory.allocLoop
    dsimp only
    by_cases hd : (reply cnt).dequeue_err = 0
    · simp only [hd, if_true]
      by_cases hl : (reply cnt).lock_buffer_err = 0
      · simp only [hl, ne_eq, not_true_eq_false, if_false]
        obtain ⟨a, b⟩ := ih (cnt + 1) _ (Nat.lt_succ_of_lt hk)
        refine ⟨fun h => ?_, b⟩
        rw [a h]
        dsimp only
        rw [Function.update_noteq (by omega)]
      · simp only [hl, ne_eq, not_false_eq_true, if_true]
        refine ⟨fun h => Option.noConfusion h, fun rc h => ?_⟩
        refine ⟨(Option.some.inj h).symm, ?_⟩
        dsimp only
        exact (rollbackLoop_spec unlockRet cnt 0 _).2.1 k (Nat.zero_le k) (by omega)
    · simp only [hd, ne_eq, not_false_eq_true, if_true, if_false]
      refine ⟨fun h => Option.noConfusion h, fun rc h => ?_⟩
      refine ⟨(Option.some.inj h).symm, ?_⟩
      dsimp only
      exact (rollbackLoop_spec unlockRet cnt 0 _).2.1 k (Nat.zero_le k) (by omega)

/-- The acquisition loop of `allocate` when it reaches buffer `k`, dequeues and
window-locks it, and `genlock_lock_buffer` does not return `GENLOCK_NO_ERROR` for
it. -/
theorem grallocLoop_lock_failure (reply : Nat → GrallocReply)
    (unlockRet : Nat → genlock_status_t) (k : Nat)
    (hdq : (reply k).dequeue_err = 0) (hlb : (reply k).lock_buffer_err = 0)
    (hlock : (reply k).genlock_lock ≠ genlock_status_t.GENLOCK_NO_ERROR) (n : Nat) :
    ∀ (cnt : Nat) (g : QCameraGrallocMemory), cnt ≤ k → k < cnt + n →
      (∀ j, cnt ≤ j → j < k → (reply j).dequeue_err = 0 ∧ (reply j).lock_buffer_err = 0) →
      ((QCameraGrallocMemory.allocLoop reply unlockRet n cnt g).1 = none →
        (QCameraGrallocMemory.allocLoop reply unlockRet n cnt g).2.mLocalFlag k =
          BufferFlag.BUFFER_UNLOCKED) ∧
      (∀ rc, (QCameraGrallocMemory.allocLoop reply unlockRet n cnt g).1 = some rc →
        rc = UNKNOWN_ERROR ∧
        (QCameraGrallocMemory.allocLoop reply unlockRet n cnt g).2.mLocalFlag k =
          BufferFlag.BUFFER_NOT_OWNED) := by
  induction n with
  | zero => intro cnt g h1 h2; omega
  | succ n ih =>
    intro cnt g hck hkn hprev
    unfold QCameraGrallocMemory.allocLoop
    dsimp only
    rcases Nat.eq_or_lt_of_le hck with heq | hlt
    · subst heq
      simp only [hdq, hlb, hlock, if_true, ne_eq, not_false_eq_true, not_true_eq_false,
        if_false]
      obtain ⟨a, b⟩ := grallocLoop_after reply unlockRet cnt n (cnt + 1)
        { g with
          calls := g.calls ++ [GrallocOp.dequeue_buffer 0 (reply cnt).handle] ++
            [GrallocOp.lock_buffer cnt 0,
              GrallocOp.genlock_lock_buffer cnt (reply cnt).genlock_lock] ++
            [GrallocOp.openIon (reply cnt).open_fd] ++
            (if (reply cnt).open_fd < 0 then []
             else [GrallocOp.ionImport (reply cnt).open_fd (reply cnt).fd
               (reply cnt).import_rc]) ++
            [GrallocOp.getMemory (reply cnt).fd (reply cnt).size (reply cnt).memory],
          mBufferHandle := Function.update g.mBufferHandle cnt (reply cnt).handle,
          mLocalFlag := Function.update g.mLocalFlag cnt BufferFlag.BUFFER_UNLOCKED,
          mCameraMemory := Function.update g.mCameraMemory cnt (reply cnt).memory,
          base := { g.base with
            mMemInfo := Function.update g.base.mMemInfo cnt
              { main_ion_fd := (reply cnt).open_fd, fd := (reply cnt).fd,
                size := (reply cnt).size, handle := (reply cnt).ion_info_handle } } }
        (Nat.lt_succ_self cnt)
      refine ⟨fun h => ?_, b⟩
      rw [a h]
      dsimp only
      rw [Function.update_same]
    · obtain ⟨p1, p2⟩ := hprev cnt (Nat.le_refl cnt) hlt
      simp only [p1, p2, if_true, ne_eq, not_true_eq_false, if_false]
      exact ih (cnt + 1) _ (by omega) (by omega) (fun j hj1 hj2 => hprev j (by omega) hj2)

/-- The roll-back loop of `allocate` changes neither the window nor
`mMinUndequeuedBuffers`. -/
theorem rollbackLoop_frame (unlockRet : Nat → genlock_status_t) (n : Nat) :
    ∀ (i : Nat) (g : QCameraGrallocMemory),
      (QCameraGrallocMemory.rollbackLoop unlockRet n i g).mWindow = g.mWindow ∧
      (QCameraGrallocMemory.rollbackLoop unlockRet n i g).mMinUndequeuedBuffers =
        g.mMinUndequeuedBuffers := by
  induction n with
  | zero => intro i g; exact ⟨rfl, rfl⟩
  | succ n ih =>
    intro i g
    obtain ⟨_, u2, u3, _, _, _⟩ := unlockIfLocked_spec unlockRet i g
    unfold QCameraGrallocMemory.rollbackLoop
    dsimp only
    obtain ⟨e1, e2⟩ := ih (i + 1)
      { (if (g.unlockIfLocked unlockRet i).mLocalFlag i ≠ BufferFlag.BUFFER_NOT_OWNED then
          { g.unlockIfLocked unlockRet i with
            calls := (g.unlockIfLocked unlockRet i).calls ++ [GrallocOp.cancel_buffer i] }
          else g.unlockIfLocked unlockRet i) with
        mLocalFlag := Function.update
          (if (g.unlockIfLocked unlockRet i).mLocalFlag i ≠ BufferFlag.BUFFER_NOT_OWNED then
            { g.unlockIfLocked unlockRet i with
              calls := (g.unlockIfLocked unlockRet i).calls ++ [GrallocOp.cancel_buffer i] }
            else g.unlockIfLocked unlockRet i).mLocalFlag i BufferFlag.BUFFER_NOT_OWNED,
        mBufferHandle := Function.update
          (if (g.unlockIfLocked unlockRet i).mLocalFlag i ≠ BufferFlag.BUFFER_NOT_OWNED then
            { g.unlockIfLocked unlockRet i with
              calls := (g.unlockIfLocked unlockRet i).calls ++ [GrallocOp.cancel_buffer i] }
            else g.unlockIfLocked unlockRet i).mBufferHandle i 0 }
    rw [e1, e2]
    dsimp only
    split_ifs
    · exact ⟨u2, u3⟩
    · exact ⟨u2, u3⟩

/-- The acquisition loop of `allocate` changes neither the window nor
`mMinUndequeuedBuffers` nor the buffer count. -/
theorem grallocLoop_frame (reply : Nat → GrallocReply) (unlockRet : Nat → genlock_status_t)
    (n : Nat) :
    ∀ (cnt : Nat) (g : QCameraGrallocMemory),
      (QCameraGrallocMemory.allocLoop reply unlockRet n cnt g).2.mWindow = g.mWindow ∧
      (QCameraGrallocMemory.allocLoop reply unlockRet n cnt g).2.mMinUndequeuedBuffers =
        g.mMinUndequeuedBuffers ∧
      (QCameraGrallocMemory.allocLoop reply unlockRet n cnt g).2.base.mBufferCount =
        g.base.mBufferCount := by
  induction n with
  | zero => intro cnt g; exact ⟨rfl, rfl, rfl⟩
  | succ n ih =>
    intro cnt g
    unfold QCameraGrallocMemory.allocLoop
    dsimp only
    by_cases hd : (reply cnt).dequeue_err = 0
    · simp only [hd, if_true]
      by_cases hl : (reply cnt).lock_buffer_err = 0
      · simp only [hl, ne_eq, not_true_eq_false, if_false]
        obtain ⟨e1, e2, e3⟩ := ih (cnt + 1)
          { g with
            calls := g.calls ++ [GrallocOp.dequeue_buffer 0 (reply cnt).handle] ++
              [GrallocOp.lock_buffer cnt 0,
                GrallocOp.genlock_lock_buffer cnt (reply cnt).genlock_lock] ++
              [GrallocOp.openIon (reply cnt).open_fd] ++
              (if (reply cnt).open_fd < 0 then []
               else [GrallocOp.ionImport (reply cnt).open_fd (reply cnt).fd
                 (reply cnt).import_rc]) ++
              [GrallocOp.getMemory (reply cnt).fd (reply cnt).size (reply cnt).memory],
            mBufferHandle := Function.update g.mBufferHandle cnt (reply cnt).handle,
            mLocalFlag := Function.update g.mLocalFlag cnt
              (if (reply cnt).genlock_lock ≠ genlock_status_t.GENLOCK_NO_ERROR then
                BufferFlag.BUFFER_UNLOCKED
              else BufferFlag.BUFFER_LOCKED),
            mCameraMemory := Function.update g.mCameraMemory cnt (reply cnt).memory,
            base := { g.base with
              mMemInfo := Function.update g.base.mMemInfo cnt
                { main_ion_fd := (reply cnt).open_fd, fd := (reply cnt).fd,
                  size := (reply cnt).size, handle := (reply cnt).ion_info_handle } } }
        exact ⟨e1, e2, e3⟩
      · simp only [hl, ne_eq, not_false_eq_true, if_true]
        obtain ⟨f1, f2⟩ := rollbackLoop_frame unlockRet cnt 0
          { g with
            calls := g.calls ++ [GrallocOp.dequeue_buffer 0 (reply cnt).handle] ++
              [GrallocOp.lock_buffer cnt (reply cnt).lock_buffer_err,
                GrallocOp.genlock_lock_buffer cnt (reply cnt).genlock_lock],
            mBufferHandle := Function.update g.mBufferHandle cnt (reply cnt).handle,
            mLocalFlag := Function.update g.mLocalFlag cnt
              (if (reply cnt).genlock_lock ≠ genlock_status_t.GENLOCK_NO_ERROR then
                BufferFlag.BUFFER_UNLOCKED
              else BufferFlag.BUFFER_LOCKED) }
        have f3 := (rollbackLoop_spec unlockRet cnt 0
          { g with
            calls := g.calls ++ [GrallocOp.dequeue_buffer 0 (reply cnt).handle] ++
              [GrallocOp.lock_buffer cnt (reply cnt).lock_buffer_err,
                GrallocOp.genlock_lock_buffer cnt (reply cnt).genlock_lock],
            mBufferHandle := Function.update g.mBufferHandle cnt (reply cnt).handle,
            mLocalFlag := Function.update g.mLocalFlag cnt
              (if (reply cnt).genlock_lock ≠ genlock_status_t.GENLOCK_NO_ERROR then
                BufferFlag.BUFFER_UNLOCKED
              else BufferFlag.BUFFER_LOCKED) }).1
        dsimp only at f1 f2 f3 ⊢
        rw [f3]
        exact ⟨f1, f2, rfl⟩
    · simp only [hd, ne_eq, not_false_eq_true, if_true, if_false]
      obtain ⟨f1, f2⟩ := rollbackLoop_frame unlockRet cnt 0
        { g with
          calls := g.calls ++ [GrallocOp.dequeue_buffer (reply cnt).dequeue_err
            (reply cnt).handle],
          mBufferHandle := Function.update g.mBufferHandle cnt (reply cnt).handle,
          mLocalFlag := Function.update g.mLocalFlag cnt BufferFlag.BUFFER_NOT_OWNED }
      have f3 := (rollbackLoop_spec unlockRet cnt 0
        { g with
          calls := g.calls ++ [GrallocOp.dequeue_buffer (reply cnt).dequeue_err
            (reply cnt).handle],
          mBufferHandle := Function.update g.mBufferHandle cnt (reply cnt).handle,
          mLocalFlag := Function.update g.mLocalFlag cnt BufferFlag.BUFFER_NOT_OWNED }).1
      dsimp only at f1 f2 f3 ⊢
      rw [f3]
      exact ⟨f1, f2, rfl⟩

/-- The function `allocate` of the display-backed pool when it reaches buffer `k`,
dequeues and window-locks it, and `genlock_lock_buffer` does not return
`GENLOCK_NO_ERROR` for it. -/
theorem gralloc_allocate_lock_failure (w : WindowReply) (reply : Nat → GrallocReply)
    (unlockRet : Nat → genlock_status_t) (count : Int) (g : QCameraGrallocMemory) (k : Nat)
    (hwin : g.mWindow ≠ 0)
    (hw : w.min_undequeued_err = 0 ∧ w.set_buffer_count_err = 0 ∧
      w.set_buffers_geometry_err = 0 ∧ w.set_usage_err = 0)
    (hk : (k : Int) < count + w.min_undequeued)
    (hprev : ∀ j < k, (reply j).dequeue_err = 0 ∧ (reply j).lock_buffer_err = 0)
    (hdq : (reply k).dequeue_err = 0) (hlb : (reply k).lock_buffer_err = 0)
    (hlock : (reply k).genlock_lock ≠ genlock_status_t.GENLOCK_NO_ERROR) :
    ((QCameraGrallocMemory.allocate w reply unlockRet count g).1 = NO_ERROR →
      (QCameraGrallocMemory.allocate w reply unlockRet count g).2.mLocalFlag k =
        (if (k : Int) < w.min_undequeued then BufferFlag.BUFFER_NOT_OWNED
         else BufferFlag.BUFFER_UNLOCKED)) ∧
    ((QCameraGrallocMemory.allocate w reply unlockRet count g).1 ≠ NO_ERROR →
      (QCameraGrallocMemory.allocate w reply unlockRet count g).1 = UNKNOWN_ERROR ∧
      (QCameraGrallocMemory.allocate w reply unlockRet count g).2.mLocalFlag k =
        BufferFlag.BUFFER_NOT_OWNED) := by
  obtain ⟨w1, w2, w3, w4⟩ := hw
  unfold QCameraGrallocMemory.allocate
  rw [if_neg hwin]
  dsimp only
  simp only [w1, w2, w3, w4, ne_eq, not_true_eq_false, if_false]
  obtain ⟨a, b⟩ := grallocLoop_lock_failure reply unlockRet k hdq hlb hlock
    (count + w.min_undequeued).toNat 0
    { g with
      mMinUndequeuedBuffers := w.min_undequeued,
      calls := g.calls ++ [GrallocOp.get_min_undequeued_buffer_count 0 w.min_undequeued] ++
        [GrallocOp.set_buffer_count (count + w.min_undequeued) 0] ++
        [GrallocOp.set_buffers_geometry 0] ++ [GrallocOp.set_usage 0] }
    (Nat.zero_le k) (by omega) (fun j _ hj => hprev j hj)
  have hfr := (grallocLoop_frame reply unlockRet (count + w.min_undequeued).toNat 0
    { g with
      mMinUndequeuedBuffers := w.min_undequeued,
      calls := g.calls ++ [GrallocOp.get_min_undequeued_buffer_count 0 w.min_undequeued] ++
        [GrallocOp.set_buffer_count (count + w.min_undequeued) 0] ++
        [GrallocOp.set_buffers_geometry 0] ++ [GrallocOp.set_usage 0] }).2.1
  generalize QCameraGrallocMemory.allocLoop reply unlockRet (count + w.min_undequeued).toNat 0
    { g with
      mMinUndequeuedBuffers := w.min_undequeued,
      calls := g.calls ++ [GrallocOp.get_min_undequeued_buffer_count 0 w.min_undequeued] ++
        [GrallocOp.set_buffer_count (count + w.min_undequeued) 0] ++
        [GrallocOp.set_buffers_geometry 0] ++ [GrallocOp.set_usage 0] } = res at a b hfr ⊢
  obtain ⟨o, g5⟩ := res
  cases o with
  | none =>
    dsimp only at a ⊢
    refine ⟨fun _ => ?_, fun h => absurd rfl h⟩
    have hmin : g5.mMinUndequeuedBuffers = w.min_undequeued := hfr
    obtain ⟨_, c2, c3⟩ := cancelMinLoop_spec unlockRet g5.mMinUndequeuedBuffers.toNat 0
      { g5 with base := { g5.base with mBufferCount := count + w.min_undequeued } }
    split_ifs with hkm
    · exact c2 k (Nat.zero_le k) (by omega)
    · rw [c3 k (Or.inr (by omega))]
      exact a rfl
  | some rc =>
    dsimp only at b ⊢
    obtain ⟨b1, b2⟩ := b rc rfl
    subst b1
    exact ⟨fun h => absurd h (by decide), fun _ => ⟨rfl, b2⟩⟩

/-- Counterexample to C26 as stated.  In `allocate` of two buffers
`genlock_lock_buffer` fails for buffer 1: `allocate` returns `NO_ERROR` and the flag
of buffer 1 is `BUFFER_UNLOCKED`.  In `displayBuffer(0)` the window hands buffer 1
back and `genlock_lock_buffer` fails for it: the flag of buffer 1 is
`BUFFER_UNLOCKED` on return.  In `displayBuffer(0)` `genlock_unlock_buffer` fails for
buffer 0 and `enqueue_buffer` fails too: the flag of buffer 0 is `BUFFER_LOCKED` on
return. -/
theorem genlock_failure_flag_counterexample :
    (QCameraGrallocMemory.allocate {} (grallocLockFailingAt 1) genlockOk 2
      { mWindow := 1 }).1 = NO_ERROR ∧
    (QCameraGrallocMemory.allocate {} (grallocLockFailingAt 1) genlockOk 2
      { mWindow := 1 }).2.mLocalFlag 1 = BufferFlag.BUFFER_UNLOCKED ∧
    (QCameraGrallocMemory.displayBuffer
      { dequeue_handle := 901, genlock_lock := genlock_status_t.GENLOCK_FAILURE } 0
      grallocTwoLocked).2.mLocalFlag 1 = BufferFlag.BUFFER_UNLOCKED ∧
    grallocTwoLocked.mLocalFlag 0 = BufferFlag.BUFFER_LOCKED ∧
    (QCameraGrallocMemory.displayBuffer
      { genlock_unlock := genlock_status_t.GENLOCK_FAILURE, enqueue_err := -1,
        dequeue_err := -1 } 0
      grallocTwoLocked).2.mLocalFlag 0 = BufferFlag.BUFFER_LOCKED := by
  refine ⟨?_, ?_, ?_, ?_, ?_⟩ <;> decide

/-- C26, amended.  In the display-backed pool a failed genlock call leaves the flag of
its buffer as follows.
* `displayBuffer`, lock: when the window hands back buffer `i` of the pool and
  `genlock_lock_buffer` returns `GENLOCK_FAILURE` for it, `displayBuffer` returns
  `BAD_INDEX` and the flag of buffer `i` is `BUFFER_UNLOCKED` on return.
* `displayBuffer`, unlock: when the buffer to be enqueued is `BUFFER_LOCKED`,
  `genlock_unlock_buffer` returns `GENLOCK_FAILURE` and the window does not hand the
  same buffer back, its flag on return is `BUFFER_NOT_OWNED` if `enqueue_buffer`
  succeeded and `BUFFER_LOCKED` if it failed.
* `allocate`, lock: when the window is set, the four calls at the head of `allocate`
  succeed, the buffers up to and including `k` are dequeued and window-locked, and
  `genlock_lock_buffer` does not return `GENLOCK_NO_ERROR` for buffer `k`, then, if
  `allocate` returns `NO_ERROR`, the flag of buffer `k` on return is
  `BUFFER_UNLOCKED`, or `BUFFER_NOT_OWNED` when `k` is one of the first
  `mMinUndequeuedBuffers` buffers, which are cancelled back; otherwise a later buffer
  failed, `allocate` returns `UNKNOWN_ERROR` and buffer `k`, rolled back with the
  others, is `BUFFER_NOT_OWNED`. -/
theorem genlock_failure_flag (r : DisplayReply) (index i : Nat) (w : WindowReply)
    (reply : Nat → GrallocReply) (unlockRet : Nat → genlock_status_t) (count : Int)
    (g : QCameraGrallocMemory) (k : Nat) :
    (r.dequeue_err = NO_ERROR → r.dequeue_handle ≠ 0 →
      QCameraGrallocMemory.findHandle g.mBufferHandle r.dequeue_handle
        g.base.mBufferCount.toNat 0 = some i →
      r.genlock_lock = genlock_status_t.GENLOCK_FAILURE →
      (QCameraGrallocMemory.displayBuffer r index g).1 = BAD_INDEX ∧
      (QCameraGrallocMemory.displayBuffer r index g).2.mLocalFlag i =
        BufferFlag.BUFFER_UNLOCKED) ∧
    (g.mLocalFlag index = BufferFlag.BUFFER_LOCKED →
      r.genlock_unlock = genlock_status_t.GENLOCK_FAILURE →
      ¬ (r.dequeue_err = NO_ERROR ∧ r.dequeue_handle ≠ 0 ∧
        QCameraGrallocMemory.findHandle g.mBufferHandle r.dequeue_handle
          g.base.mBufferCount.toNat 0 = some index) →
      (QCameraGrallocMemory.displayBuffer r index g).2.mLocalFlag index =
        (if r.enqueue_err = 0 then BufferFlag.BUFFER_NOT_OWNED
         else BufferFlag.BUFFER_LOCKED)) ∧
    (g.mWindow ≠ 0 →
      (w.min_undequeued_err = 0 ∧ w.set_buffer_count_err = 0 ∧
        w.set_buffers_geometry_err = 0 ∧ w.set_usage_err = 0) →
      (k : Int) < count + w.min_undequeued →
      (∀ j < k, (reply j).dequeue_err = 0 ∧ (reply j).lock_buffer_err = 0) →
      (reply k).dequeue_err = 0 →
      (reply k).lock_buffer_err = 0 →
      (reply k).genlock_lock ≠ genlock_status_t.GENLOCK_NO_ERROR →
      ((QCameraGrallocMemory.allocate w reply unlockRet count g).1 = NO_ERROR →
        (QCameraGrallocMemory.allocate w reply unlockRet count g).2.mLocalFlag k =
          (if (k : Int) < w.min_undequeued then BufferFlag.BUFFER_NOT_OWNED
           else BufferFlag.BUFFER_UNLOCKED)) ∧
      ((QCameraGrallocMemory.allocate w reply unlockRet count g).1 ≠ NO_ERROR →
        (QCameraGrallocMemory.allocate w reply unlockRet count g).1 = UNKNOWN_ERROR ∧
        (QCameraGrallocMemory.allocate w reply unlockRet count g).2.mLocalFlag k =
          BufferFlag.BUFFER_NOT_OWNED)) := by
  refine ⟨?_, ?_, ?_⟩
  · intro hd hh hfind hlock
    unfold QCameraGrallocMemory.displayBuffer
    dsimp only
    by_cases hl : g.mLocalFlag index = BufferFlag.BUFFER_LOCKED <;>
    by_cases hu : r.genlock_unlock = genlock_status_t.GENLOCK_FAILURE <;>
    by_cases he : r.enqueue_err = 0 <;>
    simp only [hl, hu, he, if_true, if_false, ne_eq, not_true_eq_false, not_false_eq_true,
      hd, hh, hfind, hlock, and_self] <;>
    simp
  · intro hl hu hnot
    unfold QCameraGrallocMemory.displayBuffer
    dsimp only
    by_cases he : r.enqueue_err = 0 <;>
    simp only [hl, hu, he, if_true, if_false, ne_eq, not_true_eq_false, not_false_eq_true] <;>
    (split
     · rename_i hd
       split
       · rename_i j hfind
         have hj : j ≠ index := by
           intro hji
           subst hji
           exact hnot ⟨hd.1, hd.2, hfind⟩
         split_ifs <;> simp [Function.update_noteq hj.symm, hl]
       · simp [hl]
     · simp [hl])
  · intro hwin hw hk hprev hdq hlb hlock
    exact gralloc_allocate_lock_failure w reply unlockRet count g k hwin hw hk hprev hdq hlb
      hlock

/-- Witness of C26: the three situations of the theorem on a pool of two buffers. -/
theorem genlock_failure_flag_witness :
    ((QCameraGrallocMemory.displayBuffer
        { dequeue_handle := 901, genlock_lock := genlock_status_t.GENLOCK_FAILURE,
          genlock_unlock := genlock_status_t.GENLOCK_FAILURE } 0
        grallocTwoLocked).1 = BAD_INDEX ∧
      (QCameraGrallocMemory.displayBuffer
        { dequeue_handle := 901, genlock_lock := genlock_status_t.GENLOCK_FAILURE,
          genlock_unlock := genlock_status_t.GENLOCK_FAILURE } 0
        grallocTwoLocked).2.mLocalFlag 1 = BufferFlag.BUFFER_UNLOCKED) ∧
    (QCameraGrallocMemory.displayBuffer
        { dequeue_handle := 901, genlock_lock := genlock_status_t.GENLOCK_FAILURE,
          genlock_unlock := genlock_status_t.GENLOCK_FAILURE } 0
        grallocTwoLocked).2.mLocalFlag 0 = BufferFlag.BUFFER_NOT_OWNED ∧
    (QCameraGrallocMemory.allocate {} (grallocLockFailingAt 1) genlockOk 2
      { mWindow := 1 }).2.mLocalFlag 1 = BufferFlag.BUFFER_UNLOCKED :=
  ⟨(genlock_failure_flag
      { dequeue_handle := 901, genlock_lock := genlock_status_t.GENLOCK_FAILURE,
        genlock_unlock := genlock_status_t.GENLOCK_FAILURE } 0 1 {} grallocAllOk genlockOk 2
      grallocTwoLocked 0).1 (by decide) (by decide) (by decide) (by decide),
    (genlock_failure_flag
      { dequeue_handle := 901, genlock_lock := genlock_status_t.GENLOCK_FAILURE,
        genlock_unlock := genlock_status_t.GENLOCK_FAILURE } 0 1 {} grallocAllOk genlockOk 2
      grallocTwoLocked 0).2.1 (by decide) (by decide) (by decide),
    ((genlock_failure_flag {} 0 0 {} (grallocLockFailingAt 1) genlockOk 2 { mWindow := 1 }
      1).2.2 (by decide) (by decide) (by decide)
      (fun j hj => by interval_cases j; decide) (by decide) (by decide) (by decide)).1
      (by decide)⟩

/-- C25 at the failing inputs.  When the buffer count is not negative, a negative
index passes the check `index >= mBufferCount` of `getFd`, `getSize`,
`cacheOpsInternal` and of the `cacheOps` of the heap, stream and display-backed pool:
each of them reads `mMemInfo[index]`, in front of the array, and the value returned
is not the constant `BAD_INDEX` but computed from what is stored there.  An index
that is not below the buffer count does yield `BAD_INDEX` without a read. -/
theorem negative_index_passes_check (p : QCameraMemory) (mPtr mCameraMemory : Nat → Int)
    (data : Int → Int) (index ioctl_ret cmd : Int) (vaddr : Option Int)
    (hneg : index < 0) (hcount : 0 ≤ p.mBufferCount) :
    (p.getFd index = { ret := none, reads := [index] } ∧
      p.getSize index = { ret := none, reads := [index] } ∧
      p.cacheOpsInternal ioctl_ret index cmd vaddr = { ret := none, reads := [index] } ∧
      QCameraHeapMemory.cacheOps ioctl_ret { base := p, mPtr := mPtr } index cmd =
        { ret := none, reads := [index] } ∧
      QCameraStreamMemory.cacheOps ioctl_ret data { base := p, mCameraMemory := mCameraMemory }
        index cmd = { ret := none, reads := [index] } ∧
      QCameraGrallocMemory.cacheOps ioctl_ret data
        { base := p, mCameraMemory := mCameraMemory } index cmd =
          { ret := none, reads := [index] }) ∧
    (∀ above : Int, p.mBufferCount ≤ above →
      p.getFd above = { ret := some BAD_INDEX } ∧
      p.getSize above = { ret := some BAD_INDEX } ∧
      p.cacheOpsInternal ioctl_ret above cmd vaddr = { ret := some BAD_INDEX } ∧
      QCameraHeapMemory.cacheOps ioctl_ret { base := p, mPtr := mPtr } above cmd =
        { ret := some BAD_INDEX }) := by
  have h1 : ¬ index ≥ p.mBufferCount := by omega
  have h2 : ¬ (0 ≤ index) := by omega
  refine ⟨⟨?_, ?_, ?_, ?_, ?_, ?_⟩, ?_⟩
  · simp [QCameraMemory.getFd, QCameraMemory.memInfoAt, h1, h2]
  · simp [QCameraMemory.getSize, QCameraMemory.memInfoAt, h1, h2]
  · simp [QCameraMemory.cacheOpsInternal, QCameraMemory.memInfoAt, h1, h2]
  · simp [QCameraHeapMemory.cacheOps, QCameraMemory.cacheOpsInternal,
      QCameraMemory.memInfoAt, h1, h2]
  · simp [QCameraStreamMemory.cacheOps, QCameraMemory.cacheOpsInternal,
      QCameraMemory.memInfoAt, h1, h2]
  · simp [QCameraGrallocMemory.cacheOps, QCameraMemory.cacheOpsInternal,
      QCameraMemory.memInfoAt, h1, h2]
  · intro above ha
    simp [QCameraMemory.getFd, QCameraMemory.getSize, QCameraMemory.cacheOpsInternal,
      QCameraHeapMemory.cacheOps, ha]

/-- C25, example: on a heap pool of two buffers, `getFd(-1)` reads `mMemInfo[-1]` and
`getFd(2)` returns `BAD_INDEX`. -/
theorem negative_index_passes_check_witness :
    heapTwoBuffers.base.mBufferCount = 2 ∧
    heapTwoBuffers.base.getFd (-1) = { ret := none, reads := [-1] } ∧
    heapTwoBuffers.base.getFd 2 = { ret := some BAD_INDEX } ∧
    heapTwoBuffers.base.getFd 1 = { ret := some 301, reads := [1] } :=
  ⟨by decide,
    (negative_index_passes_check heapTwoBuffers.base heapTwoBuffers.mPtr (fun _ => 0)
      (fun _ => 0) (-1) 0 0 none (by decide) (by decide)).1.1,
    ((negative_index_passes_check heapTwoBuffers.base heapTwoBuffers.mPtr (fun _ => 0)
      (fun _ => 0) (-1) 0 0 none (by decide) (by decide)).2 2 (by decide)).1,
    by decide⟩

/-- C28 at the failing input.  Both buffers of the pool are `BUFFER_LOCKED`, the window
is set, and `genlock_unlock_buffer` fails for buffer 0: after `deallocate` the buffer
count is zero, buffer 1 has been cancelled back once and is `BUFFER_NOT_OWNED`, but
buffer 0 has not been cancelled back and its flag is still `BUFFER_LOCKED`. -/
theorem gralloc_deallocate_unlock_failure :
    grallocTwoLocked.mWindow ≠ 0 ∧
    grallocTwoLocked.base.mBufferCount = 2 ∧
    grallocTwoLocked.mLocalFlag 0 = BufferFlag.BUFFER_LOCKED ∧
    grallocTwoLocked.mLocalFlag 1 = BufferFlag.BUFFER_LOCKED ∧
    cancelledBuffers grallocTwoLocked.calls = [] ∧
    (QCameraGrallocMemory.deallocate (genlockFailingAt 0) grallocTwoLocked).base.mBufferCount
      = 0 ∧
    cancelledBuffers
      (QCameraGrallocMemory.deallocate (genlockFailingAt 0) grallocTwoLocked).calls = [1] ∧
    (QCameraGrallocMemory.deallocate (genlockFailingAt 0) grallocTwoLocked).mLocalFlag 1 =
      BufferFlag.BUFFER_NOT_OWNED ∧
    (QCameraGrallocMemory.deallocate (genlockFailingAt 0) grallocTwoLocked).mLocalFlag 0 =
      BufferFlag.BUFFER_LOCKED := by
  refine ⟨?_, ?_, ?_, ?_, ?_, ?_, ?_, ?_, ?_⟩ <;> decide

/-- C29. Every frame handed to the post-processor through `processData` is released
to the driver exactly once and is owned by no queue afterwards, whether or not it is
reprocessed, on each path: the reprocess fails, the submission of the encode job
fails, or the job is submitted and the encode engine signals its completion. -/
theorem processData_releases_once (needReprocess : Bool) (reprocess_rc encode_rc : Int)
    (jobId frame : Nat) :
    (QCameraPostProcessor.runFrame needReprocess reprocess_rc encode_rc jobId frame).released
        = [frame] ∧
      (QCameraPostProcessor.runFrame needReprocess reprocess_rc encode_rc jobId
        frame).m_inputPPQ = [] ∧
      (QCameraPostProcessor.runFrame needReprocess reprocess_rc encode_rc jobId
        frame).m_inputJpegQ = [] ∧
      (QCameraPostProcessor.runFrame needReprocess reprocess_rc encode_rc jobId
        frame).m_ongoingJpegQ = [] := by
  unfold QCameraPostProcessor.runFrame
  cases needReprocess <;>
  by_cases h1 : reprocess_rc = 0 <;>
  by_cases h2 : encode_rc = 0 <;>
  simp [QCameraPostProcessor.processData, QCameraPostProcessor.reprocessStage,
    QCameraPostProcessor.encodeStage, QCameraPostProcessor.processJpegEvt, h1, h2]

/-- Counterexample to C35 as stated: in `PREVIEW_READY`, where `isPreviewRunning`
returns `false`, the `PREVIEW_ENABLED` query reports `enabled = 1`; in `RECORDING`,
where `isPreviewRunning` returns `true`, it reports `enabled = 0`. -/
theorem previewEnabled_counterexample :
    isPreviewRunning (machineIn qcamera_state_enum_t.QCAMERA_SM_STATE_PREVIEW_READY 0) = false ∧
    (stateMachine (scriptedHwi allSucceed false)
      qcamera_sm_evt_enum_t.QCAMERA_SM_EVT_PREVIEW_ENABLED {}
      (machineIn qcamera_state_enum_t.QCAMERA_SM_STATE_PREVIEW_READY 0)).2.calls =
      [HwiCall.signalAPIResult
        { status := NO_ERROR,
          request_api := qcamera_sm_evt_enum_t.QCAMERA_SM_EVT_PREVIEW_ENABLED,
          result_type := qcamera_api_result_type_t.QCAMERA_API_RESULT_TYPE_ENABLE_FLAG,
          enabled := 1 }] ∧
    isPreviewRunning (machineIn qcamera_state_enum_t.QCAMERA_SM_STATE_RECORDING 7) = true ∧
    (stateMachine (scriptedHwi allSucceed false)
      qcamera_sm_evt_enum_t.QCAMERA_SM_EVT_PREVIEW_ENABLED {}
      (machineIn qcamera_state_enum_t.QCAMERA_SM_STATE_RECORDING 7)).2.calls =
      [HwiCall.signalAPIResult
        { status := NO_ERROR,
          request_api := qcamera_sm_evt_enum_t.QCAMERA_SM_EVT_PREVIEW_ENABLED,
          result_type := qcamera_api_result_type_t.QCAMERA_API_RESULT_TYPE_ENABLE_FLAG,
          enabled := 0 }] :=
  ⟨rfl, rfl, rfl, rfl⟩

/-- C35, amended. The `PREVIEW_ENABLED` query returns `NO_ERROR`, leaves the state as
it is and signals one result of type `ENABLE_FLAG`, with `enabled = 1` in
`PREVIEW_READY`, `PREVIEWING`, `VIDEO_PIC_TAKING` and `PREVIEW_PIC_TAKING` and with
`enabled = 0` in `PREVIEW_STOPPED` and `PIC_TAKING`. -/
theorem previewEnabled_answer (hwi : QCamera2HardwareInterface σ) (payload : Payload)
    (m : QCameraStateMachine σ) :
    ((m.m_state = qcamera_state_enum_t.QCAMERA_SM_STATE_PREVIEW_READY ∨
        m.m_state = qcamera_state_enum_t.QCAMERA_SM_STATE_PREVIEWING ∨
        m.m_state = qcamera_state_enum_t.QCAMERA_SM_STATE_VIDEO_PIC_TAKING ∨
        m.m_state = qcamera_state_enum_t.QCAMERA_SM_STATE_PREVIEW_PIC_TAKING) →
      stateMachine hwi qcamera_sm_evt_enum_t.QCAMERA_SM_EVT_PREVIEW_ENABLED payload m =
        replyEnableFlag hwi qcamera_sm_evt_enum_t.QCAMERA_SM_EVT_PREVIEW_ENABLED NO_ERROR 1 m) ∧
    ((m.m_state = qcamera_state_enum_t.QCAMERA_SM_STATE_PREVIEW_STOPPED ∨
        m.m_state = qcamera_state_enum_t.QCAMERA_SM_STATE_PIC_TAKING) →
      stateMachine hwi qcamera_sm_evt_enum_t.QCAMERA_SM_EVT_PREVIEW_ENABLED payload m =
        replyEnableFlag hwi qcamera_sm_evt_enum_t.QCAMERA_SM_EVT_PREVIEW_ENABLED NO_ERROR 0 m) ∧
    (replyEnableFlag hwi qcamera_sm_evt_enum_t.QCAMERA_SM_EVT_PREVIEW_ENABLED NO_ERROR 1 m).1 =
      NO_ERROR ∧
    ∀ enabled : Int,
      (replyEnableFlag hwi qcamera_sm_evt_enum_t.QCAMERA_SM_EVT_PREVIEW_ENABLED NO_ERROR
        enabled m).2.m_state = m.m_state ∧
      (replyEnableFlag hwi qcamera_sm_evt_enum_t.QCAMERA_SM_EVT_PREVIEW_ENABLED NO_ERROR
        enabled m).2.calls = m.calls ++
          [HwiCall.signalAPIResult
            { status := NO_ERROR,
              request_api := qcamera_sm_evt_enum_t.QCAMERA_SM_EVT_PREVIEW_ENABLED,
              result_type := qcamera_api_result_type_t.QCAMERA_API_RESULT_TYPE_ENABLE_FLAG,
              enabled := enabled }] := by
  unfold stateMachine procEvtPreviewStoppedState procEvtPreviewReadyState
    procEvtPreviewingState procEvtPicTakingState procEvtRecordingState
    procEvtVideoPicTakingState procEvtPreviewPicTakingState
  refine ⟨fun hs => ?_, fun hs => ?_, rfl, fun enabled => ⟨rfl, rfl⟩⟩
  · rcases hs with hs | hs | hs | hs <;> rw [hs]
  · rcases hs with hs | hs <;> rw [hs]

/-- Witness of C35: the query in `PREVIEW_PIC_TAKING`. -/
theorem previewEnabled_answer_witness :
    stateMachine (scriptedHwi allSucceed false)
      qcamera_sm_evt_enum_t.QCAMERA_SM_EVT_PREVIEW_ENABLED {}
      (machineIn qcamera_state_enum_t.QCAMERA_SM_STATE_PREVIEW_PIC_TAKING 7) =
    replyEnableFlag (scriptedHwi allSucceed false)
      qcamera_sm_evt_enum_t.QCAMERA_SM_EVT_PREVIEW_ENABLED NO_ERROR 1
      (machineIn qcamera_state_enum_t.QCAMERA_SM_STATE_PREVIEW_PIC_TAKING 7) :=
  (previewEnabled_answer (scriptedHwi allSucceed false) {}
    (machineIn qcamera_state_enum_t.QCAMERA_SM_STATE_PREVIEW_PIC_TAKING 7)).1
    (Or.inr (Or.inr (Or.inr rfl)))

/-- C38. For every state and every event tag that is not an API event
(`EVT_INTERNAL`, `EVT_NOTIFY`, `JPEG_EVT_NOTIFY`, `SNAPSHOT_DONE`, `QCAMERA_SM_EVT_MAX`
and every value outside the enumeration), whatever the payload and whatever the
hardware interface operations return, the segment the handler appends to the log of
invocations contains no `signalAPIResult`. -/
theorem stateMachine_event_never_signals (hwi : QCamera2HardwareInterface σ)
    (evt : qcamera_sm_evt_enum_t) (payload : Payload) (m : QCameraStateMachine σ)
    (h : evt.isAPIEvt = false) :
    ∃ added, (stateMachine hwi evt payload m).2.calls = m.calls ++ added ∧
      signalCount added = 0 := by
  obtain ⟨parent, state, apiq, evtq, calls, w⟩ := m
  cases evt
  case OUT_OF_ENUM k =>
    unfold stateMachine procEvtPreviewStoppedState procEvtPreviewReadyState
      procEvtPreviewingState procEvtPicTakingState procEvtRecordingState
      procEvtVideoPicTakingState procEvtPreviewPicTakingState
    cases state <;> exact ⟨[], (List.append_nil _).symm, rfl⟩
  case QCAMERA_SM_EVT_MAX =>
    unfold stateMachine procEvtPreviewStoppedState procEvtPreviewReadyState
      procEvtPreviewingState procEvtPicTakingState procEvtRecordingState
      procEvtVideoPicTakingState procEvtPreviewPicTakingState
    cases state <;> exact ⟨[], (List.append_nil _).symm, rfl⟩
  case QCAMERA_SM_EVT_EVT_INTERNAL =>
    unfold stateMachine procEvtPreviewStoppedState procEvtPreviewReadyState
      procEvtPreviewingState procEvtPicTakingState procEvtRecordingState
      procEvtVideoPicTakingState procEvtPreviewPicTakingState
    cases state <;> dsimp only <;> (try simp only [procInternalEvt, call]) <;>
      (try split) <;>
      first
        | exact ⟨[], (List.append_nil _).symm, rfl⟩
        | exact ⟨_, rfl, by simp [signalCount, HwiCall.isSignal]⟩
  case QCAMERA_SM_EVT_EVT_NOTIFY =>
    unfold stateMachine procEvtPreviewStoppedState procEvtPreviewReadyState
      procEvtPreviewingState procEvtPicTakingState procEvtRecordingState
      procEvtVideoPicTakingState procEvtPreviewPicTakingState
    cases state <;> dsimp only <;> (try simp only [procNotifyEvt, call]) <;>
      (try split) <;>
      first
        | exact ⟨[], (List.append_nil _).symm, rfl⟩
        | exact ⟨_, rfl, by simp [signalCount, HwiCall.isSignal]⟩
  case QCAMERA_SM_EVT_JPEG_EVT_NOTIFY =>
    unfold stateMachine procEvtPreviewStoppedState procEvtPreviewReadyState
      procEvtPreviewingState procEvtPicTakingState procEvtRecordingState
      procEvtVideoPicTakingState procEvtPreviewPicTakingState
    cases state <;> dsimp only <;> (try simp only [call]) <;>
      first
        | exact ⟨[], (List.append_nil _).symm, rfl⟩
        | exact ⟨_, rfl, by simp [signalCount, HwiCall.isSignal]⟩
  case QCAMERA_SM_EVT_SNAPSHOT_DONE =>
    unfold stateMachine procEvtPreviewStoppedState procEvtPreviewReadyState
      procEvtPreviewingState procEvtPicTakingState procEvtRecordingState
      procEvtVideoPicTakingState procEvtPreviewPicTakingState
    cases state <;> dsimp only <;> (try simp only [call]) <;>
      first
        | exact ⟨[], (List.append_nil _).symm, rfl⟩
        | exact ⟨_, rfl, by simp [signalCount, HwiCall.isSignal]⟩
  all_goals exact absurd h (by decide)

/-- Witness of C38: `SNAPSHOT_DONE` in `PIC_TAKING` invokes `cancelPicture` only. -/
theorem stateMachine_event_never_signals_witness :
    qcamera_sm_evt_enum_t.QCAMERA_SM_EVT_SNAPSHOT_DONE.isAPIEvt = false ∧
    ∃ added, (stateMachine (scriptedHwi allSucceed false)
        qcamera_sm_evt_enum_t.QCAMERA_SM_EVT_SNAPSHOT_DONE {}
        (machineIn qcamera_state_enum_t.QCAMERA_SM_STATE_PIC_TAKING 7)).2.calls =
          (machineIn qcamera_state_enum_t.QCAMERA_SM_STATE_PIC_TAKING 7).calls ++ added ∧
      signalCount added = 0 :=
  ⟨by decide,
    stateMachine_event_never_signals (scriptedHwi allSucceed false)
      qcamera_sm_evt_enum_t.QCAMERA_SM_EVT_SNAPSHOT_DONE {}
      (machineIn qcamera_state_enum_t.QCAMERA_SM_STATE_PIC_TAKING 7) (by decide)⟩

/-- C39 at the failing input, for every hardware interface: in `PREVIEW_PIC_TAKING` a
`START_RECORDING` request invokes `stopRecording`, and no `startRecording`; it returns
and signals the status of `stopRecording`, and the state becomes `VIDEO_PIC_TAKING`
exactly when `stopRecording` returned `NO_ERROR`. -/
theorem startRecording_in_previewPicTaking (hwi : QCamera2HardwareInterface σ)
    (payload : Payload) (m : QCameraStateMachine σ)
    (hs : m.m_state = qcamera_state_enum_t.QCAMERA_SM_STATE_PREVIEW_PIC_TAKING) :
    (stateMachine hwi qcamera_sm_evt_enum_t.QCAMERA_SM_EVT_START_RECORDING payload m).2.calls =
      m.calls ++ [HwiCall.stopRecording,
        HwiCall.signalAPIResult
          { status := (hwi.exec HwiCall.stopRecording m.m_parent).1,
            request_api := qcamera_sm_evt_enum_t.QCAMERA_SM_EVT_START_RECORDING }] ∧
    (stateMachine hwi qcamera_sm_evt_enum_t.QCAMERA_SM_EVT_START_RECORDING payload m).1 =
      (hwi.exec HwiCall.stopRecording m.m_parent).1 ∧
    (stateMachine hwi qcamera_sm_evt_enum_t.QCAMERA_SM_EVT_START_RECORDING payload m).2.m_state =
      (if (hwi.exec HwiCall.stopRecording m.m_parent).1 = NO_ERROR then
        qcamera_state_enum_t.QCAMERA_SM_STATE_VIDEO_PIC_TAKING
      else qcamera_state_enum_t.QCAMERA_SM_STATE_PREVIEW_PIC_TAKING) := by
  obtain ⟨parent, state, apiq, evtq, calls, w⟩ := m
  dsimp only at hs
  subst hs
  unfold stateMachine procEvtPreviewPicTakingState
  dsimp only
  simp only [callAndReply, replyDef, signalAPIResult, call]
  split_ifs <;> simp

/-- C39, example: with a `startRecording` that would fail and a `stopRecording` that
succeeds, the request in `PREVIEW_PIC_TAKING` succeeds and moves to
`VIDEO_PIC_TAKING`; `startRecording` is not invoked. -/
theorem startRecording_in_previewPicTaking_witness :
    (stateMachine (scriptedHwi (failing HwiCall.startRecording) false)
      qcamera_sm_evt_enum_t.QCAMERA_SM_EVT_START_RECORDING {}
      (machineIn qcamera_state_enum_t.QCAMERA_SM_STATE_PREVIEW_PIC_TAKING 7)).2.calls =
      [HwiCall.stopRecording,
        HwiCall.signalAPIResult
          { status := NO_ERROR,
            request_api := qcamera_sm_evt_enum_t.QCAMERA_SM_EVT_START_RECORDING }] ∧
    (stateMachine (scriptedHwi (failing HwiCall.startRecording) false)
      qcamera_sm_evt_enum_t.QCAMERA_SM_EVT_START_RECORDING {}
      (machineIn qcamera_state_enum_t.QCAMERA_SM_STATE_PREVIEW_PIC_TAKING 7)).1 = NO_ERROR ∧
    (stateMachine (scriptedHwi (failing HwiCall.startRecording) false)
      qcamera_sm_evt_enum_t.QCAMERA_SM_EVT_START_RECORDING {}
      (machineIn qcamera_state_enum_t.QCAMERA_SM_STATE_PREVIEW_PIC_TAKING 7)).2.m_state =
      qcamera_state_enum_t.QCAMERA_SM_STATE_VIDEO_PIC_TAKING :=
  startRecording_in_previewPicTaking (scriptedHwi (failing HwiCall.startRecording) false) {}
    (machineIn qcamera_state_enum_t.QCAMERA_SM_STATE_PREVIEW_PIC_TAKING 7) rfl

/-- C37 at the failing input.  From the machine the constructor leaves, with no preview
window, `START_PREVIEW` moves to `PREVIEW_READY` without invoking anything but the
result signal; `SET_PREVIEW_WINDOW` with window 7 then invokes `startPreview` and moves
to `PREVIEWING`, and no `preparePreview` has been invoked at all.  When that
`startPreview` fails, `unpreparePreview` is invoked although nothing was prepared. -/
theorem startPreview_without_prepare :
    (dispatchAll (scriptedHwi allSucceed false)
      [(qcamera_sm_evt_enum_t.QCAMERA_SM_EVT_START_PREVIEW, {})] initialMachine).m_state =
      qcamera_state_enum_t.QCAMERA_SM_STATE_PREVIEW_READY ∧
    (dispatchAll (scriptedHwi allSucceed false)
      [(qcamera_sm_evt_enum_t.QCAMERA_SM_EVT_START_PREVIEW, {}),
       (qcamera_sm_evt_enum_t.QCAMERA_SM_EVT_SET_PREVIEW_WINDOW, { ptr := 7 })]
      initialMachine).m_state = qcamera_state_enum_t.QCAMERA_SM_STATE_PREVIEWING ∧
    (dispatchAll (scriptedHwi allSucceed false)
      [(qcamera_sm_evt_enum_t.QCAMERA_SM_EVT_START_PREVIEW, {}),
       (qcamera_sm_evt_enum_t.QCAMERA_SM_EVT_SET_PREVIEW_WINDOW, { ptr := 7 })]
      initialMachine).calls =
      [HwiCall.signalAPIResult
        { status := NO_ERROR,
          request_api := qcamera_sm_evt_enum_t.QCAMERA_SM_EVT_START_PREVIEW },
       HwiCall.setPreviewWindow 7, HwiCall.startPreview,
       HwiCall.signalAPIResult
        { status := NO_ERROR,
          request_api := qcamera_sm_evt_enum_t.QCAMERA_SM_EVT_SET_PREVIEW_WINDOW }] ∧
    HwiCall.preparePreview ∉
      (dispatchAll (scriptedHwi allSucceed false)
        [(qcamera_sm_evt_enum_t.QCAMERA_SM_EVT_START_PREVIEW, {}),
         (qcamera_sm_evt_enum_t.QCAMERA_SM_EVT_SET_PREVIEW_WINDOW, { ptr := 7 })]
        initialMachine).calls ∧
    (dispatchAll (scriptedHwi (failing HwiCall.startPreview) false)
      [(qcamera_sm_evt_enum_t.QCAMERA_SM_EVT_START_PREVIEW, {}),
       (qcamera_sm_evt_enum_t.QCAMERA_SM_EVT_SET_PREVIEW_WINDOW, { ptr := 7 })]
      initialMachine).calls =
      [HwiCall.signalAPIResult
        { status := NO_ERROR,
          request_api := qcamera_sm_evt_enum_t.QCAMERA_SM_EVT_START_PREVIEW },
       HwiCall.setPreviewWindow 7, HwiCall.startPreview, HwiCall.unpreparePreview,
       HwiCall.signalAPIResult
        { status := -1,
          request_api := qcamera_sm_evt_enum_t.QCAMERA_SM_EVT_SET_PREVIEW_WINDOW }] := by
  refine ⟨rfl, rfl, ?_, ?_, ?_⟩ <;> decide

/-- The counter after a call of `mm_camera_util_generate_handler`, and the handle,
in closed form: the counter runs through `1, ..., 65535` cyclically. -/
theorem generate_handler_closed (g index : Nat) :
    (mm_camera_util_generate_handler g index).2 =
        ((g % 65536 + 65534) % 65535 + 1) % 65535 + 1 ∧
      (mm_camera_util_generate_handler g index).1 =
        256 * (((g % 65536 + 65534) % 65535 + 1) % 65535 + 1) + index % 256 := by
  obtain ⟨c, _, _, h2, h1⟩ := generate_handler_eq g index
  have hc : c = ((g % 65536 + 65534) % 65535 + 1) % 65535 + 1 := by
    rw [← h2]
    unfold mm_camera_util_generate_handler
    dsimp only
    split_ifs <;> omega
  rw [h1, h2, hc]
  exact ⟨rfl, rfl⟩

/-- The counter after `n + 1` calls, in closed form. -/
theorem handlerCounterAfter_closed (g : Nat) (index : Nat → Nat) (n : Nat) :
    handlerCounterAfter g index (n + 1) = ((g % 65536 + 65534) % 65535 + n + 1) % 65535 + 1 := by
  induction n with
  | zero =>
    have h0 : handlerCounterAfter g index 0 = g := rfl
    unfold handlerCounterAfter
    rw [(generate_handler_closed _ _).1, h0]
  | succ n ih =>
    unfold handlerCounterAfter
    rw [(generate_handler_closed _ _).1, ih]
    generalize (g % 65536 + 65534) % 65535 = x
    omega

/-- The handle returned by call number `n`, in closed form. -/
theorem nthHandler_closed (g : Nat) (index : Nat → Nat) (n : Nat) :
    nthHandler g index n =
      256 * (((g % 65536 + 65534) % 65535 + n + 1) % 65535 + 1) + index n % 256 := by
  unfold nthHandler
  rw [(generate_handler_closed _ _).2]
  cases n with
  | zero =>
    have h0 : handlerCounterAfter g index 0 = g := rfl
    rw [h0]
  | succ n =>
    rw [handlerCounterAfter_closed]
    generalize (g % 65536 + 65534) % 65535 = x
    generalize index (n + 1) % 256 = y
    omega

/-- Counterexample to C31 as stated: starting from the counter value 0, the first call
and the call made after 65534 calls in between, both with index 3, return the same
handle. -/
theorem handlers_repeat_counterexample :
    nthHandler 0 (fun _ => 3) 0 = 259 ∧ nthHandler 0 (fun _ => 3) 65535 = 259 := by
  rw [nthHandler_closed, nthHandler_closed]
  exact ⟨by decide, by decide⟩

/-- C31, amended. In a sequence of calls of `mm_camera_util_generate_handler`, whatever
the counter value before the first call and whatever the indices, the handles of call
`a` and of a later call `b` are equal exactly when the two indices agree modulo 256
and the number of calls from `a` to `b` is a multiple of 65535; in particular they are
different when the indices differ or when `b` is fewer than 65535 calls after `a`. -/
theorem handlers_distinct (g : Nat) (index : Nat → Nat) (a b : Nat) (hab : a < b) :
    (nthHandler g index a = nthHandler g index b ↔
      (index a % 256 = index b % 256 ∧ (b - a) % 65535 = 0)) ∧
    (index a % 256 ≠ index b % 256 ∨ b - a < 65535 →
      nthHandler g index a ≠ nthHandler g index b) := by
  rw [nthHandler_closed, nthHandler_closed]
  have hx : (g % 65536 + 65534) % 65535 < 65535 := Nat.mod_lt _ (by decide)
  have ha : index a % 256 < 256 := Nat.mod_lt _ (by decide)
  have hb : index b % 256 < 256 := Nat.mod_lt _ (by decide)
  generalize (g % 65536 + 65534) % 65535 = x at hx ⊢
  generalize index a % 256 = ia at ha ⊢
  generalize index b % 256 = ib at hb ⊢
  constructor
  · constructor
    · intro h
      omega
    · intro h
      omega
  · intro h
    omega

/-- Witness of C31: the first call and the call made after 65533 calls in between. -/
theorem handlers_distinct_witness :
    nthHandler 0 (fun _ => 3) 0 ≠ nthHandler 0 (fun _ => 3) 65534 :=
  (handlers_distinct 0 (fun _ => 3) 0 65534 (by decide)).2 (Or.inr (by decide))

/-- C36. For every index and every value of the history counter, the wrap from 65535
included, the handle `mm_camera_util_generate_handler` returns is a 32-bit value that
is not 0 and whose counter part, bits 8 to 23, is not 0. -/
theorem generated_handler_nonzero (g_handler_history_count index : Nat) :
    (mm_camera_util_generate_handler g_handler_history_count index).1 ≠ 0 ∧
      ((mm_camera_util_generate_handler g_handler_history_count index).1 >>> 8) &&& 65535 ≠ 0 ∧
      (mm_camera_util_generate_handler g_handler_history_count index).1 < 4294967296 ∧
      ((mm_camera_util_generate_handler 65535 index).1 >>> 8) &&& 65535 = 1 := by
  have key : ∀ g, ∃ c, 0 < c ∧ c < 65536 ∧
      (mm_camera_util_generate_handler g index).1 = 256 * c + index % 256 ∧
      ((mm_camera_util_generate_handler g index).1 >>> 8) &&& 65535 = c ∧
      (g = 65535 → c = 1) := by
    intro g
    obtain ⟨h2, h1⟩ := generate_handler_closed g index
    refine ⟨((g % 65536 + 65534) % 65535 + 1) % 65535 + 1, by omega, by omega, h1, ?_, ?_⟩
    · rw [h1, Nat.shiftRight_eq_div_pow]
      have e : (65535 : Nat) = 2 ^ 16 - 1 := by norm_num
      rw [e, Nat.and_pow_two_sub_one_eq_mod]
      omega
    · intro hg
      subst hg
      rfl
  obtain ⟨c, c0, c1, e1, e2, _⟩ := key g_handler_history_count
  obtain ⟨d, _, _, _, f2, f3⟩ := key 65535
  refine ⟨by omega, by omega, by omega, ?_⟩
  rw [f2]
  exact f3 rfl

/-- C32 at the failing input, for every registry: when the camera index is in range
and registered with the object at address `p`, `camera_open` increments the reference
count of that object, but the pointer it returns is `NULL` plus the offset of `vtbl`,
not the address of the virtual table of the registered object. -/
theorem camera_open_again (vtbl_offset malloc_ret mm_camera_open_rc : Int)
    (camera_idx : Nat) (s : CameraRegistry) (p : Int) (obj : mm_camera_obj_t)
    (hidx : camera_idx % 256 < s.num_cam) (hreg : s.cam_obj (camera_idx % 256) = p)
    (hp : p ≠ 0) (hobj : s.heap p = some obj) :
    (camera_open vtbl_offset malloc_ret mm_camera_open_rc camera_idx s).2.heap p =
        some { obj with ref_count := obj.ref_count + 1 } ∧
      (camera_open vtbl_offset malloc_ret mm_camera_open_rc camera_idx s).2.cam_obj
        (camera_idx % 256) = p ∧
      (camera_open vtbl_offset malloc_ret mm_camera_open_rc camera_idx s).1 = 0 + vtbl_offset ∧
      (camera_open vtbl_offset malloc_ret mm_camera_open_rc camera_idx s).1 ≠ p + vtbl_offset := by
  unfold camera_open
  dsimp only
  rw [if_neg (by omega), if_pos (by rw [hreg]; exact hp)]
  dsimp only
  rw [hreg, hobj]
  refine ⟨by simp, rfl, rfl, by omega⟩

/-- C32, example: camera 0 is opened twice, the object is allocated at address 4096 and
its virtual table lies 16 bytes into it.  The first call returns 4112, the table of
the new object, which carries the handle 256.  The second call returns 16, where no
camera object is stored; the reference count of the object is 2. -/
theorem camera_open_again_witness :
    (camera_open 16 4096 0 0 oneCamera).1 = 4112 ∧
    vtblCameraHandle 16 (camera_open 16 4096 0 0 oneCamera).2 4112 = some 256 ∧
    (camera_open 16 8192 0 0 (camera_open 16 4096 0 0 oneCamera).2).1 = 16 ∧
    vtblCameraHandle 16 (camera_open 16 8192 0 0 (camera_open 16 4096 0 0 oneCamera).2).2 16 =
      none ∧
    (camera_open 16 8192 0 0 (camera_open 16 4096 0 0 oneCamera).2).2.heap 4096 =
      some { ref_count := 2, my_hdl := 256, vtbl_camera_handle := 256 } :=
  ⟨by decide, by decide,
    (camera_open_again 16 8192 0 0 (camera_open 16 4096 0 0 oneCamera).2 4096
      { ref_count := 1, my_hdl := 256, vtbl_camera_handle := 256 }
      (by decide) (by decide) (by decide) (by decide)).2.2.1,
    by decide,
    (camera_open_again 16 8192 0 0 (camera_open 16 4096 0 0 oneCamera).2 4096
      { ref_count := 1, my_hdl := 256, vtbl_camera_handle := 256 }
      (by decide) (by decide) (by decide) (by decide)).1⟩

/-- C33 at the failing input.  Two buffers are requested, the window needs no
undequeued buffer, buffer 0 is acquired and buffer 1 is dequeued but its `lock_buffer`
fails: `allocate` returns `UNKNOWN_ERROR` and the buffer count stays zero, buffer 0 is
cancelled back and flagged `BUFFER_NOT_OWNED`, but buffer 1 is not cancelled back, its
flag stays `BUFFER_LOCKED` and its handle stays in `mBufferHandle`.  When instead the
`dequeue_buffer` of buffer 1 fails, buffer 0 is cancelled back and both flags are
`BUFFER_NOT_OWNED`. -/
theorem gralloc_allocate_lock_buffer_failure :
    (QCameraGrallocMemory.allocate {} (grallocWindowLockFailingAt 1) genlockOk 2
      { mWindow := 1 }).1 = UNKNOWN_ERROR ∧
    (QCameraGrallocMemory.allocate {} (grallocWindowLockFailingAt 1) genlockOk 2
      { mWindow := 1 }).2.base.mBufferCount = 0 ∧
    cancelledBuffers (QCameraGrallocMemory.allocate {} (grallocWindowLockFailingAt 1) genlockOk 2
      { mWindow := 1 }).2.calls = [0] ∧
    (QCameraGrallocMemory.allocate {} (grallocWindowLockFailingAt 1) genlockOk 2
      { mWindow := 1 }).2.mLocalFlag 0 = BufferFlag.BUFFER_NOT_OWNED ∧
    GrallocOp.dequeue_buffer 0 901 ∈
      (QCameraGrallocMemory.allocate {} (grallocWindowLockFailingAt 1) genlockOk 2
        { mWindow := 1 }).2.calls ∧
    (QCameraGrallocMemory.allocate {} (grallocWindowLockFailingAt 1) genlockOk 2
      { mWindow := 1 }).2.mLocalFlag 1 = BufferFlag.BUFFER_LOCKED ∧
    (QCameraGrallocMemory.allocate {} (grallocWindowLockFailingAt 1) genlockOk 2
      { mWindow := 1 }).2.mBufferHandle 1 = 901 ∧
    (QCameraGrallocMemory.allocate {} (grallocDequeueFailingAt 1) genlockOk 2
      { mWindow := 1 }).1 = UNKNOWN_ERROR ∧
    cancelledBuffers (QCameraGrallocMemory.allocate {} (grallocDequeueFailingAt 1) genlockOk 2
      { mWindow := 1 }).2.calls = [0] ∧
    (QCameraGrallocMemory.allocate {} (grallocDequeueFailingAt 1) genlockOk 2
      { mWindow := 1 }).2.mLocalFlag 0 = BufferFlag.BUFFER_NOT_OWNED ∧
    (QCameraGrallocMemory.allocate {} (grallocDequeueFailingAt 1) genlockOk 2
      { mWindow := 1 }).2.mLocalFlag 1 = BufferFlag.BUFFER_NOT_OWNED := by
  refine ⟨?_, ?_, ?_, ?_, ?_, ?_, ?_, ?_, ?_, ?_, ?_⟩ <;> decide

/-- The acquisition loop of `allocate` runs to its end when every buffer of its range
is dequeued and window-locked. -/
theorem grallocLoop_ok (reply : Nat → GrallocReply) (unlockRet : Nat → genlock_status_t)
    (n : Nat) :
    ∀ (cnt : Nat) (g : QCameraGrallocMemory),
      (∀ j, cnt ≤ j → j < cnt + n →
        (reply j).dequeue_err = 0 ∧ (reply j).lock_buffer_err = 0) →
      (QCameraGrallocMemory.allocLoop reply unlockRet n cnt g).1 = none := by
  induction n with
  | zero => intro cnt g _; rfl
  | succ n ih =>
    intro cnt g hok
    obtain ⟨p1, p2⟩ := hok cnt (Nat.le_refl cnt) (by omega)
    unfold QCameraGrallocMemory.allocLoop
    dsimp only
    simp only [p1, p2, if_true, ne_eq, not_true_eq_false, if_false]
    exact ih (cnt + 1) _ (fun j hj1 hj2 => hok j (by omega) (by omega))

/-- The function `allocate` of the display-backed pool when every call succeeds: it
returns `NO_ERROR` and the buffer count is the requested count plus
`mMinUndequeuedBuffers`, whatever its size. -/
theorem gralloc_allocate_ok_count (w : WindowReply) (reply : Nat → GrallocReply)
    (unlockRet : Nat → genlock_status_t) (count : Int) (g : QCameraGrallocMemory)
    (hwin : g.mWindow ≠ 0)
    (hw : w.min_undequeued_err = 0 ∧ w.set_buffer_count_err = 0 ∧
      w.set_buffers_geometry_err = 0 ∧ w.set_usage_err = 0)
    (hok : ∀ j : Nat, (reply j).dequeue_err = 0 ∧ (reply j).lock_buffer_err = 0) :
    (QCameraGrallocMemory.allocate w reply unlockRet count g).1 = NO_ERROR ∧
      (QCameraGrallocMemory.allocate w reply unlockRet count g).2.base.mBufferCount =
        count + w.min_undequeued := by
  obtain ⟨w1, w2, w3, w4⟩ := hw
  unfold QCameraGrallocMemory.allocate
  rw [if_neg hwin]
  dsimp only
  simp only [w1, w2, w3, w4, ne_eq, not_true_eq_false, if_false]
  have hnone := grallocLoop_ok reply unlockRet (count + w.min_undequeued).toNat 0
    { g with
      mMinUndequeuedBuffers := w.min_undequeued,
      calls := g.calls ++ [GrallocOp.get_min_undequeued_buffer_count 0 w.min_undequeued] ++
        [GrallocOp.set_buffer_count (count + w.min_undequeued) 0] ++
        [GrallocOp.set_buffers_geometry 0] ++ [GrallocOp.set_usage 0] }
    (fun j _ _ => hok j)
  generalize QCameraGrallocMemory.allocLoop reply unlockRet (count + w.min_undequeued).toNat 0
    { g with
      mMinUndequeuedBuffers := w.min_undequeued,
      calls := g.calls ++ [GrallocOp.get_min_undequeued_buffer_count 0 w.min_undequeued] ++
        [GrallocOp.set_buffer_count (count + w.min_undequeued) 0] ++
        [GrallocOp.set_buffers_geometry 0] ++ [GrallocOp.set_usage 0] } = res at hnone ⊢
  obtain ⟨o, g5⟩ := res
  dsimp only at hnone
  subst hnone
  dsimp only
  refine ⟨rfl, ?_⟩
  rw [(cancelMinLoop_spec unlockRet g5.mMinUndequeuedBuffers.toNat 0
    { g5 with base := { g5.base with mBufferCount := count + w.min_undequeued } }).1]

/-- C34 at the failing inputs, for every capacity `MM_CAMERA_MAX_NUM_FRAMES ≥ 0`.
The `allocate` of the display-backed pool has no check of the count: a request of
`MM_CAMERA_MAX_NUM_FRAMES + 1` buffers in which every call succeeds returns `NO_ERROR`
and leaves the buffer count at `MM_CAMERA_MAX_NUM_FRAMES + 1`.  A request of `-1`
buffers to a newly constructed heap, stream or video pool succeeds and leaves the
buffer count at `-1`. -/
theorem allocate_count_out_of_range (MM_CAMERA_MAX_NUM_FRAMES heap_mask size : Int)
    (ion : Nat → IonReply) (mmapRet mGetMemory metadataRet : Nat → Int)
    (hcap : 0 ≤ MM_CAMERA_MAX_NUM_FRAMES) :
    ((QCameraGrallocMemory.allocate {} grallocAllOk genlockOk (MM_CAMERA_MAX_NUM_FRAMES + 1)
        { mWindow := 1 }).1 = NO_ERROR ∧
      (QCameraGrallocMemory.allocate {} grallocAllOk genlockOk (MM_CAMERA_MAX_NUM_FRAMES + 1)
        { mWindow := 1 }).2.base.mBufferCount = MM_CAMERA_MAX_NUM_FRAMES + 1) ∧
    ((QCameraHeapMemory.allocate MM_CAMERA_MAX_NUM_FRAMES heap_mask ion mmapRet (-1) size
        {}).1 = OK ∧
      (QCameraHeapMemory.allocate MM_CAMERA_MAX_NUM_FRAMES heap_mask ion mmapRet (-1) size
        {}).2.base.mBufferCount = -1) ∧
    ((QCameraStreamMemory.allocate MM_CAMERA_MAX_NUM_FRAMES heap_mask ion mGetMemory (-1) size
        {}).1 = NO_ERROR ∧
      (QCameraStreamMemory.allocate MM_CAMERA_MAX_NUM_FRAMES heap_mask ion mGetMemory (-1) size
        {}).2.base.mBufferCount = -1) ∧
    ((QCameraVideoMemory.allocate MM_CAMERA_MAX_NUM_FRAMES heap_mask ion mGetMemory
        metadataRet (-1) size {}).1 = NO_ERROR ∧
      (QCameraVideoMemory.allocate MM_CAMERA_MAX_NUM_FRAMES heap_mask ion mGetMemory
        metadataRet (-1) size {}).2.stream.base.mBufferCount = -1) := by
  have hgt : ¬ ((-1 : Int) > MM_CAMERA_MAX_NUM_FRAMES) := by omega
  have halloc : QCameraMemory.alloc MM_CAMERA_MAX_NUM_FRAMES ion (-1) size heap_mask {} =
      (OK, {}) := by
    unfold QCameraMemory.alloc
    rw [if_neg hgt]
    rfl
  have hstream : QCameraStreamMemory.allocate MM_CAMERA_MAX_NUM_FRAMES heap_mask ion
      mGetMemory (-1) size {} = (NO_ERROR, { base := { mBufferCount := -1 } }) := by
    unfold QCameraStreamMemory.allocate
    dsimp only
    rw [halloc]
    rfl
  refine ⟨?_, ?_, ?_, ?_⟩
  · have h := gralloc_allocate_ok_count {} grallocAllOk genlockOk
      (MM_CAMERA_MAX_NUM_FRAMES + 1) { mWindow := 1 } (by decide)
      ⟨rfl, rfl, rfl, rfl⟩ (fun j => ⟨rfl, rfl⟩)
    refine ⟨h.1, ?_⟩
    rw [h.2]
    exact Int.add_zero _
  · unfold QCameraHeapMemory.allocate
    dsimp only
    rw [halloc]
    exact ⟨rfl, rfl⟩
  · rw [hstream]
    exact ⟨rfl, rfl⟩
  · unfold QCameraVideoMemory.allocate
    dsimp only
    rw [hstream]
    exact ⟨rfl, rfl⟩

/-- C34, example: with capacity 8 the display-backed pool ends with 9 buffers. -/
theorem allocate_count_out_of_range_witness :
    (QCameraGrallocMemory.allocate {} grallocAllOk genlockOk 9 { mWindow := 1 }).1 = NO_ERROR ∧
    (QCameraGrallocMemory.allocate {} grallocAllOk genlockOk 9
      { mWindow := 1 }).2.base.mBufferCount = 8 + 1 :=
  (allocate_count_out_of_range 8 3 5000 ionAllOk (handlesFrom 4096) (handlesFrom 500)
    (handlesFrom 700) (by decide)).1

/-- The plane loop of `getBufDef` stores in `m.userptr` of every plane of its range the
descriptor of the buffer whose index is the plane number, and leaves `fd` and the
other planes alone. -/
theorem planeLoop_spec (p : QCameraMemory) (offset : cam_frame_len_offset_t) (n : Nat) :
    ∀ (i : Nat) (b : mm_camera_buf_def_t),
      (QCameraMemory.planeLoop p offset n i b).fd = b.fd ∧
      (∀ j, i ≤ j → j < i + n →
        ((QCameraMemory.planeLoop p offset n i b).planes j).userptr = (p.mMemInfo j).fd) ∧
      (∀ j, (j < i ∨ i + n ≤ j) →
        (QCameraMemory.planeLoop p offset n i b).planes j = b.planes j) := by
  induction n with
  | zero =>
    intro i b
    exact ⟨rfl, fun j h1 h2 => by omega, fun j _ => rfl⟩
  | succ n ih =>
    intro i b
    unfold QCameraMemory.planeLoop
    obtain ⟨e1, e2, e3⟩ := ih (i + 1)
      { b with
        planes := Function.update b.planes i
          { length := (offset.mp i).len,
            userptr := (p.mMemInfo i).fd,
            data_offset := (offset.mp i).offset,
            reserved0 :=
              ((b.planes (i - 1)).reserved0 + (b.planes (i - 1)).length) % 4294967296 } }
    refine ⟨e1, ?_, ?_⟩
    · intro j hj1 hj2
      rcases Nat.eq_or_lt_of_le hj1 with heq | hlt
      · subst heq
        rw [e3 i (Or.inl (Nat.lt_succ_self i))]
        dsimp only
        rw [Function.update_same]
      · exact e2 j (by omega) (by omega)
    · intro j hj
      rw [e3 j (by omega)]
      dsimp only
      rw [Function.update_noteq (by omega)]

/-- C40 at the failing input, for every pool with a buffer count other than zero:
`getBufDef` stores the descriptor of buffer `index` in `bufDef.fd` and in plane 0, but
in every plane `i` with `1 ≤ i < num_planes` it stores the descriptor of buffer `i`,
the buffer whose index is the plane number. -/
theorem getBufDef_plane_fd (p : QCameraMemory) (offset : cam_frame_len_offset_t)
    (bufDef : mm_camera_buf_def_t) (index i : Nat)
    (hcount : p.mBufferCount ≠ 0) (hi : 1 ≤ i) (hplanes : (i : Int) < offset.num_planes) :
    (p.getBufDef offset bufDef index).fd = (p.mMemInfo index).fd ∧
      ((p.getBufDef offset bufDef index).planes 0).userptr = (p.mMemInfo index).fd ∧
      ((p.getBufDef offset bufDef index).planes i).userptr = (p.mMemInfo i).fd := by
  unfold QCameraMemory.getBufDef
  rw [if_neg hcount]
  obtain ⟨e1, e2, e3⟩ := planeLoop_spec p offset (offset.num_planes - 1).toNat 1
    { bufDef with
      fd := (p.mMemInfo index).fd,
      frame_len := (p.mMemInfo index).size,
      num_planes := offset.num_planes,
      planes := Function.update bufDef.planes 0
        { length := (offset.mp 0).len,
          userptr := (p.mMemInfo index).fd,
          data_offset := (offset.mp 0).offset,
          reserved0 := 0 } }
  refine ⟨e1, ?_, e2 i hi (by omega)⟩
  rw [e3 0 (Or.inl (by decide))]
  dsimp only
  rw [Function.update_same]

/-- C40, example: on a heap pool of two buffers with the descriptors 300 and 301, the
buffer definition of buffer 0 with two planes gets `fd = 300`, plane 0 gets 300 and
plane 1 gets 301. -/
theorem getBufDef_plane_fd_witness :
    (heapTwoBuffers.base.mMemInfo 0).fd = 300 ∧
    (heapTwoBuffers.base.getBufDef twoPlanes {} 0).fd = 300 ∧
    ((heapTwoBuffers.base.getBufDef twoPlanes {} 0).planes 0).userptr = 300 ∧
    ((heapTwoBuffers.base.getBufDef twoPlanes {} 0).planes 1).userptr = 301 :=
  ⟨by decide,
    (getBufDef_plane_fd heapTwoBuffers.base twoPlanes {} 0 1 (by decide) (by decide)
      (by decide)).1,
    (getBufDef_plane_fd heapTwoBuffers.base twoPlanes {} 0 1 (by decide) (by decide)
      (by decide)).2.1,
    (getBufDef_plane_fd heapTwoBuffers.base twoPlanes {} 0 1 (by decide) (by decide)
      (by decide)).2.2⟩

end Theorems

end QCamera
